import Mathlib

/-! I3G4250D register-access driver: a shallow embedding.

The driver (`i3g4250d_reg.c`, `i3g4250d_reg.h`) is embedded function by function.

* A byte is a natural number; an object of type `uint8_t` read from a buffer is reduced
  modulo 256 (`byteOf`), an argument of an enumeration type is cast with `% 256` where the
  source writes `(uint8_t)val`.
* A register struct of the header is a Lean structure with one natural-number field per
  bit-field; `ofByte` / `toByte` are the overlay `(uint8_t *)&reg` for the little-endian
  branch of the header (first member at bit 0).  An assignment to a bit-field of width `k`
  stores the value modulo `2 ^ k`.
* The transport is the pair of injected functions of `stmdev_ctx_t`; the state of the outside
  world (the device, the bus) is threaded explicitly through every call.  A null `ctx` is
  `none`.
* A local variable that the source leaves uninitialised is a parameter of the embedded
  function carrying the same name: its initial content is indeterminate, so every theorem
  quantifies over it.
-/

namespace I3G4250D

/-! ## Transport interface (`stmdev_ctx_t`) -/

/-- The context `stmdev_ctx_t` over a world state `σ`.  `write_reg handle reg data len` and
`read_reg handle reg data len` are the injected functions; a read receives the buffer and
returns the status together with the buffer after the call. -/
structure stmdev_ctx_t (σ : Type) where
  write_reg : Nat → Nat → List Nat → Nat → σ → Int × σ
  read_reg : Nat → Nat → List Nat → Nat → σ → Int × List Nat × σ
  mdelay : Option (Nat → σ → σ)
  handle : Nat
  priv_data : Nat

/-- The `uint8_t` stored at index `i` of a buffer. -/
def byteOf (data : List Nat) (i : Nat) : Nat := data.getD i 0 % 256

/-- Source: `i3g4250d_read_reg`. -/
def i3g4250d_read_reg {σ : Type} (ctx : Option (stmdev_ctx_t σ)) (reg : Nat)
    (data : List Nat) (len : Nat) (w : σ) : Int × List Nat × σ :=
  match ctx with
  | none => (-1, data, w)
  | some c => c.read_reg c.handle reg data len w

/-- Source: `i3g4250d_write_reg`. -/
def i3g4250d_write_reg {σ : Type} (ctx : Option (stmdev_ctx_t σ)) (reg : Nat)
    (data : List Nat) (len : Nat) (w : σ) : Int × σ :=
  match ctx with
  | none => (-1, w)
  | some c => c.write_reg c.handle reg data len w

/-! ## A simulated device behind the transport

The register file of the device, a fault plan giving the status of the n-th transport call,
and the log of the calls issued so far. -/

/-- One transport call as seen by the bus. -/
inductive Call where
  | read (handle reg : Nat) (data : List Nat) (len : Nat)
  | write (handle reg : Nat) (data : List Nat) (len : Nat)
  deriving DecidableEq

/-- The simulated device: `regs` maps an address to the byte stored there, `fault n` is the
status returned by the n-th call (counted from 0), `trace` lists the calls made so far. -/
structure Bus where
  regs : Nat → Fin 256
  fault : Nat → Int
  trace : List Call

/-- Bytes `reg, reg+1, ..., reg+len-1` of a register file. -/
def Bus.burst (regs : Nat → Fin 256) (reg len : Nat) : List Nat :=
  (List.range len).map (fun i => (regs (reg + i)).val)

/-- Register file after storing the first `len` bytes of `data` from address `reg` on. -/
def Bus.store (regs : Nat → Fin 256) (reg : Nat) (data : List Nat) (len : Nat) :
    Nat → Fin 256 :=
  fun a => if reg ≤ a ∧ a < reg + len then Fin.ofNat (data.getD (a - reg) 0) else regs a

/-- Transport read of the simulated device: logs the call; on status 0 delivers the stored
bytes, otherwise leaves the buffer as it was. -/
def Bus.read_reg (handle reg : Nat) (data : List Nat) (len : Nat) (w : Bus) :
    Int × List Nat × Bus :=
  let st := w.fault w.trace.length
  let w1 : Bus := { w with trace := w.trace ++ [Call.read handle reg data len] }
  if st = 0 then (0, Bus.burst w.regs reg len, w1) else (st, data, w1)

/-- Transport write of the simulated device: logs the call; on status 0 the bytes persist,
otherwise the register file is untouched. -/
def Bus.write_reg (handle reg : Nat) (data : List Nat) (len : Nat) (w : Bus) : Int × Bus :=
  let st := w.fault w.trace.length
  let tr := w.trace ++ [Call.write handle reg data len]
  if st = 0 then (0, { w with regs := Bus.store w.regs reg data len, trace := tr })
  else (st, { w with trace := tr })

/-- The context whose injected functions talk to the simulated device. -/
def Bus.ctx (handle : Nat) : stmdev_ctx_t Bus :=
  { write_reg := Bus.write_reg, read_reg := Bus.read_reg, mdelay := none,
    handle := handle, priv_data := 0 }

/-- The fault plan of a transport that never fails. -/
def Bus.noFault : Nat → Int := fun _ => 0

/-! ## Register map (`i3g4250d_reg.h`) -/

def PROPERTY_DISABLE : Nat := 0
def PROPERTY_ENABLE : Nat := 1

def I3G4250D_ID : Nat := 0xD3
def I3G4250D_WHO_AM_I : Nat := 0x0F
def I3G4250D_CTRL_REG1 : Nat := 0x20
def I3G4250D_CTRL_REG2 : Nat := 0x21
def I3G4250D_CTRL_REG3 : Nat := 0x22
def I3G4250D_CTRL_REG4 : Nat := 0x23
def I3G4250D_CTRL_REG5 : Nat := 0x24
def I3G4250D_REFERENCE : Nat := 0x25
def I3G4250D_OUT_TEMP : Nat := 0x26
def I3G4250D_STATUS_REG : Nat := 0x27
def I3G4250D_OUT_X_L : Nat := 0x28
def I3G4250D_OUT_X_H : Nat := 0x29
def I3G4250D_OUT_Y_L : Nat := 0x2A
def I3G4250D_OUT_Y_H : Nat := 0x2B
def I3G4250D_OUT_Z_L : Nat := 0x2C
def I3G4250D_OUT_Z_H : Nat := 0x2D
def I3G4250D_FIFO_CTRL_REG : Nat := 0x2E
def I3G4250D_FIFO_SRC_REG : Nat := 0x2F
def I3G4250D_INT1_CFG : Nat := 0x30
def I3G4250D_INT1_SRC : Nat := 0x31
def I3G4250D_INT1_TSH_XH : Nat := 0x32
def I3G4250D_INT1_TSH_XL : Nat := 0x33
def I3G4250D_INT1_TSH_YH : Nat := 0x34
def I3G4250D_INT1_TSH_YL : Nat := 0x35
def I3G4250D_INT1_TSH_ZH : Nat := 0x36
def I3G4250D_INT1_TSH_ZL : Nat := 0x37
def I3G4250D_INT1_DURATION : Nat := 0x38

/-- Register struct `i3g4250d_ctrl_reg1_t`: pd (4 bits, xen yen zen pd), bw (2), dr (2). -/
structure i3g4250d_ctrl_reg1_t where
  pd : Nat
  bw : Nat
  dr : Nat
  deriving DecidableEq

def i3g4250d_ctrl_reg1_t.ofByte (b : Nat) : i3g4250d_ctrl_reg1_t :=
  { pd := b % 16, bw := b / 16 % 4, dr := b / 64 % 4 }

def i3g4250d_ctrl_reg1_t.toByte (r : i3g4250d_ctrl_reg1_t) : Nat :=
  r.pd + r.bw * 16 + r.dr * 64

/-- Register struct `i3g4250d_ctrl_reg2_t`: hpcf (4 bits), hpm (2), not_used_01 (2). -/
structure i3g4250d_ctrl_reg2_t where
  hpcf : Nat
  hpm : Nat
  not_used_01 : Nat
  deriving DecidableEq

def i3g4250d_ctrl_reg2_t.ofByte (b : Nat) : i3g4250d_ctrl_reg2_t :=
  { hpcf := b % 16, hpm := b / 16 % 4, not_used_01 := b / 64 % 4 }

def i3g4250d_ctrl_reg2_t.toByte (r : i3g4250d_ctrl_reg2_t) : Nat :=
  r.hpcf + r.hpm * 16 + r.not_used_01 * 64

/-- Register struct `i3g4250d_ctrl_reg3_t`: eight one-bit fields, i2_empty at bit 0. -/
structure i3g4250d_ctrl_reg3_t where
  i2_empty : Nat
  i2_orun : Nat
  i2_wtm : Nat
  i2_drdy : Nat
  pp_od : Nat
  h_lactive : Nat
  i1_boot : Nat
  i1_int1 : Nat
  deriving DecidableEq

def i3g4250d_ctrl_reg3_t.ofByte (b : Nat) : i3g4250d_ctrl_reg3_t :=
  { i2_empty := b % 2, i2_orun := b / 2 % 2, i2_wtm := b / 4 % 2, i2_drdy := b / 8 % 2,
    pp_od := b / 16 % 2, h_lactive := b / 32 % 2, i1_boot := b / 64 % 2,
    i1_int1 := b / 128 % 2 }

def i3g4250d_ctrl_reg3_t.toByte (r : i3g4250d_ctrl_reg3_t) : Nat :=
  r.i2_empty + r.i2_orun * 2 + r.i2_wtm * 4 + r.i2_drdy * 8 + r.pp_od * 16
    + r.h_lactive * 32 + r.i1_boot * 64 + r.i1_int1 * 128

/-- Register struct `i3g4250d_ctrl_reg4_t`: sim (1 bit), st (2), not_used_01 (1), fs (2),
ble (1), not_used_02 (1). -/
structure i3g4250d_ctrl_reg4_t where
  sim : Nat
  st : Nat
  not_used_01 : Nat
  fs : Nat
  ble : Nat
  not_used_02 : Nat
  deriving DecidableEq

def i3g4250d_ctrl_reg4_t.ofByte (b : Nat) : i3g4250d_ctrl_reg4_t :=
  { sim := b % 2, st := b / 2 % 4, not_used_01 := b / 8 % 2, fs := b / 16 % 4,
    ble := b / 64 % 2, not_used_02 := b / 128 % 2 }

def i3g4250d_ctrl_reg4_t.toByte (r : i3g4250d_ctrl_reg4_t) : Nat :=
  r.sim + r.st * 2 + r.not_used_01 * 8 + r.fs * 16 + r.ble * 64 + r.not_used_02 * 128

/-- Register struct `i3g4250d_ctrl_reg5_t`: out_sel (2 bits), int1_sel (2), hpen (1),
not_used_01 (1), fifo_en (1), boot (1). -/
structure i3g4250d_ctrl_reg5_t where
  out_sel : Nat
  int1_sel : Nat
  hpen : Nat
  not_used_01 : Nat
  fifo_en : Nat
  boot : Nat
  deriving DecidableEq

def i3g4250d_ctrl_reg5_t.ofByte (b : Nat) : i3g4250d_ctrl_reg5_t :=
  { out_sel := b % 4, int1_sel := b / 4 % 4, hpen := b / 16 % 2, not_used_01 := b / 32 % 2,
    fifo_en := b / 64 % 2, boot := b / 128 % 2 }

def i3g4250d_ctrl_reg5_t.toByte (r : i3g4250d_ctrl_reg5_t) : Nat :=
  r.out_sel + r.int1_sel * 4 + r.hpen * 16 + r.not_used_01 * 32 + r.fifo_en * 64
    + r.boot * 128

/-- Register struct `i3g4250d_reference_t`: ref (8 bits). -/
structure i3g4250d_reference_t where
  ref : Nat
  deriving DecidableEq

def i3g4250d_reference_t.ofByte (b : Nat) : i3g4250d_reference_t := { ref := b % 256 }

def i3g4250d_reference_t.toByte (r : i3g4250d_reference_t) : Nat := r.ref

/-- Register struct `i3g4250d_status_reg_t`: eight one-bit fields, xda at bit 0. -/
structure i3g4250d_status_reg_t where
  xda : Nat
  yda : Nat
  zda : Nat
  zyxda : Nat
  _xor : Nat
  yor : Nat
  zor : Nat
  zyxor : Nat
  deriving DecidableEq

def i3g4250d_status_reg_t.ofByte (b : Nat) : i3g4250d_status_reg_t :=
  { xda := b % 2, yda := b / 2 % 2, zda := b / 4 % 2, zyxda := b / 8 % 2,
    _xor := b / 16 % 2, yor := b / 32 % 2, zor := b / 64 % 2, zyxor := b / 128 % 2 }

def i3g4250d_status_reg_t.toByte (r : i3g4250d_status_reg_t) : Nat :=
  r.xda + r.yda * 2 + r.zda * 4 + r.zyxda * 8 + r._xor * 16 + r.yor * 32 + r.zor * 64
    + r.zyxor * 128

/-- Register struct `i3g4250d_fifo_ctrl_reg_t`: wtm (5 bits), fm (3). -/
structure i3g4250d_fifo_ctrl_reg_t where
  wtm : Nat
  fm : Nat
  deriving DecidableEq

def i3g4250d_fifo_ctrl_reg_t.ofByte (b : Nat) : i3g4250d_fifo_ctrl_reg_t :=
  { wtm := b % 32, fm := b / 32 % 8 }

def i3g4250d_fifo_ctrl_reg_t.toByte (r : i3g4250d_fifo_ctrl_reg_t) : Nat :=
  r.wtm + r.fm * 32

/-- Register struct `i3g4250d_fifo_src_reg_t`: fss (5 bits), empty (1), ovrn (1), wtm (1). -/
structure i3g4250d_fifo_src_reg_t where
  fss : Nat
  empty : Nat
  ovrn : Nat
  wtm : Nat
  deriving DecidableEq

def i3g4250d_fifo_src_reg_t.ofByte (b : Nat) : i3g4250d_fifo_src_reg_t :=
  { fss := b % 32, empty := b / 32 % 2, ovrn := b / 64 % 2, wtm := b / 128 % 2 }

def i3g4250d_fifo_src_reg_t.toByte (r : i3g4250d_fifo_src_reg_t) : Nat :=
  r.fss + r.empty * 32 + r.ovrn * 64 + r.wtm * 128

/-- Register struct `i3g4250d_int1_cfg_t`: eight one-bit fields, xlie at bit 0. -/
structure i3g4250d_int1_cfg_t where
  xlie : Nat
  xhie : Nat
  ylie : Nat
  yhie : Nat
  zlie : Nat
  zhie : Nat
  lir : Nat
  and_or : Nat
  deriving DecidableEq

def i3g4250d_int1_cfg_t.ofByte (b : Nat) : i3g4250d_int1_cfg_t :=
  { xlie := b % 2, xhie := b / 2 % 2, ylie := b / 4 % 2, yhie := b / 8 % 2,
    zlie := b / 16 % 2, zhie := b / 32 % 2, lir := b / 64 % 2, and_or := b / 128 % 2 }

def i3g4250d_int1_cfg_t.toByte (r : i3g4250d_int1_cfg_t) : Nat :=
  r.xlie + r.xhie * 2 + r.ylie * 4 + r.yhie * 8 + r.zlie * 16 + r.zhie * 32 + r.lir * 64
    + r.and_or * 128

/-- Register struct `i3g4250d_int1_src_t`: xl, xh, yl, yh, zl, zh, ia, not_used_01 (1 bit
each), xl at bit 0. -/
structure i3g4250d_int1_src_t where
  xl : Nat
  xh : Nat
  yl : Nat
  yh : Nat
  zl : Nat
  zh : Nat
  ia : Nat
  not_used_01 : Nat
  deriving DecidableEq

def i3g4250d_int1_src_t.ofByte (b : Nat) : i3g4250d_int1_src_t :=
  { xl := b % 2, xh := b / 2 % 2, yl := b / 4 % 2, yh := b / 8 % 2, zl := b / 16 % 2,
    zh := b / 32 % 2, ia := b / 64 % 2, not_used_01 := b / 128 % 2 }

def i3g4250d_int1_src_t.toByte (r : i3g4250d_int1_src_t) : Nat :=
  r.xl + r.xh * 2 + r.yl * 4 + r.yh * 8 + r.zl * 16 + r.zh * 32 + r.ia * 64
    + r.not_used_01 * 128

/-- Register struct `i3g4250d_int1_tsh_xh_t`: thsx (7 bits), not_used_01 (1). -/
structure i3g4250d_int1_tsh_xh_t where
  thsx : Nat
  not_used_01 : Nat
  deriving DecidableEq

def i3g4250d_int1_tsh_xh_t.ofByte (b : Nat) : i3g4250d_int1_tsh_xh_t :=
  { thsx := b % 128, not_used_01 := b / 128 % 2 }

def i3g4250d_int1_tsh_xh_t.toByte (r : i3g4250d_int1_tsh_xh_t) : Nat :=
  r.thsx + r.not_used_01 * 128

/-- Register struct `i3g4250d_int1_tsh_xl_t`: thsx (8 bits). -/
structure i3g4250d_int1_tsh_xl_t where
  thsx : Nat
  deriving DecidableEq

def i3g4250d_int1_tsh_xl_t.ofByte (b : Nat) : i3g4250d_int1_tsh_xl_t := { thsx := b % 256 }

def i3g4250d_int1_tsh_xl_t.toByte (r : i3g4250d_int1_tsh_xl_t) : Nat := r.thsx

/-- Register struct `i3g4250d_int1_tsh_yh_t`: thsy (7 bits), not_used_01 (1). -/
structure i3g4250d_int1_tsh_yh_t where
  thsy : Nat
  not_used_01 : Nat
  deriving DecidableEq

def i3g4250d_int1_tsh_yh_t.ofByte (b : Nat) : i3g4250d_int1_tsh_yh_t :=
  { thsy := b % 128, not_used_01 := b / 128 % 2 }

def i3g4250d_int1_tsh_yh_t.toByte (r : i3g4250d_int1_tsh_yh_t) : Nat :=
  r.thsy + r.not_used_01 * 128

/-- Register struct `i3g4250d_int1_tsh_yl_t`: thsy (8 bits). -/
structure i3g4250d_int1_tsh_yl_t where
  thsy : Nat
  deriving DecidableEq

def i3g4250d_int1_tsh_yl_t.ofByte (b : Nat) : i3g4250d_int1_tsh_yl_t := { thsy := b % 256 }

def i3g4250d_int1_tsh_yl_t.toByte (r : i3g4250d_int1_tsh_yl_t) : Nat := r.thsy

/-- Register struct `i3g4250d_int1_tsh_zh_t`: thsz (7 bits), not_used_01 (1). -/
structure i3g4250d_int1_tsh_zh_t where
  thsz : Nat
  not_used_01 : Nat
  deriving DecidableEq

def i3g4250d_int1_tsh_zh_t.ofByte (b : Nat) : i3g4250d_int1_tsh_zh_t :=
  { thsz := b % 128, not_used_01 := b / 128 % 2 }

def i3g4250d_int1_tsh_zh_t.toByte (r : i3g4250d_int1_tsh_zh_t) : Nat :=
  r.thsz + r.not_used_01 * 128

/-- Register struct `i3g4250d_int1_tsh_zl_t`: thsz (8 bits). -/
structure i3g4250d_int1_tsh_zl_t where
  thsz : Nat
  deriving DecidableEq

def i3g4250d_int1_tsh_zl_t.ofByte (b : Nat) : i3g4250d_int1_tsh_zl_t := { thsz := b % 256 }

def i3g4250d_int1_tsh_zl_t.toByte (r : i3g4250d_int1_tsh_zl_t) : Nat := r.thsz

/-- Register struct `i3g4250d_int1_duration_t`: d (7 bits), wait (1). -/
structure i3g4250d_int1_duration_t where
  d : Nat
  wait : Nat
  deriving DecidableEq

def i3g4250d_int1_duration_t.ofByte (b : Nat) : i3g4250d_int1_duration_t :=
  { d := b % 128, wait := b / 128 % 2 }

def i3g4250d_int1_duration_t.toByte (r : i3g4250d_int1_duration_t) : Nat :=
  r.d + r.wait * 128

/-- Argument struct `i3g4250d_int1_route_t`: two one-bit fields. -/
structure i3g4250d_int1_route_t where
  i1_int1 : Nat
  i1_boot : Nat
  deriving DecidableEq

/-- Argument struct `i3g4250d_int2_route_t`: four one-bit fields. -/
structure i3g4250d_int2_route_t where
  i2_empty : Nat
  i2_orun : Nat
  i2_wtm : Nat
  i2_drdy : Nat
  deriving DecidableEq

/-! ## Enumerations (`i3g4250d_reg.h`); an enumeration value is its integer -/

def I3G4250D_ODR_OFF : Nat := 0x00
def I3G4250D_ODR_SLEEP : Nat := 0x08
def I3G4250D_ODR_100Hz : Nat := 0x0F
def I3G4250D_ODR_200Hz : Nat := 0x1F
def I3G4250D_ODR_400Hz : Nat := 0x2F
def I3G4250D_ODR_800Hz : Nat := 0x3F

def I3G4250D_245dps : Nat := 0x00
def I3G4250D_500dps : Nat := 0x01
def I3G4250D_2000dps : Nat := 0x02

def I3G4250D_GY_ST_DISABLE : Nat := 0
def I3G4250D_GY_ST_POSITIVE : Nat := 1
def I3G4250D_GY_ST_NEGATIVE : Nat := 3

def I3G4250D_AUX_LSB_AT_LOW_ADD : Nat := 0
def I3G4250D_AUX_MSB_AT_LOW_ADD : Nat := 1

def I3G4250D_CUT_OFF_LOW : Nat := 0
def I3G4250D_CUT_OFF_MEDIUM : Nat := 1
def I3G4250D_CUT_OFF_HIGH : Nat := 2
def I3G4250D_CUT_OFF_VERY_HIGH : Nat := 3

def I3G4250D_HP_LEVEL_0 : Nat := 0
def I3G4250D_HP_LEVEL_1 : Nat := 1
def I3G4250D_HP_LEVEL_2 : Nat := 2
def I3G4250D_HP_LEVEL_3 : Nat := 3
def I3G4250D_HP_LEVEL_4 : Nat := 4
def I3G4250D_HP_LEVEL_5 : Nat := 5
def I3G4250D_HP_LEVEL_6 : Nat := 6
def I3G4250D_HP_LEVEL_7 : Nat := 7
def I3G4250D_HP_LEVEL_8 : Nat := 8
def I3G4250D_HP_LEVEL_9 : Nat := 9

def I3G4250D_HP_NORMAL_MODE_WITH_RST : Nat := 0
def I3G4250D_HP_REFERENCE_SIGNAL : Nat := 1
def I3G4250D_HP_NORMAL_MODE : Nat := 2
def I3G4250D_HP_AUTO_RESET_ON_INT : Nat := 3

def I3G4250D_ONLY_LPF1_ON_OUT : Nat := 0
def I3G4250D_LPF1_HP_ON_OUT : Nat := 1
def I3G4250D_LPF1_LPF2_ON_OUT : Nat := 2
def I3G4250D_LPF1_HP_LPF2_ON_OUT : Nat := 6

def I3G4250D_ONLY_LPF1_ON_INT : Nat := 0
def I3G4250D_LPF1_HP_ON_INT : Nat := 1
def I3G4250D_LPF1_LPF2_ON_INT : Nat := 2
def I3G4250D_LPF1_HP_LPF2_ON_INT : Nat := 6

def I3G4250D_SPI_4_WIRE : Nat := 0
def I3G4250D_SPI_3_WIRE : Nat := 1

def I3G4250D_PUSH_PULL : Nat := 0
def I3G4250D_OPEN_DRAIN : Nat := 1

def I3G4250D_ACTIVE_HIGH : Nat := 0
def I3G4250D_ACTIVE_LOW : Nat := 1

def I3G4250D_INT_PULSED : Nat := 0
def I3G4250D_INT_LATCHED : Nat := 1

def I3G4250D_INT1_ON_TH_AND : Nat := 1
def I3G4250D_INT1_ON_TH_OR : Nat := 0

def I3G4250D_FIFO_BYPASS_MODE : Nat := 0x00
def I3G4250D_FIFO_MODE : Nat := 0x01
def I3G4250D_FIFO_STREAM_MODE : Nat := 0x02

/-! ## Data generation -/

/-- Source: `i3g4250d_data_rate_set`. -/
def i3g4250d_data_rate_set {σ : Type} (ctx : Option (stmdev_ctx_t σ)) (val : Nat)
    (ctrl_reg1 : Nat) (w : σ) : Int × σ :=
  let rd := i3g4250d_read_reg ctx I3G4250D_CTRL_REG1 [ctrl_reg1] 1 w
  if rd.1 = 0 then
    let ctrl_reg1 := i3g4250d_ctrl_reg1_t.ofByte (byteOf rd.2.1 0)
    let ctrl_reg1 := { ctrl_reg1 with dr := (((val % 256) &&& 0x30) >>> 4) % 4 }
    let ctrl_reg1 := { ctrl_reg1 with pd := ((val % 256) &&& 0x0F) % 16 }
    i3g4250d_write_reg ctx I3G4250D_CTRL_REG1 [ctrl_reg1.toByte] 1 rd.2.2
  else (rd.1, rd.2.2)

/-- Source: `i3g4250d_data_rate_get`. -/
def i3g4250d_data_rate_get {σ : Type} (ctx : Option (stmdev_ctx_t σ))
    (ctrl_reg1 : Nat) (w : σ) : Int × Nat × σ :=
  let rd := i3g4250d_read_reg ctx I3G4250D_CTRL_REG1 [ctrl_reg1] 1 w
  let ctrl_reg1 := i3g4250d_ctrl_reg1_t.ofByte (byteOf rd.2.1 0)
  let sw := (ctrl_reg1.dr <<< 4) + ctrl_reg1.pd
  let val :=
    if sw = I3G4250D_ODR_OFF then I3G4250D_ODR_OFF
    else if sw = I3G4250D_ODR_SLEEP then I3G4250D_ODR_SLEEP
    else if sw = I3G4250D_ODR_100Hz then I3G4250D_ODR_100Hz
    else if sw = I3G4250D_ODR_200Hz then I3G4250D_ODR_200Hz
    else if sw = I3G4250D_ODR_400Hz then I3G4250D_ODR_400Hz
    else if sw = I3G4250D_ODR_800Hz then I3G4250D_ODR_800Hz
    else I3G4250D_ODR_OFF
  (rd.1, val, rd.2.2)

/-- Source: `i3g4250d_full_scale_set`. -/
def i3g4250d_full_scale_set {σ : Type} (ctx : Option (stmdev_ctx_t σ)) (val : Nat)
    (ctrl_reg4 : Nat) (w : σ) : Int × σ :=
  let rd := i3g4250d_read_reg ctx I3G4250D_CTRL_REG4 [ctrl_reg4] 1 w
  if rd.1 = 0 then
    let ctrl_reg4 := i3g4250d_ctrl_reg4_t.ofByte (byteOf rd.2.1 0)
    let ctrl_reg4 := { ctrl_reg4 with fs := (val % 256) % 4 }
    i3g4250d_write_reg ctx I3G4250D_CTRL_REG4 [ctrl_reg4.toByte] 1 rd.2.2
  else (rd.1, rd.2.2)

/-- Source: `i3g4250d_full_scale_get`. -/
def i3g4250d_full_scale_get {σ : Type} (ctx : Option (stmdev_ctx_t σ))
    (ctrl_reg4 : Nat) (w : σ) : Int × Nat × σ :=
  let rd := i3g4250d_read_reg ctx I3G4250D_CTRL_REG4 [ctrl_reg4] 1 w
  let ctrl_reg4 := i3g4250d_ctrl_reg4_t.ofByte (byteOf rd.2.1 0)
  let sw := ctrl_reg4.fs
  let val :=
    if sw = I3G4250D_245dps then I3G4250D_245dps
    else if sw = I3G4250D_500dps then I3G4250D_500dps
    else if sw = I3G4250D_2000dps then I3G4250D_2000dps
    else I3G4250D_245dps
  (rd.1, val, rd.2.2)


/-- Source: `i3g4250d_status_reg_get`; `val` is the caller's struct, read in place. -/
def i3g4250d_status_reg_get {σ : Type} (ctx : Option (stmdev_ctx_t σ))
    (val : Nat) (w : σ) : Int × i3g4250d_status_reg_t × σ :=
  let rd := i3g4250d_read_reg ctx I3G4250D_STATUS_REG [val] 1 w
  (rd.1, i3g4250d_status_reg_t.ofByte (byteOf rd.2.1 0), rd.2.2)

/-! ## Data output -/

/-- Conversion of an integer to `int16_t` (two's complement, wraps modulo 2^16). -/
def int16_of (x : Int) : Int := (x + 32768) % 65536 - 32768

/-- Source: `i3g4250d_temperature_raw_get`; `buff` is the caller's byte. -/
def i3g4250d_temperature_raw_get {σ : Type} (ctx : Option (stmdev_ctx_t σ))
    (buff : Nat) (w : σ) : Int × Nat × σ :=
  let rd := i3g4250d_read_reg ctx I3G4250D_OUT_TEMP [buff] 1 w
  (rd.1, byteOf rd.2.1 0, rd.2.2)

/-- Source: `i3g4250d_angular_rate_raw_get`; `buff` is the local `uint8_t buff[6]`, the
result list is `val[0], val[1], val[2]`. -/
def i3g4250d_angular_rate_raw_get {σ : Type} (ctx : Option (stmdev_ctx_t σ))
    (buff : List Nat) (w : σ) : Int × List Int × σ :=
  let rd := i3g4250d_read_reg ctx I3G4250D_OUT_X_L buff 6 w
  let buff := rd.2.1
  let val0 := int16_of (byteOf buff 1 : Nat)
  let val0 := int16_of ((val0 * 256) + int16_of (byteOf buff 0 : Nat))
  let val1 := int16_of (byteOf buff 3 : Nat)
  let val1 := int16_of ((val1 * 256) + int16_of (byteOf buff 2 : Nat))
  let val2 := int16_of (byteOf buff 5 : Nat)
  let val2 := int16_of ((val2 * 256) + int16_of (byteOf buff 4 : Nat))
  (rd.1, [val0, val1, val2], rd.2.2)

/-! ## Common -/

/-- Source: `i3g4250d_device_id_get`; `buff` is the caller's byte. -/
def i3g4250d_device_id_get {σ : Type} (ctx : Option (stmdev_ctx_t σ))
    (buff : Nat) (w : σ) : Int × Nat × σ :=
  let rd := i3g4250d_read_reg ctx I3G4250D_WHO_AM_I [buff] 1 w
  (rd.1, byteOf rd.2.1 0, rd.2.2)

/-- Source: `i3g4250d_self_test_set`. -/
def i3g4250d_self_test_set {σ : Type} (ctx : Option (stmdev_ctx_t σ)) (val : Nat)
    (ctrl_reg4 : Nat) (w : σ) : Int × σ :=
  let rd := i3g4250d_read_reg ctx I3G4250D_CTRL_REG4 [ctrl_reg4] 1 w
  if rd.1 = 0 then
    let ctrl_reg4 := i3g4250d_ctrl_reg4_t.ofByte (byteOf rd.2.1 0)
    let ctrl_reg4 := { ctrl_reg4 with st := (val % 256) % 4 }
    i3g4250d_write_reg ctx I3G4250D_CTRL_REG4 [ctrl_reg4.toByte] 1 rd.2.2
  else (rd.1, rd.2.2)

/-- Source: `i3g4250d_self_test_get`. -/
def i3g4250d_self_test_get {σ : Type} (ctx : Option (stmdev_ctx_t σ))
    (ctrl_reg4 : Nat) (w : σ) : Int × Nat × σ :=
  let rd := i3g4250d_read_reg ctx I3G4250D_CTRL_REG4 [ctrl_reg4] 1 w
  let ctrl_reg4 := i3g4250d_ctrl_reg4_t.ofByte (byteOf rd.2.1 0)
  let sw := ctrl_reg4.st
  let val :=
    if sw = I3G4250D_GY_ST_DISABLE then I3G4250D_GY_ST_DISABLE
    else if sw = I3G4250D_GY_ST_POSITIVE then I3G4250D_GY_ST_POSITIVE
    else if sw = I3G4250D_GY_ST_NEGATIVE then I3G4250D_GY_ST_NEGATIVE
    else I3G4250D_GY_ST_DISABLE
  (rd.1, val, rd.2.2)

/-- Source: `i3g4250d_data_format_set`. -/
def i3g4250d_data_format_set {σ : Type} (ctx : Option (stmdev_ctx_t σ)) (val : Nat)
    (ctrl_reg4 : Nat) (w : σ) : Int × σ :=
  let rd := i3g4250d_read_reg ctx I3G4250D_CTRL_REG4 [ctrl_reg4] 1 w
  if rd.1 = 0 then
    let ctrl_reg4 := i3g4250d_ctrl_reg4_t.ofByte (byteOf rd.2.1 0)
    let ctrl_reg4 := { ctrl_reg4 with ble := (val % 256) % 2 }
    i3g4250d_write_reg ctx I3G4250D_CTRL_REG4 [ctrl_reg4.toByte] 1 rd.2.2
  else (rd.1, rd.2.2)

/-- Source: `i3g4250d_data_format_get`. -/
def i3g4250d_data_format_get {σ : Type} (ctx : Option (stmdev_ctx_t σ))
    (ctrl_reg4 : Nat) (w : σ) : Int × Nat × σ :=
  let rd := i3g4250d_read_reg ctx I3G4250D_CTRL_REG4 [ctrl_reg4] 1 w
  let ctrl_reg4 := i3g4250d_ctrl_reg4_t.ofByte (byteOf rd.2.1 0)
  let sw := ctrl_reg4.ble
  let val :=
    if sw = I3G4250D_AUX_LSB_AT_LOW_ADD then I3G4250D_AUX_LSB_AT_LOW_ADD
    else if sw = I3G4250D_AUX_MSB_AT_LOW_ADD then I3G4250D_AUX_MSB_AT_LOW_ADD
    else I3G4250D_AUX_LSB_AT_LOW_ADD
  (rd.1, val, rd.2.2)

/-- Source: `i3g4250d_boot_set`. -/
def i3g4250d_boot_set {σ : Type} (ctx : Option (stmdev_ctx_t σ)) (val : Nat)
    (ctrl_reg5 : Nat) (w : σ) : Int × σ :=
  let rd := i3g4250d_read_reg ctx I3G4250D_CTRL_REG5 [ctrl_reg5] 1 w
  if rd.1 = 0 then
    let ctrl_reg5 := i3g4250d_ctrl_reg5_t.ofByte (byteOf rd.2.1 0)
    let ctrl_reg5 := { ctrl_reg5 with boot := (val % 256) % 2 }
    i3g4250d_write_reg ctx I3G4250D_CTRL_REG5 [ctrl_reg5.toByte] 1 rd.2.2
  else (rd.1, rd.2.2)

/-- Source: `i3g4250d_boot_get`. -/
def i3g4250d_boot_get {σ : Type} (ctx : Option (stmdev_ctx_t σ))
    (ctrl_reg5 : Nat) (w : σ) : Int × Nat × σ :=
  let rd := i3g4250d_read_reg ctx I3G4250D_CTRL_REG5 [ctrl_reg5] 1 w
  let ctrl_reg5 := i3g4250d_ctrl_reg5_t.ofByte (byteOf rd.2.1 0)
  (rd.1, ctrl_reg5.boot, rd.2.2)

/-! ## Filters -/

/-- Source: `i3g4250d_lp_bandwidth_set`. -/
def i3g4250d_lp_bandwidth_set {σ : Type} (ctx : Option (stmdev_ctx_t σ)) (val : Nat)
    (ctrl_reg1 : Nat) (w : σ) : Int × σ :=
  let rd := i3g4250d_read_reg ctx I3G4250D_CTRL_REG1 [ctrl_reg1] 1 w
  if rd.1 = 0 then
    let ctrl_reg1 := i3g4250d_ctrl_reg1_t.ofByte (byteOf rd.2.1 0)
    let ctrl_reg1 := { ctrl_reg1 with bw := (val % 256) % 4 }
    i3g4250d_write_reg ctx I3G4250D_CTRL_REG1 [ctrl_reg1.toByte] 1 rd.2.2
  else (rd.1, rd.2.2)

/-- Source: `i3g4250d_lp_bandwidth_get`. -/
def i3g4250d_lp_bandwidth_get {σ : Type} (ctx : Option (stmdev_ctx_t σ))
    (ctrl_reg1 : Nat) (w : σ) : Int × Nat × σ :=
  let rd := i3g4250d_read_reg ctx I3G4250D_CTRL_REG1 [ctrl_reg1] 1 w
  let ctrl_reg1 := i3g4250d_ctrl_reg1_t.ofByte (byteOf rd.2.1 0)
  let sw := ctrl_reg1.bw
  let val :=
    if sw = I3G4250D_CUT_OFF_LOW then I3G4250D_CUT_OFF_LOW
    else if sw = I3G4250D_CUT_OFF_MEDIUM then I3G4250D_CUT_OFF_MEDIUM
    else if sw = I3G4250D_CUT_OFF_HIGH then I3G4250D_CUT_OFF_HIGH
    else if sw = I3G4250D_CUT_OFF_VERY_HIGH then I3G4250D_CUT_OFF_VERY_HIGH
    else I3G4250D_CUT_OFF_LOW
  (rd.1, val, rd.2.2)

/-- Source: `i3g4250d_hp_bandwidth_set`. -/
def i3g4250d_hp_bandwidth_set {σ : Type} (ctx : Option (stmdev_ctx_t σ)) (val : Nat)
    (ctrl_reg2 : Nat) (w : σ) : Int × σ :=
  let rd := i3g4250d_read_reg ctx I3G4250D_CTRL_REG2 [ctrl_reg2] 1 w
  if rd.1 = 0 then
    let ctrl_reg2 := i3g4250d_ctrl_reg2_t.ofByte (byteOf rd.2.1 0)
    let ctrl_reg2 := { ctrl_reg2 with hpcf := (val % 256) % 16 }
    i3g4250d_write_reg ctx I3G4250D_CTRL_REG2 [ctrl_reg2.toByte] 1 rd.2.2
  else (rd.1, rd.2.2)

/-- Source: `i3g4250d_hp_bandwidth_get`. -/
def i3g4250d_hp_bandwidth_get {σ : Type} (ctx : Option (stmdev_ctx_t σ))
    (ctrl_reg2 : Nat) (w : σ) : Int × Nat × σ :=
  let rd := i3g4250d_read_reg ctx I3G4250D_CTRL_REG2 [ctrl_reg2] 1 w
  let ctrl_reg2 := i3g4250d_ctrl_reg2_t.ofByte (byteOf rd.2.1 0)
  let sw := ctrl_reg2.hpcf
  let val :=
    if sw = I3G4250D_HP_LEVEL_0 then I3G4250D_HP_LEVEL_0
    else if sw = I3G4250D_HP_LEVEL_1 then I3G4250D_HP_LEVEL_1
    else if sw = I3G4250D_HP_LEVEL_2 then I3G4250D_HP_LEVEL_2
    else if sw = I3G4250D_HP_LEVEL_3 then I3G4250D_HP_LEVEL_3
    else if sw = I3G4250D_HP_LEVEL_4 then I3G4250D_HP_LEVEL_4
    else if sw = I3G4250D_HP_LEVEL_5 then I3G4250D_HP_LEVEL_5
    else if sw = I3G4250D_HP_LEVEL_6 then I3G4250D_HP_LEVEL_6
    else if sw = I3G4250D_HP_LEVEL_7 then I3G4250D_HP_LEVEL_7
    else if sw = I3G4250D_HP_LEVEL_8 then I3G4250D_HP_LEVEL_8
    else if sw = I3G4250D_HP_LEVEL_9 then I3G4250D_HP_LEVEL_9
    else I3G4250D_HP_LEVEL_0
  (rd.1, val, rd.2.2)

/-- Source: `i3g4250d_hp_mode_set`. -/
def i3g4250d_hp_mode_set {σ : Type} (ctx : Option (stmdev_ctx_t σ)) (val : Nat)
    (ctrl_reg2 : Nat) (w : σ) : Int × σ :=
  let rd := i3g4250d_read_reg ctx I3G4250D_CTRL_REG2 [ctrl_reg2] 1 w
  if rd.1 = 0 then
    let ctrl_reg2 := i3g4250d_ctrl_reg2_t.ofByte (byteOf rd.2.1 0)
    let ctrl_reg2 := { ctrl_reg2 with hpm := (val % 256) % 4 }
    i3g4250d_write_reg ctx I3G4250D_CTRL_REG2 [ctrl_reg2.toByte] 1 rd.2.2
  else (rd.1, rd.2.2)

/-- Source: `i3g4250d_hp_mode_get`. -/
def i3g4250d_hp_mode_get {σ : Type} (ctx : Option (stmdev_ctx_t σ))
    (ctrl_reg2 : Nat) (w : σ) : Int × Nat × σ :=
  let rd := i3g4250d_read_reg ctx I3G4250D_CTRL_REG2 [ctrl_reg2] 1 w
  let ctrl_reg2 := i3g4250d_ctrl_reg2_t.ofByte (byteOf rd.2.1 0)
  let sw := ctrl_reg2.hpm
  let val :=
    if sw = I3G4250D_HP_NORMAL_MODE_WITH_RST then I3G4250D_HP_NORMAL_MODE_WITH_RST
    else if sw = I3G4250D_HP_REFERENCE_SIGNAL then I3G4250D_HP_REFERENCE_SIGNAL
    else if sw = I3G4250D_HP_NORMAL_MODE then I3G4250D_HP_NORMAL_MODE
    else if sw = I3G4250D_HP_AUTO_RESET_ON_INT then I3G4250D_HP_AUTO_RESET_ON_INT
    else I3G4250D_HP_NORMAL_MODE_WITH_RST
  (rd.1, val, rd.2.2)

/-- Source: `i3g4250d_filter_path_set`. -/
def i3g4250d_filter_path_set {σ : Type} (ctx : Option (stmdev_ctx_t σ)) (val : Nat)
    (ctrl_reg5 : Nat) (w : σ) : Int × σ :=
  let rd := i3g4250d_read_reg ctx I3G4250D_CTRL_REG5 [ctrl_reg5] 1 w
  if rd.1 = 0 then
    let ctrl_reg5 := i3g4250d_ctrl_reg5_t.ofByte (byteOf rd.2.1 0)
    let ctrl_reg5 := { ctrl_reg5 with out_sel := ((val % 256) &&& 0x03) % 4 }
    let ctrl_reg5 := { ctrl_reg5 with hpen := (((val % 256) &&& 0x04) >>> 2) % 2 }
    i3g4250d_write_reg ctx I3G4250D_CTRL_REG5 [ctrl_reg5.toByte] 1 rd.2.2
  else (rd.1, rd.2.2)

/-- Source: `i3g4250d_filter_path_get`. -/
def i3g4250d_filter_path_get {σ : Type} (ctx : Option (stmdev_ctx_t σ))
    (ctrl_reg5 : Nat) (w : σ) : Int × Nat × σ :=
  let rd := i3g4250d_read_reg ctx I3G4250D_CTRL_REG5 [ctrl_reg5] 1 w
  let ctrl_reg5 := i3g4250d_ctrl_reg5_t.ofByte (byteOf rd.2.1 0)
  let sw := (ctrl_reg5.hpen <<< 2) + ctrl_reg5.out_sel
  let val :=
    if sw = I3G4250D_ONLY_LPF1_ON_OUT then I3G4250D_ONLY_LPF1_ON_OUT
    else if sw = I3G4250D_LPF1_HP_ON_OUT then I3G4250D_LPF1_HP_ON_OUT
    else if sw = I3G4250D_LPF1_LPF2_ON_OUT then I3G4250D_LPF1_LPF2_ON_OUT
    else if sw = I3G4250D_LPF1_HP_LPF2_ON_OUT then I3G4250D_LPF1_HP_LPF2_ON_OUT
    else I3G4250D_ONLY_LPF1_ON_OUT
  (rd.1, val, rd.2.2)

/-- Source: `i3g4250d_filter_path_internal_set`. -/
def i3g4250d_filter_path_internal_set {σ : Type} (ctx : Option (stmdev_ctx_t σ)) (val : Nat)
    (ctrl_reg5 : Nat) (w : σ) : Int × σ :=
  let rd := i3g4250d_read_reg ctx I3G4250D_CTRL_REG5 [ctrl_reg5] 1 w
  if rd.1 = 0 then
    let ctrl_reg5 := i3g4250d_ctrl_reg5_t.ofByte (byteOf rd.2.1 0)
    let ctrl_reg5 := { ctrl_reg5 with int1_sel := ((val % 256) &&& 0x03) % 4 }
    let ctrl_reg5 := { ctrl_reg5 with hpen := (((val % 256) &&& 0x04) >>> 2) % 2 }
    i3g4250d_write_reg ctx I3G4250D_CTRL_REG5 [ctrl_reg5.toByte] 1 rd.2.2
  else (rd.1, rd.2.2)

/-- Source: `i3g4250d_filter_path_internal_get`. -/
def i3g4250d_filter_path_internal_get {σ : Type} (ctx : Option (stmdev_ctx_t σ))
    (ctrl_reg5 : Nat) (w : σ) : Int × Nat × σ :=
  let rd := i3g4250d_read_reg ctx I3G4250D_CTRL_REG5 [ctrl_reg5] 1 w
  let ctrl_reg5 := i3g4250d_ctrl_reg5_t.ofByte (byteOf rd.2.1 0)
  let sw := (ctrl_reg5.hpen <<< 2) + ctrl_reg5.int1_sel
  let val :=
    if sw = I3G4250D_ONLY_LPF1_ON_INT then I3G4250D_ONLY_LPF1_ON_INT
    else if sw = I3G4250D_LPF1_HP_ON_INT then I3G4250D_LPF1_HP_ON_INT
    else if sw = I3G4250D_LPF1_LPF2_ON_INT then I3G4250D_LPF1_LPF2_ON_INT
    else if sw = I3G4250D_LPF1_HP_LPF2_ON_INT then I3G4250D_LPF1_HP_LPF2_ON_INT
    else I3G4250D_ONLY_LPF1_ON_INT
  (rd.1, val, rd.2.2)

/-- Source: `i3g4250d_hp_reference_value_set`. -/
def i3g4250d_hp_reference_value_set {σ : Type} (ctx : Option (stmdev_ctx_t σ)) (val : Nat)
    (reference : Nat) (w : σ) : Int × σ :=
  let rd := i3g4250d_read_reg ctx I3G4250D_REFERENCE [reference] 1 w
  if rd.1 = 0 then
    let reference := i3g4250d_reference_t.ofByte (byteOf rd.2.1 0)
    let reference := { reference with ref := (val % 256) % 256 }
    i3g4250d_write_reg ctx I3G4250D_REFERENCE [reference.toByte] 1 rd.2.2
  else (rd.1, rd.2.2)

/-- Source: `i3g4250d_hp_reference_value_get`. -/
def i3g4250d_hp_reference_value_get {σ : Type} (ctx : Option (stmdev_ctx_t σ))
    (reference : Nat) (w : σ) : Int × Nat × σ :=
  let rd := i3g4250d_read_reg ctx I3G4250D_REFERENCE [reference] 1 w
  let reference := i3g4250d_reference_t.ofByte (byteOf rd.2.1 0)
  (rd.1, reference.ref, rd.2.2)

/-! ## Serial interface and interrupt pins -/

/-- Source: `i3g4250d_spi_mode_set`. -/
def i3g4250d_spi_mode_set {σ : Type} (ctx : Option (stmdev_ctx_t σ)) (val : Nat)
    (ctrl_reg4 : Nat) (w : σ) : Int × σ :=
  let rd := i3g4250d_read_reg ctx I3G4250D_CTRL_REG4 [ctrl_reg4] 1 w
  if rd.1 = 0 then
    let ctrl_reg4 := i3g4250d_ctrl_reg4_t.ofByte (byteOf rd.2.1 0)
    let ctrl_reg4 := { ctrl_reg4 with sim := (val % 256) % 2 }
    i3g4250d_write_reg ctx I3G4250D_CTRL_REG4 [ctrl_reg4.toByte] 1 rd.2.2
  else (rd.1, rd.2.2)

/-- Source: `i3g4250d_spi_mode_get`. -/
def i3g4250d_spi_mode_get {σ : Type} (ctx : Option (stmdev_ctx_t σ))
    (ctrl_reg4 : Nat) (w : σ) : Int × Nat × σ :=
  let rd := i3g4250d_read_reg ctx I3G4250D_CTRL_REG4 [ctrl_reg4] 1 w
  let ctrl_reg4 := i3g4250d_ctrl_reg4_t.ofByte (byteOf rd.2.1 0)
  let sw := ctrl_reg4.sim
  let val :=
    if sw = I3G4250D_SPI_4_WIRE then I3G4250D_SPI_4_WIRE
    else if sw = I3G4250D_SPI_3_WIRE then I3G4250D_SPI_3_WIRE
    else I3G4250D_SPI_4_WIRE
  (rd.1, val, rd.2.2)

/-- Source: `i3g4250d_pin_int1_route_set`. -/
def i3g4250d_pin_int1_route_set {σ : Type} (ctx : Option (stmdev_ctx_t σ)) (val : i3g4250d_int1_route_t)
    (ctrl_reg3 : Nat) (w : σ) : Int × σ :=
  let rd := i3g4250d_read_reg ctx I3G4250D_CTRL_REG3 [ctrl_reg3] 1 w
  if rd.1 = 0 then
    let ctrl_reg3 := i3g4250d_ctrl_reg3_t.ofByte (byteOf rd.2.1 0)
    let ctrl_reg3 := { ctrl_reg3 with i1_int1 := val.i1_int1 % 2 }
    let ctrl_reg3 := { ctrl_reg3 with i1_boot := val.i1_boot % 2 }
    i3g4250d_write_reg ctx I3G4250D_CTRL_REG3 [ctrl_reg3.toByte] 1 rd.2.2
  else (rd.1, rd.2.2)

/-- Source: `i3g4250d_pin_int2_route_set`. -/
def i3g4250d_pin_int2_route_set {σ : Type} (ctx : Option (stmdev_ctx_t σ)) (val : i3g4250d_int2_route_t)
    (ctrl_reg3 : Nat) (w : σ) : Int × σ :=
  let rd := i3g4250d_read_reg ctx I3G4250D_CTRL_REG3 [ctrl_reg3] 1 w
  if rd.1 = 0 then
    let ctrl_reg3 := i3g4250d_ctrl_reg3_t.ofByte (byteOf rd.2.1 0)
    let ctrl_reg3 := { ctrl_reg3 with i2_empty := val.i2_empty % 2 }
    let ctrl_reg3 := { ctrl_reg3 with i2_orun := val.i2_orun % 2 }
    let ctrl_reg3 := { ctrl_reg3 with i2_wtm := val.i2_wtm % 2 }
    let ctrl_reg3 := { ctrl_reg3 with i2_drdy := val.i2_drdy % 2 }
    i3g4250d_write_reg ctx I3G4250D_CTRL_REG3 [ctrl_reg3.toByte] 1 rd.2.2
  else (rd.1, rd.2.2)

/-- Source: `i3g4250d_pin_mode_set`. -/
def i3g4250d_pin_mode_set {σ : Type} (ctx : Option (stmdev_ctx_t σ)) (val : Nat)
    (ctrl_reg3 : Nat) (w : σ) : Int × σ :=
  let rd := i3g4250d_read_reg ctx I3G4250D_CTRL_REG3 [ctrl_reg3] 1 w
  if rd.1 = 0 then
    let ctrl_reg3 := i3g4250d_ctrl_reg3_t.ofByte (byteOf rd.2.1 0)
    let ctrl_reg3 := { ctrl_reg3 with pp_od := (val % 256) % 2 }
    i3g4250d_write_reg ctx I3G4250D_CTRL_REG3 [ctrl_reg3.toByte] 1 rd.2.2
  else (rd.1, rd.2.2)

/-- Source: `i3g4250d_pin_mode_get`. -/
def i3g4250d_pin_mode_get {σ : Type} (ctx : Option (stmdev_ctx_t σ))
    (ctrl_reg3 : Nat) (w : σ) : Int × Nat × σ :=
  let rd := i3g4250d_read_reg ctx I3G4250D_CTRL_REG3 [ctrl_reg3] 1 w
  let ctrl_reg3 := i3g4250d_ctrl_reg3_t.ofByte (byteOf rd.2.1 0)
  let sw := ctrl_reg3.pp_od
  let val :=
    if sw = I3G4250D_PUSH_PULL then I3G4250D_PUSH_PULL
    else if sw = I3G4250D_OPEN_DRAIN then I3G4250D_OPEN_DRAIN
    else I3G4250D_PUSH_PULL
  (rd.1, val, rd.2.2)

/-- Source: `i3g4250d_pin_polarity_set`. -/
def i3g4250d_pin_polarity_set {σ : Type} (ctx : Option (stmdev_ctx_t σ)) (val : Nat)
    (ctrl_reg3 : Nat) (w : σ) : Int × σ :=
  let rd := i3g4250d_read_reg ctx I3G4250D_CTRL_REG3 [ctrl_reg3] 1 w
  if rd.1 = 0 then
    let ctrl_reg3 := i3g4250d_ctrl_reg3_t.ofByte (byteOf rd.2.1 0)
    let ctrl_reg3 := { ctrl_reg3 with h_lactive := (val % 256) % 2 }
    i3g4250d_write_reg ctx I3G4250D_CTRL_REG3 [ctrl_reg3.toByte] 1 rd.2.2
  else (rd.1, rd.2.2)

/-- Source: `i3g4250d_pin_polarity_get`. -/
def i3g4250d_pin_polarity_get {σ : Type} (ctx : Option (stmdev_ctx_t σ))
    (ctrl_reg3 : Nat) (w : σ) : Int × Nat × σ :=
  let rd := i3g4250d_read_reg ctx I3G4250D_CTRL_REG3 [ctrl_reg3] 1 w
  let ctrl_reg3 := i3g4250d_ctrl_reg3_t.ofByte (byteOf rd.2.1 0)
  let sw := ctrl_reg3.h_lactive
  let val :=
    if sw = I3G4250D_ACTIVE_HIGH then I3G4250D_ACTIVE_HIGH
    else if sw = I3G4250D_ACTIVE_LOW then I3G4250D_ACTIVE_LOW
    else I3G4250D_ACTIVE_HIGH
  (rd.1, val, rd.2.2)

/-! ## Interrupt on threshold -/

/-- Source: `i3g4250d_int_notification_set`. -/
def i3g4250d_int_notification_set {σ : Type} (ctx : Option (stmdev_ctx_t σ)) (val : Nat)
    (int1_cfg : Nat) (w : σ) : Int × σ :=
  let rd := i3g4250d_read_reg ctx I3G4250D_INT1_CFG [int1_cfg] 1 w
  if rd.1 = 0 then
    let int1_cfg := i3g4250d_int1_cfg_t.ofByte (byteOf rd.2.1 0)
    let int1_cfg := { int1_cfg with lir := (val % 256) % 2 }
    i3g4250d_write_reg ctx I3G4250D_INT1_CFG [int1_cfg.toByte] 1 rd.2.2
  else (rd.1, rd.2.2)

/-- Source: `i3g4250d_int_notification_get`. -/
def i3g4250d_int_notification_get {σ : Type} (ctx : Option (stmdev_ctx_t σ))
    (int1_cfg : Nat) (w : σ) : Int × Nat × σ :=
  let rd := i3g4250d_read_reg ctx I3G4250D_INT1_CFG [int1_cfg] 1 w
  let int1_cfg := i3g4250d_int1_cfg_t.ofByte (byteOf rd.2.1 0)
  let sw := int1_cfg.lir
  let val :=
    if sw = I3G4250D_INT_PULSED then I3G4250D_INT_PULSED
    else if sw = I3G4250D_INT_LATCHED then I3G4250D_INT_LATCHED
    else I3G4250D_INT_PULSED
  (rd.1, val, rd.2.2)

/-- Source: `i3g4250d_int_on_threshold_mode_set`. -/
def i3g4250d_int_on_threshold_mode_set {σ : Type} (ctx : Option (stmdev_ctx_t σ)) (val : Nat)
    (int1_cfg : Nat) (w : σ) : Int × σ :=
  let rd := i3g4250d_read_reg ctx I3G4250D_INT1_CFG [int1_cfg] 1 w
  if rd.1 = 0 then
    let int1_cfg := i3g4250d_int1_cfg_t.ofByte (byteOf rd.2.1 0)
    let int1_cfg := { int1_cfg with and_or := (val % 256) % 2 }
    i3g4250d_write_reg ctx I3G4250D_INT1_CFG [int1_cfg.toByte] 1 rd.2.2
  else (rd.1, rd.2.2)

/-- Source: `i3g4250d_int_on_threshold_mode_get`. -/
def i3g4250d_int_on_threshold_mode_get {σ : Type} (ctx : Option (stmdev_ctx_t σ))
    (int1_cfg : Nat) (w : σ) : Int × Nat × σ :=
  let rd := i3g4250d_read_reg ctx I3G4250D_INT1_CFG [int1_cfg] 1 w
  let int1_cfg := i3g4250d_int1_cfg_t.ofByte (byteOf rd.2.1 0)
  let sw := int1_cfg.and_or
  let val :=
    if sw = I3G4250D_INT1_ON_TH_OR then I3G4250D_INT1_ON_TH_OR
    else if sw = I3G4250D_INT1_ON_TH_AND then I3G4250D_INT1_ON_TH_AND
    else I3G4250D_INT1_ON_TH_OR
  (rd.1, val, rd.2.2)

/-- Source: `i3g4250d_int_on_threshold_dur_set`. -/
def i3g4250d_int_on_threshold_dur_set {σ : Type} (ctx : Option (stmdev_ctx_t σ)) (val : Nat)
    (int1_duration : Nat) (w : σ) : Int × σ :=
  let rd := i3g4250d_read_reg ctx I3G4250D_INT1_DURATION [int1_duration] 1 w
  if rd.1 = 0 then
    let int1_duration := i3g4250d_int1_duration_t.ofByte (byteOf rd.2.1 0)
    let int1_duration := { int1_duration with d := (val % 256) % 128 }
    let int1_duration := { int1_duration with
      wait := (if val % 256 ≠ PROPERTY_DISABLE then PROPERTY_ENABLE else PROPERTY_DISABLE) % 2 }
    i3g4250d_write_reg ctx I3G4250D_INT1_DURATION [int1_duration.toByte] 1 rd.2.2
  else (rd.1, rd.2.2)

/-- Source: `i3g4250d_int_on_threshold_dur_get`. -/
def i3g4250d_int_on_threshold_dur_get {σ : Type} (ctx : Option (stmdev_ctx_t σ))
    (int1_duration : Nat) (w : σ) : Int × Nat × σ :=
  let rd := i3g4250d_read_reg ctx I3G4250D_INT1_DURATION [int1_duration] 1 w
  let int1_duration := i3g4250d_int1_duration_t.ofByte (byteOf rd.2.1 0)
  (rd.1, int1_duration.d, rd.2.2)

/-! ## FIFO -/

/-- Source: `i3g4250d_fifo_enable_set`. -/
def i3g4250d_fifo_enable_set {σ : Type} (ctx : Option (stmdev_ctx_t σ)) (val : Nat)
    (ctrl_reg5 : Nat) (w : σ) : Int × σ :=
  let rd := i3g4250d_read_reg ctx I3G4250D_CTRL_REG5 [ctrl_reg5] 1 w
  if rd.1 = 0 then
    let ctrl_reg5 := i3g4250d_ctrl_reg5_t.ofByte (byteOf rd.2.1 0)
    let ctrl_reg5 := { ctrl_reg5 with fifo_en := (val % 256) % 2 }
    i3g4250d_write_reg ctx I3G4250D_CTRL_REG5 [ctrl_reg5.toByte] 1 rd.2.2
  else (rd.1, rd.2.2)

/-- Source: `i3g4250d_fifo_enable_get`. -/
def i3g4250d_fifo_enable_get {σ : Type} (ctx : Option (stmdev_ctx_t σ))
    (ctrl_reg5 : Nat) (w : σ) : Int × Nat × σ :=
  let rd := i3g4250d_read_reg ctx I3G4250D_CTRL_REG5 [ctrl_reg5] 1 w
  let ctrl_reg5 := i3g4250d_ctrl_reg5_t.ofByte (byteOf rd.2.1 0)
  (rd.1, ctrl_reg5.fifo_en, rd.2.2)

/-- Source: `i3g4250d_fifo_watermark_set`. -/
def i3g4250d_fifo_watermark_set {σ : Type} (ctx : Option (stmdev_ctx_t σ)) (val : Nat)
    (fifo_ctrl_reg : Nat) (w : σ) : Int × σ :=
  let rd := i3g4250d_read_reg ctx I3G4250D_FIFO_CTRL_REG [fifo_ctrl_reg] 1 w
  if rd.1 = 0 then
    let fifo_ctrl_reg := i3g4250d_fifo_ctrl_reg_t.ofByte (byteOf rd.2.1 0)
    let fifo_ctrl_reg := { fifo_ctrl_reg with wtm := (val % 256) % 32 }
    i3g4250d_write_reg ctx I3G4250D_FIFO_CTRL_REG [fifo_ctrl_reg.toByte] 1 rd.2.2
  else (rd.1, rd.2.2)

/-- Source: `i3g4250d_fifo_watermark_get`. -/
def i3g4250d_fifo_watermark_get {σ : Type} (ctx : Option (stmdev_ctx_t σ))
    (fifo_ctrl_reg : Nat) (w : σ) : Int × Nat × σ :=
  let rd := i3g4250d_read_reg ctx I3G4250D_FIFO_CTRL_REG [fifo_ctrl_reg] 1 w
  let fifo_ctrl_reg := i3g4250d_fifo_ctrl_reg_t.ofByte (byteOf rd.2.1 0)
  (rd.1, fifo_ctrl_reg.wtm, rd.2.2)

/-- Source: `i3g4250d_fifo_mode_set`. -/
def i3g4250d_fifo_mode_set {σ : Type} (ctx : Option (stmdev_ctx_t σ)) (val : Nat)
    (fifo_ctrl_reg : Nat) (w : σ) : Int × σ :=
  let rd := i3g4250d_read_reg ctx I3G4250D_FIFO_CTRL_REG [fifo_ctrl_reg] 1 w
  if rd.1 = 0 then
    let fifo_ctrl_reg := i3g4250d_fifo_ctrl_reg_t.ofByte (byteOf rd.2.1 0)
    let fifo_ctrl_reg := { fifo_ctrl_reg with fm := (val % 256) % 8 }
    i3g4250d_write_reg ctx I3G4250D_FIFO_CTRL_REG [fifo_ctrl_reg.toByte] 1 rd.2.2
  else (rd.1, rd.2.2)

/-- Source: `i3g4250d_fifo_mode_get`. -/
def i3g4250d_fifo_mode_get {σ : Type} (ctx : Option (stmdev_ctx_t σ))
    (fifo_ctrl_reg : Nat) (w : σ) : Int × Nat × σ :=
  let rd := i3g4250d_read_reg ctx I3G4250D_FIFO_CTRL_REG [fifo_ctrl_reg] 1 w
  let fifo_ctrl_reg := i3g4250d_fifo_ctrl_reg_t.ofByte (byteOf rd.2.1 0)
  let sw := fifo_ctrl_reg.fm
  let val :=
    if sw = I3G4250D_FIFO_BYPASS_MODE then I3G4250D_FIFO_BYPASS_MODE
    else if sw = I3G4250D_FIFO_MODE then I3G4250D_FIFO_MODE
    else if sw = I3G4250D_FIFO_STREAM_MODE then I3G4250D_FIFO_STREAM_MODE
    else I3G4250D_FIFO_BYPASS_MODE
  (rd.1, val, rd.2.2)

/-- Source: `i3g4250d_fifo_data_level_get`. -/
def i3g4250d_fifo_data_level_get {σ : Type} (ctx : Option (stmdev_ctx_t σ))
    (fifo_src_reg : Nat) (w : σ) : Int × Nat × σ :=
  let rd := i3g4250d_read_reg ctx I3G4250D_FIFO_SRC_REG [fifo_src_reg] 1 w
  let fifo_src_reg := i3g4250d_fifo_src_reg_t.ofByte (byteOf rd.2.1 0)
  (rd.1, fifo_src_reg.fss, rd.2.2)

/-- Source: `i3g4250d_fifo_empty_flag_get`. -/
def i3g4250d_fifo_empty_flag_get {σ : Type} (ctx : Option (stmdev_ctx_t σ))
    (fifo_src_reg : Nat) (w : σ) : Int × Nat × σ :=
  let rd := i3g4250d_read_reg ctx I3G4250D_FIFO_SRC_REG [fifo_src_reg] 1 w
  let fifo_src_reg := i3g4250d_fifo_src_reg_t.ofByte (byteOf rd.2.1 0)
  (rd.1, fifo_src_reg.empty, rd.2.2)

/-- Source: `i3g4250d_fifo_ovr_flag_get`. -/
def i3g4250d_fifo_ovr_flag_get {σ : Type} (ctx : Option (stmdev_ctx_t σ))
    (fifo_src_reg : Nat) (w : σ) : Int × Nat × σ :=
  let rd := i3g4250d_read_reg ctx I3G4250D_FIFO_SRC_REG [fifo_src_reg] 1 w
  let fifo_src_reg := i3g4250d_fifo_src_reg_t.ofByte (byteOf rd.2.1 0)
  (rd.1, fifo_src_reg.ovrn, rd.2.2)

/-- Source: `i3g4250d_fifo_wtm_flag_get`. -/
def i3g4250d_fifo_wtm_flag_get {σ : Type} (ctx : Option (stmdev_ctx_t σ))
    (fifo_src_reg : Nat) (w : σ) : Int × Nat × σ :=
  let rd := i3g4250d_read_reg ctx I3G4250D_FIFO_SRC_REG [fifo_src_reg] 1 w
  let fifo_src_reg := i3g4250d_fifo_src_reg_t.ofByte (byteOf rd.2.1 0)
  (rd.1, fifo_src_reg.wtm, rd.2.2)

/-- Source: `i3g4250d_flag_data_ready_get`. -/
def i3g4250d_flag_data_ready_get {σ : Type} (ctx : Option (stmdev_ctx_t σ))
    (status_reg : Nat) (w : σ) : Int × Nat × σ :=
  let rd := i3g4250d_read_reg ctx I3G4250D_STATUS_REG [status_reg] 1 w
  let status_reg := i3g4250d_status_reg_t.ofByte (byteOf rd.2.1 0)
  (rd.1, status_reg.zyxda, rd.2.2)


/-- Source: `i3g4250d_pin_int1_route_get`. -/
def i3g4250d_pin_int1_route_get {σ : Type} (ctx : Option (stmdev_ctx_t σ))
    (ctrl_reg3 : Nat) (w : σ) : Int × i3g4250d_int1_route_t × σ :=
  let rd := i3g4250d_read_reg ctx I3G4250D_CTRL_REG3 [ctrl_reg3] 1 w
  let ctrl_reg3 := i3g4250d_ctrl_reg3_t.ofByte (byteOf rd.2.1 0)
  (rd.1, { i1_int1 := ctrl_reg3.i1_int1, i1_boot := ctrl_reg3.i1_boot }, rd.2.2)

/-- Source: `i3g4250d_pin_int2_route_get`. -/
def i3g4250d_pin_int2_route_get {σ : Type} (ctx : Option (stmdev_ctx_t σ))
    (ctrl_reg3 : Nat) (w : σ) : Int × i3g4250d_int2_route_t × σ :=
  let rd := i3g4250d_read_reg ctx I3G4250D_CTRL_REG3 [ctrl_reg3] 1 w
  let ctrl_reg3 := i3g4250d_ctrl_reg3_t.ofByte (byteOf rd.2.1 0)
  (rd.1, { i2_empty := ctrl_reg3.i2_empty, i2_orun := ctrl_reg3.i2_orun,
           i2_wtm := ctrl_reg3.i2_wtm, i2_drdy := ctrl_reg3.i2_drdy }, rd.2.2)

/-- Source: `i3g4250d_int_on_threshold_conf_set`; the caller's struct is written as is. -/
def i3g4250d_int_on_threshold_conf_set {σ : Type} (ctx : Option (stmdev_ctx_t σ))
    (val : i3g4250d_int1_cfg_t) (w : σ) : Int × σ :=
  i3g4250d_write_reg ctx I3G4250D_INT1_CFG [val.toByte] 1 w

/-- Source: `i3g4250d_int_on_threshold_conf_get`; `val` is the caller's struct, read in
place. -/
def i3g4250d_int_on_threshold_conf_get {σ : Type} (ctx : Option (stmdev_ctx_t σ))
    (val : Nat) (w : σ) : Int × i3g4250d_int1_cfg_t × σ :=
  let rd := i3g4250d_read_reg ctx I3G4250D_INT1_CFG [val] 1 w
  (rd.1, i3g4250d_int1_cfg_t.ofByte (byteOf rd.2.1 0), rd.2.2)

/-- Source: `i3g4250d_int_on_threshold_src_get`; `val` is the caller's struct, read in
place. -/
def i3g4250d_int_on_threshold_src_get {σ : Type} (ctx : Option (stmdev_ctx_t σ))
    (val : Nat) (w : σ) : Int × i3g4250d_int1_src_t × σ :=
  let rd := i3g4250d_read_reg ctx I3G4250D_INT1_SRC [val] 1 w
  (rd.1, i3g4250d_int1_src_t.ofByte (byteOf rd.2.1 0), rd.2.2)

/-! ## Interrupt thresholds

`val` is a `uint16_t` (taken modulo 2^16); `val / 256U` and `val - (thsx * 256U)` are
computed in `unsigned int` (32 bits, wrapping modulo 2^32). -/

/-- Source: `i3g4250d_int_x_threshold_set`.  The high field is assigned inside the status
check. -/
def i3g4250d_int_x_threshold_set {σ : Type} (ctx : Option (stmdev_ctx_t σ)) (val : Nat)
    (int1_tsh_xh int1_tsh_xl : Nat) (w : σ) : Int × σ :=
  let val := val % 65536
  let rd := i3g4250d_read_reg ctx I3G4250D_INT1_TSH_XH [int1_tsh_xh] 1 w
  let int1_tsh_xh := i3g4250d_int1_tsh_xh_t.ofByte (byteOf rd.2.1 0)
  let s1 : Int × i3g4250d_int1_tsh_xh_t × σ :=
    if rd.1 = 0 then
      let int1_tsh_xh := { int1_tsh_xh with thsx := (((val / 256) % 256) &&& 0x7F) % 128 }
      let wr := i3g4250d_write_reg ctx I3G4250D_INT1_TSH_XH [int1_tsh_xh.toByte] 1 rd.2.2
      (wr.1, int1_tsh_xh, wr.2)
    else (rd.1, int1_tsh_xh, rd.2.2)
  let int1_tsh_xh := s1.2.1
  let s2 : Int × List Nat × σ :=
    if s1.1 = 0 then i3g4250d_read_reg ctx I3G4250D_INT1_TSH_XL [int1_tsh_xl] 1 s1.2.2
    else (s1.1, [int1_tsh_xl], s1.2.2)
  if s2.1 = 0 then
    let int1_tsh_xl := i3g4250d_int1_tsh_xl_t.ofByte (byteOf s2.2.1 0)
    let int1_tsh_xl := { int1_tsh_xl with
      thsx := (((val + 4294967296 - (int1_tsh_xh.thsx * 256) % 4294967296) % 4294967296)
                % 256) % 256 }
    i3g4250d_write_reg ctx I3G4250D_INT1_TSH_XL [int1_tsh_xl.toByte] 1 s2.2.2
  else (s2.1, s2.2.2)

/-- Source: `i3g4250d_int_x_threshold_get`; `val` is the previous content of `*val`, which
stays when the first read fails. -/
def i3g4250d_int_x_threshold_get {σ : Type} (ctx : Option (stmdev_ctx_t σ)) (val : Nat)
    (int1_tsh_xh int1_tsh_xl : Nat) (w : σ) : Int × Nat × σ :=
  let rd := i3g4250d_read_reg ctx I3G4250D_INT1_TSH_XH [int1_tsh_xh] 1 w
  let int1_tsh_xh := i3g4250d_int1_tsh_xh_t.ofByte (byteOf rd.2.1 0)
  if rd.1 = 0 then
    let rd2 := i3g4250d_read_reg ctx I3G4250D_INT1_TSH_XL [int1_tsh_xl] 1 rd.2.2
    let int1_tsh_xl := i3g4250d_int1_tsh_xl_t.ofByte (byteOf rd2.2.1 0)
    let val := int1_tsh_xh.thsx % 65536
    let val := (val * 256) % 65536
    let val := (val + int1_tsh_xl.thsx) % 65536
    (rd2.1, val, rd2.2.2)
  else (rd.1, val % 65536, rd.2.2)

/-- Source: `i3g4250d_int_y_threshold_set`.  The high field is assigned before the status
check, the low field right after the second read. -/
def i3g4250d_int_y_threshold_set {σ : Type} (ctx : Option (stmdev_ctx_t σ)) (val : Nat)
    (int1_tsh_yh int1_tsh_yl : Nat) (w : σ) : Int × σ :=
  let val := val % 65536
  let rd := i3g4250d_read_reg ctx I3G4250D_INT1_TSH_YH [int1_tsh_yh] 1 w
  let int1_tsh_yh := i3g4250d_int1_tsh_yh_t.ofByte (byteOf rd.2.1 0)
  let int1_tsh_yh := { int1_tsh_yh with thsy := (((val / 256) % 256) &&& 0x7F) % 128 }
  let s1 : Int × σ :=
    if rd.1 = 0 then i3g4250d_write_reg ctx I3G4250D_INT1_TSH_YH [int1_tsh_yh.toByte] 1 rd.2.2
    else (rd.1, rd.2.2)
  let s2 : Int × i3g4250d_int1_tsh_yl_t × σ :=
    if s1.1 = 0 then
      let rd2 := i3g4250d_read_reg ctx I3G4250D_INT1_TSH_YL [int1_tsh_yl] 1 s1.2
      let int1_tsh_yl := i3g4250d_int1_tsh_yl_t.ofByte (byteOf rd2.2.1 0)
      let int1_tsh_yl := { int1_tsh_yl with
        thsy := (((val + 4294967296 - (int1_tsh_yh.thsy * 256) % 4294967296) % 4294967296)
                  % 256) % 256 }
      (rd2.1, int1_tsh_yl, rd2.2.2)
    else (s1.1, i3g4250d_int1_tsh_yl_t.ofByte int1_tsh_yl, s1.2)
  if s2.1 = 0 then
    i3g4250d_write_reg ctx I3G4250D_INT1_TSH_YL [s2.2.1.toByte] 1 s2.2.2
  else (s2.1, s2.2.2)

/-- Source: `i3g4250d_int_y_threshold_get`; `val` is the previous content of `*val`. -/
def i3g4250d_int_y_threshold_get {σ : Type} (ctx : Option (stmdev_ctx_t σ)) (val : Nat)
    (int1_tsh_yh int1_tsh_yl : Nat) (w : σ) : Int × Nat × σ :=
  let rd := i3g4250d_read_reg ctx I3G4250D_INT1_TSH_YH [int1_tsh_yh] 1 w
  let int1_tsh_yh := i3g4250d_int1_tsh_yh_t.ofByte (byteOf rd.2.1 0)
  if rd.1 = 0 then
    let rd2 := i3g4250d_read_reg ctx I3G4250D_INT1_TSH_YL [int1_tsh_yl] 1 rd.2.2
    let int1_tsh_yl := i3g4250d_int1_tsh_yl_t.ofByte (byteOf rd2.2.1 0)
    let val := int1_tsh_yh.thsy % 65536
    let val := (val * 256) % 65536
    let val := (val + int1_tsh_yl.thsy) % 65536
    (rd2.1, val, rd2.2.2)
  else (rd.1, val % 65536, rd.2.2)

/-- Source: `i3g4250d_int_z_threshold_set`.  Same shape as the Y setter. -/
def i3g4250d_int_z_threshold_set {σ : Type} (ctx : Option (stmdev_ctx_t σ)) (val : Nat)
    (int1_tsh_zh int1_tsh_zl : Nat) (w : σ) : Int × σ :=
  let val := val % 65536
  let rd := i3g4250d_read_reg ctx I3G4250D_INT1_TSH_ZH [int1_tsh_zh] 1 w
  let int1_tsh_zh := i3g4250d_int1_tsh_zh_t.ofByte (byteOf rd.2.1 0)
  let int1_tsh_zh := { int1_tsh_zh with thsz := (((val / 256) % 256) &&& 0x7F) % 128 }
  let s1 : Int × σ :=
    if rd.1 = 0 then i3g4250d_write_reg ctx I3G4250D_INT1_TSH_ZH [int1_tsh_zh.toByte] 1 rd.2.2
    else (rd.1, rd.2.2)
  let s2 : Int × i3g4250d_int1_tsh_zl_t × σ :=
    if s1.1 = 0 then
      let rd2 := i3g4250d_read_reg ctx I3G4250D_INT1_TSH_ZL [int1_tsh_zl] 1 s1.2
      let int1_tsh_zl := i3g4250d_int1_tsh_zl_t.ofByte (byteOf rd2.2.1 0)
      let int1_tsh_zl := { int1_tsh_zl with
        thsz := (((val + 4294967296 - (int1_tsh_zh.thsz * 256) % 4294967296) % 4294967296)
                  % 256) % 256 }
      (rd2.1, int1_tsh_zl, rd2.2.2)
    else (s1.1, i3g4250d_int1_tsh_zl_t.ofByte int1_tsh_zl, s1.2)
  if s2.1 = 0 then
    i3g4250d_write_reg ctx I3G4250D_INT1_TSH_ZL [s2.2.1.toByte] 1 s2.2.2
  else (s2.1, s2.2.2)

/-- Source: `i3g4250d_int_z_threshold_get`; `val` is the previous content of `*val`. -/
def i3g4250d_int_z_threshold_get {σ : Type} (ctx : Option (stmdev_ctx_t σ)) (val : Nat)
    (int1_tsh_zh int1_tsh_zl : Nat) (w : σ) : Int × Nat × σ :=
  let rd := i3g4250d_read_reg ctx I3G4250D_INT1_TSH_ZH [int1_tsh_zh] 1 w
  let int1_tsh_zh := i3g4250d_int1_tsh_zh_t.ofByte (byteOf rd.2.1 0)
  if rd.1 = 0 then
    let rd2 := i3g4250d_read_reg ctx I3G4250D_INT1_TSH_ZL [int1_tsh_zl] 1 rd.2.2
    let int1_tsh_zl := i3g4250d_int1_tsh_zl_t.ofByte (byteOf rd2.2.1 0)
    let val := int1_tsh_zh.thsz % 65536
    let val := (val * 256) % 65536
    let val := (val + int1_tsh_zl.thsz) % 65536
    (rd2.1, val, rd2.2.2)
  else (rd.1, val % 65536, rd.2.2)

/-! ## The settings of the driver, as tables over the functions above -/

/-- The enumerated settings: those whose setter takes, and whose getter returns, a value of
an enumeration of the header. -/
inductive Setting where
  | data_rate | full_scale | self_test | data_format | lp_bandwidth | hp_bandwidth | hp_mode
  | filter_path | filter_path_internal | spi_mode | pin_mode | pin_polarity
  | int_notification | int_on_threshold_mode | fifo_mode
  deriving DecidableEq

/-- The members of the enumeration of a setting, in the order of the header. -/
def Setting.members : Setting → List Nat
  | .data_rate => [I3G4250D_ODR_OFF, I3G4250D_ODR_SLEEP, I3G4250D_ODR_100Hz,
      I3G4250D_ODR_200Hz, I3G4250D_ODR_400Hz, I3G4250D_ODR_800Hz]
  | .full_scale => [I3G4250D_245dps, I3G4250D_500dps, I3G4250D_2000dps]
  | .self_test => [I3G4250D_GY_ST_DISABLE, I3G4250D_GY_ST_POSITIVE, I3G4250D_GY_ST_NEGATIVE]
  | .data_format => [I3G4250D_AUX_LSB_AT_LOW_ADD, I3G4250D_AUX_MSB_AT_LOW_ADD]
  | .lp_bandwidth => [I3G4250D_CUT_OFF_LOW, I3G4250D_CUT_OFF_MEDIUM, I3G4250D_CUT_OFF_HIGH,
      I3G4250D_CUT_OFF_VERY_HIGH]
  | .hp_bandwidth => [I3G4250D_HP_LEVEL_0, I3G4250D_HP_LEVEL_1, I3G4250D_HP_LEVEL_2,
      I3G4250D_HP_LEVEL_3, I3G4250D_HP_LEVEL_4, I3G4250D_HP_LEVEL_5, I3G4250D_HP_LEVEL_6,
      I3G4250D_HP_LEVEL_7, I3G4250D_HP_LEVEL_8, I3G4250D_HP_LEVEL_9]
  | .hp_mode => [I3G4250D_HP_NORMAL_MODE_WITH_RST, I3G4250D_HP_REFERENCE_SIGNAL,
      I3G4250D_HP_NORMAL_MODE, I3G4250D_HP_AUTO_RESET_ON_INT]
  | .filter_path => [I3G4250D_ONLY_LPF1_ON_OUT, I3G4250D_LPF1_HP_ON_OUT,
      I3G4250D_LPF1_LPF2_ON_OUT, I3G4250D_LPF1_HP_LPF2_ON_OUT]
  | .filter_path_internal => [I3G4250D_ONLY_LPF1_ON_INT, I3G4250D_LPF1_HP_ON_INT,
      I3G4250D_LPF1_LPF2_ON_INT, I3G4250D_LPF1_HP_LPF2_ON_INT]
  | .spi_mode => [I3G4250D_SPI_4_WIRE, I3G4250D_SPI_3_WIRE]
  | .pin_mode => [I3G4250D_PUSH_PULL, I3G4250D_OPEN_DRAIN]
  | .pin_polarity => [I3G4250D_ACTIVE_HIGH, I3G4250D_ACTIVE_LOW]
  | .int_notification => [I3G4250D_INT_PULSED, I3G4250D_INT_LATCHED]
  | .int_on_threshold_mode => [I3G4250D_INT1_ON_TH_AND, I3G4250D_INT1_ON_TH_OR]
  | .fifo_mode => [I3G4250D_FIFO_BYPASS_MODE, I3G4250D_FIFO_MODE, I3G4250D_FIFO_STREAM_MODE]

/-- The register a setting lives in. -/
def Setting.reg : Setting → Nat
  | .data_rate => I3G4250D_CTRL_REG1
  | .full_scale => I3G4250D_CTRL_REG4
  | .self_test => I3G4250D_CTRL_REG4
  | .data_format => I3G4250D_CTRL_REG4
  | .lp_bandwidth => I3G4250D_CTRL_REG1
  | .hp_bandwidth => I3G4250D_CTRL_REG2
  | .hp_mode => I3G4250D_CTRL_REG2
  | .filter_path => I3G4250D_CTRL_REG5
  | .filter_path_internal => I3G4250D_CTRL_REG5
  | .spi_mode => I3G4250D_CTRL_REG4
  | .pin_mode => I3G4250D_CTRL_REG3
  | .pin_polarity => I3G4250D_CTRL_REG3
  | .int_notification => I3G4250D_INT1_CFG
  | .int_on_threshold_mode => I3G4250D_INT1_CFG
  | .fifo_mode => I3G4250D_FIFO_CTRL_REG

/-- The setter of an enumerated setting (`junk` is the setter's uninitialised local). -/
def Setting.set {σ : Type} (s : Setting) (ctx : Option (stmdev_ctx_t σ)) (val junk : Nat)
    (w : σ) : Int × σ :=
  match s with
  | .data_rate => i3g4250d_data_rate_set ctx val junk w
  | .full_scale => i3g4250d_full_scale_set ctx val junk w
  | .self_test => i3g4250d_self_test_set ctx val junk w
  | .data_format => i3g4250d_data_format_set ctx val junk w
  | .lp_bandwidth => i3g4250d_lp_bandwidth_set ctx val junk w
  | .hp_bandwidth => i3g4250d_hp_bandwidth_set ctx val junk w
  | .hp_mode => i3g4250d_hp_mode_set ctx val junk w
  | .filter_path => i3g4250d_filter_path_set ctx val junk w
  | .filter_path_internal => i3g4250d_filter_path_internal_set ctx val junk w
  | .spi_mode => i3g4250d_spi_mode_set ctx val junk w
  | .pin_mode => i3g4250d_pin_mode_set ctx val junk w
  | .pin_polarity => i3g4250d_pin_polarity_set ctx val junk w
  | .int_notification => i3g4250d_int_notification_set ctx val junk w
  | .int_on_threshold_mode => i3g4250d_int_on_threshold_mode_set ctx val junk w
  | .fifo_mode => i3g4250d_fifo_mode_set ctx val junk w

/-- The getter of an enumerated setting (`junk` is the getter's uninitialised local). -/
def Setting.get {σ : Type} (s : Setting) (ctx : Option (stmdev_ctx_t σ)) (junk : Nat)
    (w : σ) : Int × Nat × σ :=
  match s with
  | .data_rate => i3g4250d_data_rate_get ctx junk w
  | .full_scale => i3g4250d_full_scale_get ctx junk w
  | .self_test => i3g4250d_self_test_get ctx junk w
  | .data_format => i3g4250d_data_format_get ctx junk w
  | .lp_bandwidth => i3g4250d_lp_bandwidth_get ctx junk w
  | .hp_bandwidth => i3g4250d_hp_bandwidth_get ctx junk w
  | .hp_mode => i3g4250d_hp_mode_get ctx junk w
  | .filter_path => i3g4250d_filter_path_get ctx junk w
  | .filter_path_internal => i3g4250d_filter_path_internal_get ctx junk w
  | .spi_mode => i3g4250d_spi_mode_get ctx junk w
  | .pin_mode => i3g4250d_pin_mode_get ctx junk w
  | .pin_polarity => i3g4250d_pin_polarity_get ctx junk w
  | .int_notification => i3g4250d_int_notification_get ctx junk w
  | .int_on_threshold_mode => i3g4250d_int_on_threshold_mode_get ctx junk w
  | .fifo_mode => i3g4250d_fifo_mode_get ctx junk w

/-- The bit pattern a getter switches on, as a function of the register byte. -/
def Setting.pattern (s : Setting) (b : Nat) : Nat :=
  match s with
  | .data_rate =>
      ((i3g4250d_ctrl_reg1_t.ofByte b).dr <<< 4) + (i3g4250d_ctrl_reg1_t.ofByte b).pd
  | .full_scale => (i3g4250d_ctrl_reg4_t.ofByte b).fs
  | .self_test => (i3g4250d_ctrl_reg4_t.ofByte b).st
  | .data_format => (i3g4250d_ctrl_reg4_t.ofByte b).ble
  | .lp_bandwidth => (i3g4250d_ctrl_reg1_t.ofByte b).bw
  | .hp_bandwidth => (i3g4250d_ctrl_reg2_t.ofByte b).hpcf
  | .hp_mode => (i3g4250d_ctrl_reg2_t.ofByte b).hpm
  | .filter_path =>
      ((i3g4250d_ctrl_reg5_t.ofByte b).hpen <<< 2) + (i3g4250d_ctrl_reg5_t.ofByte b).out_sel
  | .filter_path_internal =>
      ((i3g4250d_ctrl_reg5_t.ofByte b).hpen <<< 2) + (i3g4250d_ctrl_reg5_t.ofByte b).int1_sel
  | .spi_mode => (i3g4250d_ctrl_reg4_t.ofByte b).sim
  | .pin_mode => (i3g4250d_ctrl_reg3_t.ofByte b).pp_od
  | .pin_polarity => (i3g4250d_ctrl_reg3_t.ofByte b).h_lactive
  | .int_notification => (i3g4250d_int1_cfg_t.ofByte b).lir
  | .int_on_threshold_mode => (i3g4250d_int1_cfg_t.ofByte b).and_or
  | .fifo_mode => (i3g4250d_fifo_ctrl_reg_t.ofByte b).fm

/-- The bits of its register that an enumerated setting owns (bit 0 least significant). -/
def Setting.mask : Setting → Nat
  | .data_rate => 0xCF
  | .full_scale => 0x30
  | .self_test => 0x06
  | .data_format => 0x40
  | .lp_bandwidth => 0x30
  | .hp_bandwidth => 0x0F
  | .hp_mode => 0x30
  | .filter_path => 0x13
  | .filter_path_internal => 0x1C
  | .spi_mode => 0x01
  | .pin_mode => 0x10
  | .pin_polarity => 0x20
  | .int_notification => 0x40
  | .int_on_threshold_mode => 0x80
  | .fifo_mode => 0xE0

/-- A call of a single-register read-modify-write setter together with its argument. -/
inductive RmwCall where
  | enum (s : Setting) (val : Nat)
  | boot (val : Nat)
  | hp_reference_value (val : Nat)
  | pin_int1_route (val : i3g4250d_int1_route_t)
  | pin_int2_route (val : i3g4250d_int2_route_t)
  | int_on_threshold_dur (val : Nat)
  | fifo_enable (val : Nat)
  | fifo_watermark (val : Nat)

/-- Runs the setter of the call (`junk` is the setter's uninitialised local). -/
def RmwCall.run {σ : Type} (c : RmwCall) (ctx : Option (stmdev_ctx_t σ)) (junk : Nat)
    (w : σ) : Int × σ :=
  match c with
  | .enum s val => s.set ctx val junk w
  | .boot val => i3g4250d_boot_set ctx val junk w
  | .hp_reference_value val => i3g4250d_hp_reference_value_set ctx val junk w
  | .pin_int1_route val => i3g4250d_pin_int1_route_set ctx val junk w
  | .pin_int2_route val => i3g4250d_pin_int2_route_set ctx val junk w
  | .int_on_threshold_dur val => i3g4250d_int_on_threshold_dur_set ctx val junk w
  | .fifo_enable val => i3g4250d_fifo_enable_set ctx val junk w
  | .fifo_watermark val => i3g4250d_fifo_watermark_set ctx val junk w

/-- The register the setter of the call reads and writes. -/
def RmwCall.reg : RmwCall → Nat
  | .enum s _ => s.reg
  | .boot _ => I3G4250D_CTRL_REG5
  | .hp_reference_value _ => I3G4250D_REFERENCE
  | .pin_int1_route _ => I3G4250D_CTRL_REG3
  | .pin_int2_route _ => I3G4250D_CTRL_REG3
  | .int_on_threshold_dur _ => I3G4250D_INT1_DURATION
  | .fifo_enable _ => I3G4250D_CTRL_REG5
  | .fifo_watermark _ => I3G4250D_FIFO_CTRL_REG

/-- The bits of its register that the setter of the call owns. -/
def RmwCall.mask : RmwCall → Nat
  | .enum s _ => s.mask
  | .boot _ => 0x80
  | .hp_reference_value _ => 0xFF
  | .pin_int1_route _ => 0xC0
  | .pin_int2_route _ => 0x0F
  | .int_on_threshold_dur _ => 0xFF
  | .fifo_enable _ => 0x40
  | .fifo_watermark _ => 0x1F

/-- The call of the same setter with a zero argument. -/
def RmwCall.zero : RmwCall → RmwCall
  | .enum s _ => .enum s 0
  | .boot _ => .boot 0
  | .hp_reference_value _ => .hp_reference_value 0
  | .pin_int1_route _ => .pin_int1_route ⟨0, 0⟩
  | .pin_int2_route _ => .pin_int2_route ⟨0, 0, 0, 0⟩
  | .int_on_threshold_dur _ => .int_on_threshold_dur 0
  | .fifo_enable _ => .fifo_enable 0
  | .fifo_watermark _ => .fifo_watermark 0

/-- The three axes of the interrupt threshold. -/
inductive Axis where
  | x | y | z
  deriving DecidableEq

/-- Address of the high threshold register of an axis. -/
def Axis.regH : Axis → Nat
  | .x => I3G4250D_INT1_TSH_XH
  | .y => I3G4250D_INT1_TSH_YH
  | .z => I3G4250D_INT1_TSH_ZH

/-- Address of the low threshold register of an axis. -/
def Axis.regL : Axis → Nat
  | .x => I3G4250D_INT1_TSH_XL
  | .y => I3G4250D_INT1_TSH_YL
  | .z => I3G4250D_INT1_TSH_ZL

/-- The threshold setter of an axis (`jh`, `jl` are its two uninitialised locals). -/
def Axis.threshold_set {σ : Type} (a : Axis) (ctx : Option (stmdev_ctx_t σ)) (val : Nat)
    (jh jl : Nat) (w : σ) : Int × σ :=
  match a with
  | .x => i3g4250d_int_x_threshold_set ctx val jh jl w
  | .y => i3g4250d_int_y_threshold_set ctx val jh jl w
  | .z => i3g4250d_int_z_threshold_set ctx val jh jl w

/-- The threshold getter of an axis (`val` is the previous content of the output). -/
def Axis.threshold_get {σ : Type} (a : Axis) (ctx : Option (stmdev_ctx_t σ)) (val : Nat)
    (jh jl : Nat) (w : σ) : Int × Nat × σ :=
  match a with
  | .x => i3g4250d_int_x_threshold_get ctx val jh jl w
  | .y => i3g4250d_int_y_threshold_get ctx val jh jl w
  | .z => i3g4250d_int_z_threshold_get ctx val jh jl w

/-- The signed value of a 16-bit pattern `u` (two's complement reading): the words of the
specification for the decoded angular rate, to be compared with the arithmetic of
`i3g4250d_angular_rate_raw_get`. -/
def signed16 (u : Nat) : Int := if u < 32768 then (u : Int) else (u : Int) - 65536

/-- Bit `i` of a natural number, as 0 or 1. -/
def bitAt (n i : Nat) : Nat := n / 2 ^ i % 2

/-! ## Unit conversion (`float_t` arithmetic)

A finite value of a binary floating-point type is the rational it denotes.  The type has
`p` bits of significand and least quantum exponent `emin` (binary32: `p = 24`,
`emin = -149`; `float_t` may be a wider type).  Conversions and arithmetic round to nearest,
ties to even.  Overflow to infinity is not modelled: the exponent has no upper bound. -/

/-- Exponent of the quantum (the unit in the last place) used to round `q`. -/
def quantumExp (p : Nat) (emin : Int) (q : ℚ) : Int :=
  max (Int.log 2 |q| - ((p : Int) - 1)) emin

/-- Nearest integer, ties to even. -/
def roundHalfEven (x : ℚ) : Int :=
  if x - ⌊x⌋ < 1 / 2 then ⌊x⌋
  else if 1 / 2 < x - ⌊x⌋ then ⌊x⌋ + 1
  else if ⌊x⌋ % 2 = 0 then ⌊x⌋ else ⌊x⌋ + 1

/-- Rounding of a rational to the floating-point type `(p, emin)`. -/
def fround (p : Nat) (emin : Int) (q : ℚ) : ℚ :=
  (roundHalfEven (q / (2 : ℚ) ^ quantumExp p emin q) : ℚ) * (2 : ℚ) ^ quantumExp p emin q

/-- Source: `i3g4250d_from_fs245dps_to_mdps`, `(float_t)lsb * 8.75f`, with `float_t` the
type `(p, emin)`; the constant `8.75f` is a binary32 literal. -/
def i3g4250d_from_fs245dps_to_mdps (p : Nat) (emin : Int) (lsb : Int) : ℚ :=
  fround p emin (fround p emin (lsb : ℚ) * fround p emin (fround 24 (-149) (875 / 100)))

/-- Source: `i3g4250d_from_lsb_to_celsius`, `(float_t)lsb + 25.0f`. -/
def i3g4250d_from_lsb_to_celsius (p : Nat) (emin : Int) (lsb : Int) : ℚ :=
  fround p emin (fround p emin (lsb : ℚ) + fround p emin (fround 24 (-149) 25))

/-! ## A one-register world, used to name the byte a setter writes and the value a getter
returns as functions of the byte read -/

/-- One-register world: the state is the byte of the only register; never fails. -/
def Cell.ctx : stmdev_ctx_t Nat :=
  { write_reg := fun _ _ data _ _ => (0, data.getD 0 0),
    read_reg := fun _ _ _ _ b => (0, [b], b),
    mdelay := none, handle := 0, priv_data := 0 }

/-- The byte the setter of a call writes back when it has read `b`. -/
def RmwCall.newByte (c : RmwCall) (b : Nat) : Nat := (c.run (some Cell.ctx) 0 b).2

/-- The value the getter of a setting returns when it has read `b`. -/
def Setting.decode (s : Setting) (b : Nat) : Nat := (s.get (some Cell.ctx) 0 b).2.1

/-! ## The operations of the driver, as tables over the functions above -/

/-- The getters that read one register: everything named `*_get` except the three threshold
getters and `i3g4250d_angular_rate_raw_get`. -/
inductive Getter where
  | enum (s : Setting)
  | status_reg | flag_data_ready | temperature_raw | device_id | boot | hp_reference_value
  | pin_int1_route | pin_int2_route | int_on_threshold_conf | int_on_threshold_src
  | int_on_threshold_dur | fifo_enable | fifo_watermark | fifo_data_level | fifo_empty_flag
  | fifo_ovr_flag | fifo_wtm_flag
  deriving DecidableEq

/-- The register a single-register getter reads. -/
def Getter.reg : Getter → Nat
  | .enum s => s.reg
  | .status_reg => I3G4250D_STATUS_REG
  | .flag_data_ready => I3G4250D_STATUS_REG
  | .temperature_raw => I3G4250D_OUT_TEMP
  | .device_id => I3G4250D_WHO_AM_I
  | .boot => I3G4250D_CTRL_REG5
  | .hp_reference_value => I3G4250D_REFERENCE
  | .pin_int1_route => I3G4250D_CTRL_REG3
  | .pin_int2_route => I3G4250D_CTRL_REG3
  | .int_on_threshold_conf => I3G4250D_INT1_CFG
  | .int_on_threshold_src => I3G4250D_INT1_SRC
  | .int_on_threshold_dur => I3G4250D_INT1_DURATION
  | .fifo_enable => I3G4250D_CTRL_REG5
  | .fifo_watermark => I3G4250D_FIFO_CTRL_REG
  | .fifo_data_level => I3G4250D_FIFO_SRC_REG
  | .fifo_empty_flag => I3G4250D_FIFO_SRC_REG
  | .fifo_ovr_flag => I3G4250D_FIFO_SRC_REG
  | .fifo_wtm_flag => I3G4250D_FIFO_SRC_REG

/-- Status and world after a single-register getter; the value it delivers is dropped
(`junk` is the initial content of the byte the getter reads into). -/
def Getter.run {σ : Type} (g : Getter) (ctx : Option (stmdev_ctx_t σ)) (junk : Nat) (w : σ) :
    Int × σ :=
  match g with
  | .enum s => ((s.get ctx junk w).1, (s.get ctx junk w).2.2)
  | .status_reg =>
      ((i3g4250d_status_reg_get ctx junk w).1, (i3g4250d_status_reg_get ctx junk w).2.2)
  | .flag_data_ready =>
      ((i3g4250d_flag_data_ready_get ctx junk w).1,
       (i3g4250d_flag_data_ready_get ctx junk w).2.2)
  | .temperature_raw =>
      ((i3g4250d_temperature_raw_get ctx junk w).1,
       (i3g4250d_temperature_raw_get ctx junk w).2.2)
  | .device_id =>
      ((i3g4250d_device_id_get ctx junk w).1, (i3g4250d_device_id_get ctx junk w).2.2)
  | .boot => ((i3g4250d_boot_get ctx junk w).1, (i3g4250d_boot_get ctx junk w).2.2)
  | .hp_reference_value =>
      ((i3g4250d_hp_reference_value_get ctx junk w).1,
       (i3g4250d_hp_reference_value_get ctx junk w).2.2)
  | .pin_int1_route =>
      ((i3g4250d_pin_int1_route_get ctx junk w).1,
       (i3g4250d_pin_int1_route_get ctx junk w).2.2)
  | .pin_int2_route =>
      ((i3g4250d_pin_int2_route_get ctx junk w).1,
       (i3g4250d_pin_int2_route_get ctx junk w).2.2)
  | .int_on_threshold_conf =>
      ((i3g4250d_int_on_threshold_conf_get ctx junk w).1,
       (i3g4250d_int_on_threshold_conf_get ctx junk w).2.2)
  | .int_on_threshold_src =>
      ((i3g4250d_int_on_threshold_src_get ctx junk w).1,
       (i3g4250d_int_on_threshold_src_get ctx junk w).2.2)
  | .int_on_threshold_dur =>
      ((i3g4250d_int_on_threshold_dur_get ctx junk w).1,
       (i3g4250d_int_on_threshold_dur_get ctx junk w).2.2)
  | .fifo_enable =>
      ((i3g4250d_fifo_enable_get ctx junk w).1, (i3g4250d_fifo_enable_get ctx junk w).2.2)
  | .fifo_watermark =>
      ((i3g4250d_fifo_watermark_get ctx junk w).1,
       (i3g4250d_fifo_watermark_get ctx junk w).2.2)
  | .fifo_data_level =>
      ((i3g4250d_fifo_data_level_get ctx junk w).1,
       (i3g4250d_fifo_data_level_get ctx junk w).2.2)
  | .fifo_empty_flag =>
      ((i3g4250d_fifo_empty_flag_get ctx junk w).1,
       (i3g4250d_fifo_empty_flag_get ctx junk w).2.2)
  | .fifo_ovr_flag =>
      ((i3g4250d_fifo_ovr_flag_get ctx junk w).1,
       (i3g4250d_fifo_ovr_flag_get ctx junk w).2.2)
  | .fifo_wtm_flag =>
      ((i3g4250d_fifo_wtm_flag_get ctx junk w).1,
       (i3g4250d_fifo_wtm_flag_get ctx junk w).2.2)

/-- A call of an operation of the driver that talks to the transport, with its arguments and
the initial content of its uninitialised locals. -/
inductive Op where
  | read_reg (reg : Nat) (data : List Nat) (len : Nat)
  | write_reg (reg : Nat) (data : List Nat) (len : Nat)
  | rmw (c : RmwCall) (junk : Nat)
  | threshold_set (a : Axis) (val jh jl : Nat)
  | int_on_threshold_conf_set (val : i3g4250d_int1_cfg_t)
  | get (g : Getter) (junk : Nat)
  | threshold_get (a : Axis) (val jh jl : Nat)
  | angular_rate_raw_get (buff : List Nat)

/-- Status and world after an operation; a value it delivers is dropped. -/
def Op.run {σ : Type} (o : Op) (ctx : Option (stmdev_ctx_t σ)) (w : σ) : Int × σ :=
  match o with
  | .read_reg reg data len =>
      ((i3g4250d_read_reg ctx reg data len w).1, (i3g4250d_read_reg ctx reg data len w).2.2)
  | .write_reg reg data len => i3g4250d_write_reg ctx reg data len w
  | .rmw c junk => c.run ctx junk w
  | .threshold_set a val jh jl => a.threshold_set ctx val jh jl w
  | .int_on_threshold_conf_set val => i3g4250d_int_on_threshold_conf_set ctx val w
  | .get g junk => g.run ctx junk w
  | .threshold_get a val jh jl =>
      ((a.threshold_get ctx val jh jl w).1, (a.threshold_get ctx val jh jl w).2.2)
  | .angular_rate_raw_get buff =>
      ((i3g4250d_angular_rate_raw_get ctx buff w).1,
       (i3g4250d_angular_rate_raw_get ctx buff w).2.2)

/-- The setters: every function named `*_set`. -/
def Op.isSetter : Op → Bool
  | .rmw _ _ => true
  | .threshold_set _ _ _ _ => true
  | .int_on_threshold_conf_set _ => true
  | _ => false

/-- The getters: every function named `*_get`. -/
def Op.isGetter : Op → Bool
  | .get _ _ => true
  | .threshold_get _ _ _ _ => true
  | .angular_rate_raw_get _ => true
  | _ => false

/-! ## Vocabulary for call logs -/

/-- Address a call writes to, if it is a write. -/
def Call.writeAddr : Call → Option Nat
  | .write _ reg _ _ => some reg
  | .read _ _ _ _ => none

/-- Whether a call is a read that starts at address `a`. -/
def Call.isReadAt (a : Nat) : Call → Bool
  | .read _ reg _ _ => reg == a
  | .write _ _ _ _ => false

/-- Every write in `calls` comes after a read of the same address that returned status 0;
`st k` is the status of the k-th call of the list (counted from 0). -/
def readFirst (st : Nat → Int) (calls : List Call) : Bool :=
  (List.range calls.length).all fun i =>
    match (calls.getD i (Call.read 0 0 [] 0)).writeAddr with
    | none => true
    | some a => (List.range i).any fun j =>
        decide (st j = 0) && (calls.getD j (Call.write 0 0 [] 0)).isReadAt a

/-! ## Renaming of register addresses in calls -/

/-- The threshold addresses of the X axis renamed into those of axis `a`; other addresses
stay. -/
def Axis.rename (a : Axis) (addr : Nat) : Nat :=
  if addr = I3G4250D_INT1_TSH_XH then a.regH
  else if addr = I3G4250D_INT1_TSH_XL then a.regL
  else addr

/-- A call with its register address renamed by `f`. -/
def Call.rename (f : Nat → Nat) : Call → Call
  | .read handle reg data len => .read handle (f reg) data len
  | .write handle reg data len => .write handle (f reg) data len

/-! ## Sequences of setter calls -/

/-- Runs the setters of a list of calls one after the other, each on the world left by the
one before (`junk` is the uninitialised local of each); gives the statuses in order and the
final world. -/
def RmwCall.runAll {σ : Type} (cs : List RmwCall) (ctx : Option (stmdev_ctx_t σ)) (junk : Nat)
    (w : σ) : List Int × σ :=
  cs.foldl (fun acc c => (acc.1 ++ [(c.run ctx junk acc.2).1], (c.run ctx junk acc.2).2))
    ([], w)

/-- A call of `i3g4250d_filter_path_set` or of `i3g4250d_filter_path_internal_set`. -/
def RmwCall.isFilterPath : RmwCall → Bool
  | .enum .filter_path _ => true
  | .enum .filter_path_internal _ => true
  | _ => false

/-! ## Address and length of a call -/

/-- Register address a call starts at. -/
def Call.addr : Call → Nat
  | .read _ reg _ _ => reg
  | .write _ reg _ _ => reg

/-- Number of bytes a call transfers. -/
def Call.len : Call → Nat
  | .read _ _ _ len => len
  | .write _ _ _ len => len

/-! ## Bit-field layouts of the header

Every register struct of the header is written twice, once for each value of
`DRV_BYTE_ORDER`.  The two member lists are kept here as data; `placeUp` and `placeDown` are
the two ways of allocating the members of a list to the bits of a byte. -/

/-- A bit-field struct of the header with its two `DRV_BYTE_ORDER` branches: the members
(name, width) of each branch in the order they are written. -/
structure BitLayout where
  name : String
  little : List (String × Nat)
  big : List (String × Nat)
  deriving DecidableEq

/-- Source: the two branches of `bitwise_t`. -/
def bitwise_t.layout : BitLayout :=
  { name := "bitwise_t",
    little := [("bit0", 1), ("bit1", 1), ("bit2", 1), ("bit3", 1), ("bit4", 1), ("bit5", 1), ("bit6", 1), ("bit7", 1)],
    big := [("bit7", 1), ("bit6", 1), ("bit5", 1), ("bit4", 1), ("bit3", 1), ("bit2", 1), ("bit1", 1), ("bit0", 1)] }

/-- Source: the two branches of `i3g4250d_ctrl_reg1_t`. -/
def i3g4250d_ctrl_reg1_t.layout : BitLayout :=
  { name := "i3g4250d_ctrl_reg1_t",
    little := [("pd", 4), ("bw", 2), ("dr", 2)],
    big := [("dr", 2), ("bw", 2), ("pd", 4)] }

/-- Source: the two branches of `i3g4250d_ctrl_reg2_t`. -/
def i3g4250d_ctrl_reg2_t.layout : BitLayout :=
  { name := "i3g4250d_ctrl_reg2_t",
    little := [("hpcf", 4), ("hpm", 2), ("not_used_01", 2)],
    big := [("not_used_01", 2), ("hpm", 2), ("hpcf", 4)] }

/-- Source: the two branches of `i3g4250d_ctrl_reg3_t`. -/
def i3g4250d_ctrl_reg3_t.layout : BitLayout :=
  { name := "i3g4250d_ctrl_reg3_t",
    little := [("i2_empty", 1), ("i2_orun", 1), ("i2_wtm", 1), ("i2_drdy", 1), ("pp_od", 1), ("h_lactive", 1), ("i1_boot", 1), ("i1_int1", 1)],
    big := [("i1_int1", 1), ("i1_boot", 1), ("h_lactive", 1), ("pp_od", 1), ("i2_drdy", 1), ("i2_wtm", 1), ("i2_orun", 1), ("i2_empty", 1)] }

/-- Source: the two branches of `i3g4250d_ctrl_reg4_t`. -/
def i3g4250d_ctrl_reg4_t.layout : BitLayout :=
  { name := "i3g4250d_ctrl_reg4_t",
    little := [("sim", 1), ("st", 2), ("not_used_01", 1), ("fs", 2), ("ble", 1), ("not_used_02", 1)],
    big := [("not_used_02", 1), ("ble", 1), ("fs", 2), ("not_used_01", 1), ("st", 2), ("sim", 1)] }

/-- Source: the two branches of `i3g4250d_ctrl_reg5_t`. -/
def i3g4250d_ctrl_reg5_t.layout : BitLayout :=
  { name := "i3g4250d_ctrl_reg5_t",
    little := [("out_sel", 2), ("int1_sel", 2), ("hpen", 1), ("not_used_01", 1), ("fifo_en", 1), ("boot", 1)],
    big := [("boot", 1), ("fifo_en", 1), ("not_used_01", 1), ("hpen", 1), ("int1_sel", 2), ("out_sel", 2)] }

/-- Source: the two branches of `i3g4250d_status_reg_t`. -/
def i3g4250d_status_reg_t.layout : BitLayout :=
  { name := "i3g4250d_status_reg_t",
    little := [("xda", 1), ("yda", 1), ("zda", 1), ("zyxda", 1), ("_xor", 1), ("yor", 1), ("zor", 1), ("zyxor", 1)],
    big := [("zyxor", 1), ("zor", 1), ("yor", 1), ("_xor", 1), ("zyxda", 1), ("zda", 1), ("yda", 1), ("xda", 1)] }

/-- Source: the two branches of `i3g4250d_fifo_ctrl_reg_t`. -/
def i3g4250d_fifo_ctrl_reg_t.layout : BitLayout :=
  { name := "i3g4250d_fifo_ctrl_reg_t",
    little := [("wtm", 5), ("fm", 3)],
    big := [("fm", 3), ("wtm", 5)] }

/-- Source: the two branches of `i3g4250d_fifo_src_reg_t`. -/
def i3g4250d_fifo_src_reg_t.layout : BitLayout :=
  { name := "i3g4250d_fifo_src_reg_t",
    little := [("fss", 5), ("empty", 1), ("ovrn", 1), ("wtm", 1)],
    big := [("wtm", 1), ("ovrn", 1), ("empty", 1), ("fss", 5)] }

/-- Source: the two branches of `i3g4250d_int1_cfg_t`. -/
def i3g4250d_int1_cfg_t.layout : BitLayout :=
  { name := "i3g4250d_int1_cfg_t",
    little := [("xlie", 1), ("xhie", 1), ("ylie", 1), ("yhie", 1), ("zlie", 1), ("zhie", 1), ("lir", 1), ("and_or", 1)],
    big := [("and_or", 1), ("lir", 1), ("zhie", 1), ("zlie", 1), ("yhie", 1), ("ylie", 1), ("xhie", 1), ("xlie", 1)] }

/-- Source: the two branches of `i3g4250d_int1_src_t`. -/
def i3g4250d_int1_src_t.layout : BitLayout :=
  { name := "i3g4250d_int1_src_t",
    little := [("xl", 1), ("xh", 1), ("yl", 1), ("yh", 1), ("zl", 1), ("zh", 1), ("ia", 1), ("not_used_01", 1)],
    big := [("not_used_01", 1), ("ia", 1), ("zh", 1), ("zl", 1), ("yh", 1), ("yl", 1), ("xh", 1), ("xl", 1)] }

/-- Source: the two branches of `i3g4250d_int1_tsh_xh_t`. -/
def i3g4250d_int1_tsh_xh_t.layout : BitLayout :=
  { name := "i3g4250d_int1_tsh_xh_t",
    little := [("thsx", 7), ("not_used_01", 1)],
    big := [("not_used_01", 1), ("thsx", 7)] }

/-- Source: the two branches of `i3g4250d_int1_tsh_yh_t`. -/
def i3g4250d_int1_tsh_yh_t.layout : BitLayout :=
  { name := "i3g4250d_int1_tsh_yh_t",
    little := [("thsy", 7), ("not_used_01", 1)],
    big := [("not_used_01", 1), ("thsy", 7)] }

/-- Source: the two branches of `i3g4250d_int1_tsh_zh_t`. -/
def i3g4250d_int1_tsh_zh_t.layout : BitLayout :=
  { name := "i3g4250d_int1_tsh_zh_t",
    little := [("thsz", 7), ("not_used_01", 1)],
    big := [("not_used_01", 1), ("thsz", 7)] }

/-- Source: the two branches of `i3g4250d_int1_duration_t`. -/
def i3g4250d_int1_duration_t.layout : BitLayout :=
  { name := "i3g4250d_int1_duration_t",
    little := [("d", 7), ("wait", 1)],
    big := [("wait", 1), ("d", 7)] }

/-- The structs of the header that have both branches. -/
def headerLayouts : List BitLayout :=
  [bitwise_t.layout,
   i3g4250d_ctrl_reg1_t.layout,
   i3g4250d_ctrl_reg2_t.layout,
   i3g4250d_ctrl_reg3_t.layout,
   i3g4250d_ctrl_reg4_t.layout,
   i3g4250d_ctrl_reg5_t.layout,
   i3g4250d_status_reg_t.layout,
   i3g4250d_fifo_ctrl_reg_t.layout,
   i3g4250d_fifo_src_reg_t.layout,
   i3g4250d_int1_cfg_t.layout,
   i3g4250d_int1_src_t.layout,
   i3g4250d_int1_tsh_xh_t.layout,
   i3g4250d_int1_tsh_yh_t.layout,
   i3g4250d_int1_tsh_zh_t.layout,
   i3g4250d_int1_duration_t.layout]

/-- Position (name, lowest bit, width) of each member when the members are allocated from
bit `low` upwards: the first member takes the least significant bits. -/
def placeUp : List (String × Nat) → Nat → List (String × Nat × Nat)
  | [], _ => []
  | (n, w) :: rest, low => (n, low, w) :: placeUp rest (low + w)

/-- Position (name, lowest bit, width) of each member when the members are allocated from
bit `top` downwards: the first member takes the most significant bits. -/
def placeDown : List (String × Nat) → Nat → List (String × Nat × Nat)
  | [], _ => []
  | (n, w) :: rest, top => (n, top - w, w) :: placeDown rest (top - w)

/-- The value a byte holds at a position. -/
def fieldAt (b : Nat) (p : String × Nat × Nat) : Nat := b / 2 ^ p.2.1 % 2 ^ p.2.2

/-- The contribution to a byte of a named value stored at a position. -/
def putAt (p : String × Nat × Nat) (m : String × Nat) : Nat := m.2 * 2 ^ p.2.1

/-- The register structs of the header. -/
inductive RegStruct where
  | ctrl_reg1 | ctrl_reg2 | ctrl_reg3 | ctrl_reg4 | ctrl_reg5 | status_reg | fifo_ctrl_reg | fifo_src_reg | int1_cfg | int1_src | int1sh_xh | int1sh_yh | int1sh_zh | int1_duration
  deriving DecidableEq

/-- A value of one of the register structs. -/
inductive RegValue where
  | ctrl_reg1 (r : i3g4250d_ctrl_reg1_t)
  | ctrl_reg2 (r : i3g4250d_ctrl_reg2_t)
  | ctrl_reg3 (r : i3g4250d_ctrl_reg3_t)
  | ctrl_reg4 (r : i3g4250d_ctrl_reg4_t)
  | ctrl_reg5 (r : i3g4250d_ctrl_reg5_t)
  | status_reg (r : i3g4250d_status_reg_t)
  | fifo_ctrl_reg (r : i3g4250d_fifo_ctrl_reg_t)
  | fifo_src_reg (r : i3g4250d_fifo_src_reg_t)
  | int1_cfg (r : i3g4250d_int1_cfg_t)
  | int1_src (r : i3g4250d_int1_src_t)
  | int1sh_xh (r : i3g4250d_int1_tsh_xh_t)
  | int1sh_yh (r : i3g4250d_int1_tsh_yh_t)
  | int1sh_zh (r : i3g4250d_int1_tsh_zh_t)
  | int1_duration (r : i3g4250d_int1_duration_t)

/-- The header layout of a register struct. -/
def RegStruct.layout : RegStruct → BitLayout
  | .ctrl_reg1 => i3g4250d_ctrl_reg1_t.layout
  | .ctrl_reg2 => i3g4250d_ctrl_reg2_t.layout
  | .ctrl_reg3 => i3g4250d_ctrl_reg3_t.layout
  | .ctrl_reg4 => i3g4250d_ctrl_reg4_t.layout
  | .ctrl_reg5 => i3g4250d_ctrl_reg5_t.layout
  | .status_reg => i3g4250d_status_reg_t.layout
  | .fifo_ctrl_reg => i3g4250d_fifo_ctrl_reg_t.layout
  | .fifo_src_reg => i3g4250d_fifo_src_reg_t.layout
  | .int1_cfg => i3g4250d_int1_cfg_t.layout
  | .int1_src => i3g4250d_int1_src_t.layout
  | .int1sh_xh => i3g4250d_int1_tsh_xh_t.layout
  | .int1sh_yh => i3g4250d_int1_tsh_yh_t.layout
  | .int1sh_zh => i3g4250d_int1_tsh_zh_t.layout
  | .int1_duration => i3g4250d_int1_duration_t.layout

/-- The overlay of a byte by a register struct, as the driver does with `(uint8_t *)&reg`. -/
def RegStruct.ofByte : RegStruct → Nat → RegValue
  | .ctrl_reg1, b => .ctrl_reg1 (i3g4250d_ctrl_reg1_t.ofByte b)
  | .ctrl_reg2, b => .ctrl_reg2 (i3g4250d_ctrl_reg2_t.ofByte b)
  | .ctrl_reg3, b => .ctrl_reg3 (i3g4250d_ctrl_reg3_t.ofByte b)
  | .ctrl_reg4, b => .ctrl_reg4 (i3g4250d_ctrl_reg4_t.ofByte b)
  | .ctrl_reg5, b => .ctrl_reg5 (i3g4250d_ctrl_reg5_t.ofByte b)
  | .status_reg, b => .status_reg (i3g4250d_status_reg_t.ofByte b)
  | .fifo_ctrl_reg, b => .fifo_ctrl_reg (i3g4250d_fifo_ctrl_reg_t.ofByte b)
  | .fifo_src_reg, b => .fifo_src_reg (i3g4250d_fifo_src_reg_t.ofByte b)
  | .int1_cfg, b => .int1_cfg (i3g4250d_int1_cfg_t.ofByte b)
  | .int1_src, b => .int1_src (i3g4250d_int1_src_t.ofByte b)
  | .int1sh_xh, b => .int1sh_xh (i3g4250d_int1_tsh_xh_t.ofByte b)
  | .int1sh_yh, b => .int1sh_yh (i3g4250d_int1_tsh_yh_t.ofByte b)
  | .int1sh_zh, b => .int1sh_zh (i3g4250d_int1_tsh_zh_t.ofByte b)
  | .int1_duration, b => .int1_duration (i3g4250d_int1_duration_t.ofByte b)

/-- The byte a register struct value is stored as. -/
def RegValue.toByte : RegValue → Nat
  | .ctrl_reg1 r => r.toByte
  | .ctrl_reg2 r => r.toByte
  | .ctrl_reg3 r => r.toByte
  | .ctrl_reg4 r => r.toByte
  | .ctrl_reg5 r => r.toByte
  | .status_reg r => r.toByte
  | .fifo_ctrl_reg r => r.toByte
  | .fifo_src_reg r => r.toByte
  | .int1_cfg r => r.toByte
  | .int1_src r => r.toByte
  | .int1sh_xh r => r.toByte
  | .int1sh_yh r => r.toByte
  | .int1sh_zh r => r.toByte
  | .int1_duration r => r.toByte

/-- The struct a value belongs to. -/
def RegValue.kind : RegValue → RegStruct
  | .ctrl_reg1 _ => .ctrl_reg1
  | .ctrl_reg2 _ => .ctrl_reg2
  | .ctrl_reg3 _ => .ctrl_reg3
  | .ctrl_reg4 _ => .ctrl_reg4
  | .ctrl_reg5 _ => .ctrl_reg5
  | .status_reg _ => .status_reg
  | .fifo_ctrl_reg _ => .fifo_ctrl_reg
  | .fifo_src_reg _ => .fifo_src_reg
  | .int1_cfg _ => .int1_cfg
  | .int1_src _ => .int1_src
  | .int1sh_xh _ => .int1sh_xh
  | .int1sh_yh _ => .int1sh_yh
  | .int1sh_zh _ => .int1sh_zh
  | .int1_duration _ => .int1_duration

/-- The members of a register struct value, by name, in the order of the little-endian
branch. -/
def RegValue.members : RegValue → List (String × Nat)
  | .ctrl_reg1 r => [("pd", r.pd), ("bw", r.bw), ("dr", r.dr)]
  | .ctrl_reg2 r => [("hpcf", r.hpcf), ("hpm", r.hpm), ("not_used_01", r.not_used_01)]
  | .ctrl_reg3 r => [("i2_empty", r.i2_empty), ("i2_orun", r.i2_orun), ("i2_wtm", r.i2_wtm), ("i2_drdy", r.i2_drdy), ("pp_od", r.pp_od), ("h_lactive", r.h_lactive), ("i1_boot", r.i1_boot), ("i1_int1", r.i1_int1)]
  | .ctrl_reg4 r => [("sim", r.sim), ("st", r.st), ("not_used_01", r.not_used_01), ("fs", r.fs), ("ble", r.ble), ("not_used_02", r.not_used_02)]
  | .ctrl_reg5 r => [("out_sel", r.out_sel), ("int1_sel", r.int1_sel), ("hpen", r.hpen), ("not_used_01", r.not_used_01), ("fifo_en", r.fifo_en), ("boot", r.boot)]
  | .status_reg r => [("xda", r.xda), ("yda", r.yda), ("zda", r.zda), ("zyxda", r.zyxda), ("_xor", r._xor), ("yor", r.yor), ("zor", r.zor), ("zyxor", r.zyxor)]
  | .fifo_ctrl_reg r => [("wtm", r.wtm), ("fm", r.fm)]
  | .fifo_src_reg r => [("fss", r.fss), ("empty", r.empty), ("ovrn", r.ovrn), ("wtm", r.wtm)]
  | .int1_cfg r => [("xlie", r.xlie), ("xhie", r.xhie), ("ylie", r.ylie), ("yhie", r.yhie), ("zlie", r.zlie), ("zhie", r.zhie), ("lir", r.lir), ("and_or", r.and_or)]
  | .int1_src r => [("xl", r.xl), ("xh", r.xh), ("yl", r.yl), ("yh", r.yh), ("zl", r.zl), ("zh", r.zh), ("ia", r.ia), ("not_used_01", r.not_used_01)]
  | .int1sh_xh r => [("thsx", r.thsx), ("not_used_01", r.not_used_01)]
  | .int1sh_yh r => [("thsy", r.thsy), ("not_used_01", r.not_used_01)]
  | .int1sh_zh r => [("thsz", r.thsz), ("not_used_01", r.not_used_01)]
  | .int1_duration r => [("d", r.d), ("wait", r.wait)]

/-! ## Vocabulary for repeated and reordered setter calls -/

/-- The register file a call leaves on the simulated device when the transport never fails. -/
def Op.regsAfter (o : Op) (regs : Nat → Fin 256) : Nat → Fin 256 :=
  (o.run (some (Bus.ctx 0)) ⟨regs, Bus.noFault, []⟩).2.regs

/-- The bits of the register file a call of a setter owns, as pairs of an address and a mask:
a read-modify-write setter the bits of the fields it assigns, a threshold setter bits 0 to 6
of the high register and the whole low register, `i3g4250d_int_on_threshold_conf_set` the
whole of INT1_CFG. -/
def Op.footprint : Op → List (Nat × Nat)
  | .rmw c _ => [(c.reg, c.mask)]
  | .threshold_set a _ _ _ => [(a.regH, 0x7F), (a.regL, 0xFF)]
  | .int_on_threshold_conf_set _ => [(I3G4250D_INT1_CFG, 0xFF)]
  | _ => []

/-- Two calls target different registers or disjoint bits of the same register. -/
def Op.disjoint (o1 o2 : Op) : Bool :=
  o1.footprint.all fun p => o2.footprint.all fun q => p.1 != q.1 || (p.2 &&& q.2 == 0)

/-- The same call of a setter with other initial contents of its uninitialised locals. -/
def Op.withJunk (o : Op) (j1 j2 : Nat) : Op :=
  match o with
  | .rmw c _ => .rmw c j1
  | .threshold_set a val _ _ => .threshold_set a val j1 j2
  | .read_reg reg data len => .read_reg reg data len
  | .write_reg reg data len => .write_reg reg data len
  | .int_on_threshold_conf_set val => .int_on_threshold_conf_set val
  | .get g junk => .get g junk
  | .threshold_get a val jh jl => .threshold_get a val jh jl
  | .angular_rate_raw_get buff => .angular_rate_raw_get buff

/-! ## The transport primitives on the simulated device -/

theorem read1_ok (h reg j : Nat) (regs : Nat → Fin 256) (fault : Nat → Int)
    (trace : List Call) (hf : fault trace.length = 0) :
    i3g4250d_read_reg (some (Bus.ctx h)) reg [j] 1 ⟨regs, fault, trace⟩
      = (0, [(regs reg).val], ⟨regs, fault, trace ++ [Call.read h reg [j] 1]⟩) := by
  simp [i3g4250d_read_reg, Bus.ctx, Bus.read_reg, Bus.burst, hf, List.range, List.range.loop]

theorem read1_fail (h reg j : Nat) (regs : Nat → Fin 256) (fault : Nat → Int)
    (trace : List Call) (hf : fault trace.length ≠ 0) :
    i3g4250d_read_reg (some (Bus.ctx h)) reg [j] 1 ⟨regs, fault, trace⟩
      = (fault trace.length, [j], ⟨regs, fault, trace ++ [Call.read h reg [j] 1]⟩) := by
  simp [i3g4250d_read_reg, Bus.ctx, Bus.read_reg, hf]

theorem store1_eq (regs : Nat → Fin 256) (reg b : Nat) :
    Bus.store regs reg [b] 1 = Function.update regs reg (Fin.ofNat b) := by
  funext a
  simp only [Bus.store, Function.update]
  by_cases ha : a = reg
  · subst ha; simp
  · have hn : ¬ (reg ≤ a ∧ a < reg + 1) := by omega
    simp [ha, hn]

theorem write1_ok (h reg b : Nat) (regs : Nat → Fin 256) (fault : Nat → Int)
    (trace : List Call) (hf : fault trace.length = 0) :
    i3g4250d_write_reg (some (Bus.ctx h)) reg [b] 1 ⟨regs, fault, trace⟩
      = (0, ⟨Function.update regs reg (Fin.ofNat b), fault,
              trace ++ [Call.write h reg [b] 1]⟩) := by
  simp only [i3g4250d_write_reg, Bus.ctx, Bus.write_reg, hf, if_true, store1_eq]

theorem write1_fail (h reg b : Nat) (regs : Nat → Fin 256) (fault : Nat → Int)
    (trace : List Call) (hf : fault trace.length ≠ 0) :
    i3g4250d_write_reg (some (Bus.ctx h)) reg [b] 1 ⟨regs, fault, trace⟩
      = (fault trace.length, ⟨regs, fault, trace ++ [Call.write h reg [b] 1]⟩) := by
  simp [i3g4250d_write_reg, Bus.ctx, Bus.write_reg, hf]

theorem read1_nf (h reg j : Nat) (regs : Nat → Fin 256) (trace : List Call) :
    i3g4250d_read_reg (some (Bus.ctx h)) reg [j] 1 ⟨regs, Bus.noFault, trace⟩
      = (0, [(regs reg).val], ⟨regs, Bus.noFault, trace ++ [Call.read h reg [j] 1]⟩) :=
  read1_ok h reg j regs Bus.noFault trace rfl

theorem write1_nf (h reg b : Nat) (regs : Nat → Fin 256) (trace : List Call) :
    i3g4250d_write_reg (some (Bus.ctx h)) reg [b] 1 ⟨regs, Bus.noFault, trace⟩
      = (0, ⟨Function.update regs reg (Fin.ofNat b), Bus.noFault,
              trace ++ [Call.write h reg [b] 1]⟩) :=
  write1_ok h reg b regs Bus.noFault trace rfl

theorem cell_read (reg j b : Nat) :
    i3g4250d_read_reg (some Cell.ctx) reg [j] 1 b = (0, [b], b) := rfl

theorem cell_write (reg x b : Nat) :
    i3g4250d_write_reg (some Cell.ctx) reg [x] 1 b = (0, x) := rfl

/-! ## The register overlay: `ofByte` after `toByte` gives back the fields -/

theorem ctrl_reg1_ofByte_mod (b : Nat) : i3g4250d_ctrl_reg1_t.ofByte (b % 256) = i3g4250d_ctrl_reg1_t.ofByte b := by
  simp only [i3g4250d_ctrl_reg1_t.ofByte, i3g4250d_ctrl_reg1_t.mk.injEq]
  refine ⟨?_, ?_, ?_⟩ <;> omega

theorem ctrl_reg1_ofByte_byteOf (b : Nat) :
    i3g4250d_ctrl_reg1_t.ofByte (byteOf [b] 0) = ⟨b % 16, b / 16 % 4, b / 64 % 4⟩ := by
  simp only [byteOf, List.getD_cons_zero, ctrl_reg1_ofByte_mod]
  rfl

set_option synthInstance.maxSize 2000 in
set_option synthInstance.maxHeartbeats 200000 in
theorem ctrl_reg1_ofByte_toByte (f0 f1 f2 : Nat) :
    i3g4250d_ctrl_reg1_t.ofByte (i3g4250d_ctrl_reg1_t.toByte ⟨f0 % 16, f1 % 4, f2 % 4⟩) = ⟨f0 % 16, f1 % 4, f2 % 4⟩ := by
  have key : ∀ f0, f0 < 16 → ∀ f1, f1 < 4 → ∀ f2, f2 < 4 →
      i3g4250d_ctrl_reg1_t.ofByte (i3g4250d_ctrl_reg1_t.toByte ⟨f0, f1, f2⟩) = ⟨f0, f1, f2⟩ := by decide!
  exact key _ (Nat.mod_lt _ (by decide)) _ (Nat.mod_lt _ (by decide)) _ (Nat.mod_lt _ (by decide))

theorem ctrl_reg2_ofByte_mod (b : Nat) : i3g4250d_ctrl_reg2_t.ofByte (b % 256) = i3g4250d_ctrl_reg2_t.ofByte b := by
  simp only [i3g4250d_ctrl_reg2_t.ofByte, i3g4250d_ctrl_reg2_t.mk.injEq]
  refine ⟨?_, ?_, ?_⟩ <;> omega

theorem ctrl_reg2_ofByte_byteOf (b : Nat) :
    i3g4250d_ctrl_reg2_t.ofByte (byteOf [b] 0) = ⟨b % 16, b / 16 % 4, b / 64 % 4⟩ := by
  simp only [byteOf, List.getD_cons_zero, ctrl_reg2_ofByte_mod]
  rfl

set_option synthInstance.maxSize 2000 in
set_option synthInstance.maxHeartbeats 200000 in
theorem ctrl_reg2_ofByte_toByte (f0 f1 f2 : Nat) :
    i3g4250d_ctrl_reg2_t.ofByte (i3g4250d_ctrl_reg2_t.toByte ⟨f0 % 16, f1 % 4, f2 % 4⟩) = ⟨f0 % 16, f1 % 4, f2 % 4⟩ := by
  have key : ∀ f0, f0 < 16 → ∀ f1, f1 < 4 → ∀ f2, f2 < 4 →
      i3g4250d_ctrl_reg2_t.ofByte (i3g4250d_ctrl_reg2_t.toByte ⟨f0, f1, f2⟩) = ⟨f0, f1, f2⟩ := by decide!
  exact key _ (Nat.mod_lt _ (by decide)) _ (Nat.mod_lt _ (by decide)) _ (Nat.mod_lt _ (by decide))

theorem ctrl_reg3_ofByte_mod (b : Nat) : i3g4250d_ctrl_reg3_t.ofByte (b % 256) = i3g4250d_ctrl_reg3_t.ofByte b := by
  simp only [i3g4250d_ctrl_reg3_t.ofByte, i3g4250d_ctrl_reg3_t.mk.injEq]
  refine ⟨?_, ?_, ?_, ?_, ?_, ?_, ?_, ?_⟩ <;> omega

theorem ctrl_reg3_ofByte_byteOf (b : Nat) :
    i3g4250d_ctrl_reg3_t.ofByte (byteOf [b] 0) = ⟨b % 2, b / 2 % 2, b / 4 % 2, b / 8 % 2, b / 16 % 2, b / 32 % 2, b / 64 % 2, b / 128 % 2⟩ := by
  simp only [byteOf, List.getD_cons_zero, ctrl_reg3_ofByte_mod]
  rfl

set_option synthInstance.maxSize 2000 in
set_option synthInstance.maxHeartbeats 200000 in
theorem ctrl_reg3_ofByte_toByte (f0 f1 f2 f3 f4 f5 f6 f7 : Nat) :
    i3g4250d_ctrl_reg3_t.ofByte (i3g4250d_ctrl_reg3_t.toByte ⟨f0 % 2, f1 % 2, f2 % 2, f3 % 2, f4 % 2, f5 % 2, f6 % 2, f7 % 2⟩) = ⟨f0 % 2, f1 % 2, f2 % 2, f3 % 2, f4 % 2, f5 % 2, f6 % 2, f7 % 2⟩ := by
  have key : ∀ f0, f0 < 2 → ∀ f1, f1 < 2 → ∀ f2, f2 < 2 → ∀ f3, f3 < 2 → ∀ f4, f4 < 2 → ∀ f5, f5 < 2 → ∀ f6, f6 < 2 → ∀ f7, f7 < 2 →
      i3g4250d_ctrl_reg3_t.ofByte (i3g4250d_ctrl_reg3_t.toByte ⟨f0, f1, f2, f3, f4, f5, f6, f7⟩) = ⟨f0, f1, f2, f3, f4, f5, f6, f7⟩ := by decide!
  exact key _ (Nat.mod_lt _ (by decide)) _ (Nat.mod_lt _ (by decide)) _ (Nat.mod_lt _ (by decide)) _ (Nat.mod_lt _ (by decide)) _ (Nat.mod_lt _ (by decide)) _ (Nat.mod_lt _ (by decide)) _ (Nat.mod_lt _ (by decide)) _ (Nat.mod_lt _ (by decide))

theorem ctrl_reg4_ofByte_mod (b : Nat) : i3g4250d_ctrl_reg4_t.ofByte (b % 256) = i3g4250d_ctrl_reg4_t.ofByte b := by
  simp only [i3g4250d_ctrl_reg4_t.ofByte, i3g4250d_ctrl_reg4_t.mk.injEq]
  refine ⟨?_, ?_, ?_, ?_, ?_, ?_⟩ <;> omega

theorem ctrl_reg4_ofByte_byteOf (b : Nat) :
    i3g4250d_ctrl_reg4_t.ofByte (byteOf [b] 0) = ⟨b % 2, b / 2 % 4, b / 8 % 2, b / 16 % 4, b / 64 % 2, b / 128 % 2⟩ := by
  simp only [byteOf, List.getD_cons_zero, ctrl_reg4_ofByte_mod]
  rfl

set_option synthInstance.maxSize 2000 in
set_option synthInstance.maxHeartbeats 200000 in
theorem ctrl_reg4_ofByte_toByte (f0 f1 f2 f3 f4 f5 : Nat) :
    i3g4250d_ctrl_reg4_t.ofByte (i3g4250d_ctrl_reg4_t.toByte ⟨f0 % 2, f1 % 4, f2 % 2, f3 % 4, f4 % 2, f5 % 2⟩) = ⟨f0 % 2, f1 % 4, f2 % 2, f3 % 4, f4 % 2, f5 % 2⟩ := by
  have key : ∀ f0, f0 < 2 → ∀ f1, f1 < 4 → ∀ f2, f2 < 2 → ∀ f3, f3 < 4 → ∀ f4, f4 < 2 → ∀ f5, f5 < 2 →
      i3g4250d_ctrl_reg4_t.ofByte (i3g4250d_ctrl_reg4_t.toByte ⟨f0, f1, f2, f3, f4, f5⟩) = ⟨f0, f1, f2, f3, f4, f5⟩ := by decide!
  exact key _ (Nat.mod_lt _ (by decide)) _ (Nat.mod_lt _ (by decide)) _ (Nat.mod_lt _ (by decide)) _ (Nat.mod_lt _ (by decide)) _ (Nat.mod_lt _ (by decide)) _ (Nat.mod_lt _ (by decide))

theorem ctrl_reg5_ofByte_mod (b : Nat) : i3g4250d_ctrl_reg5_t.ofByte (b % 256) = i3g4250d_ctrl_reg5_t.ofByte b := by
  simp only [i3g4250d_ctrl_reg5_t.ofByte, i3g4250d_ctrl_reg5_t.mk.injEq]
  refine ⟨?_, ?_, ?_, ?_, ?_, ?_⟩ <;> omega

theorem ctrl_reg5_ofByte_byteOf (b : Nat) :
    i3g4250d_ctrl_reg5_t.ofByte (byteOf [b] 0) = ⟨b % 4, b / 4 % 4, b / 16 % 2, b / 32 % 2, b / 64 % 2, b / 128 % 2⟩ := by
  simp only [byteOf, List.getD_cons_zero, ctrl_reg5_ofByte_mod]
  rfl

set_option synthInstance.maxSize 2000 in
set_option synthInstance.maxHeartbeats 200000 in
theorem ctrl_reg5_ofByte_toByte (f0 f1 f2 f3 f4 f5 : Nat) :
    i3g4250d_ctrl_reg5_t.ofByte (i3g4250d_ctrl_reg5_t.toByte ⟨f0 % 4, f1 % 4, f2 % 2, f3 % 2, f4 % 2, f5 % 2⟩) = ⟨f0 % 4, f1 % 4, f2 % 2, f3 % 2, f4 % 2, f5 % 2⟩ := by
  have key : ∀ f0, f0 < 4 → ∀ f1, f1 < 4 → ∀ f2, f2 < 2 → ∀ f3, f3 < 2 → ∀ f4, f4 < 2 → ∀ f5, f5 < 2 →
      i3g4250d_ctrl_reg5_t.ofByte (i3g4250d_ctrl_reg5_t.toByte ⟨f0, f1, f2, f3, f4, f5⟩) = ⟨f0, f1, f2, f3, f4, f5⟩ := by decide!
  exact key _ (Nat.mod_lt _ (by decide)) _ (Nat.mod_lt _ (by decide)) _ (Nat.mod_lt _ (by decide)) _ (Nat.mod_lt _ (by decide)) _ (Nat.mod_lt _ (by decide)) _ (Nat.mod_lt _ (by decide))

theorem reference_ofByte_mod (b : Nat) : i3g4250d_reference_t.ofByte (b % 256) = i3g4250d_reference_t.ofByte b := by
  simp only [i3g4250d_reference_t.ofByte, i3g4250d_reference_t.mk.injEq]
  omega

theorem reference_ofByte_byteOf (b : Nat) :
    i3g4250d_reference_t.ofByte (byteOf [b] 0) = ⟨b % 256⟩ := by
  simp only [byteOf, List.getD_cons_zero, reference_ofByte_mod]
  rfl

theorem reference_ofByte_toByte (f0 : Nat) :
    i3g4250d_reference_t.ofByte (i3g4250d_reference_t.toByte ⟨f0 % 256⟩) = ⟨f0 % 256⟩ := by
  simp only [i3g4250d_reference_t.ofByte, i3g4250d_reference_t.toByte, Nat.mod_mod]

theorem fifo_ctrl_reg_ofByte_mod (b : Nat) : i3g4250d_fifo_ctrl_reg_t.ofByte (b % 256) = i3g4250d_fifo_ctrl_reg_t.ofByte b := by
  simp only [i3g4250d_fifo_ctrl_reg_t.ofByte, i3g4250d_fifo_ctrl_reg_t.mk.injEq]
  refine ⟨?_, ?_⟩ <;> omega

theorem fifo_ctrl_reg_ofByte_byteOf (b : Nat) :
    i3g4250d_fifo_ctrl_reg_t.ofByte (byteOf [b] 0) = ⟨b % 32, b / 32 % 8⟩ := by
  simp only [byteOf, List.getD_cons_zero, fifo_ctrl_reg_ofByte_mod]
  rfl

set_option synthInstance.maxSize 2000 in
set_option synthInstance.maxHeartbeats 200000 in
theorem fifo_ctrl_reg_ofByte_toByte (f0 f1 : Nat) :
    i3g4250d_fifo_ctrl_reg_t.ofByte (i3g4250d_fifo_ctrl_reg_t.toByte ⟨f0 % 32, f1 % 8⟩) = ⟨f0 % 32, f1 % 8⟩ := by
  have key : ∀ f0, f0 < 32 → ∀ f1, f1 < 8 →
      i3g4250d_fifo_ctrl_reg_t.ofByte (i3g4250d_fifo_ctrl_reg_t.toByte ⟨f0, f1⟩) = ⟨f0, f1⟩ := by decide!
  exact key _ (Nat.mod_lt _ (by decide)) _ (Nat.mod_lt _ (by decide))

theorem int1_cfg_ofByte_mod (b : Nat) : i3g4250d_int1_cfg_t.ofByte (b % 256) = i3g4250d_int1_cfg_t.ofByte b := by
  simp only [i3g4250d_int1_cfg_t.ofByte, i3g4250d_int1_cfg_t.mk.injEq]
  refine ⟨?_, ?_, ?_, ?_, ?_, ?_, ?_, ?_⟩ <;> omega

theorem int1_cfg_ofByte_byteOf (b : Nat) :
    i3g4250d_int1_cfg_t.ofByte (byteOf [b] 0) = ⟨b % 2, b / 2 % 2, b / 4 % 2, b / 8 % 2, b / 16 % 2, b / 32 % 2, b / 64 % 2, b / 128 % 2⟩ := by
  simp only [byteOf, List.getD_cons_zero, int1_cfg_ofByte_mod]
  rfl

set_option synthInstance.maxSize 2000 in
set_option synthInstance.maxHeartbeats 200000 in
theorem int1_cfg_ofByte_toByte (f0 f1 f2 f3 f4 f5 f6 f7 : Nat) :
    i3g4250d_int1_cfg_t.ofByte (i3g4250d_int1_cfg_t.toByte ⟨f0 % 2, f1 % 2, f2 % 2, f3 % 2, f4 % 2, f5 % 2, f6 % 2, f7 % 2⟩) = ⟨f0 % 2, f1 % 2, f2 % 2, f3 % 2, f4 % 2, f5 % 2, f6 % 2, f7 % 2⟩ := by
  have key : ∀ f0, f0 < 2 → ∀ f1, f1 < 2 → ∀ f2, f2 < 2 → ∀ f3, f3 < 2 → ∀ f4, f4 < 2 → ∀ f5, f5 < 2 → ∀ f6, f6 < 2 → ∀ f7, f7 < 2 →
      i3g4250d_int1_cfg_t.ofByte (i3g4250d_int1_cfg_t.toByte ⟨f0, f1, f2, f3, f4, f5, f6, f7⟩) = ⟨f0, f1, f2, f3, f4, f5, f6, f7⟩ := by decide!
  exact key _ (Nat.mod_lt _ (by decide)) _ (Nat.mod_lt _ (by decide)) _ (Nat.mod_lt _ (by decide)) _ (Nat.mod_lt _ (by decide)) _ (Nat.mod_lt _ (by decide)) _ (Nat.mod_lt _ (by decide)) _ (Nat.mod_lt _ (by decide)) _ (Nat.mod_lt _ (by decide))

theorem int1_tsh_xh_ofByte_mod (b : Nat) : i3g4250d_int1_tsh_xh_t.ofByte (b % 256) = i3g4250d_int1_tsh_xh_t.ofByte b := by
  simp only [i3g4250d_int1_tsh_xh_t.ofByte, i3g4250d_int1_tsh_xh_t.mk.injEq]
  refine ⟨?_, ?_⟩ <;> omega

theorem int1_tsh_xh_ofByte_byteOf (b : Nat) :
    i3g4250d_int1_tsh_xh_t.ofByte (byteOf [b] 0) = ⟨b % 128, b / 128 % 2⟩ := by
  simp only [byteOf, List.getD_cons_zero, int1_tsh_xh_ofByte_mod]
  rfl

theorem int1_tsh_xl_ofByte_mod (b : Nat) : i3g4250d_int1_tsh_xl_t.ofByte (b % 256) = i3g4250d_int1_tsh_xl_t.ofByte b := by
  simp only [i3g4250d_int1_tsh_xl_t.ofByte, i3g4250d_int1_tsh_xl_t.mk.injEq]
  omega

theorem int1_tsh_xl_ofByte_byteOf (b : Nat) :
    i3g4250d_int1_tsh_xl_t.ofByte (byteOf [b] 0) = ⟨b % 256⟩ := by
  simp only [byteOf, List.getD_cons_zero, int1_tsh_xl_ofByte_mod]
  rfl

theorem int1_tsh_yh_ofByte_mod (b : Nat) : i3g4250d_int1_tsh_yh_t.ofByte (b % 256) = i3g4250d_int1_tsh_yh_t.ofByte b := by
  simp only [i3g4250d_int1_tsh_yh_t.ofByte, i3g4250d_int1_tsh_yh_t.mk.injEq]
  refine ⟨?_, ?_⟩ <;> omega

theorem int1_tsh_yh_ofByte_byteOf (b : Nat) :
    i3g4250d_int1_tsh_yh_t.ofByte (byteOf [b] 0) = ⟨b % 128, b / 128 % 2⟩ := by
  simp only [byteOf, List.getD_cons_zero, int1_tsh_yh_ofByte_mod]
  rfl

theorem int1_tsh_yl_ofByte_mod (b : Nat) : i3g4250d_int1_tsh_yl_t.ofByte (b % 256) = i3g4250d_int1_tsh_yl_t.ofByte b := by
  simp only [i3g4250d_int1_tsh_yl_t.ofByte, i3g4250d_int1_tsh_yl_t.mk.injEq]
  omega

theorem int1_tsh_yl_ofByte_byteOf (b : Nat) :
    i3g4250d_int1_tsh_yl_t.ofByte (byteOf [b] 0) = ⟨b % 256⟩ := by
  simp only [byteOf, List.getD_cons_zero, int1_tsh_yl_ofByte_mod]
  rfl

theorem int1_tsh_zh_ofByte_mod (b : Nat) : i3g4250d_int1_tsh_zh_t.ofByte (b % 256) = i3g4250d_int1_tsh_zh_t.ofByte b := by
  simp only [i3g4250d_int1_tsh_zh_t.ofByte, i3g4250d_int1_tsh_zh_t.mk.injEq]
  refine ⟨?_, ?_⟩ <;> omega

theorem int1_tsh_zh_ofByte_byteOf (b : Nat) :
    i3g4250d_int1_tsh_zh_t.ofByte (byteOf [b] 0) = ⟨b % 128, b / 128 % 2⟩ := by
  simp only [byteOf, List.getD_cons_zero, int1_tsh_zh_ofByte_mod]
  rfl

theorem int1_tsh_zl_ofByte_mod (b : Nat) : i3g4250d_int1_tsh_zl_t.ofByte (b % 256) = i3g4250d_int1_tsh_zl_t.ofByte b := by
  simp only [i3g4250d_int1_tsh_zl_t.ofByte, i3g4250d_int1_tsh_zl_t.mk.injEq]
  omega

theorem int1_tsh_zl_ofByte_byteOf (b : Nat) :
    i3g4250d_int1_tsh_zl_t.ofByte (byteOf [b] 0) = ⟨b % 256⟩ := by
  simp only [byteOf, List.getD_cons_zero, int1_tsh_zl_ofByte_mod]
  rfl

theorem int1_duration_ofByte_mod (b : Nat) : i3g4250d_int1_duration_t.ofByte (b % 256) = i3g4250d_int1_duration_t.ofByte b := by
  simp only [i3g4250d_int1_duration_t.ofByte, i3g4250d_int1_duration_t.mk.injEq]
  refine ⟨?_, ?_⟩ <;> omega

theorem int1_duration_ofByte_byteOf (b : Nat) :
    i3g4250d_int1_duration_t.ofByte (byteOf [b] 0) = ⟨b % 128, b / 128 % 2⟩ := by
  simp only [byteOf, List.getD_cons_zero, int1_duration_ofByte_mod]
  rfl

set_option synthInstance.maxSize 2000 in
set_option synthInstance.maxHeartbeats 200000 in
theorem int1_duration_ofByte_toByte (f0 f1 : Nat) :
    i3g4250d_int1_duration_t.ofByte (i3g4250d_int1_duration_t.toByte ⟨f0 % 128, f1 % 2⟩) = ⟨f0 % 128, f1 % 2⟩ := by
  have key : ∀ f0, f0 < 128 → ∀ f1, f1 < 2 →
      i3g4250d_int1_duration_t.ofByte (i3g4250d_int1_duration_t.toByte ⟨f0, f1⟩) = ⟨f0, f1⟩ := by decide!
  exact key _ (Nat.mod_lt _ (by decide)) _ (Nat.mod_lt _ (by decide))

/-! ## Setters and getters on the simulated device -/

theorem RmwCall.run_ok (c : RmwCall) (h j : Nat) (regs : Nat → Fin 256) (fault : Nat → Int)
    (trace : List Call) (hf1 : fault trace.length = 0) (hf2 : fault (trace.length + 1) = 0) :
    c.run (some (Bus.ctx h)) j ⟨regs, fault, trace⟩
      = (0, ⟨Function.update regs c.reg (Fin.ofNat (c.newByte (regs c.reg))), fault,
             trace ++ [Call.read h c.reg [j] 1,
                       Call.write h c.reg [c.newByte (regs c.reg)] 1]⟩) := by
  have hf3 : ∀ x : Call, fault (trace ++ [x]).length = 0 := by
    intro x; simpa using hf2
  rcases c with ⟨s, val⟩ | val | val | val | val | val | val | val
  · cases s <;>
      simp only [RmwCall.newByte, RmwCall.reg, Setting.reg, Setting.set, Setting.get, RmwCall.run, i3g4250d_data_rate_set, i3g4250d_data_rate_get,
    i3g4250d_full_scale_set, i3g4250d_full_scale_get, i3g4250d_self_test_set,
    i3g4250d_self_test_get, i3g4250d_data_format_set, i3g4250d_data_format_get,
    i3g4250d_lp_bandwidth_set, i3g4250d_lp_bandwidth_get, i3g4250d_hp_bandwidth_set,
    i3g4250d_hp_bandwidth_get, i3g4250d_hp_mode_set, i3g4250d_hp_mode_get,
    i3g4250d_filter_path_set, i3g4250d_filter_path_get, i3g4250d_filter_path_internal_set,
    i3g4250d_filter_path_internal_get, i3g4250d_spi_mode_set, i3g4250d_spi_mode_get,
    i3g4250d_pin_mode_set, i3g4250d_pin_mode_get, i3g4250d_pin_polarity_set,
    i3g4250d_pin_polarity_get, i3g4250d_int_notification_set, i3g4250d_int_notification_get,
    i3g4250d_int_on_threshold_mode_set, i3g4250d_int_on_threshold_mode_get,
    i3g4250d_fifo_mode_set, i3g4250d_fifo_mode_get, i3g4250d_boot_set,
    i3g4250d_hp_reference_value_set, i3g4250d_pin_int1_route_set, i3g4250d_pin_int2_route_set,
    i3g4250d_int_on_threshold_dur_set, i3g4250d_fifo_enable_set, i3g4250d_fifo_watermark_set,
        read1_ok _ _ _ _ _ _ hf1, write1_ok _ _ _ _ _ _ (hf3 _), cell_read, cell_write,
        if_true, List.append_assoc, List.singleton_append]
  all_goals
    simp only [RmwCall.newByte, RmwCall.reg, Setting.reg, Setting.set, Setting.get, RmwCall.run, i3g4250d_data_rate_set, i3g4250d_data_rate_get,
    i3g4250d_full_scale_set, i3g4250d_full_scale_get, i3g4250d_self_test_set,
    i3g4250d_self_test_get, i3g4250d_data_format_set, i3g4250d_data_format_get,
    i3g4250d_lp_bandwidth_set, i3g4250d_lp_bandwidth_get, i3g4250d_hp_bandwidth_set,
    i3g4250d_hp_bandwidth_get, i3g4250d_hp_mode_set, i3g4250d_hp_mode_get,
    i3g4250d_filter_path_set, i3g4250d_filter_path_get, i3g4250d_filter_path_internal_set,
    i3g4250d_filter_path_internal_get, i3g4250d_spi_mode_set, i3g4250d_spi_mode_get,
    i3g4250d_pin_mode_set, i3g4250d_pin_mode_get, i3g4250d_pin_polarity_set,
    i3g4250d_pin_polarity_get, i3g4250d_int_notification_set, i3g4250d_int_notification_get,
    i3g4250d_int_on_threshold_mode_set, i3g4250d_int_on_threshold_mode_get,
    i3g4250d_fifo_mode_set, i3g4250d_fifo_mode_get, i3g4250d_boot_set,
    i3g4250d_hp_reference_value_set, i3g4250d_pin_int1_route_set, i3g4250d_pin_int2_route_set,
    i3g4250d_int_on_threshold_dur_set, i3g4250d_fifo_enable_set, i3g4250d_fifo_watermark_set,
      read1_ok _ _ _ _ _ _ hf1, write1_ok _ _ _ _ _ _ (hf3 _), cell_read, cell_write,
      if_true, List.append_assoc, List.singleton_append]

theorem Setting.get_ok (s : Setting) (h j : Nat) (regs : Nat → Fin 256) (fault : Nat → Int)
    (trace : List Call) (hf : fault trace.length = 0) :
    s.get (some (Bus.ctx h)) j ⟨regs, fault, trace⟩
      = (0, s.decode (regs s.reg).val, ⟨regs, fault, trace ++ [Call.read h s.reg [j] 1]⟩) := by
  cases s <;>
    simp only [Setting.decode, Setting.reg, Setting.set, Setting.get, RmwCall.run, i3g4250d_data_rate_set, i3g4250d_data_rate_get,
    i3g4250d_full_scale_set, i3g4250d_full_scale_get, i3g4250d_self_test_set,
    i3g4250d_self_test_get, i3g4250d_data_format_set, i3g4250d_data_format_get,
    i3g4250d_lp_bandwidth_set, i3g4250d_lp_bandwidth_get, i3g4250d_hp_bandwidth_set,
    i3g4250d_hp_bandwidth_get, i3g4250d_hp_mode_set, i3g4250d_hp_mode_get,
    i3g4250d_filter_path_set, i3g4250d_filter_path_get, i3g4250d_filter_path_internal_set,
    i3g4250d_filter_path_internal_get, i3g4250d_spi_mode_set, i3g4250d_spi_mode_get,
    i3g4250d_pin_mode_set, i3g4250d_pin_mode_get, i3g4250d_pin_polarity_set,
    i3g4250d_pin_polarity_get, i3g4250d_int_notification_set, i3g4250d_int_notification_get,
    i3g4250d_int_on_threshold_mode_set, i3g4250d_int_on_threshold_mode_get,
    i3g4250d_fifo_mode_set, i3g4250d_fifo_mode_get, i3g4250d_boot_set,
    i3g4250d_hp_reference_value_set, i3g4250d_pin_int1_route_set, i3g4250d_pin_int2_route_set,
    i3g4250d_int_on_threshold_dur_set, i3g4250d_fifo_enable_set, i3g4250d_fifo_watermark_set, read1_ok _ _ _ _ _ _ hf, cell_read]

theorem Setting.get_of_read {σ : Type} (s : Setting) (c : stmdev_ctx_t σ) (j b : Nat)
    (w w1 : σ) (hr : c.read_reg c.handle s.reg [j] 1 w = (0, [b], w1)) :
    s.get (some c) j w = (0, s.decode b, w1) := by
  have hr1 : i3g4250d_read_reg (some c) s.reg [j] 1 w = (0, [b], w1) := hr
  cases s <;>
    simp only [Setting.reg] at hr1 <;>
    simp only [Setting.decode, Setting.set, Setting.get, RmwCall.run, i3g4250d_data_rate_set, i3g4250d_data_rate_get,
    i3g4250d_full_scale_set, i3g4250d_full_scale_get, i3g4250d_self_test_set,
    i3g4250d_self_test_get, i3g4250d_data_format_set, i3g4250d_data_format_get,
    i3g4250d_lp_bandwidth_set, i3g4250d_lp_bandwidth_get, i3g4250d_hp_bandwidth_set,
    i3g4250d_hp_bandwidth_get, i3g4250d_hp_mode_set, i3g4250d_hp_mode_get,
    i3g4250d_filter_path_set, i3g4250d_filter_path_get, i3g4250d_filter_path_internal_set,
    i3g4250d_filter_path_internal_get, i3g4250d_spi_mode_set, i3g4250d_spi_mode_get,
    i3g4250d_pin_mode_set, i3g4250d_pin_mode_get, i3g4250d_pin_polarity_set,
    i3g4250d_pin_polarity_get, i3g4250d_int_notification_set, i3g4250d_int_notification_get,
    i3g4250d_int_on_threshold_mode_set, i3g4250d_int_on_threshold_mode_get,
    i3g4250d_fifo_mode_set, i3g4250d_fifo_mode_get, i3g4250d_boot_set,
    i3g4250d_hp_reference_value_set, i3g4250d_pin_int1_route_set, i3g4250d_pin_int2_route_set,
    i3g4250d_int_on_threshold_dur_set, i3g4250d_fifo_enable_set, i3g4250d_fifo_watermark_set, hr1, cell_read]

/-! ## Getters as a function of the byte read -/

theorem ite_case_self (sw m e : Nat) :
    (if sw = m then m else e) = if sw = m then sw else e := by
  split <;> simp_all

theorem ite_or_chain (p q : Prop) [Decidable p] [Decidable q] (a e : Nat) :
    (if p ∨ q then a else e) = if p then a else if q then a else e := by
  by_cases hp : p <;> by_cases hq : q <;> simp [hp, hq]

theorem Setting.pattern_mod (s : Setting) (b : Nat) : s.pattern (b % 256) = s.pattern b := by
  cases s <;>
    simp only [Setting.pattern, ctrl_reg1_ofByte_mod,
      ctrl_reg2_ofByte_mod, ctrl_reg3_ofByte_mod,
      ctrl_reg4_ofByte_mod, ctrl_reg5_ofByte_mod,
      fifo_ctrl_reg_ofByte_mod, int1_cfg_ofByte_mod]

/-- A getter returns the bit pattern it switches on when that is a member of the
enumeration, and the member 0 otherwise. -/
theorem Setting.decode_eq (s : Setting) (b : Nat) :
    s.decode b = if s.pattern b ∈ s.members then s.pattern b else 0 := by
  cases s <;>
    simp only [Setting.decode, Setting.get, i3g4250d_data_rate_get, i3g4250d_full_scale_get,
      i3g4250d_self_test_get, i3g4250d_data_format_get, i3g4250d_lp_bandwidth_get,
      i3g4250d_hp_bandwidth_get, i3g4250d_hp_mode_get, i3g4250d_filter_path_get,
      i3g4250d_filter_path_internal_get, i3g4250d_spi_mode_get, i3g4250d_pin_mode_get,
      i3g4250d_pin_polarity_get, i3g4250d_int_notification_get,
      i3g4250d_int_on_threshold_mode_get, i3g4250d_fifo_mode_get, cell_read, byteOf,
      List.getD_cons_zero, Setting.pattern, Setting.members,
      ctrl_reg1_ofByte_mod, ctrl_reg2_ofByte_mod,
      ctrl_reg3_ofByte_mod, ctrl_reg4_ofByte_mod,
      ctrl_reg5_ofByte_mod, fifo_ctrl_reg_ofByte_mod,
      int1_cfg_ofByte_mod]
  all_goals
    simp only [List.mem_cons, List.mem_singleton, List.not_mem_nil, or_false, ite_or_chain]
  all_goals
    repeat rw [ite_case_self]
  all_goals
    first
      | rfl
      | (simp only [I3G4250D_INT1_ON_TH_AND, I3G4250D_INT1_ON_TH_OR]; split_ifs <;> simp_all)

theorem Setting.decode_mod (s : Setting) (b : Nat) : s.decode (b % 256) = s.decode b := by
  rw [Setting.decode_eq, Setting.decode_eq, Setting.pattern_mod]

theorem Setting.decode_of_pattern (s : Setting) (b V : Nat) (hV : V ∈ s.members)
    (hp : s.pattern b = V) : s.decode b = V := by
  rw [Setting.decode_eq, hp, if_pos hV]

/-! ## Setters as a function of the byte read -/

theorem RmwCall.newByte_mod (c : RmwCall) (b : Nat) : c.newByte (b % 256) = c.newByte b := by
  rcases c with ⟨s, val⟩ | val | val | val | val | val | val | val
  · cases s <;> simp only [RmwCall.newByte, RmwCall.run, Setting.set, i3g4250d_data_rate_set,
      i3g4250d_full_scale_set, i3g4250d_self_test_set, i3g4250d_data_format_set,
      i3g4250d_lp_bandwidth_set, i3g4250d_hp_bandwidth_set, i3g4250d_hp_mode_set,
      i3g4250d_filter_path_set, i3g4250d_filter_path_internal_set, i3g4250d_spi_mode_set,
      i3g4250d_pin_mode_set, i3g4250d_pin_polarity_set, i3g4250d_int_notification_set,
      i3g4250d_int_on_threshold_mode_set, i3g4250d_fifo_mode_set, i3g4250d_boot_set,
      i3g4250d_hp_reference_value_set, i3g4250d_pin_int1_route_set,
      i3g4250d_pin_int2_route_set, i3g4250d_int_on_threshold_dur_set,
      i3g4250d_fifo_enable_set, i3g4250d_fifo_watermark_set, cell_read, cell_write, if_true, byteOf, List.getD_cons_zero, Nat.mod_mod]
  all_goals simp only [RmwCall.newByte, RmwCall.run, Setting.set, i3g4250d_data_rate_set,
      i3g4250d_full_scale_set, i3g4250d_self_test_set, i3g4250d_data_format_set,
      i3g4250d_lp_bandwidth_set, i3g4250d_hp_bandwidth_set, i3g4250d_hp_mode_set,
      i3g4250d_filter_path_set, i3g4250d_filter_path_internal_set, i3g4250d_spi_mode_set,
      i3g4250d_pin_mode_set, i3g4250d_pin_polarity_set, i3g4250d_int_notification_set,
      i3g4250d_int_on_threshold_mode_set, i3g4250d_fifo_mode_set, i3g4250d_boot_set,
      i3g4250d_hp_reference_value_set, i3g4250d_pin_int1_route_set,
      i3g4250d_pin_int2_route_set, i3g4250d_int_on_threshold_dur_set,
      i3g4250d_fifo_enable_set, i3g4250d_fifo_watermark_set, cell_read, cell_write, if_true, byteOf, List.getD_cons_zero, Nat.mod_mod]

/-- After its own setter has run with a member of the enumeration, the pattern of a setting
is that member. -/
theorem Setting.pattern_set_same (s : Setting) (V b : Nat) (hV : V ∈ s.members) :
    s.pattern ((RmwCall.enum s V).newByte b) = V := by
  cases s <;>
    simp only [RmwCall.newByte, RmwCall.run, Setting.set, i3g4250d_data_rate_set,
      i3g4250d_full_scale_set, i3g4250d_self_test_set, i3g4250d_data_format_set,
      i3g4250d_lp_bandwidth_set, i3g4250d_hp_bandwidth_set, i3g4250d_hp_mode_set,
      i3g4250d_filter_path_set, i3g4250d_filter_path_internal_set, i3g4250d_spi_mode_set,
      i3g4250d_pin_mode_set, i3g4250d_pin_polarity_set, i3g4250d_int_notification_set,
      i3g4250d_int_on_threshold_mode_set, i3g4250d_fifo_mode_set, i3g4250d_boot_set,
      i3g4250d_hp_reference_value_set, i3g4250d_pin_int1_route_set,
      i3g4250d_pin_int2_route_set, i3g4250d_int_on_threshold_dur_set,
      i3g4250d_fifo_enable_set, i3g4250d_fifo_watermark_set, cell_read, cell_write, if_true,
      ctrl_reg1_ofByte_byteOf, ctrl_reg2_ofByte_byteOf,
      ctrl_reg3_ofByte_byteOf, ctrl_reg4_ofByte_byteOf,
      ctrl_reg5_ofByte_byteOf, reference_ofByte_byteOf,
      fifo_ctrl_reg_ofByte_byteOf, int1_cfg_ofByte_byteOf,
      int1_duration_ofByte_byteOf, Setting.pattern, ctrl_reg1_ofByte_toByte, ctrl_reg2_ofByte_toByte,
      ctrl_reg3_ofByte_toByte, ctrl_reg4_ofByte_toByte,
      ctrl_reg5_ofByte_toByte, reference_ofByte_toByte,
      fifo_ctrl_reg_ofByte_toByte, int1_cfg_ofByte_toByte,
      int1_duration_ofByte_toByte] <;>
    (revert V; decide)

theorem fin_ofNat_val (x : Nat) : ((Fin.ofNat x : Fin 256) : Nat) = x % 256 := rfl

/-- The setter of any other call on the same register leaves the pattern of a setting as it
was, unless it is one of the two filter-path setters, which share the bit HPen. -/
theorem Setting.pattern_call_other (c : RmwCall) (B : Setting) (hreg : c.reg = B.reg)
    (hne : ∀ v, c ≠ .enum B v)
    (hnf : ∀ v, c ≠ .enum .filter_path v ∧ c ≠ .enum .filter_path_internal v) (x : Nat) :
    B.pattern (c.newByte x) = B.pattern x := by
  rcases c with ⟨A, Va⟩ | val | val | val | val | val | val | val
  · simp only [RmwCall.reg] at hreg
    cases A <;> cases B <;>
      first
        | exact absurd rfl (hne Va)
        | exact absurd hreg (by decide)
        | exact absurd rfl (hnf Va).1
        | exact absurd rfl (hnf Va).2
        | (simp only [RmwCall.newByte, RmwCall.run, Setting.set, i3g4250d_data_rate_set,
      i3g4250d_full_scale_set, i3g4250d_self_test_set, i3g4250d_data_format_set,
      i3g4250d_lp_bandwidth_set, i3g4250d_hp_bandwidth_set, i3g4250d_hp_mode_set,
      i3g4250d_filter_path_set, i3g4250d_filter_path_internal_set, i3g4250d_spi_mode_set,
      i3g4250d_pin_mode_set, i3g4250d_pin_polarity_set, i3g4250d_int_notification_set,
      i3g4250d_int_on_threshold_mode_set, i3g4250d_fifo_mode_set, i3g4250d_boot_set,
      i3g4250d_hp_reference_value_set, i3g4250d_pin_int1_route_set,
      i3g4250d_pin_int2_route_set, i3g4250d_int_on_threshold_dur_set,
      i3g4250d_fifo_enable_set, i3g4250d_fifo_watermark_set, cell_read, cell_write, if_true,
      ctrl_reg1_ofByte_byteOf, ctrl_reg2_ofByte_byteOf,
      ctrl_reg3_ofByte_byteOf, ctrl_reg4_ofByte_byteOf,
      ctrl_reg5_ofByte_byteOf, reference_ofByte_byteOf,
      fifo_ctrl_reg_ofByte_byteOf, int1_cfg_ofByte_byteOf,
      int1_duration_ofByte_byteOf, Setting.pattern, ctrl_reg1_ofByte_toByte, ctrl_reg2_ofByte_toByte,
      ctrl_reg3_ofByte_toByte, ctrl_reg4_ofByte_toByte,
      ctrl_reg5_ofByte_toByte, reference_ofByte_toByte,
      fifo_ctrl_reg_ofByte_toByte, int1_cfg_ofByte_toByte,
      int1_duration_ofByte_toByte]
           simp only [i3g4250d_ctrl_reg1_t.ofByte, i3g4250d_ctrl_reg2_t.ofByte, i3g4250d_ctrl_reg3_t.ofByte,
      i3g4250d_ctrl_reg4_t.ofByte, i3g4250d_ctrl_reg5_t.ofByte, i3g4250d_reference_t.ofByte,
      i3g4250d_fifo_ctrl_reg_t.ofByte, i3g4250d_int1_cfg_t.ofByte,
      i3g4250d_int1_duration_t.ofByte])
  all_goals
    simp only [RmwCall.reg] at hreg
    cases B <;>
      first
        | exact absurd hreg (by decide)
        | (simp only [RmwCall.newByte, RmwCall.run, Setting.set, i3g4250d_data_rate_set,
      i3g4250d_full_scale_set, i3g4250d_self_test_set, i3g4250d_data_format_set,
      i3g4250d_lp_bandwidth_set, i3g4250d_hp_bandwidth_set, i3g4250d_hp_mode_set,
      i3g4250d_filter_path_set, i3g4250d_filter_path_internal_set, i3g4250d_spi_mode_set,
      i3g4250d_pin_mode_set, i3g4250d_pin_polarity_set, i3g4250d_int_notification_set,
      i3g4250d_int_on_threshold_mode_set, i3g4250d_fifo_mode_set, i3g4250d_boot_set,
      i3g4250d_hp_reference_value_set, i3g4250d_pin_int1_route_set,
      i3g4250d_pin_int2_route_set, i3g4250d_int_on_threshold_dur_set,
      i3g4250d_fifo_enable_set, i3g4250d_fifo_watermark_set, cell_read, cell_write, if_true,
      ctrl_reg1_ofByte_byteOf, ctrl_reg2_ofByte_byteOf,
      ctrl_reg3_ofByte_byteOf, ctrl_reg4_ofByte_byteOf,
      ctrl_reg5_ofByte_byteOf, reference_ofByte_byteOf,
      fifo_ctrl_reg_ofByte_byteOf, int1_cfg_ofByte_byteOf,
      int1_duration_ofByte_byteOf, Setting.pattern, ctrl_reg1_ofByte_toByte, ctrl_reg2_ofByte_toByte,
      ctrl_reg3_ofByte_toByte, ctrl_reg4_ofByte_toByte,
      ctrl_reg5_ofByte_toByte, reference_ofByte_toByte,
      fifo_ctrl_reg_ofByte_toByte, int1_cfg_ofByte_toByte,
      int1_duration_ofByte_toByte]
           simp only [i3g4250d_ctrl_reg1_t.ofByte, i3g4250d_ctrl_reg2_t.ofByte, i3g4250d_ctrl_reg3_t.ofByte,
      i3g4250d_ctrl_reg4_t.ofByte, i3g4250d_ctrl_reg5_t.ofByte, i3g4250d_reference_t.ofByte,
      i3g4250d_fifo_ctrl_reg_t.ofByte, i3g4250d_int1_cfg_t.ofByte,
      i3g4250d_int1_duration_t.ofByte])

theorem hpen_of_arg (Va : Nat) : ((Va % 256) &&& 0x04) >>> 2 % 2 = bitAt Va 2 := by
  have key : ∀ x, x < 256 → (x &&& 0x04) >>> 2 % 2 = x / 4 % 2 := by decide!
  rw [key _ (Nat.mod_lt _ (by decide))]
  simp only [bitAt]
  omega

/-- The pattern of `filter_path` after the setter of `filter_path_internal` has run on top
of it: HPen comes from the later call, the low two bits stay. -/
theorem filter_path_after_internal (Va Vb b : Nat) (hVb : Vb ∈ Setting.filter_path.members)
    (hbit : bitAt Va 2 = bitAt Vb 2) :
    Setting.filter_path.pattern ((RmwCall.enum .filter_path_internal Va).newByte
      ((RmwCall.enum .filter_path Vb).newByte b % 256)) = Vb := by
  have h1 : ∀ y, Setting.filter_path.pattern
      ((RmwCall.enum .filter_path_internal Va).newByte y)
        = (((Va % 256) &&& 0x04) >>> 2 % 2) <<< 2 + (i3g4250d_ctrl_reg5_t.ofByte y).out_sel := by
    intro y
    simp only [RmwCall.newByte, RmwCall.run, Setting.set, i3g4250d_data_rate_set,
      i3g4250d_full_scale_set, i3g4250d_self_test_set, i3g4250d_data_format_set,
      i3g4250d_lp_bandwidth_set, i3g4250d_hp_bandwidth_set, i3g4250d_hp_mode_set,
      i3g4250d_filter_path_set, i3g4250d_filter_path_internal_set, i3g4250d_spi_mode_set,
      i3g4250d_pin_mode_set, i3g4250d_pin_polarity_set, i3g4250d_int_notification_set,
      i3g4250d_int_on_threshold_mode_set, i3g4250d_fifo_mode_set, i3g4250d_boot_set,
      i3g4250d_hp_reference_value_set, i3g4250d_pin_int1_route_set,
      i3g4250d_pin_int2_route_set, i3g4250d_int_on_threshold_dur_set,
      i3g4250d_fifo_enable_set, i3g4250d_fifo_watermark_set, cell_read, cell_write, if_true,
      ctrl_reg1_ofByte_byteOf, ctrl_reg2_ofByte_byteOf,
      ctrl_reg3_ofByte_byteOf, ctrl_reg4_ofByte_byteOf,
      ctrl_reg5_ofByte_byteOf, reference_ofByte_byteOf,
      fifo_ctrl_reg_ofByte_byteOf, int1_cfg_ofByte_byteOf,
      int1_duration_ofByte_byteOf, Setting.pattern, ctrl_reg1_ofByte_toByte, ctrl_reg2_ofByte_toByte,
      ctrl_reg3_ofByte_toByte, ctrl_reg4_ofByte_toByte,
      ctrl_reg5_ofByte_toByte, reference_ofByte_toByte,
      fifo_ctrl_reg_ofByte_toByte, int1_cfg_ofByte_toByte,
      int1_duration_ofByte_toByte]
    simp only [i3g4250d_ctrl_reg1_t.ofByte, i3g4250d_ctrl_reg2_t.ofByte, i3g4250d_ctrl_reg3_t.ofByte,
      i3g4250d_ctrl_reg4_t.ofByte, i3g4250d_ctrl_reg5_t.ofByte, i3g4250d_reference_t.ofByte,
      i3g4250d_fifo_ctrl_reg_t.ofByte, i3g4250d_int1_cfg_t.ofByte,
      i3g4250d_int1_duration_t.ofByte]
  rw [h1, ctrl_reg5_ofByte_mod, hpen_of_arg, hbit]
  simp only [RmwCall.newByte, RmwCall.run, Setting.set, i3g4250d_data_rate_set,
      i3g4250d_full_scale_set, i3g4250d_self_test_set, i3g4250d_data_format_set,
      i3g4250d_lp_bandwidth_set, i3g4250d_hp_bandwidth_set, i3g4250d_hp_mode_set,
      i3g4250d_filter_path_set, i3g4250d_filter_path_internal_set, i3g4250d_spi_mode_set,
      i3g4250d_pin_mode_set, i3g4250d_pin_polarity_set, i3g4250d_int_notification_set,
      i3g4250d_int_on_threshold_mode_set, i3g4250d_fifo_mode_set, i3g4250d_boot_set,
      i3g4250d_hp_reference_value_set, i3g4250d_pin_int1_route_set,
      i3g4250d_pin_int2_route_set, i3g4250d_int_on_threshold_dur_set,
      i3g4250d_fifo_enable_set, i3g4250d_fifo_watermark_set, cell_read, cell_write, if_true,
      ctrl_reg1_ofByte_byteOf, ctrl_reg2_ofByte_byteOf,
      ctrl_reg3_ofByte_byteOf, ctrl_reg4_ofByte_byteOf,
      ctrl_reg5_ofByte_byteOf, reference_ofByte_byteOf,
      fifo_ctrl_reg_ofByte_byteOf, int1_cfg_ofByte_byteOf,
      int1_duration_ofByte_byteOf, ctrl_reg1_ofByte_toByte, ctrl_reg2_ofByte_toByte,
      ctrl_reg3_ofByte_toByte, ctrl_reg4_ofByte_toByte,
      ctrl_reg5_ofByte_toByte, reference_ofByte_toByte,
      fifo_ctrl_reg_ofByte_toByte, int1_cfg_ofByte_toByte,
      int1_duration_ofByte_toByte]
  clear h1 hbit
  revert Vb
  decide!

theorem filter_path_internal_after_out (Va Vb b : Nat)
    (hVb : Vb ∈ Setting.filter_path_internal.members) (hbit : bitAt Va 2 = bitAt Vb 2) :
    Setting.filter_path_internal.pattern ((RmwCall.enum .filter_path Va).newByte
      ((RmwCall.enum .filter_path_internal Vb).newByte b % 256)) = Vb := by
  have h1 : ∀ y, Setting.filter_path_internal.pattern
      ((RmwCall.enum .filter_path Va).newByte y)
        = (((Va % 256) &&& 0x04) >>> 2 % 2) <<< 2 + (i3g4250d_ctrl_reg5_t.ofByte y).int1_sel := by
    intro y
    simp only [RmwCall.newByte, RmwCall.run, Setting.set, i3g4250d_data_rate_set,
      i3g4250d_full_scale_set, i3g4250d_self_test_set, i3g4250d_data_format_set,
      i3g4250d_lp_bandwidth_set, i3g4250d_hp_bandwidth_set, i3g4250d_hp_mode_set,
      i3g4250d_filter_path_set, i3g4250d_filter_path_internal_set, i3g4250d_spi_mode_set,
      i3g4250d_pin_mode_set, i3g4250d_pin_polarity_set, i3g4250d_int_notification_set,
      i3g4250d_int_on_threshold_mode_set, i3g4250d_fifo_mode_set, i3g4250d_boot_set,
      i3g4250d_hp_reference_value_set, i3g4250d_pin_int1_route_set,
      i3g4250d_pin_int2_route_set, i3g4250d_int_on_threshold_dur_set,
      i3g4250d_fifo_enable_set, i3g4250d_fifo_watermark_set, cell_read, cell_write, if_true,
      ctrl_reg1_ofByte_byteOf, ctrl_reg2_ofByte_byteOf,
      ctrl_reg3_ofByte_byteOf, ctrl_reg4_ofByte_byteOf,
      ctrl_reg5_ofByte_byteOf, reference_ofByte_byteOf,
      fifo_ctrl_reg_ofByte_byteOf, int1_cfg_ofByte_byteOf,
      int1_duration_ofByte_byteOf, Setting.pattern, ctrl_reg1_ofByte_toByte, ctrl_reg2_ofByte_toByte,
      ctrl_reg3_ofByte_toByte, ctrl_reg4_ofByte_toByte,
      ctrl_reg5_ofByte_toByte, reference_ofByte_toByte,
      fifo_ctrl_reg_ofByte_toByte, int1_cfg_ofByte_toByte,
      int1_duration_ofByte_toByte]
    simp only [i3g4250d_ctrl_reg1_t.ofByte, i3g4250d_ctrl_reg2_t.ofByte, i3g4250d_ctrl_reg3_t.ofByte,
      i3g4250d_ctrl_reg4_t.ofByte, i3g4250d_ctrl_reg5_t.ofByte, i3g4250d_reference_t.ofByte,
      i3g4250d_fifo_ctrl_reg_t.ofByte, i3g4250d_int1_cfg_t.ofByte,
      i3g4250d_int1_duration_t.ofByte]
  rw [h1, ctrl_reg5_ofByte_mod, hpen_of_arg, hbit]
  simp only [RmwCall.newByte, RmwCall.run, Setting.set, i3g4250d_data_rate_set,
      i3g4250d_full_scale_set, i3g4250d_self_test_set, i3g4250d_data_format_set,
      i3g4250d_lp_bandwidth_set, i3g4250d_hp_bandwidth_set, i3g4250d_hp_mode_set,
      i3g4250d_filter_path_set, i3g4250d_filter_path_internal_set, i3g4250d_spi_mode_set,
      i3g4250d_pin_mode_set, i3g4250d_pin_polarity_set, i3g4250d_int_notification_set,
      i3g4250d_int_on_threshold_mode_set, i3g4250d_fifo_mode_set, i3g4250d_boot_set,
      i3g4250d_hp_reference_value_set, i3g4250d_pin_int1_route_set,
      i3g4250d_pin_int2_route_set, i3g4250d_int_on_threshold_dur_set,
      i3g4250d_fifo_enable_set, i3g4250d_fifo_watermark_set, cell_read, cell_write, if_true,
      ctrl_reg1_ofByte_byteOf, ctrl_reg2_ofByte_byteOf,
      ctrl_reg3_ofByte_byteOf, ctrl_reg4_ofByte_byteOf,
      ctrl_reg5_ofByte_byteOf, reference_ofByte_byteOf,
      fifo_ctrl_reg_ofByte_byteOf, int1_cfg_ofByte_byteOf,
      int1_duration_ofByte_byteOf, ctrl_reg1_ofByte_toByte, ctrl_reg2_ofByte_toByte,
      ctrl_reg3_ofByte_toByte, ctrl_reg4_ofByte_toByte,
      ctrl_reg5_ofByte_toByte, reference_ofByte_toByte,
      fifo_ctrl_reg_ofByte_toByte, int1_cfg_ofByte_toByte,
      int1_duration_ofByte_toByte]
  clear h1 hbit
  revert Vb
  decide!

/-- Byte-level content of the frame property: the value a getter decodes after its own
setter and then the setter of any other call on the same register. -/
theorem Setting.decode_after_other_call (c : RmwCall) (B : Setting) (hne : ∀ v, c ≠ .enum B v)
    (hreg : c.reg = B.reg) (Vb : Nat) (hVb : Vb ∈ B.members)
    (hbit : ∀ Va, c = .enum .filter_path Va ∨ c = .enum .filter_path_internal Va →
      bitAt Va 2 = bitAt Vb 2)
    (b : Nat) :
    B.decode (c.newByte ((RmwCall.enum B Vb).newByte b % 256) % 256) = Vb := by
  rw [Setting.decode_mod]
  apply Setting.decode_of_pattern _ _ _ hVb
  by_cases hfp : ∃ Va, c = .enum .filter_path Va ∨ c = .enum .filter_path_internal Va
  · obtain ⟨Va, hc⟩ := hfp
    have hb := hbit Va hc
    rcases hc with rfl | rfl
    · simp only [RmwCall.reg] at hreg
      cases B <;> first
          | exact absurd rfl (hne Va)
          | exact absurd hreg (by decide)
          | exact filter_path_internal_after_out Va Vb b hVb hb
    · simp only [RmwCall.reg] at hreg
      cases B <;> first
          | exact absurd rfl (hne Va)
          | exact absurd hreg (by decide)
          | exact filter_path_after_internal Va Vb b hVb hb
  · have hnf : ∀ v, c ≠ .enum .filter_path v ∧ c ≠ .enum .filter_path_internal v := by
      intro v
      exact ⟨fun h => hfp ⟨v, Or.inl h⟩, fun h => hfp ⟨v, Or.inr h⟩⟩
    rw [Setting.pattern_call_other c B hreg hne hnf, Setting.pattern_mod,
      Setting.pattern_set_same B Vb b hVb]

theorem Setting.set_nf (s : Setting) (V h j : Nat) (regs : Nat → Fin 256) (trace : List Call) :
    s.set (some (Bus.ctx h)) V j ⟨regs, Bus.noFault, trace⟩
      = (0, ⟨Function.update regs s.reg
               (Fin.ofNat ((RmwCall.enum s V).newByte (regs s.reg))), Bus.noFault,
             trace ++ [Call.read h s.reg [j] 1,
                       Call.write h s.reg [(RmwCall.enum s V).newByte (regs s.reg)] 1]⟩) :=
  RmwCall.run_ok (.enum s V) h j regs Bus.noFault trace rfl rfl

theorem Setting.get_nf (s : Setting) (h j : Nat) (regs : Nat → Fin 256) (trace : List Call) :
    s.get (some (Bus.ctx h)) j ⟨regs, Bus.noFault, trace⟩
      = (0, s.decode (regs s.reg).val,
          ⟨regs, Bus.noFault, trace ++ [Call.read h s.reg [j] 1]⟩) :=
  Setting.get_ok s h j regs Bus.noFault trace rfl

theorem RmwCall.run_nf (c : RmwCall) (h j : Nat) (regs : Nat → Fin 256) (trace : List Call) :
    c.run (some (Bus.ctx h)) j ⟨regs, Bus.noFault, trace⟩
      = (0, ⟨Function.update regs c.reg (Fin.ofNat (c.newByte (regs c.reg))), Bus.noFault,
             trace ++ [Call.read h c.reg [j] 1,
                       Call.write h c.reg [c.newByte (regs c.reg)] 1]⟩) :=
  RmwCall.run_ok c h j regs Bus.noFault trace rfl rfl


/-! ## The mask of a setter -/

/-- Clearing the bits of the mask is what the setter does when called with a zero
argument. -/
theorem RmwCall.mask_clears (c : RmwCall) :
    ∀ x, x < 256 → x &&& (0xFF - c.mask) = c.zero.newByte x := by
  rcases c with ⟨s, val⟩ | val | val | val | val | val | val | val
  · cases s <;> simp only [RmwCall.mask, RmwCall.zero, Setting.mask, RmwCall.newByte, RmwCall.run, Setting.set, i3g4250d_data_rate_set,
      i3g4250d_full_scale_set, i3g4250d_self_test_set, i3g4250d_data_format_set,
      i3g4250d_lp_bandwidth_set, i3g4250d_hp_bandwidth_set, i3g4250d_hp_mode_set,
      i3g4250d_filter_path_set, i3g4250d_filter_path_internal_set, i3g4250d_spi_mode_set,
      i3g4250d_pin_mode_set, i3g4250d_pin_polarity_set, i3g4250d_int_notification_set,
      i3g4250d_int_on_threshold_mode_set, i3g4250d_fifo_mode_set, i3g4250d_boot_set,
      i3g4250d_hp_reference_value_set, i3g4250d_pin_int1_route_set,
      i3g4250d_pin_int2_route_set, i3g4250d_int_on_threshold_dur_set,
      i3g4250d_fifo_enable_set, i3g4250d_fifo_watermark_set, cell_read, cell_write, if_true,
      ctrl_reg1_ofByte_byteOf, ctrl_reg2_ofByte_byteOf,
      ctrl_reg3_ofByte_byteOf, ctrl_reg4_ofByte_byteOf,
      ctrl_reg5_ofByte_byteOf, reference_ofByte_byteOf,
      fifo_ctrl_reg_ofByte_byteOf, int1_cfg_ofByte_byteOf,
      int1_duration_ofByte_byteOf] <;> decide!
  all_goals (simp only [RmwCall.mask, RmwCall.zero, RmwCall.newByte, RmwCall.run, Setting.set, i3g4250d_data_rate_set,
      i3g4250d_full_scale_set, i3g4250d_self_test_set, i3g4250d_data_format_set,
      i3g4250d_lp_bandwidth_set, i3g4250d_hp_bandwidth_set, i3g4250d_hp_mode_set,
      i3g4250d_filter_path_set, i3g4250d_filter_path_internal_set, i3g4250d_spi_mode_set,
      i3g4250d_pin_mode_set, i3g4250d_pin_polarity_set, i3g4250d_int_notification_set,
      i3g4250d_int_on_threshold_mode_set, i3g4250d_fifo_mode_set, i3g4250d_boot_set,
      i3g4250d_hp_reference_value_set, i3g4250d_pin_int1_route_set,
      i3g4250d_pin_int2_route_set, i3g4250d_int_on_threshold_dur_set,
      i3g4250d_fifo_enable_set, i3g4250d_fifo_watermark_set, cell_read, cell_write, if_true,
      ctrl_reg1_ofByte_byteOf, ctrl_reg2_ofByte_byteOf,
      ctrl_reg3_ofByte_byteOf, ctrl_reg4_ofByte_byteOf,
      ctrl_reg5_ofByte_byteOf, reference_ofByte_byteOf,
      fifo_ctrl_reg_ofByte_byteOf, int1_cfg_ofByte_byteOf,
      int1_duration_ofByte_byteOf]; decide!)

/-- Setting to zero after setting to any value is setting to zero. -/
theorem RmwCall.zero_after (c : RmwCall) (b : Nat) :
    c.zero.newByte (c.newByte b) = c.zero.newByte b := by
  generalize hy : c.newByte b = y
  rcases c with ⟨s, val⟩ | val | val | val | val | val | val | val
  · cases s <;>
      simp only [RmwCall.zero, RmwCall.newByte, RmwCall.run, Setting.set, i3g4250d_data_rate_set,
      i3g4250d_full_scale_set, i3g4250d_self_test_set, i3g4250d_data_format_set,
      i3g4250d_lp_bandwidth_set, i3g4250d_hp_bandwidth_set, i3g4250d_hp_mode_set,
      i3g4250d_filter_path_set, i3g4250d_filter_path_internal_set, i3g4250d_spi_mode_set,
      i3g4250d_pin_mode_set, i3g4250d_pin_polarity_set, i3g4250d_int_notification_set,
      i3g4250d_int_on_threshold_mode_set, i3g4250d_fifo_mode_set, i3g4250d_boot_set,
      i3g4250d_hp_reference_value_set, i3g4250d_pin_int1_route_set,
      i3g4250d_pin_int2_route_set, i3g4250d_int_on_threshold_dur_set,
      i3g4250d_fifo_enable_set, i3g4250d_fifo_watermark_set, cell_read, cell_write, if_true, byteOf, List.getD_cons_zero, ctrl_reg1_ofByte_mod, ctrl_reg2_ofByte_mod,
      ctrl_reg3_ofByte_mod, ctrl_reg4_ofByte_mod,
      ctrl_reg5_ofByte_mod, reference_ofByte_mod,
      fifo_ctrl_reg_ofByte_mod, int1_cfg_ofByte_mod,
      int1_duration_ofByte_mod] <;>
      subst hy <;>
      simp only [RmwCall.newByte, RmwCall.run, Setting.set, i3g4250d_data_rate_set,
      i3g4250d_full_scale_set, i3g4250d_self_test_set, i3g4250d_data_format_set,
      i3g4250d_lp_bandwidth_set, i3g4250d_hp_bandwidth_set, i3g4250d_hp_mode_set,
      i3g4250d_filter_path_set, i3g4250d_filter_path_internal_set, i3g4250d_spi_mode_set,
      i3g4250d_pin_mode_set, i3g4250d_pin_polarity_set, i3g4250d_int_notification_set,
      i3g4250d_int_on_threshold_mode_set, i3g4250d_fifo_mode_set, i3g4250d_boot_set,
      i3g4250d_hp_reference_value_set, i3g4250d_pin_int1_route_set,
      i3g4250d_pin_int2_route_set, i3g4250d_int_on_threshold_dur_set,
      i3g4250d_fifo_enable_set, i3g4250d_fifo_watermark_set, cell_read, cell_write, if_true,
      ctrl_reg1_ofByte_byteOf, ctrl_reg2_ofByte_byteOf,
      ctrl_reg3_ofByte_byteOf, ctrl_reg4_ofByte_byteOf,
      ctrl_reg5_ofByte_byteOf, reference_ofByte_byteOf,
      fifo_ctrl_reg_ofByte_byteOf, int1_cfg_ofByte_byteOf,
      int1_duration_ofByte_byteOf, ctrl_reg1_ofByte_toByte, ctrl_reg2_ofByte_toByte,
      ctrl_reg3_ofByte_toByte, ctrl_reg4_ofByte_toByte,
      ctrl_reg5_ofByte_toByte, reference_ofByte_toByte,
      fifo_ctrl_reg_ofByte_toByte, int1_cfg_ofByte_toByte,
      int1_duration_ofByte_toByte] <;>
      try simp only [i3g4250d_ctrl_reg1_t.ofByte, i3g4250d_ctrl_reg2_t.ofByte, i3g4250d_ctrl_reg3_t.ofByte,
      i3g4250d_ctrl_reg4_t.ofByte, i3g4250d_ctrl_reg5_t.ofByte, i3g4250d_reference_t.ofByte,
      i3g4250d_fifo_ctrl_reg_t.ofByte, i3g4250d_int1_cfg_t.ofByte,
      i3g4250d_int1_duration_t.ofByte]
  all_goals
    simp only [RmwCall.zero, RmwCall.newByte, RmwCall.run, Setting.set, i3g4250d_data_rate_set,
      i3g4250d_full_scale_set, i3g4250d_self_test_set, i3g4250d_data_format_set,
      i3g4250d_lp_bandwidth_set, i3g4250d_hp_bandwidth_set, i3g4250d_hp_mode_set,
      i3g4250d_filter_path_set, i3g4250d_filter_path_internal_set, i3g4250d_spi_mode_set,
      i3g4250d_pin_mode_set, i3g4250d_pin_polarity_set, i3g4250d_int_notification_set,
      i3g4250d_int_on_threshold_mode_set, i3g4250d_fifo_mode_set, i3g4250d_boot_set,
      i3g4250d_hp_reference_value_set, i3g4250d_pin_int1_route_set,
      i3g4250d_pin_int2_route_set, i3g4250d_int_on_threshold_dur_set,
      i3g4250d_fifo_enable_set, i3g4250d_fifo_watermark_set, cell_read, cell_write, if_true, byteOf, List.getD_cons_zero, ctrl_reg1_ofByte_mod, ctrl_reg2_ofByte_mod,
      ctrl_reg3_ofByte_mod, ctrl_reg4_ofByte_mod,
      ctrl_reg5_ofByte_mod, reference_ofByte_mod,
      fifo_ctrl_reg_ofByte_mod, int1_cfg_ofByte_mod,
      int1_duration_ofByte_mod] <;>
    subst hy <;>
    simp only [RmwCall.newByte, RmwCall.run, Setting.set, i3g4250d_data_rate_set,
      i3g4250d_full_scale_set, i3g4250d_self_test_set, i3g4250d_data_format_set,
      i3g4250d_lp_bandwidth_set, i3g4250d_hp_bandwidth_set, i3g4250d_hp_mode_set,
      i3g4250d_filter_path_set, i3g4250d_filter_path_internal_set, i3g4250d_spi_mode_set,
      i3g4250d_pin_mode_set, i3g4250d_pin_polarity_set, i3g4250d_int_notification_set,
      i3g4250d_int_on_threshold_mode_set, i3g4250d_fifo_mode_set, i3g4250d_boot_set,
      i3g4250d_hp_reference_value_set, i3g4250d_pin_int1_route_set,
      i3g4250d_pin_int2_route_set, i3g4250d_int_on_threshold_dur_set,
      i3g4250d_fifo_enable_set, i3g4250d_fifo_watermark_set, cell_read, cell_write, if_true,
      ctrl_reg1_ofByte_byteOf, ctrl_reg2_ofByte_byteOf,
      ctrl_reg3_ofByte_byteOf, ctrl_reg4_ofByte_byteOf,
      ctrl_reg5_ofByte_byteOf, reference_ofByte_byteOf,
      fifo_ctrl_reg_ofByte_byteOf, int1_cfg_ofByte_byteOf,
      int1_duration_ofByte_byteOf, ctrl_reg1_ofByte_toByte, ctrl_reg2_ofByte_toByte,
      ctrl_reg3_ofByte_toByte, ctrl_reg4_ofByte_toByte,
      ctrl_reg5_ofByte_toByte, reference_ofByte_toByte,
      fifo_ctrl_reg_ofByte_toByte, int1_cfg_ofByte_toByte,
      int1_duration_ofByte_toByte] <;>
    try simp only [i3g4250d_ctrl_reg1_t.ofByte, i3g4250d_ctrl_reg2_t.ofByte, i3g4250d_ctrl_reg3_t.ofByte,
      i3g4250d_ctrl_reg4_t.ofByte, i3g4250d_ctrl_reg5_t.ofByte, i3g4250d_reference_t.ofByte,
      i3g4250d_fifo_ctrl_reg_t.ofByte, i3g4250d_int1_cfg_t.ofByte,
      i3g4250d_int1_duration_t.ofByte]

theorem testBit_of_land_eq (x y m i : Nat) (h : x &&& m = y &&& m) (hm : m.testBit i = true) :
    x.testBit i = y.testBit i := by
  have h1 := congrArg (fun n => Nat.testBit n i) h
  simpa [Nat.testBit_land, hm] using h1

theorem testBit_byte_high (x i : Nat) (hx : x < 256) (hi : 8 ≤ i) : x.testBit i = false := by
  apply Nat.testBit_lt_two_pow
  calc x < 2 ^ 8 := hx
    _ ≤ 2 ^ i := Nat.pow_le_pow_right (by decide) hi

theorem RmwCall.mask_compl (c : RmwCall) :
    ∀ i, i < 8 → c.mask.testBit i = false → (0xFF - c.mask).testBit i = true := by
  rcases c with ⟨s, val⟩ | val | val | val | val | val | val | val
  · cases s <;> simp only [RmwCall.mask, Setting.mask] <;> decide
  all_goals (simp only [RmwCall.mask]; decide)

/-- The byte a setter writes agrees with the byte it read on every bit outside its mask. -/
theorem RmwCall.newByte_outside_mask (c : RmwCall) (b i : Nat) (hb : b < 256)
    (hi : c.mask.testBit i = false) :
    (c.newByte b % 256).testBit i = b.testBit i := by
  by_cases h8 : i < 8
  · apply testBit_of_land_eq _ _ (0xFF - c.mask) i _ (c.mask_compl i h8 hi)
    rw [c.mask_clears _ (Nat.mod_lt _ (by decide)), c.mask_clears b hb,
      RmwCall.newByte_mod, RmwCall.zero_after]
  · rw [testBit_byte_high _ i (Nat.mod_lt _ (by decide)) (by omega),
      testBit_byte_high b i hb (by omega)]


/-! ## A setter whose first read fails -/

theorem RmwCall.run_read_fail (c : RmwCall) (h j : Nat) (regs : Nat → Fin 256)
    (fault : Nat → Int) (trace : List Call) (hf : fault trace.length ≠ 0) :
    c.run (some (Bus.ctx h)) j ⟨regs, fault, trace⟩
      = (fault trace.length, ⟨regs, fault, trace ++ [Call.read h c.reg [j] 1]⟩) := by
  rcases c with ⟨s, val⟩ | val | val | val | val | val | val | val
  · cases s <;>
      simp only [RmwCall.reg, Setting.reg, RmwCall.newByte, RmwCall.run, Setting.set, i3g4250d_data_rate_set,
      i3g4250d_full_scale_set, i3g4250d_self_test_set, i3g4250d_data_format_set,
      i3g4250d_lp_bandwidth_set, i3g4250d_hp_bandwidth_set, i3g4250d_hp_mode_set,
      i3g4250d_filter_path_set, i3g4250d_filter_path_internal_set, i3g4250d_spi_mode_set,
      i3g4250d_pin_mode_set, i3g4250d_pin_polarity_set, i3g4250d_int_notification_set,
      i3g4250d_int_on_threshold_mode_set, i3g4250d_fifo_mode_set, i3g4250d_boot_set,
      i3g4250d_hp_reference_value_set, i3g4250d_pin_int1_route_set,
      i3g4250d_pin_int2_route_set, i3g4250d_int_on_threshold_dur_set,
      i3g4250d_fifo_enable_set, i3g4250d_fifo_watermark_set, read1_fail _ _ _ _ _ _ hf, hf, if_false]
  all_goals
    simp only [RmwCall.reg, Setting.reg, RmwCall.newByte, RmwCall.run, Setting.set, i3g4250d_data_rate_set,
      i3g4250d_full_scale_set, i3g4250d_self_test_set, i3g4250d_data_format_set,
      i3g4250d_lp_bandwidth_set, i3g4250d_hp_bandwidth_set, i3g4250d_hp_mode_set,
      i3g4250d_filter_path_set, i3g4250d_filter_path_internal_set, i3g4250d_spi_mode_set,
      i3g4250d_pin_mode_set, i3g4250d_pin_polarity_set, i3g4250d_int_notification_set,
      i3g4250d_int_on_threshold_mode_set, i3g4250d_fifo_mode_set, i3g4250d_boot_set,
      i3g4250d_hp_reference_value_set, i3g4250d_pin_int1_route_set,
      i3g4250d_pin_int2_route_set, i3g4250d_int_on_threshold_dur_set,
      i3g4250d_fifo_enable_set, i3g4250d_fifo_watermark_set, read1_fail _ _ _ _ _ _ hf, hf, if_false]

theorem Axis.threshold_set_read_fail (a : Axis) (val h jh jl : Nat) (regs : Nat → Fin 256)
    (fault : Nat → Int) (trace : List Call) (hf : fault trace.length ≠ 0) :
    a.threshold_set (some (Bus.ctx h)) val jh jl ⟨regs, fault, trace⟩
      = (fault trace.length, ⟨regs, fault, trace ++ [Call.read h a.regH [jh] 1]⟩) := by
  cases a <;>
    simp only [Axis.threshold_set, Axis.regH, i3g4250d_int_x_threshold_set,
      i3g4250d_int_y_threshold_set, i3g4250d_int_z_threshold_set,
      read1_fail _ _ _ _ _ _ hf, hf, if_false]

/-- On any transport: a single-register setter whose read reports a nonzero status returns
that status and leaves the world as the read left it (the write function is not applied). -/
theorem RmwCall.run_of_read_fail {σ : Type} (c : RmwCall) (ctx : stmdev_ctx_t σ) (j : Nat)
    (w : σ) (hs : (ctx.read_reg ctx.handle c.reg [j] 1 w).1 ≠ 0) :
    c.run (some ctx) j w
      = ((ctx.read_reg ctx.handle c.reg [j] 1 w).1,
         (ctx.read_reg ctx.handle c.reg [j] 1 w).2.2) := by
  have hs1 : (i3g4250d_read_reg (some ctx) c.reg [j] 1 w).1 ≠ 0 := hs
  have hr : i3g4250d_read_reg (some ctx) c.reg [j] 1 w
      = ctx.read_reg ctx.handle c.reg [j] 1 w := rfl
  rw [← hr]
  rcases c with ⟨s, val⟩ | val | val | val | val | val | val | val
  · cases s <;> simp only [RmwCall.reg, Setting.reg] at hs1 ⊢ <;>
      simp only [RmwCall.newByte, RmwCall.run, Setting.set, i3g4250d_data_rate_set,
      i3g4250d_full_scale_set, i3g4250d_self_test_set, i3g4250d_data_format_set,
      i3g4250d_lp_bandwidth_set, i3g4250d_hp_bandwidth_set, i3g4250d_hp_mode_set,
      i3g4250d_filter_path_set, i3g4250d_filter_path_internal_set, i3g4250d_spi_mode_set,
      i3g4250d_pin_mode_set, i3g4250d_pin_polarity_set, i3g4250d_int_notification_set,
      i3g4250d_int_on_threshold_mode_set, i3g4250d_fifo_mode_set, i3g4250d_boot_set,
      i3g4250d_hp_reference_value_set, i3g4250d_pin_int1_route_set,
      i3g4250d_pin_int2_route_set, i3g4250d_int_on_threshold_dur_set,
      i3g4250d_fifo_enable_set, i3g4250d_fifo_watermark_set, hs1, if_false]
  all_goals
    simp only [RmwCall.reg, Setting.reg] at hs1 ⊢
    simp only [RmwCall.newByte, RmwCall.run, Setting.set, i3g4250d_data_rate_set,
      i3g4250d_full_scale_set, i3g4250d_self_test_set, i3g4250d_data_format_set,
      i3g4250d_lp_bandwidth_set, i3g4250d_hp_bandwidth_set, i3g4250d_hp_mode_set,
      i3g4250d_filter_path_set, i3g4250d_filter_path_internal_set, i3g4250d_spi_mode_set,
      i3g4250d_pin_mode_set, i3g4250d_pin_polarity_set, i3g4250d_int_notification_set,
      i3g4250d_int_on_threshold_mode_set, i3g4250d_fifo_mode_set, i3g4250d_boot_set,
      i3g4250d_hp_reference_value_set, i3g4250d_pin_int1_route_set,
      i3g4250d_pin_int2_route_set, i3g4250d_int_on_threshold_dur_set,
      i3g4250d_fifo_enable_set, i3g4250d_fifo_watermark_set, hs1, if_false]


/-! ## Interrupt thresholds on the simulated device -/

theorem and_7F (x : Nat) : x &&& 0x7F = x % 128 := Nat.and_pow_two_sub_one_eq_mod x 7

/-- With four successful transport calls a threshold setter leaves `(val / 256) % 128` in
the low seven bits of the high register, whose bit 7 is kept, and `val % 256` in the low
register. -/
theorem Axis.threshold_set_nf (a : Axis) (val h jh jl : Nat) (regs : Nat → Fin 256)
    (trace : List Call) :
    a.threshold_set (some (Bus.ctx h)) val jh jl ⟨regs, Bus.noFault, trace⟩
      = (0, ⟨Function.update
               (Function.update regs a.regH
                 (Fin.ofNat (val % 65536 / 256 % 128 + (regs a.regH).val / 128 % 2 * 128)))
               a.regL (Fin.ofNat (val % 256)),
             Bus.noFault,
             trace ++ [Call.read h a.regH [jh] 1,
                       Call.write h a.regH
                         [val % 65536 / 256 % 128 + (regs a.regH).val / 128 % 2 * 128] 1,
                       Call.read h a.regL [jl] 1,
                       Call.write h a.regL [val % 256] 1]⟩) := by
  have e1 : val % 65536 / 256 % 256 % 128 = val % 65536 / 256 % 128 := by omega
  have e2 : (val % 65536 + 4294967296 - val % 65536 / 256 % 128 * 256 % 4294967296)
      % 4294967296 % 256 = val % 256 := by omega
  cases a <;>
    simp only [Axis.threshold_set, Axis.regH, Axis.regL, i3g4250d_int_x_threshold_set,
      i3g4250d_int_y_threshold_set, i3g4250d_int_z_threshold_set, read1_nf, write1_nf,
      if_true, int1_tsh_xh_ofByte_byteOf, int1_tsh_xl_ofByte_byteOf,
      int1_tsh_yh_ofByte_byteOf, int1_tsh_yl_ofByte_byteOf,
      int1_tsh_zh_ofByte_byteOf, int1_tsh_zl_ofByte_byteOf,
      i3g4250d_int1_tsh_xh_t.toByte, i3g4250d_int1_tsh_xl_t.toByte,
      i3g4250d_int1_tsh_yh_t.toByte, i3g4250d_int1_tsh_yl_t.toByte,
      i3g4250d_int1_tsh_zh_t.toByte, i3g4250d_int1_tsh_zl_t.toByte,
      and_7F, Nat.mod_mod, List.append_assoc, List.singleton_append, List.cons_append,
      List.nil_append, e1, e2]

/-- With two successful reads a threshold getter returns `(high % 128) * 256 + low`. -/
theorem Axis.threshold_get_nf (a : Axis) (val h jh jl : Nat) (regs : Nat → Fin 256)
    (trace : List Call) :
    a.threshold_get (some (Bus.ctx h)) val jh jl ⟨regs, Bus.noFault, trace⟩
      = (0, (regs a.regH).val % 128 * 256 + (regs a.regL).val,
          ⟨regs, Bus.noFault,
            trace ++ [Call.read h a.regH [jh] 1, Call.read h a.regL [jl] 1]⟩) := by
  have e : ((regs a.regH).val % 128 % 65536 * 256 % 65536 + (regs a.regL).val % 256) % 65536
      = (regs a.regH).val % 128 * 256 + (regs a.regL).val := by
    have := (regs a.regL).isLt
    omega
  cases a <;>
    simp only [Axis.regH, Axis.regL] at e <;>
    simp only [Axis.threshold_get, Axis.regH, Axis.regL, i3g4250d_int_x_threshold_get,
      i3g4250d_int_y_threshold_get, i3g4250d_int_z_threshold_get, read1_nf,
      if_true, int1_tsh_xh_ofByte_byteOf, int1_tsh_xl_ofByte_byteOf,
      int1_tsh_yh_ofByte_byteOf, int1_tsh_yl_ofByte_byteOf,
      int1_tsh_zh_ofByte_byteOf, int1_tsh_zl_ofByte_byteOf,
      List.append_assoc, List.singleton_append, e]

theorem threshold_regs_ne (a : Axis) : a.regH ≠ a.regL := by
  cases a <;> decide


/-! ## Raw output decoding -/

theorem int16_pair (b0 b1 : Nat) (h0 : b0 < 256) (h1 : b1 < 256) :
    int16_of (int16_of (b1 : Int) * 256 + int16_of (b0 : Int)) = signed16 (b1 * 256 + b0) := by
  unfold int16_of signed16
  split <;> (push_cast; omega)

theorem fifo_mode_pattern (b : Nat) : Setting.fifo_mode.pattern b = b % 256 / 32 := by
  simp only [Setting.pattern, i3g4250d_fifo_ctrl_reg_t.ofByte]
  omega

/-! ## Patterns in terms of the register byte -/

theorem Setting.zero_mem (s : Setting) : 0 ∈ s.members := by
  cases s <;> decide

theorem Setting.pattern_closed (b : Nat) :
    Setting.data_rate.pattern b = b % 256 / 64 * 16 + b % 16 ∧
    Setting.full_scale.pattern b = b % 256 / 16 % 4 ∧
    Setting.self_test.pattern b = b % 256 / 2 % 4 ∧
    Setting.hp_bandwidth.pattern b = b % 16 ∧
    Setting.filter_path.pattern b = b % 256 / 16 % 2 * 4 + b % 4 ∧
    Setting.filter_path_internal.pattern b = b % 256 / 16 % 2 * 4 + b % 256 / 4 % 4 := by
  simp only [Setting.pattern, i3g4250d_ctrl_reg1_t.ofByte, i3g4250d_ctrl_reg2_t.ofByte,
    i3g4250d_ctrl_reg4_t.ofByte, i3g4250d_ctrl_reg5_t.ofByte, Nat.shiftLeft_eq]
  refine ⟨?_, ?_, ?_, ?_, ?_, ?_⟩ <;> first | trivial | omega


/-! ## Rounding is exact on small multiples of a quarter -/

theorem roundHalfEven_intCast (k : Int) : roundHalfEven (k : ℚ) = k := by
  simp [roundHalfEven]

theorem fround_of_int_multiple (p : Nat) (emin : Int) (q : ℚ) (k : Int)
    (hk : q / (2 : ℚ) ^ quantumExp p emin q = k) : fround p emin q = q := by
  unfold fround
  rw [hk, roundHalfEven_intCast, ← hk]
  exact div_mul_cancel₀ q (zpow_ne_zero _ (by norm_num))

theorem quantumExp_le (p : Nat) (emin : Int) (hp : 24 ≤ p) (he : emin ≤ -2) (n : Int)
    (hn : |n| < 2 ^ 24) : quantumExp p emin ((n : ℚ) / 4) ≤ -2 := by
  unfold quantumExp
  apply max_le _ he
  rcases eq_or_ne n 0 with rfl | hn0
  · simp
    omega
  · have hpos : (0 : ℚ) < |(n : ℚ) / 4| := by
      apply abs_pos.mpr
      exact div_ne_zero (by exact_mod_cast hn0) (by norm_num)
    have hnq : |(n : ℚ)| < 2 ^ 24 := by exact_mod_cast hn
    have hpow : (2 : ℚ) ^ 24 ≤ 2 ^ p := pow_le_pow_right₀ (by norm_num) hp
    have hlt : |(n : ℚ) / 4| < ((2 : ℕ) : ℚ) ^ ((p : Int) - 2) := by
      rw [abs_div, zpow_sub₀ (by norm_num), zpow_natCast]
      have h4 : |(4 : ℚ)| = ((2 : ℕ) : ℚ) ^ (2 : Int) := by norm_num
      rw [h4]
      apply div_lt_div_of_pos_right _ (by norm_num)
      calc |(n : ℚ)| < 2 ^ 24 := hnq
        _ ≤ 2 ^ p := hpow
        _ = ((2 : ℕ) : ℚ) ^ p := by norm_num
    have hlog := (Int.lt_zpow_iff_log_lt (R := ℚ) (b := 2) (by norm_num) hpos).mp hlt
    omega

theorem fround_quarter (p : Nat) (emin : Int) (hp : 24 ≤ p) (he : emin ≤ -2) (n : Int)
    (hn : |n| < 2 ^ 24) : fround p emin ((n : ℚ) / 4) = (n : ℚ) / 4 := by
  have hq := quantumExp_le p emin hp he n hn
  obtain ⟨m, hm⟩ : ∃ m : ℕ, quantumExp p emin ((n : ℚ) / 4) = -2 - (m : Int) :=
    ⟨(-2 - quantumExp p emin ((n : ℚ) / 4)).toNat, by omega⟩
  apply fround_of_int_multiple p emin _ (n * 2 ^ m)
  rw [hm, zpow_sub₀ (by norm_num), zpow_natCast]
  push_cast
  field_simp
  ring

theorem fround_int16 (p : Nat) (emin : Int) (hp : 24 ≤ p) (he : emin ≤ -2) (lsb : Int)
    (hlo : -32768 ≤ lsb) (hhi : lsb ≤ 32767) : fround p emin (lsb : ℚ) = lsb := by
  have h := fround_quarter p emin hp he (4 * lsb) (by rw [abs_lt]; constructor <;> omega)
  have e : ((4 * lsb : Int) : ℚ) / 4 = lsb := by push_cast; ring
  rwa [e] at h

theorem fround_const_8_75 (p : Nat) (emin : Int) (hp : 24 ≤ p) (he : emin ≤ -2) :
    fround p emin (875 / 100) = 35 / 4 := by
  have h := fround_quarter p emin hp he 35 (by decide)
  have e : ((35 : Int) : ℚ) / 4 = 875 / 100 := by norm_num
  rw [e] at h
  rw [h]; norm_num

/-! ## Rounding is exact on small integers -/

theorem fround_int_small (p : Nat) (emin : Int) (hp : 24 ≤ p) (he : emin ≤ -2) (n : Int)
    (hn : |n| < 2 ^ 22) : fround p emin (n : ℚ) = n := by
  have h := fround_quarter p emin hp he (4 * n) (by rw [abs_lt] at hn ⊢; constructor <;> omega)
  have e : ((4 * n : Int) : ℚ) / 4 = n := by push_cast; ring
  rwa [e] at h

/-! ## Shape of every operation on the simulated device, for any fault plan -/

theorem read_reg_eq (h reg : Nat) (data : List Nat) (len : Nat) (regs : Nat → Fin 256)
    (fault : Nat → Int) (trace : List Call) :
    i3g4250d_read_reg (some (Bus.ctx h)) reg data len ⟨regs, fault, trace⟩
      = (fault trace.length,
         if fault trace.length = 0 then Bus.burst regs reg len else data,
         ⟨regs, fault, trace ++ [Call.read h reg data len]⟩) := by
  simp only [i3g4250d_read_reg, Bus.ctx, Bus.read_reg]
  split
  · next hf => simp [hf]
  · rfl

theorem write_reg_eq (h reg : Nat) (data : List Nat) (len : Nat) (regs : Nat → Fin 256)
    (fault : Nat → Int) (trace : List Call) :
    i3g4250d_write_reg (some (Bus.ctx h)) reg data len ⟨regs, fault, trace⟩
      = (fault trace.length,
         ⟨if fault trace.length = 0 then Bus.store regs reg data len else regs, fault,
          trace ++ [Call.write h reg data len]⟩) := by
  simp only [i3g4250d_write_reg, Bus.ctx, Bus.write_reg]
  split
  · next hf => simp [hf]
  · simp

theorem Getter.run_one_read (g : Getter) (h j : Nat) (regs : Nat → Fin 256) (fault : Nat → Int)
    (trace : List Call) :
    g.run (some (Bus.ctx h)) j ⟨regs, fault, trace⟩
      = (fault trace.length, ⟨regs, fault, trace ++ [Call.read h g.reg [j] 1]⟩) := by
  rcases g with s | _ | _ | _ | _ | _ | _ | _ | _ | _ | _ | _ | _ | _ | _ | _ | _ | _
  · cases s <;>
      simp only [Getter.run, Getter.reg, Setting.reg, Setting.get, i3g4250d_data_rate_get,
        i3g4250d_full_scale_get, i3g4250d_self_test_get, i3g4250d_data_format_get,
        i3g4250d_lp_bandwidth_get, i3g4250d_hp_bandwidth_get, i3g4250d_hp_mode_get,
        i3g4250d_filter_path_get, i3g4250d_filter_path_internal_get, i3g4250d_spi_mode_get,
        i3g4250d_pin_mode_get, i3g4250d_pin_polarity_get, i3g4250d_int_notification_get,
        i3g4250d_int_on_threshold_mode_get, i3g4250d_fifo_mode_get, read_reg_eq]
  all_goals
    simp only [Getter.run, Getter.reg, i3g4250d_status_reg_get, i3g4250d_flag_data_ready_get,
      i3g4250d_temperature_raw_get, i3g4250d_device_id_get, i3g4250d_boot_get,
      i3g4250d_hp_reference_value_get, i3g4250d_pin_int1_route_get,
      i3g4250d_pin_int2_route_get, i3g4250d_int_on_threshold_conf_get,
      i3g4250d_int_on_threshold_src_get, i3g4250d_int_on_threshold_dur_get,
      i3g4250d_fifo_enable_get, i3g4250d_fifo_watermark_get, i3g4250d_fifo_data_level_get,
      i3g4250d_fifo_empty_flag_get, i3g4250d_fifo_ovr_flag_get, i3g4250d_fifo_wtm_flag_get,
      read_reg_eq]

theorem RmwCall.run_write_fail (c : RmwCall) (h j : Nat) (regs : Nat → Fin 256)
    (fault : Nat → Int) (trace : List Call) (hf1 : fault trace.length = 0)
    (hf2 : fault (trace.length + 1) ≠ 0) :
    c.run (some (Bus.ctx h)) j ⟨regs, fault, trace⟩
      = (fault (trace.length + 1), ⟨regs, fault,
             trace ++ [Call.read h c.reg [j] 1,
                       Call.write h c.reg [c.newByte (regs c.reg)] 1]⟩) := by
  have hf3 : ∀ x : Call, fault (trace ++ [x]).length ≠ 0 := by
    intro x; simpa using hf2
  have hl : ∀ x : Call, (trace ++ [x]).length = trace.length + 1 := by
    intro x; simp
  rcases c with ⟨s, val⟩ | val | val | val | val | val | val | val
  · cases s <;>
      simp only [RmwCall.newByte, RmwCall.reg, Setting.reg, Setting.set, RmwCall.run,
        i3g4250d_data_rate_set,
        i3g4250d_full_scale_set, i3g4250d_self_test_set, i3g4250d_data_format_set,
        i3g4250d_lp_bandwidth_set, i3g4250d_hp_bandwidth_set, i3g4250d_hp_mode_set,
        i3g4250d_filter_path_set, i3g4250d_filter_path_internal_set, i3g4250d_spi_mode_set,
        i3g4250d_pin_mode_set, i3g4250d_pin_polarity_set, i3g4250d_int_notification_set,
        i3g4250d_int_on_threshold_mode_set, i3g4250d_fifo_mode_set,
        read1_ok _ _ _ _ _ _ hf1, write1_fail _ _ _ _ _ _ (hf3 _), hl, cell_read, cell_write,
        if_true, List.append_assoc, List.singleton_append]
  all_goals
    simp only [RmwCall.newByte, RmwCall.reg, RmwCall.run, i3g4250d_boot_set,
      i3g4250d_hp_reference_value_set, i3g4250d_pin_int1_route_set,
      i3g4250d_pin_int2_route_set, i3g4250d_int_on_threshold_dur_set,
      i3g4250d_fifo_enable_set, i3g4250d_fifo_watermark_set,
      read1_ok _ _ _ _ _ _ hf1, write1_fail _ _ _ _ _ _ (hf3 _), hl, cell_read, cell_write,
      if_true, List.append_assoc, List.singleton_append]

theorem RmwCall.run_cases (c : RmwCall) (h j : Nat) (regs : Nat → Fin 256)
    (fault : Nat → Int) (trace : List Call) :
    c.run (some (Bus.ctx h)) j ⟨regs, fault, trace⟩
      = if fault trace.length = 0 then
          (fault (trace.length + 1),
           ⟨if fault (trace.length + 1) = 0 then
              Function.update regs c.reg (Fin.ofNat (c.newByte (regs c.reg))) else regs,
            fault,
            trace ++ [Call.read h c.reg [j] 1,
                      Call.write h c.reg [c.newByte (regs c.reg)] 1]⟩)
        else (fault trace.length, ⟨regs, fault, trace ++ [Call.read h c.reg [j] 1]⟩) := by
  by_cases hf1 : fault trace.length = 0
  · by_cases hf2 : fault (trace.length + 1) = 0
    · rw [RmwCall.run_ok c h j regs fault trace hf1 hf2, if_pos hf1, if_pos hf2, hf2]
    · rw [RmwCall.run_write_fail c h j regs fault trace hf1 hf2, if_pos hf1, if_neg hf2]
  · rw [RmwCall.run_read_fail c h j regs fault trace hf1, if_neg hf1]

theorem read1_eq (h reg j : Nat) (regs : Nat → Fin 256) (fault : Nat → Int)
    (trace : List Call) :
    i3g4250d_read_reg (some (Bus.ctx h)) reg [j] 1 ⟨regs, fault, trace⟩
      = (fault trace.length, if fault trace.length = 0 then [(regs reg).val] else [j],
         ⟨regs, fault, trace ++ [Call.read h reg [j] 1]⟩) := by
  by_cases hf : fault trace.length = 0
  · rw [read1_ok h reg j regs fault trace hf, if_pos hf, hf]
  · rw [read1_fail h reg j regs fault trace hf, if_neg hf]

theorem write1_eq (h reg b : Nat) (regs : Nat → Fin 256) (fault : Nat → Int)
    (trace : List Call) :
    i3g4250d_write_reg (some (Bus.ctx h)) reg [b] 1 ⟨regs, fault, trace⟩
      = (fault trace.length,
         ⟨if fault trace.length = 0 then Function.update regs reg (Fin.ofNat b) else regs,
          fault, trace ++ [Call.write h reg [b] 1]⟩) := by
  by_cases hf : fault trace.length = 0
  · rw [write1_ok h reg b regs fault trace hf, if_pos hf, hf]
  · rw [write1_fail h reg b regs fault trace hf, if_neg hf]

theorem Axis.threshold_set_eq (a : Axis) (val h jh jl : Nat) (regs : Nat → Fin 256)
    (fault : Nat → Int) (trace : List Call) :
    a.threshold_set (some (Bus.ctx h)) val jh jl ⟨regs, fault, trace⟩
      = if fault trace.length = 0 then
          if fault (trace.length + 1) = 0 then
            if fault (trace.length + 2) = 0 then
              (fault (trace.length + 3),
               ⟨if fault (trace.length + 3) = 0 then
                  Function.update
                    (Function.update regs a.regH
                      (Fin.ofNat (val % 65536 / 256 % 128 + (regs a.regH).val / 128 % 2 * 128)))
                    a.regL (Fin.ofNat (val % 256))
                else
                  Function.update regs a.regH
                    (Fin.ofNat (val % 65536 / 256 % 128 + (regs a.regH).val / 128 % 2 * 128)),
                fault,
                trace ++ [Call.read h a.regH [jh] 1,
                          Call.write h a.regH
                            [val % 65536 / 256 % 128 + (regs a.regH).val / 128 % 2 * 128] 1,
                          Call.read h a.regL [jl] 1,
                          Call.write h a.regL [val % 256] 1]⟩)
            else
              (fault (trace.length + 2),
               ⟨Function.update regs a.regH
                  (Fin.ofNat (val % 65536 / 256 % 128 + (regs a.regH).val / 128 % 2 * 128)),
                fault,
                trace ++ [Call.read h a.regH [jh] 1,
                          Call.write h a.regH
                            [val % 65536 / 256 % 128 + (regs a.regH).val / 128 % 2 * 128] 1,
                          Call.read h a.regL [jl] 1]⟩)
          else
            (fault (trace.length + 1),
             ⟨regs, fault,
              trace ++ [Call.read h a.regH [jh] 1,
                        Call.write h a.regH
                          [val % 65536 / 256 % 128 + (regs a.regH).val / 128 % 2 * 128] 1]⟩)
        else (fault trace.length, ⟨regs, fault, trace ++ [Call.read h a.regH [jh] 1]⟩) := by
  have e1 : val % 65536 / 256 % 256 % 128 = val % 65536 / 256 % 128 := by omega
  have e2 : (val % 65536 + 4294967296 - val % 65536 / 256 % 128 * 256 % 4294967296)
      % 4294967296 % 256 = val % 256 := by omega
  have l1 : ∀ x : Call, (trace ++ [x]).length = trace.length + 1 := by intro x; simp
  have l2 : ∀ x y : Call, (trace ++ [x, y]).length = trace.length + 2 := by intro x y; simp
  have l3 : ∀ x y z : Call, (trace ++ [x, y, z]).length = trace.length + 3 := by
    intro x y z; simp
  by_cases hf0 : fault trace.length = 0 <;> by_cases hf1 : fault (trace.length + 1) = 0 <;>
    by_cases hf2 : fault (trace.length + 2) = 0 <;>
    by_cases hf3 : fault (trace.length + 3) = 0 <;>
    cases a <;>
    simp only [Axis.threshold_set, Axis.regH, Axis.regL, i3g4250d_int_x_threshold_set,
      i3g4250d_int_y_threshold_set, i3g4250d_int_z_threshold_set, read1_eq,
      write1_eq, l1, l2, l3, hf0, hf1, hf2, hf3,
      if_true, if_false, int1_tsh_xh_ofByte_byteOf, int1_tsh_xl_ofByte_byteOf,
      int1_tsh_yh_ofByte_byteOf, int1_tsh_yl_ofByte_byteOf,
      int1_tsh_zh_ofByte_byteOf, int1_tsh_zl_ofByte_byteOf,
      i3g4250d_int1_tsh_xh_t.toByte, i3g4250d_int1_tsh_xl_t.toByte,
      i3g4250d_int1_tsh_yh_t.toByte, i3g4250d_int1_tsh_yl_t.toByte,
      i3g4250d_int1_tsh_zh_t.toByte, i3g4250d_int1_tsh_zl_t.toByte,
      and_7F, Nat.mod_mod, List.append_assoc, List.singleton_append, List.cons_append,
      List.nil_append, e1, e2]

theorem Axis.threshold_get_eq (a : Axis) (val h jh jl : Nat) (regs : Nat → Fin 256)
    (fault : Nat → Int) (trace : List Call) :
    ((a.threshold_get (some (Bus.ctx h)) val jh jl ⟨regs, fault, trace⟩).1,
     (a.threshold_get (some (Bus.ctx h)) val jh jl ⟨regs, fault, trace⟩).2.2)
      = if fault trace.length = 0 then
          (fault (trace.length + 1),
           ⟨regs, fault,
            trace ++ [Call.read h a.regH [jh] 1, Call.read h a.regL [jl] 1]⟩)
        else (fault trace.length, ⟨regs, fault, trace ++ [Call.read h a.regH [jh] 1]⟩) := by
  have l1 : ∀ x : Call, (trace ++ [x]).length = trace.length + 1 := by intro x; simp
  by_cases hf0 : fault trace.length = 0 <;>
    cases a <;>
    simp only [Axis.threshold_get, Axis.regH, Axis.regL, i3g4250d_int_x_threshold_get,
      i3g4250d_int_y_threshold_get, i3g4250d_int_z_threshold_get, read1_eq, l1, hf0,
      if_true, if_false, List.append_assoc, List.singleton_append]

theorem angular_rate_raw_get_eq (h : Nat) (buff : List Nat) (regs : Nat → Fin 256)
    (fault : Nat → Int) (trace : List Call) :
    ((i3g4250d_angular_rate_raw_get (some (Bus.ctx h)) buff ⟨regs, fault, trace⟩).1,
     (i3g4250d_angular_rate_raw_get (some (Bus.ctx h)) buff ⟨regs, fault, trace⟩).2.2)
      = (fault trace.length,
         ⟨regs, fault, trace ++ [Call.read h I3G4250D_OUT_X_L buff 6]⟩) := by
  simp only [i3g4250d_angular_rate_raw_get, read_reg_eq]

theorem int_on_threshold_conf_set_eq (h : Nat) (val : i3g4250d_int1_cfg_t)
    (regs : Nat → Fin 256) (fault : Nat → Int) (trace : List Call) :
    i3g4250d_int_on_threshold_conf_set (some (Bus.ctx h)) val ⟨regs, fault, trace⟩
      = (fault trace.length,
         ⟨if fault trace.length = 0 then
            Function.update regs I3G4250D_INT1_CFG (Fin.ofNat val.toByte) else regs,
          fault, trace ++ [Call.write h I3G4250D_INT1_CFG [val.toByte] 1]⟩) := by
  simp only [i3g4250d_int_on_threshold_conf_set, write1_eq]

/-! ## The bytes of a threshold, in the words of bit operations -/

theorem threshold_high_byte (v old : Nat) (hold : old < 256) :
    v % 65536 / 256 % 128 + old / 128 % 2 * 128 = (old &&& 0x80) ||| ((v >>> 8) &&& 0x7F) := by
  have hy : (v >>> 8) &&& 0x7F = v % 65536 / 256 % 128 := by
    rw [and_7F, Nat.shiftRight_eq_div_pow]; omega
  rw [hy]
  have ho : old &&& 0x80 = old / 128 % 2 * 128 := by
    revert old; decide!
  rw [ho]
  have hlt : v % 65536 / 256 % 128 < 2 ^ 7 := by omega
  have h := Nat.mul_add_lt_is_or hlt (old / 128 % 2)
  simp only [Nat.reducePow] at h
  rw [Nat.mul_comm (old / 128 % 2) 128, ← h]
  omega

theorem threshold_low_byte (v : Nat) : v % 256 = v &&& 0xFF :=
  (Nat.and_pow_two_sub_one_eq_mod v 8).symm

theorem threshold_high_byte_lt (v old : Nat) :
    v % 65536 / 256 % 128 + old / 128 % 2 * 128 < 256 := by omega

/-! ## Calls and status of an operation -/

/-- Every operation issues at least one call; every call but its last returned 0, and the
status of the operation is the status of its last call. -/
theorem Op.run_calls (o : Op) (h : Nat) (regs : Nat → Fin 256) (fault : Nat → Int)
    (trace : List Call) :
    ∃ calls : List Call, calls ≠ [] ∧
      (o.run (some (Bus.ctx h)) ⟨regs, fault, trace⟩).2.trace = trace ++ calls ∧
      (∀ k, k + 1 < calls.length → fault (trace.length + k) = 0) ∧
      (o.run (some (Bus.ctx h)) ⟨regs, fault, trace⟩).1
        = fault (trace.length + (calls.length - 1)) := by
  rcases o with ⟨reg, data, len⟩ | ⟨reg, data, len⟩ | ⟨c, j⟩ | ⟨a, v, jh, jl⟩ | val | ⟨g, j⟩ |
    ⟨a, v, jh, jl⟩ | buff
  · exact ⟨[Call.read h reg data len], by simp, by simp [Op.run, read_reg_eq],
      by intro k hk; simp at hk, by simp [Op.run, read_reg_eq]⟩
  · exact ⟨[Call.write h reg data len], by simp, by simp [Op.run, write_reg_eq],
      by intro k hk; simp at hk, by simp [Op.run, write_reg_eq]⟩
  · simp only [Op.run, RmwCall.run_cases]
    by_cases hf0 : fault trace.length = 0
    · refine ⟨[Call.read h c.reg [j] 1, Call.write h c.reg [c.newByte (regs c.reg)] 1],
        by simp, by simp [hf0], ?_, by simp [hf0]⟩
      intro k hk
      have hk0 : k = 0 := by simp at hk; omega
      subst hk0; exact hf0
    · exact ⟨[Call.read h c.reg [j] 1], by simp, by simp [hf0],
        by intro k hk; simp at hk, by simp [hf0]⟩
  · simp only [Op.run, Axis.threshold_set_eq]
    by_cases hf0 : fault trace.length = 0
    · by_cases hf1 : fault (trace.length + 1) = 0
      · by_cases hf2 : fault (trace.length + 2) = 0
        · simp only [hf0, hf1, hf2, if_true]
          refine ⟨_, ?_, rfl, ?_, rfl⟩
          · simp
          · intro k hk
            have hk0 : k = 0 ∨ k = 1 ∨ k = 2 := by
              simp only [List.length_cons, List.length_nil] at hk; omega
            rcases hk0 with rfl | rfl | rfl
            · exact hf0
            · exact hf1
            · exact hf2
        · simp only [hf0, hf1, hf2, if_true, if_false]
          refine ⟨_, ?_, rfl, ?_, rfl⟩
          · simp
          · intro k hk
            have hk0 : k = 0 ∨ k = 1 := by
              simp only [List.length_cons, List.length_nil] at hk; omega
            rcases hk0 with rfl | rfl
            · exact hf0
            · exact hf1
      · simp only [hf0, hf1, if_true, if_false]
        refine ⟨_, ?_, rfl, ?_, rfl⟩
        · simp
        · intro k hk
          have hk0 : k = 0 := by
            simp only [List.length_cons, List.length_nil] at hk; omega
          subst hk0; exact hf0
    · exact ⟨[Call.read h a.regH [jh] 1], by simp, by simp [hf0],
        by intro k hk; simp at hk, by simp [hf0]⟩
  · exact ⟨[Call.write h I3G4250D_INT1_CFG [val.toByte] 1], by simp,
      by simp [Op.run, int_on_threshold_conf_set_eq],
      by intro k hk; simp at hk, by simp [Op.run, int_on_threshold_conf_set_eq]⟩
  · exact ⟨[Call.read h g.reg [j] 1], by simp, by simp [Op.run, Getter.run_one_read],
      by intro k hk; simp at hk, by simp [Op.run, Getter.run_one_read]⟩
  · simp only [Op.run, Axis.threshold_get_eq]
    by_cases hf0 : fault trace.length = 0
    · refine ⟨[Call.read h a.regH [jh] 1, Call.read h a.regL [jl] 1],
        by simp, by simp [hf0], ?_, by simp [hf0]⟩
      intro k hk
      have hk0 : k = 0 := by simp at hk; omega
      subst hk0; exact hf0
    · exact ⟨[Call.read h a.regH [jh] 1], by simp, by simp [hf0],
        by intro k hk; simp at hk, by simp [hf0]⟩
  · exact ⟨[Call.read h I3G4250D_OUT_X_L buff 6], by simp,
      by simp [Op.run, angular_rate_raw_get_eq],
      by intro k hk; simp at hk, by simp [Op.run, angular_rate_raw_get_eq]⟩

theorem drop_trace (trace calls : List Call) : (trace ++ calls).drop trace.length = calls := by
  simp

/-- The calls a setter other than `i3g4250d_int_on_threshold_conf_set` issues: every write
follows a successful read of the same register. -/
theorem Op.setter_readFirst (o : Op) (hs : o.isSetter = true)
    (hc : ∀ val, o ≠ .int_on_threshold_conf_set val) (h : Nat) (regs : Nat → Fin 256)
    (fault : Nat → Int) (trace : List Call) :
    readFirst (fun k => fault (trace.length + k))
      ((o.run (some (Bus.ctx h)) ⟨regs, fault, trace⟩).2.trace.drop trace.length) = true := by
  rcases o with ⟨reg, data, len⟩ | ⟨reg, data, len⟩ | ⟨c, j⟩ | ⟨a, v, jh, jl⟩ | val | ⟨g, j⟩ |
    ⟨a, v, jh, jl⟩ | buff
  · cases hs
  · cases hs
  · simp only [Op.run, RmwCall.run_cases]
    by_cases hf0 : fault trace.length = 0
    · simp [hf0, readFirst, List.range_succ, Call.writeAddr, Call.isReadAt]
    · simp [hf0, readFirst, List.range_succ, Call.writeAddr, Call.isReadAt]
  · simp only [Op.run, Axis.threshold_set_eq]
    by_cases hf0 : fault trace.length = 0 <;> by_cases hf1 : fault (trace.length + 1) = 0 <;>
      by_cases hf2 : fault (trace.length + 2) = 0 <;>
      simp [hf0, hf1, hf2, readFirst, List.range_succ, Call.writeAddr, Call.isReadAt]
  · exact absurd rfl (hc val)
  · cases hs
  · cases hs
  · cases hs

/-- The calls a getter issues are reads, and the register file stays as it was. -/
theorem Op.getter_reads (o : Op) (hg : o.isGetter = true) (h : Nat) (regs : Nat → Fin 256)
    (fault : Nat → Int) (trace : List Call) :
    (o.run (some (Bus.ctx h)) ⟨regs, fault, trace⟩).2.regs = regs ∧
    ∃ calls, (o.run (some (Bus.ctx h)) ⟨regs, fault, trace⟩).2.trace = trace ++ calls ∧
      ∀ c ∈ calls, c.writeAddr = none := by
  rcases o with ⟨reg, data, len⟩ | ⟨reg, data, len⟩ | ⟨c, j⟩ | ⟨a, v, jh, jl⟩ | val | ⟨g, j⟩ |
    ⟨a, v, jh, jl⟩ | buff
  · cases hg
  · cases hg
  · cases hg
  · cases hg
  · cases hg
  · simp only [Op.run, Getter.run_one_read]
    exact ⟨trivial, _, rfl, by simp [Call.writeAddr]⟩
  · simp only [Op.run, Axis.threshold_get_eq]
    by_cases hf0 : fault trace.length = 0
    · simp only [hf0, if_true]
      exact ⟨trivial, _, rfl, by simp [Call.writeAddr]⟩
    · simp only [hf0, if_false]
      exact ⟨trivial, _, rfl, by simp [Call.writeAddr]⟩
  · simp only [Op.run, angular_rate_raw_get_eq]
    exact ⟨trivial, _, rfl, by simp [Call.writeAddr]⟩

/-! ## The byte `i3g4250d_data_rate_set` writes -/

theorem land_low_mod (v m k : Nat) (hm : m < 2 ^ k) : v &&& m = (v % 2 ^ k) &&& m := by
  apply Nat.eq_of_testBit_eq
  intro i
  rw [Nat.testBit_and, Nat.testBit_and, Nat.testBit_mod_two_pow]
  by_cases hik : i < k
  · simp [hik]
  · have hmi : m.testBit i = false :=
      Nat.testBit_lt_two_pow (lt_of_lt_of_le hm (Nat.pow_le_pow_right (by decide) (by omega)))
    simp [hmi]

theorem data_rate_byte_aux :
    ∀ u < 64, ∀ w < 4,
      (u &&& 0x0F) % 16 + w * 16 + ((u &&& 0x30) >>> 4) % 4 * 64
        = ((u &&& 0x30) <<< 2) ||| (w * 16) ||| (u &&& 0x0F) := by
  decide!

theorem land_30 : ∀ r < 256, r &&& 0x30 = r / 16 % 4 * 16 := by
  decide!

theorem data_rate_newByte (v r : Nat) (hr : r < 256) :
    RmwCall.newByte (.enum .data_rate v) r
      = ((v &&& 0x30) <<< 2) ||| (r &&& 0x30) ||| (v &&& 0x0F) := by
  have e1 : (v % 256) &&& 0x30 = (v % 64) &&& 0x30 := by
    rw [land_low_mod (v % 256) 0x30 6 (by decide)]
    congr 1
    omega
  have e2 : (v % 256) &&& 0x0F = (v % 64) &&& 0x0F := by
    rw [land_low_mod (v % 256) 0x0F 6 (by decide)]
    congr 1
    omega
  have e3 : v &&& 0x30 = (v % 64) &&& 0x30 := land_low_mod v 0x30 6 (by decide)
  have e4 : v &&& 0x0F = (v % 64) &&& 0x0F := land_low_mod v 0x0F 6 (by decide)
  simp only [RmwCall.newByte, RmwCall.run, Setting.set, i3g4250d_data_rate_set, cell_read,
    cell_write, if_true, byteOf, List.getD_cons_zero, i3g4250d_ctrl_reg1_t.ofByte,
    i3g4250d_ctrl_reg1_t.toByte, Nat.mod_eq_of_lt hr]
  rw [e1, e2, e3, e4, land_30 r hr]
  exact data_rate_byte_aux (v % 64) (Nat.mod_lt _ (by decide)) (r / 16 % 4)
    (Nat.mod_lt _ (by decide))

theorem data_rate_dr_field : ∀ u < 64, ((u &&& 0x30) >>> 4) % 4 = u / 16 % 4 := by
  decide!

theorem data_rate_newByte_fields (v r : Nat) (hr : r < 256) :
    RmwCall.newByte (.enum .data_rate v) r = v % 16 + r / 16 % 4 * 16 + v / 16 % 4 * 64 := by
  have e1 : (v % 256) &&& 0x30 = (v % 64) &&& 0x30 := by
    rw [land_low_mod (v % 256) 0x30 6 (by decide)]
    congr 1
    omega
  have e2 : (v % 256) &&& 0x0F = v % 16 := by
    have h := Nat.and_pow_two_sub_one_eq_mod (v % 256) 4
    simp only [Nat.reducePow, Nat.reduceSub] at h
    rw [h]; omega
  have e3 := data_rate_dr_field (v % 64) (Nat.mod_lt _ (by decide))
  have e4 : v % 64 / 16 % 4 = v / 16 % 4 := by omega
  simp only [RmwCall.newByte, RmwCall.run, Setting.set, i3g4250d_data_rate_set, cell_read,
    cell_write, if_true, byteOf, List.getD_cons_zero, i3g4250d_ctrl_reg1_t.ofByte,
    i3g4250d_ctrl_reg1_t.toByte, Nat.mod_eq_of_lt hr]
  rw [e1, e2, e3, e4, Nat.mod_mod]

theorem odr_800_byte : ∀ r < 256,
    (((0x3F : Nat) &&& 0x30) <<< 2) ||| (r &&& 0x30) ||| ((0x3F : Nat) &&& 0x0F)
      = 0xCF ||| (r &&& 0x30) := by
  decide!

theorem odr_sleep_byte : ∀ r < 256,
    (((0x08 : Nat) &&& 0x30) <<< 2) ||| (r &&& 0x30) ||| ((0x08 : Nat) &&& 0x0F)
      = 0x08 ||| (r &&& 0x30) := by
  decide!

/-! ## The settings of CTRL_REG3 and CTRL_REG4 do not touch each other -/

theorem pin_int1_route_get_nf (h j : Nat) (regs : Nat → Fin 256) (trace : List Call) :
    i3g4250d_pin_int1_route_get (some (Bus.ctx h)) j ⟨regs, Bus.noFault, trace⟩
      = (0, ⟨(i3g4250d_ctrl_reg3_t.ofByte (regs I3G4250D_CTRL_REG3).val).i1_int1,
             (i3g4250d_ctrl_reg3_t.ofByte (regs I3G4250D_CTRL_REG3).val).i1_boot⟩,
          ⟨regs, Bus.noFault, trace ++ [Call.read h I3G4250D_CTRL_REG3 [j] 1]⟩) := by
  simp only [i3g4250d_pin_int1_route_get, read1_nf, byteOf, List.getD_cons_zero,
    ctrl_reg3_ofByte_mod]

theorem pin_int2_route_get_nf (h j : Nat) (regs : Nat → Fin 256) (trace : List Call) :
    i3g4250d_pin_int2_route_get (some (Bus.ctx h)) j ⟨regs, Bus.noFault, trace⟩
      = (0, ⟨(i3g4250d_ctrl_reg3_t.ofByte (regs I3G4250D_CTRL_REG3).val).i2_empty,
             (i3g4250d_ctrl_reg3_t.ofByte (regs I3G4250D_CTRL_REG3).val).i2_orun,
             (i3g4250d_ctrl_reg3_t.ofByte (regs I3G4250D_CTRL_REG3).val).i2_wtm,
             (i3g4250d_ctrl_reg3_t.ofByte (regs I3G4250D_CTRL_REG3).val).i2_drdy⟩,
          ⟨regs, Bus.noFault, trace ++ [Call.read h I3G4250D_CTRL_REG3 [j] 1]⟩) := by
  simp only [i3g4250d_pin_int2_route_get, read1_nf, byteOf, List.getD_cons_zero,
    ctrl_reg3_ofByte_mod]

/-- The route fields of CTRL_REG3 after the setter of another setting of that register. -/
theorem ctrl_reg3_route_call_other (c : RmwCall) (hreg : c.reg = I3G4250D_CTRL_REG3)
    (x : Nat) :
    ((∀ v, c ≠ .pin_int1_route v) →
      (i3g4250d_ctrl_reg3_t.ofByte (c.newByte x)).i1_int1
          = (i3g4250d_ctrl_reg3_t.ofByte x).i1_int1 ∧
      (i3g4250d_ctrl_reg3_t.ofByte (c.newByte x)).i1_boot
          = (i3g4250d_ctrl_reg3_t.ofByte x).i1_boot) ∧
    ((∀ v, c ≠ .pin_int2_route v) →
      (i3g4250d_ctrl_reg3_t.ofByte (c.newByte x)).i2_empty
          = (i3g4250d_ctrl_reg3_t.ofByte x).i2_empty ∧
      (i3g4250d_ctrl_reg3_t.ofByte (c.newByte x)).i2_orun
          = (i3g4250d_ctrl_reg3_t.ofByte x).i2_orun ∧
      (i3g4250d_ctrl_reg3_t.ofByte (c.newByte x)).i2_wtm
          = (i3g4250d_ctrl_reg3_t.ofByte x).i2_wtm ∧
      (i3g4250d_ctrl_reg3_t.ofByte (c.newByte x)).i2_drdy
          = (i3g4250d_ctrl_reg3_t.ofByte x).i2_drdy) := by
  rcases c with ⟨A, Va⟩ | val | val | val | val | val | val | val
  · simp only [RmwCall.reg] at hreg
    cases A <;>
      first
        | exact absurd hreg (by decide)
        | (simp only [RmwCall.newByte, RmwCall.run, Setting.set, i3g4250d_pin_mode_set,
             i3g4250d_pin_polarity_set, cell_read, cell_write, if_true,
             ctrl_reg3_ofByte_byteOf, ctrl_reg3_ofByte_toByte]
           simp only [i3g4250d_ctrl_reg3_t.ofByte, Nat.mod_mod, and_self, implies_true])
  all_goals
    try simp only [RmwCall.reg] at hreg
  all_goals
    first
      | exact absurd hreg (by decide)
      | (refine ⟨fun h1 => ?_, fun h2 => ?_⟩
         all_goals
           first
             | exact absurd rfl (h1 val)
             | exact absurd rfl (h2 val)
             | (simp only [RmwCall.newByte, RmwCall.run, i3g4250d_pin_int1_route_set,
                  i3g4250d_pin_int2_route_set, cell_read, cell_write, if_true,
                  ctrl_reg3_ofByte_byteOf, ctrl_reg3_ofByte_toByte]
                simp only [i3g4250d_ctrl_reg3_t.ofByte, Nat.mod_mod, and_self]))

/-! ## The raw fields of CTRL_REG5 and FIFO_CTRL_REG and the other settings there -/

theorem boot_get_nf (h j : Nat) (regs : Nat → Fin 256) (trace : List Call) :
    i3g4250d_boot_get (some (Bus.ctx h)) j ⟨regs, Bus.noFault, trace⟩
      = (0, (i3g4250d_ctrl_reg5_t.ofByte (regs I3G4250D_CTRL_REG5).val).boot,
          ⟨regs, Bus.noFault, trace ++ [Call.read h I3G4250D_CTRL_REG5 [j] 1]⟩) := by
  simp only [i3g4250d_boot_get, read1_nf, byteOf, List.getD_cons_zero, ctrl_reg5_ofByte_mod]

theorem fifo_enable_get_nf (h j : Nat) (regs : Nat → Fin 256) (trace : List Call) :
    i3g4250d_fifo_enable_get (some (Bus.ctx h)) j ⟨regs, Bus.noFault, trace⟩
      = (0, (i3g4250d_ctrl_reg5_t.ofByte (regs I3G4250D_CTRL_REG5).val).fifo_en,
          ⟨regs, Bus.noFault, trace ++ [Call.read h I3G4250D_CTRL_REG5 [j] 1]⟩) := by
  simp only [i3g4250d_fifo_enable_get, read1_nf, byteOf, List.getD_cons_zero,
    ctrl_reg5_ofByte_mod]

theorem fifo_watermark_get_nf (h j : Nat) (regs : Nat → Fin 256) (trace : List Call) :
    i3g4250d_fifo_watermark_get (some (Bus.ctx h)) j ⟨regs, Bus.noFault, trace⟩
      = (0, (i3g4250d_fifo_ctrl_reg_t.ofByte (regs I3G4250D_FIFO_CTRL_REG).val).wtm,
          ⟨regs, Bus.noFault, trace ++ [Call.read h I3G4250D_FIFO_CTRL_REG [j] 1]⟩) := by
  simp only [i3g4250d_fifo_watermark_get, read1_nf, byteOf, List.getD_cons_zero,
    fifo_ctrl_reg_ofByte_mod]

/-- The fields `boot` and `fifo_en` of CTRL_REG5 after the setter of another setting of that
register. -/
theorem ctrl_reg5_flags_call_other (c : RmwCall) (hreg : c.reg = I3G4250D_CTRL_REG5)
    (x : Nat) :
    ((∀ v, c ≠ .boot v) →
      (i3g4250d_ctrl_reg5_t.ofByte (c.newByte x)).boot
          = (i3g4250d_ctrl_reg5_t.ofByte x).boot) ∧
    ((∀ v, c ≠ .fifo_enable v) →
      (i3g4250d_ctrl_reg5_t.ofByte (c.newByte x)).fifo_en
          = (i3g4250d_ctrl_reg5_t.ofByte x).fifo_en) := by
  rcases c with ⟨A, Va⟩ | val | val | val | val | val | val | val
  · simp only [RmwCall.reg] at hreg
    cases A <;>
      first
        | exact absurd hreg (by decide)
        | (simp only [RmwCall.newByte, RmwCall.run, Setting.set, i3g4250d_filter_path_set,
             i3g4250d_filter_path_internal_set, cell_read, cell_write, if_true,
             ctrl_reg5_ofByte_byteOf, ctrl_reg5_ofByte_toByte]
           simp only [i3g4250d_ctrl_reg5_t.ofByte, Nat.mod_mod, and_self, implies_true])
  all_goals
    try simp only [RmwCall.reg] at hreg
  all_goals
    first
      | exact absurd hreg (by decide)
      | (refine ⟨fun h1 => ?_, fun h2 => ?_⟩
         all_goals
           first
             | exact absurd rfl (h1 val)
             | exact absurd rfl (h2 val)
             | (simp only [RmwCall.newByte, RmwCall.run, i3g4250d_boot_set,
                  i3g4250d_fifo_enable_set, cell_read, cell_write, if_true,
                  ctrl_reg5_ofByte_byteOf, ctrl_reg5_ofByte_toByte]
                simp only [i3g4250d_ctrl_reg5_t.ofByte, Nat.mod_mod]))

/-- The field `wtm` of FIFO_CTRL_REG after the setter of the other setting of that
register. -/
theorem fifo_ctrl_wtm_call_other (c : RmwCall) (hreg : c.reg = I3G4250D_FIFO_CTRL_REG)
    (hne : ∀ v, c ≠ .fifo_watermark v) (x : Nat) :
    (i3g4250d_fifo_ctrl_reg_t.ofByte (c.newByte x)).wtm
      = (i3g4250d_fifo_ctrl_reg_t.ofByte x).wtm := by
  rcases c with ⟨A, Va⟩ | val | val | val | val | val | val | val
  · simp only [RmwCall.reg] at hreg
    cases A <;>
      first
        | exact absurd hreg (by decide)
        | (simp only [RmwCall.newByte, RmwCall.run, Setting.set, i3g4250d_fifo_mode_set,
             cell_read, cell_write, if_true,
             fifo_ctrl_reg_ofByte_byteOf, fifo_ctrl_reg_ofByte_toByte]
           simp only [i3g4250d_fifo_ctrl_reg_t.ofByte, Nat.mod_mod])
  all_goals
    try simp only [RmwCall.reg] at hreg
  all_goals
    first
      | exact absurd hreg (by decide)
      | exact absurd rfl (hne val)

/-! ## Values of the threshold, flag and raw-field getters -/

theorem Axis.threshold_get_ok (a : Axis) (val h jh jl : Nat) (regs : Nat → Fin 256)
    (fault : Nat → Int) (trace : List Call)
    (hf0 : fault trace.length = 0) (hf1 : fault (trace.length + 1) = 0) :
    a.threshold_get (some (Bus.ctx h)) val jh jl ⟨regs, fault, trace⟩
      = (0, (regs a.regH).val % 128 * 256 + (regs a.regL).val,
          ⟨regs, fault, trace ++ [Call.read h a.regH [jh] 1, Call.read h a.regL [jl] 1]⟩) := by
  have e : ((regs a.regH).val % 128 % 65536 * 256 % 65536 + (regs a.regL).val % 256) % 65536
      = (regs a.regH).val % 128 * 256 + (regs a.regL).val := by
    have := (regs a.regL).isLt
    omega
  have l1 : ∀ x : Call, (trace ++ [x]).length = trace.length + 1 := by intro x; simp
  cases a <;>
    simp only [Axis.regH, Axis.regL] at e <;>
    simp only [Axis.threshold_get, Axis.regH, Axis.regL, i3g4250d_int_x_threshold_get,
      i3g4250d_int_y_threshold_get, i3g4250d_int_z_threshold_get, read1_eq, l1, hf0, hf1,
      if_true, int1_tsh_xh_ofByte_byteOf, int1_tsh_xl_ofByte_byteOf,
      int1_tsh_yh_ofByte_byteOf, int1_tsh_yl_ofByte_byteOf,
      int1_tsh_zh_ofByte_byteOf, int1_tsh_zl_ofByte_byteOf,
      List.append_assoc, List.singleton_append, e]

theorem dur_newByte (v r : Nat) :
    RmwCall.newByte (.int_on_threshold_dur v) r
      = v % 256 % 128 + (if v % 256 = 0 then 0 else 1) * 128 := by
  simp only [RmwCall.newByte, RmwCall.run, i3g4250d_int_on_threshold_dur_set, cell_read,
    cell_write, if_true, int1_duration_ofByte_byteOf, i3g4250d_int1_duration_t.toByte,
    PROPERTY_ENABLE, PROPERTY_DISABLE, ne_eq, ite_not]
  split <;> rfl

theorem dur_get_ok (h j : Nat) (regs : Nat → Fin 256) (fault : Nat → Int)
    (trace : List Call) (hf : fault trace.length = 0) :
    i3g4250d_int_on_threshold_dur_get (some (Bus.ctx h)) j ⟨regs, fault, trace⟩
      = (0, (regs I3G4250D_INT1_DURATION).val % 128,
          ⟨regs, fault, trace ++ [Call.read h I3G4250D_INT1_DURATION [j] 1]⟩) := by
  simp only [i3g4250d_int_on_threshold_dur_get, read1_ok _ _ _ _ _ _ hf,
    int1_duration_ofByte_byteOf]

theorem hp_reference_value_get_nf (h j : Nat) (regs : Nat → Fin 256) (trace : List Call) :
    i3g4250d_hp_reference_value_get (some (Bus.ctx h)) j ⟨regs, Bus.noFault, trace⟩
      = (0, (regs I3G4250D_REFERENCE).val,
          ⟨regs, Bus.noFault, trace ++ [Call.read h I3G4250D_REFERENCE [j] 1]⟩) := by
  simp only [i3g4250d_hp_reference_value_get, read1_nf, byteOf, List.getD_cons_zero,
    i3g4250d_reference_t.ofByte, Nat.mod_mod, Nat.mod_eq_of_lt (regs I3G4250D_REFERENCE).isLt]

/-- The field a raw numeric setter writes, read back from the byte it produces. -/
theorem raw_field_after_set (v x : Nat) :
    (i3g4250d_fifo_ctrl_reg_t.ofByte (RmwCall.newByte (.fifo_watermark v) x)).wtm = v % 32 ∧
    (i3g4250d_ctrl_reg5_t.ofByte (RmwCall.newByte (.boot v) x)).boot = v % 2 ∧
    (i3g4250d_ctrl_reg5_t.ofByte (RmwCall.newByte (.fifo_enable v) x)).fifo_en = v % 2 ∧
    RmwCall.newByte (.hp_reference_value v) x = v % 256 := by
  have e32 : v % 256 % 32 = v % 32 := by omega
  have e2 : v % 256 % 2 = v % 2 := by omega
  refine ⟨?_, ?_, ?_, ?_⟩
  · simp only [RmwCall.newByte, RmwCall.run, i3g4250d_fifo_watermark_set, cell_read,
      cell_write, if_true, fifo_ctrl_reg_ofByte_byteOf, fifo_ctrl_reg_ofByte_toByte, e32]
  · simp only [RmwCall.newByte, RmwCall.run, i3g4250d_boot_set, cell_read,
      cell_write, if_true, ctrl_reg5_ofByte_byteOf, ctrl_reg5_ofByte_toByte, e2]
  · simp only [RmwCall.newByte, RmwCall.run, i3g4250d_fifo_enable_set, cell_read,
      cell_write, if_true, ctrl_reg5_ofByte_byteOf, ctrl_reg5_ofByte_toByte, e2]
  · simp only [RmwCall.newByte, RmwCall.run, i3g4250d_hp_reference_value_set, cell_read,
      cell_write, if_true, i3g4250d_reference_t.toByte, Nat.mod_mod]

/-! ## Sequences of calls of the two filter-path setters -/

theorem RmwCall.runAll_snoc {σ : Type} (cs : List RmwCall) (c : RmwCall)
    (ctx : Option (stmdev_ctx_t σ)) (junk : Nat) (w : σ) :
    RmwCall.runAll (cs ++ [c]) ctx junk w
      = ((RmwCall.runAll cs ctx junk w).1 ++ [(c.run ctx junk (RmwCall.runAll cs ctx junk w).2).1],
         (c.run ctx junk (RmwCall.runAll cs ctx junk w).2).2) := by
  simp only [RmwCall.runAll, List.foldl_append, List.foldl_cons, List.foldl_nil]

theorem Bus.eta_nf (W : Bus) (hW : W.fault = Bus.noFault) :
    W = ⟨W.regs, Bus.noFault, W.trace⟩ := by
  cases W
  simp only [Bus.mk.injEq, true_and, and_true]
  exact hW

/-- On a transport that never fails every call of a sequence returns 0 and the fault plan
stays as it is. -/
theorem RmwCall.runAll_nf (cs : List RmwCall) (h j : Nat) (regs : Nat → Fin 256)
    (trace : List Call) :
    (∀ s ∈ (RmwCall.runAll cs (some (Bus.ctx h)) j ⟨regs, Bus.noFault, trace⟩).1, s = 0) ∧
    (RmwCall.runAll cs (some (Bus.ctx h)) j ⟨regs, Bus.noFault, trace⟩).1.length = cs.length ∧
    (RmwCall.runAll cs (some (Bus.ctx h)) j ⟨regs, Bus.noFault, trace⟩).2.fault
      = Bus.noFault := by
  induction cs using List.reverseRecOn with
  | nil => simp [RmwCall.runAll]
  | append_singleton cs c ih =>
    obtain ⟨ih1, ih2, ih3⟩ := ih
    rw [RmwCall.runAll_snoc]
    rw [Bus.eta_nf _ ih3, RmwCall.run_nf]
    refine ⟨?_, ?_, rfl⟩
    · intro s hs
      simp only [List.mem_append, List.mem_singleton] at hs
      rcases hs with hs | hs
      · exact ih1 s hs
      · exact hs
    · simp [ih2]

/-- The byte of CTRL_REG5 after one more call of a filter-path setter. -/
theorem RmwCall.runAll_filter_step (cs : List RmwCall) (c : RmwCall)
    (hc : c.reg = I3G4250D_CTRL_REG5) (h j : Nat) (regs : Nat → Fin 256)
    (trace : List Call) :
    ((RmwCall.runAll (cs ++ [c]) (some (Bus.ctx h)) j ⟨regs, Bus.noFault, trace⟩).2.regs
        I3G4250D_CTRL_REG5).val
      = c.newByte ((RmwCall.runAll cs (some (Bus.ctx h)) j
          ⟨regs, Bus.noFault, trace⟩).2.regs I3G4250D_CTRL_REG5).val % 256 := by
  have ih3 := (RmwCall.runAll_nf cs h j regs trace).2.2
  rw [RmwCall.runAll_snoc]
  rw [Bus.eta_nf _ ih3, RmwCall.run_nf, hc]
  simp only [Function.update_same, fin_ofNat_val]

theorem land_03 (v : Nat) : (v % 256) &&& 0x03 = v % 4 := by
  have h := Nat.and_pow_two_sub_one_eq_mod (v % 256) 2
  simp only [Nat.reducePow, Nat.reduceSub] at h
  rw [h]; omega

/-- The three fields the filter-path setters deal with, in the byte each of them writes. -/
theorem filter_path_newByte_fields (v x : Nat) :
    (RmwCall.newByte (.enum .filter_path v) x % 256 % 4 = v % 4 ∧
     RmwCall.newByte (.enum .filter_path v) x % 256 / 4 % 4 = x % 256 / 4 % 4 ∧
     bitAt (RmwCall.newByte (.enum .filter_path v) x % 256) 4 = bitAt v 2) ∧
    (RmwCall.newByte (.enum .filter_path_internal v) x % 256 % 4 = x % 256 % 4 ∧
     RmwCall.newByte (.enum .filter_path_internal v) x % 256 / 4 % 4 = v % 4 ∧
     bitAt (RmwCall.newByte (.enum .filter_path_internal v) x % 256) 4 = bitAt v 2) := by
  have ho : ∀ b, (i3g4250d_ctrl_reg5_t.ofByte b).out_sel = b % 256 % 4 := by
    intro b; simp only [i3g4250d_ctrl_reg5_t.ofByte]; omega
  have hi : ∀ b, (i3g4250d_ctrl_reg5_t.ofByte b).int1_sel = b % 256 / 4 % 4 := by
    intro b; simp only [i3g4250d_ctrl_reg5_t.ofByte]; omega
  have hh : ∀ b, (i3g4250d_ctrl_reg5_t.ofByte b).hpen = bitAt (b % 256) 4 := by
    intro b; simp only [i3g4250d_ctrl_reg5_t.ofByte, bitAt]; omega
  simp only [← ho, ← hi, ← hh]
  have hp := hpen_of_arg v
  constructor
  · simp only [RmwCall.newByte, RmwCall.run, Setting.set, i3g4250d_filter_path_set,
      cell_read, cell_write, if_true, ctrl_reg5_ofByte_byteOf, ctrl_reg5_ofByte_toByte]
    simp only [i3g4250d_ctrl_reg5_t.ofByte, land_03, Nat.mod_mod, hp, and_self, true_and]
  · simp only [RmwCall.newByte, RmwCall.run, Setting.set, i3g4250d_filter_path_internal_set,
      cell_read, cell_write, if_true, ctrl_reg5_ofByte_byteOf, ctrl_reg5_ofByte_toByte]
    simp only [i3g4250d_ctrl_reg5_t.ofByte, land_03, Nat.mod_mod, hp, and_self, true_and,
      and_true]

theorem RmwCall.filter_cases (c : RmwCall) (hc : c.isFilterPath = true) :
    (∃ v, c = .enum .filter_path v) ∨ (∃ v, c = .enum .filter_path_internal v) := by
  rcases c with ⟨s, v⟩ | v | v | v | v | v | v | v
  · cases s <;> first
      | exact Or.inl ⟨v, rfl⟩
      | exact Or.inr ⟨v, rfl⟩
      | exact absurd hc (by simp [RmwCall.isFilterPath])
  all_goals exact absurd hc (by simp [RmwCall.isFilterPath])

/-- After a call of `filter_path_set` followed by calls of `filter_path_internal_set` only,
`out_sel` still holds the low two bits of the argument of that call. -/
theorem out_sel_after_calls (pre post : List RmwCall) (v h j : Nat) (regs : Nat → Fin 256)
    (trace : List Call)
    (hpost : ∀ c ∈ post, c.isFilterPath = true ∧ ∀ v2, c ≠ .enum .filter_path v2) :
    ((RmwCall.runAll (pre ++ [.enum .filter_path v] ++ post) (some (Bus.ctx h)) j
        ⟨regs, Bus.noFault, trace⟩).2.regs I3G4250D_CTRL_REG5).val % 4 = v % 4 := by
  induction post using List.reverseRecOn with
  | nil =>
    rw [List.append_nil, RmwCall.runAll_filter_step _ (.enum .filter_path v) rfl]
    exact (filter_path_newByte_fields v _).1.1
  | append_singleton post c ih =>
    have hc := hpost c (by simp)
    have ih1 := ih (fun c2 hc2 => hpost c2 (by simp [hc2]))
    rcases RmwCall.filter_cases c hc.1 with ⟨v2, rfl⟩ | ⟨v2, rfl⟩
    · exact absurd rfl (hc.2 v2)
    · rw [← List.append_assoc,
        RmwCall.runAll_filter_step _ (.enum .filter_path_internal v2) rfl,
        (filter_path_newByte_fields v2 _).2.1, Nat.mod_eq_of_lt (Fin.isLt _)]
      exact ih1

/-- After a call of `filter_path_internal_set` followed by calls of `filter_path_set` only,
`int1_sel` still holds the low two bits of the argument of that call. -/
theorem int1_sel_after_calls (pre post : List RmwCall) (v h j : Nat) (regs : Nat → Fin 256)
    (trace : List Call)
    (hpost : ∀ c ∈ post, c.isFilterPath = true ∧ ∀ v2, c ≠ .enum .filter_path_internal v2) :
    ((RmwCall.runAll (pre ++ [.enum .filter_path_internal v] ++ post) (some (Bus.ctx h)) j
        ⟨regs, Bus.noFault, trace⟩).2.regs I3G4250D_CTRL_REG5).val / 4 % 4 = v % 4 := by
  induction post using List.reverseRecOn with
  | nil =>
    rw [List.append_nil, RmwCall.runAll_filter_step _ (.enum .filter_path_internal v) rfl]
    exact (filter_path_newByte_fields v _).2.2.1
  | append_singleton post c ih =>
    have hc := hpost c (by simp)
    have ih1 := ih (fun c2 hc2 => hpost c2 (by simp [hc2]))
    rcases RmwCall.filter_cases c hc.1 with ⟨v2, rfl⟩ | ⟨v2, rfl⟩
    · rw [← List.append_assoc, RmwCall.runAll_filter_step _ (.enum .filter_path v2) rfl,
        (filter_path_newByte_fields v2 _).1.2.1, Nat.mod_eq_of_lt (Fin.isLt _)]
      exact ih1
    · exact absurd rfl (hc.2 v2)

/-! ## Addresses used by the operations -/

theorem setting_reg_range (s : Setting) : 0x0F ≤ s.reg ∧ s.reg ≤ 0x38 := by
  cases s <;> decide

theorem rmw_reg_range (c : RmwCall) : 0x0F ≤ c.reg ∧ c.reg ≤ 0x38 := by
  rcases c with ⟨s, v⟩ | v | v | v | v | v | v | v
  · exact setting_reg_range s
  all_goals (simp only [RmwCall.reg]; decide)

theorem getter_reg_range (g : Getter) : 0x0F ≤ g.reg ∧ g.reg ≤ 0x38 := by
  rcases g with s | _ | _ | _ | _ | _ | _ | _ | _ | _ | _ | _ | _ | _ | _ | _ | _ | _
  · exact setting_reg_range s
  all_goals decide

theorem axis_reg_range (a : Axis) :
    (0x0F ≤ a.regH ∧ a.regH ≤ 0x38) ∧ (0x0F ≤ a.regL ∧ a.regL ≤ 0x38) := by
  cases a <;> decide

/-- Every call of a setter or getter other than `i3g4250d_angular_rate_raw_get` transfers
one byte at an address of the register map. -/
theorem Op.calls_in_map (o : Op) (hop : o.isSetter = true ∨ o.isGetter = true)
    (hraw : ∀ buff, o ≠ .angular_rate_raw_get buff) (h : Nat) (regs : Nat → Fin 256)
    (fault : Nat → Int) (trace : List Call) :
    ∀ c ∈ (o.run (some (Bus.ctx h)) ⟨regs, fault, trace⟩).2.trace.drop trace.length,
      0x0F ≤ c.addr ∧ c.addr ≤ 0x38 ∧ c.len = 1 := by
  rcases o with ⟨reg, data, len⟩ | ⟨reg, data, len⟩ | ⟨c, j⟩ | ⟨a, v, jh, jl⟩ | val | ⟨g, j⟩ |
    ⟨a, v, jh, jl⟩ | buff
  · rcases hop with hop | hop <;> cases hop
  · rcases hop with hop | hop <;> cases hop
  · have hr := rmw_reg_range c
    simp only [Op.run, RmwCall.run_cases]
    by_cases hf0 : fault trace.length = 0 <;>
      simp only [hf0, if_true, if_false, drop_trace, List.forall_mem_cons, List.not_mem_nil,
        IsEmpty.forall_iff, implies_true, Call.addr, Call.len, and_true] <;>
      omega
  · have hr := axis_reg_range a
    simp only [Op.run, Axis.threshold_set_eq]
    by_cases hf0 : fault trace.length = 0 <;> by_cases hf1 : fault (trace.length + 1) = 0 <;>
      by_cases hf2 : fault (trace.length + 2) = 0 <;>
      simp only [hf0, hf1, hf2, if_true, if_false, drop_trace, List.forall_mem_cons,
        List.not_mem_nil, IsEmpty.forall_iff, implies_true, Call.addr, Call.len, and_true] <;>
      omega
  · simp only [Op.run, int_on_threshold_conf_set_eq, drop_trace, List.forall_mem_cons,
      List.not_mem_nil, IsEmpty.forall_iff, implies_true, Call.addr, Call.len, and_true,
      I3G4250D_INT1_CFG]
    omega
  · have hr := getter_reg_range g
    simp only [Op.run, Getter.run_one_read, drop_trace, List.forall_mem_cons,
      List.not_mem_nil, IsEmpty.forall_iff, implies_true, Call.addr, Call.len, and_true]
    omega
  · have hr := axis_reg_range a
    simp only [Op.run, Axis.threshold_get_eq]
    by_cases hf0 : fault trace.length = 0 <;>
      simp only [hf0, if_true, if_false, drop_trace, List.forall_mem_cons, List.not_mem_nil,
        IsEmpty.forall_iff, implies_true, Call.addr, Call.len, and_true] <;>
      omega
  · exact absurd rfl (hraw buff)

/-- No operation applies the delay function of the context: its result is the same whatever
that function is. -/
theorem Op.run_mdelay {σ : Type} (o : Op) (c : stmdev_ctx_t σ) (m : Option (Nat → σ → σ))
    (w : σ) :
    o.run (some { c with mdelay := m }) w = o.run (some c) w := by
  rcases o with ⟨reg, data, len⟩ | ⟨reg, data, len⟩ | ⟨cl, j⟩ | ⟨a, v, jh, jl⟩ | val | ⟨g, j⟩ |
    ⟨a, v, jh, jl⟩ | buff
  · rfl
  · rfl
  · rcases cl with ⟨s, v⟩ | v | v | v | v | v | v | v
    · cases s <;> rfl
    all_goals rfl
  · cases a <;> rfl
  · rfl
  · rcases g with s | _ | _ | _ | _ | _ | _ | _ | _ | _ | _ | _ | _ | _ | _ | _ | _ | _
    · cases s <;> rfl
    all_goals rfl
  · cases a <;> rfl
  · rfl

/-! ## The two layouts of the header place every member at the same bits -/

theorem headerLayouts_reversed :
    ∀ L ∈ headerLayouts, L.big = L.little.reverse ∧ (L.little.map Prod.snd).sum = 8 ∧
      (L.big.map Prod.snd).sum = 8 ∧ (placeDown L.big 8).reverse = placeUp L.little 0 := by
  decide

theorem RegStruct.layout_mem (r : RegStruct) : r.layout ∈ headerLayouts := by
  cases r <;> decide

theorem RegStruct.ofByte_members (r : RegStruct) (b : Nat) :
    (r.ofByte b).kind = r ∧
    (r.ofByte b).members
      = (placeUp r.layout.little 0).map (fun p => (p.1, fieldAt b p)) ∧
    (r.ofByte b).members
      = ((placeDown r.layout.big 8).map (fun p => (p.1, fieldAt b p))).reverse := by
  cases r <;>
    simp [RegStruct.ofByte, RegValue.kind, RegValue.members, RegStruct.layout, placeUp,
      placeDown, fieldAt, i3g4250d_ctrl_reg1_t.layout, i3g4250d_ctrl_reg2_t.layout,
      i3g4250d_ctrl_reg3_t.layout, i3g4250d_ctrl_reg4_t.layout, i3g4250d_ctrl_reg5_t.layout,
      i3g4250d_status_reg_t.layout, i3g4250d_fifo_ctrl_reg_t.layout,
      i3g4250d_fifo_src_reg_t.layout, i3g4250d_int1_cfg_t.layout, i3g4250d_int1_src_t.layout,
      i3g4250d_int1_tsh_xh_t.layout, i3g4250d_int1_tsh_yh_t.layout,
      i3g4250d_int1_tsh_zh_t.layout, i3g4250d_int1_duration_t.layout,
      i3g4250d_ctrl_reg1_t.ofByte, i3g4250d_ctrl_reg2_t.ofByte,
      i3g4250d_ctrl_reg3_t.ofByte, i3g4250d_ctrl_reg4_t.ofByte, i3g4250d_ctrl_reg5_t.ofByte,
      i3g4250d_status_reg_t.ofByte, i3g4250d_fifo_ctrl_reg_t.ofByte,
      i3g4250d_fifo_src_reg_t.ofByte, i3g4250d_int1_cfg_t.ofByte, i3g4250d_int1_src_t.ofByte,
      i3g4250d_int1_tsh_xh_t.ofByte, i3g4250d_int1_tsh_yh_t.ofByte,
      i3g4250d_int1_tsh_zh_t.ofByte, i3g4250d_int1_duration_t.ofByte]

theorem RegValue.toByte_members (x : RegValue) :
    x.toByte = (List.zipWith putAt (placeUp x.kind.layout.little 0) x.members).sum ∧
    x.toByte
      = (List.zipWith putAt (placeDown x.kind.layout.big 8) x.members.reverse).sum := by
  cases x <;>
    simp [RegValue.toByte, RegValue.kind, RegValue.members, RegStruct.layout, placeUp,
      placeDown, putAt, i3g4250d_ctrl_reg1_t.layout, i3g4250d_ctrl_reg2_t.layout,
      i3g4250d_ctrl_reg3_t.layout, i3g4250d_ctrl_reg4_t.layout, i3g4250d_ctrl_reg5_t.layout,
      i3g4250d_status_reg_t.layout, i3g4250d_fifo_ctrl_reg_t.layout,
      i3g4250d_fifo_src_reg_t.layout, i3g4250d_int1_cfg_t.layout, i3g4250d_int1_src_t.layout,
      i3g4250d_int1_tsh_xh_t.layout, i3g4250d_int1_tsh_yh_t.layout,
      i3g4250d_int1_tsh_zh_t.layout, i3g4250d_int1_duration_t.layout,
      i3g4250d_ctrl_reg1_t.toByte, i3g4250d_ctrl_reg2_t.toByte,
      i3g4250d_ctrl_reg3_t.toByte, i3g4250d_ctrl_reg4_t.toByte, i3g4250d_ctrl_reg5_t.toByte,
      i3g4250d_status_reg_t.toByte, i3g4250d_fifo_ctrl_reg_t.toByte,
      i3g4250d_fifo_src_reg_t.toByte, i3g4250d_int1_cfg_t.toByte, i3g4250d_int1_src_t.toByte,
      i3g4250d_int1_tsh_xh_t.toByte, i3g4250d_int1_tsh_yh_t.toByte,
      i3g4250d_int1_tsh_zh_t.toByte, i3g4250d_int1_duration_t.toByte] <;>
    omega

/-! ## Setters called twice, and in either order -/

theorem int_on_threshold_conf_get_nf (h j : Nat) (regs : Nat → Fin 256) (trace : List Call) :
    i3g4250d_int_on_threshold_conf_get (some (Bus.ctx h)) j ⟨regs, Bus.noFault, trace⟩
      = (0, i3g4250d_int1_cfg_t.ofByte (regs I3G4250D_INT1_CFG).val,
          ⟨regs, Bus.noFault, trace ++ [Call.read h I3G4250D_INT1_CFG [j] 1]⟩) := by
  simp only [i3g4250d_int_on_threshold_conf_get, read1_nf, int1_cfg_ofByte_byteOf]
  rfl

theorem int1_cfg_decode (b : Nat) :
    Setting.int_notification.decode b = b / 64 % 2 ∧
    Setting.int_on_threshold_mode.decode b = b / 128 % 2 := by
  have h1 : b / 64 % 2 = 0 ∨ b / 64 % 2 = 1 := by omega
  constructor
  · rw [Setting.decode_eq]
    simp only [Setting.pattern, Setting.members, i3g4250d_int1_cfg_t.ofByte,
      I3G4250D_INT_PULSED, I3G4250D_INT_LATCHED, List.mem_cons, List.mem_singleton,
      List.not_mem_nil, or_false]
    rw [if_pos h1]
  · rw [Setting.decode_eq]
    simp only [Setting.pattern, Setting.members, i3g4250d_int1_cfg_t.ofByte,
      I3G4250D_INT1_ON_TH_AND, I3G4250D_INT1_ON_TH_OR, List.mem_cons, List.mem_singleton,
      List.not_mem_nil, or_false]
    rw [if_pos (by omega)]

theorem int1_cfg_toByte_ofByte : ∀ B < 256,
    (i3g4250d_int1_cfg_t.ofByte B).toByte = B := by decide!

theorem route_newByte_fields (r1 : i3g4250d_int1_route_t) (r2 : i3g4250d_int2_route_t)
    (x : Nat) :
    i3g4250d_ctrl_reg3_t.ofByte (RmwCall.newByte (.pin_int1_route r1) x)
      = { i3g4250d_ctrl_reg3_t.ofByte x with
            i1_int1 := r1.i1_int1 % 2, i1_boot := r1.i1_boot % 2 } ∧
    i3g4250d_ctrl_reg3_t.ofByte (RmwCall.newByte (.pin_int2_route r2) x)
      = { i3g4250d_ctrl_reg3_t.ofByte x with
            i2_empty := r2.i2_empty % 2, i2_orun := r2.i2_orun % 2,
            i2_wtm := r2.i2_wtm % 2, i2_drdy := r2.i2_drdy % 2 } := by
  constructor <;>
  · simp only [RmwCall.newByte, RmwCall.run, i3g4250d_pin_int1_route_set,
      i3g4250d_pin_int2_route_set, cell_read, cell_write, if_true, ctrl_reg3_ofByte_byteOf,
      ctrl_reg3_ofByte_toByte]
    simp only [i3g4250d_ctrl_reg3_t.ofByte]

/-- Calling a setter again with the same argument writes the byte it wrote the first time. -/
theorem RmwCall.newByte_twice (c : RmwCall) (b : Nat) :
    c.newByte (c.newByte b) = c.newByte b := by
  generalize hy : c.newByte b = y
  rcases c with ⟨s, val⟩ | val | val | val | val | val | val | val
  · cases s <;>
      (simp only [RmwCall.newByte, RmwCall.run, Setting.set, i3g4250d_data_rate_set,
        i3g4250d_full_scale_set, i3g4250d_self_test_set, i3g4250d_data_format_set,
        i3g4250d_lp_bandwidth_set, i3g4250d_hp_bandwidth_set, i3g4250d_hp_mode_set,
        i3g4250d_filter_path_set, i3g4250d_filter_path_internal_set, i3g4250d_spi_mode_set,
        i3g4250d_pin_mode_set, i3g4250d_pin_polarity_set, i3g4250d_int_notification_set,
        i3g4250d_int_on_threshold_mode_set, i3g4250d_fifo_mode_set, i3g4250d_boot_set,
        i3g4250d_hp_reference_value_set, i3g4250d_pin_int1_route_set, i3g4250d_pin_int2_route_set,
        i3g4250d_int_on_threshold_dur_set, i3g4250d_fifo_enable_set, i3g4250d_fifo_watermark_set,
        cell_read, cell_write, if_true, byteOf, List.getD_cons_zero, ctrl_reg1_ofByte_mod,
        ctrl_reg2_ofByte_mod, ctrl_reg3_ofByte_mod, ctrl_reg4_ofByte_mod, ctrl_reg5_ofByte_mod,
        reference_ofByte_mod, fifo_ctrl_reg_ofByte_mod, int1_cfg_ofByte_mod,
        int1_duration_ofByte_mod]; subst_vars; simp only [RmwCall.newByte, RmwCall.run, Setting.set,
        i3g4250d_data_rate_set, i3g4250d_full_scale_set, i3g4250d_self_test_set,
        i3g4250d_data_format_set, i3g4250d_lp_bandwidth_set, i3g4250d_hp_bandwidth_set,
        i3g4250d_hp_mode_set, i3g4250d_filter_path_set, i3g4250d_filter_path_internal_set,
        i3g4250d_spi_mode_set, i3g4250d_pin_mode_set, i3g4250d_pin_polarity_set,
        i3g4250d_int_notification_set, i3g4250d_int_on_threshold_mode_set, i3g4250d_fifo_mode_set,
        i3g4250d_boot_set, i3g4250d_hp_reference_value_set, i3g4250d_pin_int1_route_set,
        i3g4250d_pin_int2_route_set, i3g4250d_int_on_threshold_dur_set, i3g4250d_fifo_enable_set,
        i3g4250d_fifo_watermark_set, cell_read, cell_write, if_true, ctrl_reg1_ofByte_byteOf,
        ctrl_reg2_ofByte_byteOf, ctrl_reg3_ofByte_byteOf, ctrl_reg4_ofByte_byteOf,
        ctrl_reg5_ofByte_byteOf, reference_ofByte_byteOf, fifo_ctrl_reg_ofByte_byteOf,
        int1_cfg_ofByte_byteOf, int1_duration_ofByte_byteOf, ctrl_reg1_ofByte_toByte,
        ctrl_reg2_ofByte_toByte, ctrl_reg3_ofByte_toByte, ctrl_reg4_ofByte_toByte,
        ctrl_reg5_ofByte_toByte, reference_ofByte_toByte, fifo_ctrl_reg_ofByte_toByte,
        int1_cfg_ofByte_toByte, int1_duration_ofByte_toByte]; try simp only
        [i3g4250d_ctrl_reg1_t.ofByte, i3g4250d_ctrl_reg2_t.ofByte, i3g4250d_ctrl_reg3_t.ofByte,
        i3g4250d_ctrl_reg4_t.ofByte, i3g4250d_ctrl_reg5_t.ofByte, i3g4250d_reference_t.ofByte,
        i3g4250d_fifo_ctrl_reg_t.ofByte, i3g4250d_int1_cfg_t.ofByte, i3g4250d_int1_duration_t.ofByte])
  all_goals
    (simp only [RmwCall.newByte, RmwCall.run, Setting.set, i3g4250d_data_rate_set,
      i3g4250d_full_scale_set, i3g4250d_self_test_set, i3g4250d_data_format_set,
      i3g4250d_lp_bandwidth_set, i3g4250d_hp_bandwidth_set, i3g4250d_hp_mode_set,
      i3g4250d_filter_path_set, i3g4250d_filter_path_internal_set, i3g4250d_spi_mode_set,
      i3g4250d_pin_mode_set, i3g4250d_pin_polarity_set, i3g4250d_int_notification_set,
      i3g4250d_int_on_threshold_mode_set, i3g4250d_fifo_mode_set, i3g4250d_boot_set,
      i3g4250d_hp_reference_value_set, i3g4250d_pin_int1_route_set, i3g4250d_pin_int2_route_set,
      i3g4250d_int_on_threshold_dur_set, i3g4250d_fifo_enable_set, i3g4250d_fifo_watermark_set,
      cell_read, cell_write, if_true, byteOf, List.getD_cons_zero, ctrl_reg1_ofByte_mod,
      ctrl_reg2_ofByte_mod, ctrl_reg3_ofByte_mod, ctrl_reg4_ofByte_mod, ctrl_reg5_ofByte_mod,
      reference_ofByte_mod, fifo_ctrl_reg_ofByte_mod, int1_cfg_ofByte_mod, int1_duration_ofByte_mod];
      subst_vars; simp only [RmwCall.newByte, RmwCall.run, Setting.set, i3g4250d_data_rate_set,
      i3g4250d_full_scale_set, i3g4250d_self_test_set, i3g4250d_data_format_set,
      i3g4250d_lp_bandwidth_set, i3g4250d_hp_bandwidth_set, i3g4250d_hp_mode_set,
      i3g4250d_filter_path_set, i3g4250d_filter_path_internal_set, i3g4250d_spi_mode_set,
      i3g4250d_pin_mode_set, i3g4250d_pin_polarity_set, i3g4250d_int_notification_set,
      i3g4250d_int_on_threshold_mode_set, i3g4250d_fifo_mode_set, i3g4250d_boot_set,
      i3g4250d_hp_reference_value_set, i3g4250d_pin_int1_route_set, i3g4250d_pin_int2_route_set,
      i3g4250d_int_on_threshold_dur_set, i3g4250d_fifo_enable_set, i3g4250d_fifo_watermark_set,
      cell_read, cell_write, if_true, ctrl_reg1_ofByte_byteOf, ctrl_reg2_ofByte_byteOf,
      ctrl_reg3_ofByte_byteOf, ctrl_reg4_ofByte_byteOf, ctrl_reg5_ofByte_byteOf,
      reference_ofByte_byteOf, fifo_ctrl_reg_ofByte_byteOf, int1_cfg_ofByte_byteOf,
      int1_duration_ofByte_byteOf, ctrl_reg1_ofByte_toByte, ctrl_reg2_ofByte_toByte,
      ctrl_reg3_ofByte_toByte, ctrl_reg4_ofByte_toByte, ctrl_reg5_ofByte_toByte,
      reference_ofByte_toByte, fifo_ctrl_reg_ofByte_toByte, int1_cfg_ofByte_toByte,
      int1_duration_ofByte_toByte]; try simp only [i3g4250d_ctrl_reg1_t.ofByte,
      i3g4250d_ctrl_reg2_t.ofByte, i3g4250d_ctrl_reg3_t.ofByte, i3g4250d_ctrl_reg4_t.ofByte,
      i3g4250d_ctrl_reg5_t.ofByte, i3g4250d_reference_t.ofByte, i3g4250d_fifo_ctrl_reg_t.ofByte,
      i3g4250d_int1_cfg_t.ofByte, i3g4250d_int1_duration_t.ofByte])

/-- Two setters of the same register whose masks are disjoint write the same byte in either
order. -/
theorem RmwCall.newByte_comm (A B : RmwCall) (hreg : A.reg = B.reg)
    (hm : A.mask &&& B.mask = 0) (b : Nat) :
    A.newByte (B.newByte b) = B.newByte (A.newByte b) := by
  generalize hy1 : B.newByte b = y1
  generalize hy2 : A.newByte b = y2
  rcases A with ⟨sA, va⟩ | va | va | va | va | va | va | va <;>
    rcases B with ⟨sB, vb⟩ | vb | vb | vb | vb | vb | vb | vb <;>
    simp only [RmwCall.reg, RmwCall.mask] at hreg hm
  · cases sA <;> cases sB <;>
      first
        | exact absurd hreg (by decide)
        | exact absurd hm (by decide)
        | (simp only [RmwCall.newByte, RmwCall.run, Setting.set, i3g4250d_data_rate_set,
            i3g4250d_full_scale_set, i3g4250d_self_test_set, i3g4250d_data_format_set,
            i3g4250d_lp_bandwidth_set, i3g4250d_hp_bandwidth_set, i3g4250d_hp_mode_set,
            i3g4250d_filter_path_set, i3g4250d_filter_path_internal_set, i3g4250d_spi_mode_set,
            i3g4250d_pin_mode_set, i3g4250d_pin_polarity_set, i3g4250d_int_notification_set,
            i3g4250d_int_on_threshold_mode_set, i3g4250d_fifo_mode_set, i3g4250d_boot_set,
            i3g4250d_hp_reference_value_set, i3g4250d_pin_int1_route_set, i3g4250d_pin_int2_route_set,
            i3g4250d_int_on_threshold_dur_set, i3g4250d_fifo_enable_set, i3g4250d_fifo_watermark_set,
            cell_read, cell_write, if_true, byteOf, List.getD_cons_zero, ctrl_reg1_ofByte_mod,
            ctrl_reg2_ofByte_mod, ctrl_reg3_ofByte_mod, ctrl_reg4_ofByte_mod, ctrl_reg5_ofByte_mod,
            reference_ofByte_mod, fifo_ctrl_reg_ofByte_mod, int1_cfg_ofByte_mod,
            int1_duration_ofByte_mod]; subst_vars; simp only [RmwCall.newByte, RmwCall.run,
            Setting.set, i3g4250d_data_rate_set, i3g4250d_full_scale_set, i3g4250d_self_test_set,
            i3g4250d_data_format_set, i3g4250d_lp_bandwidth_set, i3g4250d_hp_bandwidth_set,
            i3g4250d_hp_mode_set, i3g4250d_filter_path_set, i3g4250d_filter_path_internal_set,
            i3g4250d_spi_mode_set, i3g4250d_pin_mode_set, i3g4250d_pin_polarity_set,
            i3g4250d_int_notification_set, i3g4250d_int_on_threshold_mode_set, i3g4250d_fifo_mode_set,
            i3g4250d_boot_set, i3g4250d_hp_reference_value_set, i3g4250d_pin_int1_route_set,
            i3g4250d_pin_int2_route_set, i3g4250d_int_on_threshold_dur_set, i3g4250d_fifo_enable_set,
            i3g4250d_fifo_watermark_set, cell_read, cell_write, if_true, ctrl_reg1_ofByte_byteOf,
            ctrl_reg2_ofByte_byteOf, ctrl_reg3_ofByte_byteOf, ctrl_reg4_ofByte_byteOf,
            ctrl_reg5_ofByte_byteOf, reference_ofByte_byteOf, fifo_ctrl_reg_ofByte_byteOf,
            int1_cfg_ofByte_byteOf, int1_duration_ofByte_byteOf, ctrl_reg1_ofByte_toByte,
            ctrl_reg2_ofByte_toByte, ctrl_reg3_ofByte_toByte, ctrl_reg4_ofByte_toByte,
            ctrl_reg5_ofByte_toByte, reference_ofByte_toByte, fifo_ctrl_reg_ofByte_toByte,
            int1_cfg_ofByte_toByte, int1_duration_ofByte_toByte]; try simp only
            [i3g4250d_ctrl_reg1_t.ofByte, i3g4250d_ctrl_reg2_t.ofByte, i3g4250d_ctrl_reg3_t.ofByte,
            i3g4250d_ctrl_reg4_t.ofByte, i3g4250d_ctrl_reg5_t.ofByte, i3g4250d_reference_t.ofByte,
            i3g4250d_fifo_ctrl_reg_t.ofByte, i3g4250d_int1_cfg_t.ofByte,
            i3g4250d_int1_duration_t.ofByte])
  all_goals
    first
      | exact absurd hreg (by decide)
      | exact absurd hm (by decide)
      | (cases sA <;>
          first
            | exact absurd hreg (by decide)
            | exact absurd hm (by decide)
            | (simp only [RmwCall.newByte, RmwCall.run, Setting.set, i3g4250d_data_rate_set,
                i3g4250d_full_scale_set, i3g4250d_self_test_set, i3g4250d_data_format_set,
                i3g4250d_lp_bandwidth_set, i3g4250d_hp_bandwidth_set, i3g4250d_hp_mode_set,
                i3g4250d_filter_path_set, i3g4250d_filter_path_internal_set, i3g4250d_spi_mode_set,
                i3g4250d_pin_mode_set, i3g4250d_pin_polarity_set, i3g4250d_int_notification_set,
                i3g4250d_int_on_threshold_mode_set, i3g4250d_fifo_mode_set, i3g4250d_boot_set,
                i3g4250d_hp_reference_value_set, i3g4250d_pin_int1_route_set,
                i3g4250d_pin_int2_route_set, i3g4250d_int_on_threshold_dur_set,
                i3g4250d_fifo_enable_set, i3g4250d_fifo_watermark_set, cell_read, cell_write, if_true,
                byteOf, List.getD_cons_zero, ctrl_reg1_ofByte_mod, ctrl_reg2_ofByte_mod,
                ctrl_reg3_ofByte_mod, ctrl_reg4_ofByte_mod, ctrl_reg5_ofByte_mod,
                reference_ofByte_mod, fifo_ctrl_reg_ofByte_mod, int1_cfg_ofByte_mod,
                int1_duration_ofByte_mod]; subst_vars; simp only [RmwCall.newByte, RmwCall.run,
                Setting.set, i3g4250d_data_rate_set, i3g4250d_full_scale_set, i3g4250d_self_test_set,
                i3g4250d_data_format_set, i3g4250d_lp_bandwidth_set, i3g4250d_hp_bandwidth_set,
                i3g4250d_hp_mode_set, i3g4250d_filter_path_set, i3g4250d_filter_path_internal_set,
                i3g4250d_spi_mode_set, i3g4250d_pin_mode_set, i3g4250d_pin_polarity_set,
                i3g4250d_int_notification_set, i3g4250d_int_on_threshold_mode_set,
                i3g4250d_fifo_mode_set, i3g4250d_boot_set, i3g4250d_hp_reference_value_set,
                i3g4250d_pin_int1_route_set, i3g4250d_pin_int2_route_set,
                i3g4250d_int_on_threshold_dur_set, i3g4250d_fifo_enable_set,
                i3g4250d_fifo_watermark_set, cell_read, cell_write, if_true, ctrl_reg1_ofByte_byteOf,
                ctrl_reg2_ofByte_byteOf, ctrl_reg3_ofByte_byteOf, ctrl_reg4_ofByte_byteOf,
                ctrl_reg5_ofByte_byteOf, reference_ofByte_byteOf, fifo_ctrl_reg_ofByte_byteOf,
                int1_cfg_ofByte_byteOf, int1_duration_ofByte_byteOf, ctrl_reg1_ofByte_toByte,
                ctrl_reg2_ofByte_toByte, ctrl_reg3_ofByte_toByte, ctrl_reg4_ofByte_toByte,
                ctrl_reg5_ofByte_toByte, reference_ofByte_toByte, fifo_ctrl_reg_ofByte_toByte,
                int1_cfg_ofByte_toByte, int1_duration_ofByte_toByte]; try simp only
                [i3g4250d_ctrl_reg1_t.ofByte, i3g4250d_ctrl_reg2_t.ofByte,
                i3g4250d_ctrl_reg3_t.ofByte, i3g4250d_ctrl_reg4_t.ofByte, i3g4250d_ctrl_reg5_t.ofByte,
                i3g4250d_reference_t.ofByte, i3g4250d_fifo_ctrl_reg_t.ofByte,
                i3g4250d_int1_cfg_t.ofByte, i3g4250d_int1_duration_t.ofByte]))
      | (cases sB <;>
          first
            | exact absurd hreg (by decide)
            | exact absurd hm (by decide)
            | (simp only [RmwCall.newByte, RmwCall.run, Setting.set, i3g4250d_data_rate_set,
                i3g4250d_full_scale_set, i3g4250d_self_test_set, i3g4250d_data_format_set,
                i3g4250d_lp_bandwidth_set, i3g4250d_hp_bandwidth_set, i3g4250d_hp_mode_set,
                i3g4250d_filter_path_set, i3g4250d_filter_path_internal_set, i3g4250d_spi_mode_set,
                i3g4250d_pin_mode_set, i3g4250d_pin_polarity_set, i3g4250d_int_notification_set,
                i3g4250d_int_on_threshold_mode_set, i3g4250d_fifo_mode_set, i3g4250d_boot_set,
                i3g4250d_hp_reference_value_set, i3g4250d_pin_int1_route_set,
                i3g4250d_pin_int2_route_set, i3g4250d_int_on_threshold_dur_set,
                i3g4250d_fifo_enable_set, i3g4250d_fifo_watermark_set, cell_read, cell_write, if_true,
                byteOf, List.getD_cons_zero, ctrl_reg1_ofByte_mod, ctrl_reg2_ofByte_mod,
                ctrl_reg3_ofByte_mod, ctrl_reg4_ofByte_mod, ctrl_reg5_ofByte_mod,
                reference_ofByte_mod, fifo_ctrl_reg_ofByte_mod, int1_cfg_ofByte_mod,
                int1_duration_ofByte_mod]; subst_vars; simp only [RmwCall.newByte, RmwCall.run,
                Setting.set, i3g4250d_data_rate_set, i3g4250d_full_scale_set, i3g4250d_self_test_set,
                i3g4250d_data_format_set, i3g4250d_lp_bandwidth_set, i3g4250d_hp_bandwidth_set,
                i3g4250d_hp_mode_set, i3g4250d_filter_path_set, i3g4250d_filter_path_internal_set,
                i3g4250d_spi_mode_set, i3g4250d_pin_mode_set, i3g4250d_pin_polarity_set,
                i3g4250d_int_notification_set, i3g4250d_int_on_threshold_mode_set,
                i3g4250d_fifo_mode_set, i3g4250d_boot_set, i3g4250d_hp_reference_value_set,
                i3g4250d_pin_int1_route_set, i3g4250d_pin_int2_route_set,
                i3g4250d_int_on_threshold_dur_set, i3g4250d_fifo_enable_set,
                i3g4250d_fifo_watermark_set, cell_read, cell_write, if_true, ctrl_reg1_ofByte_byteOf,
                ctrl_reg2_ofByte_byteOf, ctrl_reg3_ofByte_byteOf, ctrl_reg4_ofByte_byteOf,
                ctrl_reg5_ofByte_byteOf, reference_ofByte_byteOf, fifo_ctrl_reg_ofByte_byteOf,
                int1_cfg_ofByte_byteOf, int1_duration_ofByte_byteOf, ctrl_reg1_ofByte_toByte,
                ctrl_reg2_ofByte_toByte, ctrl_reg3_ofByte_toByte, ctrl_reg4_ofByte_toByte,
                ctrl_reg5_ofByte_toByte, reference_ofByte_toByte, fifo_ctrl_reg_ofByte_toByte,
                int1_cfg_ofByte_toByte, int1_duration_ofByte_toByte]; try simp only
                [i3g4250d_ctrl_reg1_t.ofByte, i3g4250d_ctrl_reg2_t.ofByte,
                i3g4250d_ctrl_reg3_t.ofByte, i3g4250d_ctrl_reg4_t.ofByte, i3g4250d_ctrl_reg5_t.ofByte,
                i3g4250d_reference_t.ofByte, i3g4250d_fifo_ctrl_reg_t.ofByte,
                i3g4250d_int1_cfg_t.ofByte, i3g4250d_int1_duration_t.ofByte]))
      | (simp only [RmwCall.newByte, RmwCall.run, Setting.set, i3g4250d_data_rate_set,
          i3g4250d_full_scale_set, i3g4250d_self_test_set, i3g4250d_data_format_set,
          i3g4250d_lp_bandwidth_set, i3g4250d_hp_bandwidth_set, i3g4250d_hp_mode_set,
          i3g4250d_filter_path_set, i3g4250d_filter_path_internal_set, i3g4250d_spi_mode_set,
          i3g4250d_pin_mode_set, i3g4250d_pin_polarity_set, i3g4250d_int_notification_set,
          i3g4250d_int_on_threshold_mode_set, i3g4250d_fifo_mode_set, i3g4250d_boot_set,
          i3g4250d_hp_reference_value_set, i3g4250d_pin_int1_route_set, i3g4250d_pin_int2_route_set,
          i3g4250d_int_on_threshold_dur_set, i3g4250d_fifo_enable_set, i3g4250d_fifo_watermark_set,
          cell_read, cell_write, if_true, byteOf, List.getD_cons_zero, ctrl_reg1_ofByte_mod,
          ctrl_reg2_ofByte_mod, ctrl_reg3_ofByte_mod, ctrl_reg4_ofByte_mod, ctrl_reg5_ofByte_mod,
          reference_ofByte_mod, fifo_ctrl_reg_ofByte_mod, int1_cfg_ofByte_mod,
          int1_duration_ofByte_mod]; subst_vars; simp only [RmwCall.newByte, RmwCall.run, Setting.set,
          i3g4250d_data_rate_set, i3g4250d_full_scale_set, i3g4250d_self_test_set,
          i3g4250d_data_format_set, i3g4250d_lp_bandwidth_set, i3g4250d_hp_bandwidth_set,
          i3g4250d_hp_mode_set, i3g4250d_filter_path_set, i3g4250d_filter_path_internal_set,
          i3g4250d_spi_mode_set, i3g4250d_pin_mode_set, i3g4250d_pin_polarity_set,
          i3g4250d_int_notification_set, i3g4250d_int_on_threshold_mode_set, i3g4250d_fifo_mode_set,
          i3g4250d_boot_set, i3g4250d_hp_reference_value_set, i3g4250d_pin_int1_route_set,
          i3g4250d_pin_int2_route_set, i3g4250d_int_on_threshold_dur_set, i3g4250d_fifo_enable_set,
          i3g4250d_fifo_watermark_set, cell_read, cell_write, if_true, ctrl_reg1_ofByte_byteOf,
          ctrl_reg2_ofByte_byteOf, ctrl_reg3_ofByte_byteOf, ctrl_reg4_ofByte_byteOf,
          ctrl_reg5_ofByte_byteOf, reference_ofByte_byteOf, fifo_ctrl_reg_ofByte_byteOf,
          int1_cfg_ofByte_byteOf, int1_duration_ofByte_byteOf, ctrl_reg1_ofByte_toByte,
          ctrl_reg2_ofByte_toByte, ctrl_reg3_ofByte_toByte, ctrl_reg4_ofByte_toByte,
          ctrl_reg5_ofByte_toByte, reference_ofByte_toByte, fifo_ctrl_reg_ofByte_toByte,
          int1_cfg_ofByte_toByte, int1_duration_ofByte_toByte]; try simp only
          [i3g4250d_ctrl_reg1_t.ofByte, i3g4250d_ctrl_reg2_t.ofByte, i3g4250d_ctrl_reg3_t.ofByte,
          i3g4250d_ctrl_reg4_t.ofByte, i3g4250d_ctrl_reg5_t.ofByte, i3g4250d_reference_t.ofByte,
          i3g4250d_fifo_ctrl_reg_t.ofByte, i3g4250d_int1_cfg_t.ofByte,
          i3g4250d_int1_duration_t.ofByte])


theorem Op.regsAfter_rmw (c : RmwCall) (j : Nat) (regs : Nat → Fin 256) :
    (Op.rmw c j).regsAfter regs
      = Function.update regs c.reg (Fin.ofNat (c.newByte (regs c.reg))) := by
  simp only [Op.regsAfter, Op.run, RmwCall.run_nf]

theorem Op.regsAfter_threshold (a : Axis) (v jh jl : Nat) (regs : Nat → Fin 256) :
    (Op.threshold_set a v jh jl).regsAfter regs
      = Function.update
          (Function.update regs a.regH
            (Fin.ofNat (v % 65536 / 256 % 128 + (regs a.regH).val / 128 % 2 * 128)))
          a.regL (Fin.ofNat (v % 256)) := by
  simp only [Op.regsAfter, Op.run, Axis.threshold_set_nf]

theorem Op.regsAfter_conf (val : i3g4250d_int1_cfg_t) (regs : Nat → Fin 256) :
    (Op.int_on_threshold_conf_set val).regsAfter regs
      = Function.update regs I3G4250D_INT1_CFG (Fin.ofNat val.toByte) := by
  simp only [Op.regsAfter, Op.run, int_on_threshold_conf_set_eq, Bus.noFault, if_true]

/-- On a transport that never fails a setter returns 0, leaves the register file
`Op.regsAfter` and the transport as it was. -/
theorem Op.run_setter_nf (o : Op) (hs : o.isSetter = true) (h : Nat) (regs : Nat → Fin 256)
    (trace : List Call) :
    (o.run (some (Bus.ctx h)) ⟨regs, Bus.noFault, trace⟩).1 = 0 ∧
    (o.run (some (Bus.ctx h)) ⟨regs, Bus.noFault, trace⟩).2.regs = o.regsAfter regs ∧
    (o.run (some (Bus.ctx h)) ⟨regs, Bus.noFault, trace⟩).2.fault = Bus.noFault := by
  cases o <;> first | exact Bool.noConfusion hs | skip
  · simp only [Op.regsAfter, Op.run, RmwCall.run_nf, and_self]
  · simp only [Op.regsAfter, Op.run, Axis.threshold_set_nf, and_self]
  · simp only [Op.regsAfter, Op.run, int_on_threshold_conf_set_eq, Bus.noFault, if_true,
      and_self]

theorem Op.run_run_regs (o1 o2 : Op) (hs1 : o1.isSetter = true) (hs2 : o2.isSetter = true)
    (h : Nat) (regs : Nat → Fin 256) (trace : List Call) :
    (o2.run (some (Bus.ctx h)) (o1.run (some (Bus.ctx h)) ⟨regs, Bus.noFault, trace⟩).2).2.regs
      = o2.regsAfter (o1.regsAfter regs) := by
  have h1 := Op.run_setter_nf o1 hs1 h regs trace
  have e := Bus.eta_nf _ h1.2.2
  rw [h1.2.1] at e
  rw [e]
  exact (Op.run_setter_nf o2 hs2 h _ _).2.1

theorem Op.withJunk_isSetter (o : Op) (j1 j2 : Nat) : (o.withJunk j1 j2).isSetter = o.isSetter := by
  cases o <;> rfl

theorem threshold_high_twice (v x : Nat) :
    v % 65536 / 256 % 128
        + (v % 65536 / 256 % 128 + x / 128 % 2 * 128) % 256 / 128 % 2 * 128
      = v % 65536 / 256 % 128 + x / 128 % 2 * 128 := by
  have ht : v % 65536 / 256 % 128 < 128 := Nat.mod_lt _ (by decide)
  generalize v % 65536 / 256 % 128 = t at ht ⊢
  omega

/-- A setter called twice with the same argument leaves the register file it leaves when
called once. -/
theorem Op.regsAfter_twice (o : Op) (hs : o.isSetter = true) (j1 j2 : Nat)
    (regs : Nat → Fin 256) :
    (o.withJunk j1 j2).regsAfter (o.regsAfter regs) = o.regsAfter regs := by
  cases o <;> first | exact Bool.noConfusion hs | skip
  · simp only [Op.withJunk, Op.regsAfter_rmw, Function.update_same, Function.update_idem,
      fin_ofNat_val, RmwCall.newByte_mod, RmwCall.newByte_twice]
  · rename_i a v jh jl
    simp only [Op.withJunk, Op.regsAfter_threshold, Function.update_same,
      Function.update_noteq (threshold_regs_ne a), fin_ofNat_val]
    rw [threshold_high_twice]
    funext r
    simp only [Function.update_apply]
    split_ifs <;> rfl
  · simp only [Op.withJunk, Op.regsAfter_conf, Function.update_idem]

theorem rmw_threshold_regs_ne (c : RmwCall) (a : Axis) :
    c.reg ≠ a.regH ∧ c.reg ≠ a.regL := by
  rcases c with ⟨s, val⟩ | val | val | val | val | val | val | val
  · cases s <;> cases a <;> simp only [RmwCall.reg] <;> decide
  all_goals (cases a <;> simp only [RmwCall.reg] <;> decide)

theorem axis_regs_ne (a1 a2 : Axis) (h : a1 ≠ a2) :
    a1.regH ≠ a2.regH ∧ a1.regH ≠ a2.regL ∧ a1.regL ≠ a2.regH ∧ a1.regL ≠ a2.regL := by
  cases a1 <;> cases a2 <;> first | exact absurd rfl h | decide

theorem axis_regs_ne_cfg (a : Axis) :
    a.regH ≠ I3G4250D_INT1_CFG ∧ a.regL ≠ I3G4250D_INT1_CFG := by
  cases a <;> decide

theorem rmw_cfg_mask (c : RmwCall) (h : c.reg = I3G4250D_INT1_CFG) :
    c.mask &&& 0xFF ≠ 0 ∧ 0xFF &&& c.mask ≠ 0 := by
  rcases c with ⟨s, val⟩ | val | val | val | val | val | val | val
  · simp only [RmwCall.reg] at h
    cases s <;> first | exact absurd h (by decide) | (simp only [RmwCall.mask]; decide)
  all_goals
    simp only [RmwCall.reg] at h
    exact absurd h (by decide)

theorem Op.comm_rmw_rmw (c1 c2 : RmwCall) (j1 j2 : Nat)
    (hd : c1.reg ≠ c2.reg ∨ c1.mask &&& c2.mask = 0) (regs : Nat → Fin 256) :
    (Op.rmw c2 j2).regsAfter ((Op.rmw c1 j1).regsAfter regs)
      = (Op.rmw c1 j1).regsAfter ((Op.rmw c2 j2).regsAfter regs) := by
  simp only [Op.regsAfter_rmw]
  by_cases hr : c1.reg = c2.reg
  · have hm : c1.mask &&& c2.mask = 0 := by
      rcases hd with hd | hd
      · exact absurd hr hd
      · exact hd
    rw [hr]
    simp only [Function.update_same, Function.update_idem, fin_ofNat_val,
      RmwCall.newByte_mod]
    rw [← hr, RmwCall.newByte_comm c2 c1 hr.symm (by rw [Nat.land_comm]; exact hm)]
  · simp only [Function.update_noteq hr, Function.update_noteq (Ne.symm hr)]
    exact Function.update_comm hr _ _ _

theorem Op.comm_rmw_threshold (c : RmwCall) (j : Nat) (a : Axis) (v jh jl : Nat)
    (regs : Nat → Fin 256) :
    (Op.threshold_set a v jh jl).regsAfter ((Op.rmw c j).regsAfter regs)
      = (Op.rmw c j).regsAfter ((Op.threshold_set a v jh jl).regsAfter regs) := by
  obtain ⟨h1, h2⟩ := rmw_threshold_regs_ne c a
  simp only [Op.regsAfter_rmw, Op.regsAfter_threshold, Function.update_noteq h1,
    Function.update_noteq h2, Function.update_noteq (Ne.symm h1)]
  funext r
  simp only [Function.update_apply]
  split_ifs <;> first | rfl | (exfalso; omega)

theorem Op.comm_rmw_conf (c : RmwCall) (j : Nat) (val : i3g4250d_int1_cfg_t)
    (hc : c.reg ≠ I3G4250D_INT1_CFG) (regs : Nat → Fin 256) :
    (Op.int_on_threshold_conf_set val).regsAfter ((Op.rmw c j).regsAfter regs)
      = (Op.rmw c j).regsAfter ((Op.int_on_threshold_conf_set val).regsAfter regs) := by
  simp only [Op.regsAfter_rmw, Op.regsAfter_conf, Function.update_noteq hc]
  exact Function.update_comm hc _ _ _

theorem Op.comm_threshold_conf (a : Axis) (v jh jl : Nat) (val : i3g4250d_int1_cfg_t)
    (regs : Nat → Fin 256) :
    (Op.int_on_threshold_conf_set val).regsAfter ((Op.threshold_set a v jh jl).regsAfter regs)
      = (Op.threshold_set a v jh jl).regsAfter
          ((Op.int_on_threshold_conf_set val).regsAfter regs) := by
  obtain ⟨h1, h2⟩ := axis_regs_ne_cfg a
  simp only [Op.regsAfter_threshold, Op.regsAfter_conf, Function.update_noteq h1]
  funext r
  simp only [Function.update_apply]
  split_ifs <;> first | rfl | (exfalso; omega)

theorem Op.comm_threshold_threshold (a1 a2 : Axis) (ha : a1 ≠ a2) (v1 jh1 jl1 v2 jh2 jl2 : Nat)
    (regs : Nat → Fin 256) :
    (Op.threshold_set a2 v2 jh2 jl2).regsAfter ((Op.threshold_set a1 v1 jh1 jl1).regsAfter regs)
      = (Op.threshold_set a1 v1 jh1 jl1).regsAfter
          ((Op.threshold_set a2 v2 jh2 jl2).regsAfter regs) := by
  obtain ⟨h1, h2, h3, h4⟩ := axis_regs_ne a1 a2 ha
  have h5 := threshold_regs_ne a1
  have h6 := threshold_regs_ne a2
  simp only [Op.regsAfter_threshold, Function.update_noteq h1, Function.update_noteq h2,
    Function.update_noteq (Ne.symm h1), Function.update_noteq (Ne.symm h3)]
  funext r
  simp only [Function.update_apply]
  split_ifs <;> first | rfl | (exfalso; omega)

/-- Two setters that target different registers or disjoint bits of the same register leave
the same register file in either order. -/
theorem Op.regsAfter_comm (o1 o2 : Op) (hs1 : o1.isSetter = true) (hs2 : o2.isSetter = true)
    (hd : o1.disjoint o2 = true) (regs : Nat → Fin 256) :
    o2.regsAfter (o1.regsAfter regs) = o1.regsAfter (o2.regsAfter regs) := by
  cases o1 <;> (first | exact Bool.noConfusion hs1 | skip) <;>
    cases o2 <;> (first | exact Bool.noConfusion hs2 | skip) <;>
    simp only [Op.disjoint, Op.footprint, List.all_cons, List.all_nil, Bool.and_true,
      Bool.or_eq_true, Bool.and_eq_true, bne_iff_ne, beq_iff_eq, ne_eq] at hd
  · exact Op.comm_rmw_rmw _ _ _ _ hd _
  · exact Op.comm_rmw_threshold _ _ _ _ _ _ _
  · rename_i c j val
    refine Op.comm_rmw_conf c j val (fun hc => ?_) regs
    rcases hd with hd | hd
    · exact hd hc
    · exact (rmw_cfg_mask c hc).1 hd
  · exact (Op.comm_rmw_threshold _ _ _ _ _ _ _).symm
  · rename_i a1 v1 jh1 jl1 a2 v2 jh2 jl2
    refine Op.comm_threshold_threshold a1 a2 (fun ha => ?_) _ _ _ _ _ _ _
    subst ha
    rcases hd.1.1 with h | h
    · exact h rfl
    · exact absurd h (by decide)
  · exact Op.comm_threshold_conf _ _ _ _ _ _
  · rename_i val c j
    refine (Op.comm_rmw_conf c j val (fun hc => ?_) regs).symm
    rcases hd with hd | hd
    · exact hd hc.symm
    · exact (rmw_cfg_mask c hc).2 hd
  · exact (Op.comm_threshold_conf _ _ _ _ _ _).symm
  · rcases hd with hd | hd
    · exact absurd trivial hd
    · exact absurd hd (by decide)

theorem filter_path_orders (a b x : Nat) :
    (RmwCall.newByte (.enum .filter_path_internal b) (RmwCall.newByte (.enum .filter_path a) x)
        % 256
      = RmwCall.newByte (.enum .filter_path a)
          (RmwCall.newByte (.enum .filter_path_internal b) x) % 256)
      ↔ bitAt a 2 = bitAt b 2 := by
  generalize hy1 : RmwCall.newByte (.enum .filter_path a) x = y1
  generalize hy2 : RmwCall.newByte (.enum .filter_path_internal b) x = y2
  simp only [RmwCall.newByte, RmwCall.run, Setting.set, i3g4250d_filter_path_set,
    i3g4250d_filter_path_internal_set, cell_read, cell_write, if_true, byteOf,
    List.getD_cons_zero, ctrl_reg5_ofByte_mod]
  subst_vars
  simp only [RmwCall.newByte, RmwCall.run, Setting.set, i3g4250d_filter_path_set,
    i3g4250d_filter_path_internal_set, cell_read, cell_write, if_true,
    ctrl_reg5_ofByte_byteOf, ctrl_reg5_ofByte_toByte]
  simp only [i3g4250d_ctrl_reg5_t.toByte, hpen_of_arg]
  have h1 : (a % 256 &&& 3) % 4 < 4 := Nat.mod_lt _ (by decide)
  have h2 : (b % 256 &&& 3) % 4 < 4 := Nat.mod_lt _ (by decide)
  have h3 : bitAt a 2 < 2 := Nat.mod_lt _ (by decide)
  have h4 : bitAt b 2 < 2 := Nat.mod_lt _ (by decide)
  have h5 : x / 32 % 2 < 2 := Nat.mod_lt _ (by decide)
  have h6 : x / 64 % 2 < 2 := Nat.mod_lt _ (by decide)
  have h7 : x / 128 % 2 < 2 := Nat.mod_lt _ (by decide)
  generalize (a % 256 &&& 3) % 4 = p1 at h1 ⊢
  generalize (b % 256 &&& 3) % 4 = p2 at h2 ⊢
  generalize bitAt a 2 = p3 at h3 ⊢
  generalize bitAt b 2 = p4 at h4 ⊢
  generalize x / 32 % 2 = p5 at h5 ⊢
  generalize x / 64 % 2 = p6 at h6 ⊢
  generalize x / 128 % 2 = p7 at h7 ⊢
  omega

/-! ## Claims -/

/-- C1: for every enumerated setting, every member `V` of its enumeration and every initial
register file, on the simulated device with a transport that never fails, the setter called
with `V` returns status 0 and the getter called next returns status 0 and the value `V`. -/
theorem C1_enum_set_then_get (s : Setting) (V : Nat) (hV : V ∈ s.members) (h j1 j2 : Nat)
    (regs : Nat → Fin 256) (trace : List Call) :
    (s.set (some (Bus.ctx h)) V j1 ⟨regs, Bus.noFault, trace⟩).1 = 0 ∧
    (s.get (some (Bus.ctx h)) j2
        (s.set (some (Bus.ctx h)) V j1 ⟨regs, Bus.noFault, trace⟩).2).1 = 0 ∧
    (s.get (some (Bus.ctx h)) j2
        (s.set (some (Bus.ctx h)) V j1 ⟨regs, Bus.noFault, trace⟩).2).2.1 = V := by
  rw [Setting.set_nf, Setting.get_nf]
  refine ⟨rfl, rfl, ?_⟩
  simp only [Function.update_same, fin_ofNat_val]
  rw [Setting.decode_mod]
  exact Setting.decode_of_pattern s _ V hV (Setting.pattern_set_same s V _ hV)

theorem C1_enum_set_then_get_witness :
    I3G4250D_ODR_800Hz ∈ Setting.data_rate.members ∧
    (Setting.data_rate.get (some (Bus.ctx 7)) 0
        (Setting.data_rate.set (some (Bus.ctx 7)) I3G4250D_ODR_800Hz 0
          ⟨fun _ => 0xA5, Bus.noFault, []⟩).2).2.1 = I3G4250D_ODR_800Hz :=
  ⟨by decide,
   (C1_enum_set_then_get .data_rate I3G4250D_ODR_800Hz (by decide) 7 0 0
      (fun _ => 0xA5) []).2.2⟩

/-- C2 (as stated, refuted): `filter_path` and `filter_path_internal` are two distinct
settings of CTRL_REG5; after `filter_path_set(LPF1_HP_LPF2_ON_OUT)` and then
`filter_path_internal_set(ONLY_LPF1_ON_INT)` on a register file of zeros, `filter_path_get`
returns status 0 and `LPF1_LPF2_ON_OUT`, not the value that was set. -/
theorem C2_counterexample :
    Setting.filter_path_internal ≠ Setting.filter_path ∧
    Setting.filter_path_internal.reg = Setting.filter_path.reg ∧
    I3G4250D_LPF1_HP_LPF2_ON_OUT ∈ Setting.filter_path.members ∧
    I3G4250D_ONLY_LPF1_ON_INT ∈ Setting.filter_path_internal.members ∧
    (i3g4250d_filter_path_get (some (Bus.ctx 0)) 0
      (i3g4250d_filter_path_internal_set (some (Bus.ctx 0)) I3G4250D_ONLY_LPF1_ON_INT 0
        (i3g4250d_filter_path_set (some (Bus.ctx 0)) I3G4250D_LPF1_HP_LPF2_ON_OUT 0
          ⟨fun _ => 0, Bus.noFault, []⟩).2).2).1 = 0 ∧
    (i3g4250d_filter_path_get (some (Bus.ctx 0)) 0
      (i3g4250d_filter_path_internal_set (some (Bus.ctx 0)) I3G4250D_ONLY_LPF1_ON_INT 0
        (i3g4250d_filter_path_set (some (Bus.ctx 0)) I3G4250D_LPF1_HP_LPF2_ON_OUT 0
          ⟨fun _ => 0, Bus.noFault, []⟩).2).2).2.1 = I3G4250D_LPF1_LPF2_ON_OUT ∧
    I3G4250D_LPF1_LPF2_ON_OUT ≠ I3G4250D_LPF1_HP_LPF2_ON_OUT := by
  refine ⟨by decide, by decide, by decide, by decide, ?_, ?_, by decide⟩ <;> decide

/-- C2 (amended): for every enumerated setting B and every other single-register setter A
of the same register, called with any argument, on the simulated device with a transport
that never fails: after B's setter is called with a member `Vb` of B's enumeration and then
A's setter is called, B's getter returns status 0 and `Vb`; when A is `filter_path_set` or
`filter_path_internal_set` (and B the other filter path), which both write the bit HPen,
this holds when bit 2 of A's argument equals bit 2 of `Vb`. -/
theorem C2_other_setting_kept (A : RmwCall) (B : Setting) (hne : ∀ v, A ≠ .enum B v)
    (hreg : A.reg = B.reg) (Vb : Nat) (hVb : Vb ∈ B.members)
    (hbit : ∀ Va, A = .enum .filter_path Va ∨ A = .enum .filter_path_internal Va →
      bitAt Va 2 = bitAt Vb 2)
    (h j1 j2 j3 : Nat) (regs : Nat → Fin 256) (trace : List Call) :
    (B.get (some (Bus.ctx h)) j3
      (A.run (some (Bus.ctx h)) j2
        (B.set (some (Bus.ctx h)) Vb j1 ⟨regs, Bus.noFault, trace⟩).2).2).1 = 0 ∧
    (B.get (some (Bus.ctx h)) j3
      (A.run (some (Bus.ctx h)) j2
        (B.set (some (Bus.ctx h)) Vb j1 ⟨regs, Bus.noFault, trace⟩).2).2).2.1 = Vb := by
  rw [Setting.set_nf, RmwCall.run_nf, Setting.get_nf]
  refine ⟨rfl, ?_⟩
  rw [hreg]
  simp only [Function.update_same, fin_ofNat_val]
  exact Setting.decode_after_other_call A B hne hreg Vb hVb hbit _

theorem C2_other_setting_kept_witness :
    (RmwCall.enum .filter_path_internal I3G4250D_LPF1_HP_LPF2_ON_INT).reg
      = Setting.filter_path.reg ∧
    I3G4250D_LPF1_HP_LPF2_ON_OUT ∈ Setting.filter_path.members ∧
    bitAt I3G4250D_LPF1_HP_LPF2_ON_INT 2 = bitAt I3G4250D_LPF1_HP_LPF2_ON_OUT 2 ∧
    (Setting.filter_path.get (some (Bus.ctx 1)) 0
      (RmwCall.run (.enum .filter_path_internal I3G4250D_LPF1_HP_LPF2_ON_INT)
        (some (Bus.ctx 1)) 0
        (Setting.filter_path.set (some (Bus.ctx 1)) I3G4250D_LPF1_HP_LPF2_ON_OUT 0
          ⟨fun _ => 0xFF, Bus.noFault, []⟩).2).2).2.1 = I3G4250D_LPF1_HP_LPF2_ON_OUT :=
  ⟨by decide, by decide, by decide,
   (C2_other_setting_kept (.enum .filter_path_internal I3G4250D_LPF1_HP_LPF2_ON_INT)
      .filter_path (fun v hv => by cases hv) (by decide) I3G4250D_LPF1_HP_LPF2_ON_OUT
      (by decide)
      (fun Va hVa => by
        rcases hVa with hVa | hVa
        · cases hVa
        · cases hVa; decide)
      1 0 0 0 (fun _ => 0xFF) []).2⟩

/-- C3: for every read-modify-write setter (the single-register setters with any argument
and the three threshold setters with any value) and every register file of the simulated
device: when the first transport read returns a nonzero status, the setter returns exactly
that status, the only call it issues is that read (no write), and the register file is
unchanged. -/
theorem C3_failed_first_read :
    (∀ (c : RmwCall) (h j : Nat) (regs : Nat → Fin 256) (fault : Nat → Int)
        (trace : List Call), fault trace.length ≠ 0 →
        c.run (some (Bus.ctx h)) j ⟨regs, fault, trace⟩
          = (fault trace.length, ⟨regs, fault, trace ++ [Call.read h c.reg [j] 1]⟩)) ∧
    (∀ (a : Axis) (val h jh jl : Nat) (regs : Nat → Fin 256) (fault : Nat → Int)
        (trace : List Call), fault trace.length ≠ 0 →
        a.threshold_set (some (Bus.ctx h)) val jh jl ⟨regs, fault, trace⟩
          = (fault trace.length, ⟨regs, fault, trace ++ [Call.read h a.regH [jh] 1]⟩)) :=
  ⟨fun c h j regs fault trace hf => RmwCall.run_read_fail c h j regs fault trace hf,
   fun a val h jh jl regs fault trace hf =>
     Axis.threshold_set_read_fail a val h jh jl regs fault trace hf⟩

theorem C3_failed_first_read_witness :
    (i3g4250d_full_scale_set (some (Bus.ctx 3)) I3G4250D_2000dps 0
        ⟨fun _ => 0x5A, fun _ => -7, []⟩).1 = -7 ∧
    (i3g4250d_int_y_threshold_set (some (Bus.ctx 3)) 1000 0 0
        ⟨fun _ => 0x5A, fun _ => -7, []⟩).1 = -7 :=
  ⟨congrArg Prod.fst (C3_failed_first_read.1 (.enum .full_scale I3G4250D_2000dps) 3 0
      (fun _ => 0x5A) (fun _ => -7) [] (by decide)),
   congrArg Prod.fst (C3_failed_first_read.2 .y 1000 3 0 0
      (fun _ => 0x5A) (fun _ => -7) [] (by decide))⟩

/-- C4: for each axis, every `V` with `V <= 32767` and every initial register file, on the
simulated device with a transport that never fails: the threshold setter called with `V`
returns status 0 and the threshold getter called next returns status 0 and the value `V`. -/
theorem C4_threshold_set_then_get (a : Axis) (V : Nat) (hV : V ≤ 32767)
    (h jh jl v0 jh2 jl2 : Nat) (regs : Nat → Fin 256) (trace : List Call) :
    (a.threshold_set (some (Bus.ctx h)) V jh jl ⟨regs, Bus.noFault, trace⟩).1 = 0 ∧
    (a.threshold_get (some (Bus.ctx h)) v0 jh2 jl2
      (a.threshold_set (some (Bus.ctx h)) V jh jl ⟨regs, Bus.noFault, trace⟩).2).1 = 0 ∧
    (a.threshold_get (some (Bus.ctx h)) v0 jh2 jl2
      (a.threshold_set (some (Bus.ctx h)) V jh jl ⟨regs, Bus.noFault, trace⟩).2).2.1 = V := by
  rw [Axis.threshold_set_nf, Axis.threshold_get_nf]
  refine ⟨rfl, rfl, ?_⟩
  simp only [Function.update_same, Function.update_noteq (threshold_regs_ne a),
    fin_ofNat_val]
  omega

theorem C4_threshold_set_then_get_witness :
    (32767 : Nat) ≤ 32767 ∧
    (Axis.threshold_get .z (some (Bus.ctx 0)) 0 0 0
      (Axis.threshold_set .z (some (Bus.ctx 0)) 32767 0 0
        ⟨fun _ => 0x80, Bus.noFault, []⟩).2).2.1 = 32767 :=
  ⟨le_refl _, (C4_threshold_set_then_get .z 32767 (le_refl _) 0 0 0 0 0 0
      (fun _ => 0x80) []).2.2⟩

/-- C6: for every single-register read-modify-write setter, every argument and every
register file of the simulated device, when the read and the write both succeed: the setter
returns 0, the new byte of the target register agrees with the byte read on every bit
outside the mask of the setter, and every other address is unchanged.  The masks are those
of `RmwCall.mask`: data_rate 0xCF, lp_bandwidth 0x30, hp_bandwidth 0x0F, hp_mode 0x30,
pin_int2_route 0x0F, pin_mode 0x10, pin_polarity 0x20, pin_int1_route 0xC0, spi_mode 0x01,
self_test 0x06, full_scale 0x30, data_format 0x40, filter_path 0x13,
filter_path_internal 0x1C, fifo_enable 0x40, boot 0x80, fifo_watermark 0x1F,
fifo_mode 0xE0, int_notification 0x40, int_on_threshold_mode 0x80. -/
theorem C6_setter_keeps_bits_outside_mask (c : RmwCall) (h j : Nat) (regs : Nat → Fin 256)
    (fault : Nat → Int) (trace : List Call)
    (hf1 : fault trace.length = 0) (hf2 : fault (trace.length + 1) = 0) :
    (c.run (some (Bus.ctx h)) j ⟨regs, fault, trace⟩).1 = 0 ∧
    (∀ i, c.mask.testBit i = false →
      ((c.run (some (Bus.ctx h)) j ⟨regs, fault, trace⟩).2.regs c.reg).val.testBit i
        = (regs c.reg).val.testBit i) ∧
    (∀ a, a ≠ c.reg →
      (c.run (some (Bus.ctx h)) j ⟨regs, fault, trace⟩).2.regs a = regs a) := by
  rw [RmwCall.run_ok c h j regs fault trace hf1 hf2]
  refine ⟨rfl, ?_, ?_⟩
  · intro i hi
    simp only [Function.update_same, fin_ofNat_val]
    exact RmwCall.newByte_outside_mask c _ i (regs c.reg).isLt hi
  · intro a ha
    simp only [Function.update_noteq ha]

theorem C6_setter_keeps_bits_outside_mask_witness :
    ((RmwCall.run (.enum .self_test I3G4250D_GY_ST_NEGATIVE) (some (Bus.ctx 0)) 0
        ⟨fun _ => 0xF9, Bus.noFault, []⟩).2.regs I3G4250D_CTRL_REG4).val.testBit 7
      = (0xF9 : Nat).testBit 7 :=
  (C6_setter_keeps_bits_outside_mask (.enum .self_test I3G4250D_GY_ST_NEGATIVE) 0 0
    (fun _ => 0xF9) Bus.noFault [] rfl rfl).2.1 7 (by decide)

/-- C5: `i3g4250d_angular_rate_raw_get` issues one transport read of 6 bytes starting at
address 0x28 and, when that read succeeds with bytes `b0 .. b5`, returns status 0 and the
three values `val[i]` = the signed 16-bit reading of `b[2i+1] * 256 + b[2i]`, both bytes
taken as unsigned; the bytes `[0x34, 0x12, 0x78, 0x56, 0xBC, 0x9A]` decode to
`0x1234, 0x5678, -25924`. -/
theorem C5_angular_rate_raw_get :
    (∀ {σ : Type} (c : stmdev_ctx_t σ) (buff : List Nat) (w w1 : σ)
        (b0 b1 b2 b3 b4 b5 : Nat),
        b0 < 256 → b1 < 256 → b2 < 256 → b3 < 256 → b4 < 256 → b5 < 256 →
        c.read_reg c.handle 0x28 buff 6 w = (0, [b0, b1, b2, b3, b4, b5], w1) →
        i3g4250d_angular_rate_raw_get (some c) buff w
          = (0, [signed16 (b1 * 256 + b0), signed16 (b3 * 256 + b2),
                 signed16 (b5 * 256 + b4)], w1)) ∧
    (∀ (h : Nat) (buff : List Nat) (regs : Nat → Fin 256) (fault : Nat → Int)
        (trace : List Call),
        (i3g4250d_angular_rate_raw_get (some (Bus.ctx h)) buff ⟨regs, fault, trace⟩).2.2.trace
          = trace ++ [Call.read h 0x28 buff 6]) ∧
    (i3g4250d_angular_rate_raw_get (some (Bus.ctx 0)) [0, 0, 0, 0, 0, 0]
        ⟨fun a => Fin.ofNat ([0x34, 0x12, 0x78, 0x56, 0xBC, 0x9A].getD (a - 0x28) 0),
         Bus.noFault, []⟩).2.1 = [0x1234, 0x5678, -25924] := by
  refine ⟨?_, ?_, ?_⟩
  · intro σ c buff w w1 b0 b1 b2 b3 b4 b5 h0 h1 h2 h3 h4 h5 hr
    have hr1 : i3g4250d_read_reg (some c) I3G4250D_OUT_X_L buff 6 w
        = (0, [b0, b1, b2, b3, b4, b5], w1) := hr
    simp only [i3g4250d_angular_rate_raw_get, hr1, byteOf, List.getD_cons_zero,
      List.getD_cons_succ, Nat.mod_eq_of_lt h0, Nat.mod_eq_of_lt h1, Nat.mod_eq_of_lt h2,
      Nat.mod_eq_of_lt h3, Nat.mod_eq_of_lt h4, Nat.mod_eq_of_lt h5, int16_pair _ _ h0 h1,
      int16_pair _ _ h2 h3, int16_pair _ _ h4 h5]
  · intro h buff regs fault trace
    simp only [i3g4250d_angular_rate_raw_get, i3g4250d_read_reg, Bus.ctx, Bus.read_reg,
      I3G4250D_OUT_X_L]
    split <;> rfl
  · decide

theorem C5_angular_rate_raw_get_witness :
    i3g4250d_angular_rate_raw_get (some (Bus.ctx 0)) [] ⟨fun _ => 0xFF, Bus.noFault, []⟩
      = (0, [signed16 (0xFF * 256 + 0xFF), signed16 (0xFF * 256 + 0xFF),
             signed16 (0xFF * 256 + 0xFF)],
          ⟨fun _ => 0xFF, Bus.noFault, [Call.read 0 0x28 [] 6]⟩) ∧
    signed16 (0xFF * 256 + 0xFF) = -1 :=
  ⟨C5_angular_rate_raw_get.1 (Bus.ctx 0) [] ⟨fun _ => 0xFF, Bus.noFault, []⟩
      ⟨fun _ => 0xFF, Bus.noFault, [Call.read 0 0x28 [] 6]⟩ 0xFF 0xFF 0xFF 0xFF 0xFF 0xFF
      (by decide) (by decide) (by decide) (by decide) (by decide) (by decide) rfl,
   by decide⟩

/-- C7: for every FIFO_CTRL_REG byte delivered by a successful read, `i3g4250d_fifo_mode_get`
returns status 0; when the FM field (bits 7..5) has a value in 3..7 it returns
`I3G4250D_FIFO_BYPASS_MODE`, and for FM = 0, 1, 2 it returns bypass, FIFO and stream mode. -/
theorem C7_fifo_mode_get_unknown_is_bypass {σ : Type} (c : stmdev_ctx_t σ) (j b : Nat)
    (w w1 : σ) (hr : c.read_reg c.handle I3G4250D_FIFO_CTRL_REG [j] 1 w = (0, [b], w1)) :
    (i3g4250d_fifo_mode_get (some c) j w).1 = 0 ∧
    (3 ≤ b % 256 / 32 → (i3g4250d_fifo_mode_get (some c) j w).2.1 = I3G4250D_FIFO_BYPASS_MODE) ∧
    (b % 256 / 32 = 0 → (i3g4250d_fifo_mode_get (some c) j w).2.1 = I3G4250D_FIFO_BYPASS_MODE) ∧
    (b % 256 / 32 = 1 → (i3g4250d_fifo_mode_get (some c) j w).2.1 = I3G4250D_FIFO_MODE) ∧
    (b % 256 / 32 = 2 → (i3g4250d_fifo_mode_get (some c) j w).2.1 = I3G4250D_FIFO_STREAM_MODE) := by
  have hg := Setting.get_of_read .fifo_mode c j b w w1 hr
  simp only [Setting.get] at hg
  rw [hg, Setting.decode_eq, fifo_mode_pattern]
  simp only [Setting.members, I3G4250D_FIFO_BYPASS_MODE, I3G4250D_FIFO_MODE,
    I3G4250D_FIFO_STREAM_MODE, List.mem_cons, List.mem_singleton, List.not_mem_nil, or_false]
  refine ⟨trivial, ?_, ?_, ?_, ?_⟩ <;> intro hfm <;> split <;> omega

theorem C7_fifo_mode_get_unknown_is_bypass_witness :
    (3 : Nat) ≤ 0xE5 % 256 / 32 ∧
    (i3g4250d_fifo_mode_get (some (Bus.ctx 0)) 0 ⟨fun _ => 0xE5, Bus.noFault, []⟩).2.1
      = I3G4250D_FIFO_BYPASS_MODE :=
  ⟨by decide,
   (C7_fifo_mode_get_unknown_is_bypass (Bus.ctx 0) 0 0xE5 ⟨fun _ => 0xE5, Bus.noFault, []⟩
      ⟨fun _ => 0xE5, Bus.noFault, [Call.read 0 I3G4250D_FIFO_CTRL_REG [0] 1]⟩ rfl).2.1
      (by decide)⟩

/-- C8: for every enum getter and every byte delivered by a successful read of its register,
the getter returns status 0 and a member of its enumeration: the extracted bit pattern when
that is a member, and otherwise the member with value 0.  In particular: `data_rate_get`
gives `ODR_OFF` when `(dr << 4) + pd` is none of 0x00, 0x08, 0x0F, 0x1F, 0x2F, 0x3F;
`full_scale_get` gives `245dps` for fs = 3; `self_test_get` gives `GY_ST_DISABLE` for
st = 2; `hp_bandwidth_get` gives `HP_LEVEL_0` for hpcf in 10..15; `filter_path_get` and
`filter_path_internal_get` give `ONLY_LPF1_ON_OUT` / `ONLY_LPF1_ON_INT` when
`(hpen << 2) + sel` is one of 3, 4, 5, 7. -/
theorem C8_getter_result_is_member (s : Setting) {σ : Type} (c : stmdev_ctx_t σ)
    (j b : Nat) (w w1 : σ) (hr : c.read_reg c.handle s.reg [j] 1 w = (0, [b], w1)) :
    (s.get (some c) j w).1 = 0 ∧
    (s.get (some c) j w).2.1 ∈ s.members ∧
    (s.pattern b ∈ s.members → (s.get (some c) j w).2.1 = s.pattern b) ∧
    (s.pattern b ∉ s.members → (s.get (some c) j w).2.1 = 0 ∧ 0 ∈ s.members) ∧
    (s = .data_rate →
      b % 256 / 64 * 16 + b % 16 ∉ [0x00, 0x08, 0x0F, 0x1F, 0x2F, 0x3F] →
      (s.get (some c) j w).2.1 = I3G4250D_ODR_OFF) ∧
    (s = .full_scale → b % 256 / 16 % 4 = 3 → (s.get (some c) j w).2.1 = I3G4250D_245dps) ∧
    (s = .self_test → b % 256 / 2 % 4 = 2 →
      (s.get (some c) j w).2.1 = I3G4250D_GY_ST_DISABLE) ∧
    (s = .hp_bandwidth → 10 ≤ b % 16 → (s.get (some c) j w).2.1 = I3G4250D_HP_LEVEL_0) ∧
    (s = .filter_path → b % 256 / 16 % 2 * 4 + b % 4 ∈ [3, 4, 5, 7] →
      (s.get (some c) j w).2.1 = I3G4250D_ONLY_LPF1_ON_OUT) ∧
    (s = .filter_path_internal → b % 256 / 16 % 2 * 4 + b % 256 / 4 % 4 ∈ [3, 4, 5, 7] →
      (s.get (some c) j w).2.1 = I3G4250D_ONLY_LPF1_ON_INT) := by
  rw [Setting.get_of_read s c j b w w1 hr]
  have hcl := Setting.pattern_closed b
  have hdef : s.pattern b ∉ s.members → s.decode b = 0 := by
    intro hn; rw [Setting.decode_eq, if_neg hn]
  refine ⟨rfl, ?_, ?_, ?_, ?_, ?_, ?_, ?_, ?_, ?_⟩
  · show s.decode b ∈ s.members
    rw [Setting.decode_eq]
    split
    · assumption
    · exact s.zero_mem
  · intro hm
    show s.decode b = s.pattern b
    rw [Setting.decode_eq, if_pos hm]
  · intro hn
    exact ⟨hdef hn, s.zero_mem⟩
  · rintro rfl hn
    apply hdef
    rw [hcl.1]
    exact hn
  · rintro rfl hn
    apply hdef
    rw [hcl.2.1, hn]
    decide
  · rintro rfl hn
    apply hdef
    rw [hcl.2.2.1, hn]
    decide
  · rintro rfl hn
    apply hdef
    rw [hcl.2.2.2.1]
    simp only [Setting.members, I3G4250D_HP_LEVEL_0, I3G4250D_HP_LEVEL_1, I3G4250D_HP_LEVEL_2,
      I3G4250D_HP_LEVEL_3, I3G4250D_HP_LEVEL_4, I3G4250D_HP_LEVEL_5, I3G4250D_HP_LEVEL_6,
      I3G4250D_HP_LEVEL_7, I3G4250D_HP_LEVEL_8, I3G4250D_HP_LEVEL_9, List.mem_cons,
      List.mem_singleton, List.not_mem_nil, or_false]
    omega
  · rintro rfl hn
    apply hdef
    rw [hcl.2.2.2.2.1]
    simp only [List.mem_cons, List.mem_singleton, List.not_mem_nil, or_false] at hn
    simp only [Setting.members, I3G4250D_ONLY_LPF1_ON_OUT, I3G4250D_LPF1_HP_ON_OUT,
      I3G4250D_LPF1_LPF2_ON_OUT, I3G4250D_LPF1_HP_LPF2_ON_OUT, List.mem_cons,
      List.mem_singleton, List.not_mem_nil, or_false]
    omega
  · rintro rfl hn
    apply hdef
    rw [hcl.2.2.2.2.2]
    simp only [List.mem_cons, List.mem_singleton, List.not_mem_nil, or_false] at hn
    simp only [Setting.members, I3G4250D_ONLY_LPF1_ON_INT, I3G4250D_LPF1_HP_ON_INT,
      I3G4250D_LPF1_LPF2_ON_INT, I3G4250D_LPF1_HP_LPF2_ON_INT, List.mem_cons,
      List.mem_singleton, List.not_mem_nil, or_false]
    omega

theorem C8_getter_result_is_member_witness :
    (Setting.self_test.get (some (Bus.ctx 0)) 0 ⟨fun _ => 0x04, Bus.noFault, []⟩).2.1
      = I3G4250D_GY_ST_DISABLE :=
  (C8_getter_result_is_member .self_test (Bus.ctx 0) 0 0x04 ⟨fun _ => 0x04, Bus.noFault, []⟩
    ⟨fun _ => 0x04, Bus.noFault, [Call.read 0 I3G4250D_CTRL_REG4 [0] 1]⟩ rfl).2.2.2.2.2.2.1
    rfl (by decide)

/-- C9: `i3g4250d_read_reg` and `i3g4250d_write_reg` return -1 and leave the world untouched
(no transport call) when `ctx` is null; otherwise the result is that of one application of
the injected function to the handle of `ctx` and to the given register address, buffer and
length, status included.  On the simulated device this is exactly one logged call carrying
those arguments, and the status returned is the one the device gave to that call. -/
theorem C9_read_write_reg_pass_through :
    (∀ {σ : Type} (reg : Nat) (data : List Nat) (len : Nat) (w : σ),
        i3g4250d_read_reg (none : Option (stmdev_ctx_t σ)) reg data len w = (-1, data, w)) ∧
    (∀ {σ : Type} (reg : Nat) (data : List Nat) (len : Nat) (w : σ),
        i3g4250d_write_reg (none : Option (stmdev_ctx_t σ)) reg data len w = (-1, w)) ∧
    ((-1 : Int) ≠ 0) ∧
    (∀ {σ : Type} (c : stmdev_ctx_t σ) (reg : Nat) (data : List Nat) (len : Nat) (w : σ),
        i3g4250d_read_reg (some c) reg data len w = c.read_reg c.handle reg data len w) ∧
    (∀ {σ : Type} (c : stmdev_ctx_t σ) (reg : Nat) (data : List Nat) (len : Nat) (w : σ),
        i3g4250d_write_reg (some c) reg data len w = c.write_reg c.handle reg data len w) ∧
    (∀ (h reg : Nat) (data : List Nat) (len : Nat) (regs : Nat → Fin 256)
        (fault : Nat → Int) (trace : List Call),
        (i3g4250d_read_reg (some (Bus.ctx h)) reg data len ⟨regs, fault, trace⟩).2.2.trace
          = trace ++ [Call.read h reg data len] ∧
        (i3g4250d_read_reg (some (Bus.ctx h)) reg data len ⟨regs, fault, trace⟩).1
          = fault trace.length) ∧
    (∀ (h reg : Nat) (data : List Nat) (len : Nat) (regs : Nat → Fin 256)
        (fault : Nat → Int) (trace : List Call),
        (i3g4250d_write_reg (some (Bus.ctx h)) reg data len ⟨regs, fault, trace⟩).2.trace
          = trace ++ [Call.write h reg data len] ∧
        (i3g4250d_write_reg (some (Bus.ctx h)) reg data len ⟨regs, fault, trace⟩).1
          = fault trace.length) := by
  refine ⟨fun _ _ _ _ => rfl, fun _ _ _ _ => rfl, by decide, fun _ _ _ _ _ => rfl,
    fun _ _ _ _ _ => rfl, ?_, ?_⟩
  · intro h reg data len regs fault trace
    simp only [i3g4250d_read_reg, Bus.ctx, Bus.read_reg]
    by_cases hf : fault trace.length = 0
    · simp [hf]
    · simp [hf]
  · intro h reg data len regs fault trace
    simp only [i3g4250d_write_reg, Bus.ctx, Bus.write_reg]
    by_cases hf : fault trace.length = 0
    · simp [hf]
    · simp [hf]

/-- C10: for every signed 16-bit `lsb`, `i3g4250d_from_fs245dps_to_mdps(lsb)` is the exact
rational `lsb * 35 / 4` (that is `lsb * 8.75`): nothing is rounded away, because
`|lsb| * 35 < 2 ^ 24` fits a significand of 24 bits (binary32) or more; in particular the
result is 8.75 for 1, -8.75 for -1 and 0 for 0. -/
theorem C10_from_fs245dps_to_mdps_exact (p : Nat) (emin : Int) (hp : 24 ≤ p)
    (he : emin ≤ -2) (lsb : Int) (hlo : -32768 ≤ lsb) (hhi : lsb ≤ 32767) :
    i3g4250d_from_fs245dps_to_mdps p emin lsb = (lsb : ℚ) * 35 / 4 ∧
    |lsb| * 35 < 2 ^ 24 ∧
    i3g4250d_from_fs245dps_to_mdps p emin 1 = 875 / 100 ∧
    i3g4250d_from_fs245dps_to_mdps p emin (-1) = -(875 / 100) ∧
    i3g4250d_from_fs245dps_to_mdps p emin 0 = 0 := by
  have key : ∀ x : Int, -32768 ≤ x → x ≤ 32767 →
      i3g4250d_from_fs245dps_to_mdps p emin x = (x : ℚ) * 35 / 4 := by
    intro x hxlo hxhi
    unfold i3g4250d_from_fs245dps_to_mdps
    rw [fround_const_8_75 24 (-149) (le_refl _) (by decide),
      fround_int16 p emin hp he x hxlo hxhi]
    have h35 := fround_quarter p emin hp he 35 (by decide)
    have e35 : ((35 : Int) : ℚ) / 4 = 35 / 4 := by norm_num
    rw [e35] at h35
    rw [h35]
    have h := fround_quarter p emin hp he (35 * x) (by rw [abs_lt]; constructor <;> omega)
    have e : ((35 * x : Int) : ℚ) / 4 = (x : ℚ) * (35 / 4) := by push_cast; ring
    rw [e] at h
    rw [h]; ring
  refine ⟨key lsb hlo hhi, ?_, ?_, ?_, ?_⟩
  · have habs : |lsb| ≤ 32768 := abs_le.mpr ⟨by omega, by omega⟩
    omega
  · rw [key 1 (by decide) (by decide)]; norm_num
  · rw [key (-1) (by decide) (by decide)]; norm_num
  · rw [key 0 (by decide) (by decide)]; norm_num

theorem C10_from_fs245dps_to_mdps_exact_witness :
    i3g4250d_from_fs245dps_to_mdps 24 (-149) (-32768) = ((-32768 : Int) : ℚ) * 35 / 4 :=
  (C10_from_fs245dps_to_mdps_exact 24 (-149) (le_refl _) (by decide) (-32768)
    (le_refl _) (by decide)).1

/-- C11: for every signed 16-bit `lsb`, `i3g4250d_from_lsb_to_celsius(lsb)` is the exact
integer `lsb + 25`, which the floating-point type represents without rounding; in particular
the result is 25 for 0 and 15 for -10. -/
theorem C11_from_lsb_to_celsius_exact (p : Nat) (emin : Int) (hp : 24 ≤ p) (he : emin ≤ -2)
    (lsb : Int) (hlo : -32768 ≤ lsb) (hhi : lsb ≤ 32767) :
    i3g4250d_from_lsb_to_celsius p emin lsb = ((lsb + 25 : Int) : ℚ) ∧
    fround p emin ((lsb + 25 : Int) : ℚ) = ((lsb + 25 : Int) : ℚ) ∧
    i3g4250d_from_lsb_to_celsius p emin 0 = 25 ∧
    i3g4250d_from_lsb_to_celsius p emin (-10) = 15 := by
  have key : ∀ x : Int, -32768 ≤ x → x ≤ 32767 →
      i3g4250d_from_lsb_to_celsius p emin x = ((x + 25 : Int) : ℚ) := by
    intro x hxlo hxhi
    unfold i3g4250d_from_lsb_to_celsius
    have h25a := fround_int_small 24 (-149) (le_refl _) (by decide) 25 (by decide)
    have h25 := fround_int_small p emin hp he 25 (by decide)
    have hx := fround_int_small p emin hp he x (by rw [abs_lt]; constructor <;> omega)
    have hs := fround_int_small p emin hp he (x + 25) (by rw [abs_lt]; constructor <;> omega)
    have e25 : ((25 : Int) : ℚ) = 25 := by norm_num
    rw [e25] at h25a h25
    rw [h25a, h25, hx]
    have e : (x : ℚ) + 25 = ((x + 25 : Int) : ℚ) := by push_cast; ring
    rw [e, hs]
  refine ⟨key lsb hlo hhi, ?_, ?_, ?_⟩
  · exact fround_int_small p emin hp he (lsb + 25) (by rw [abs_lt]; constructor <;> omega)
  · rw [key 0 (by decide) (by decide)]; norm_num
  · rw [key (-10) (by decide) (by decide)]; norm_num

theorem C11_from_lsb_to_celsius_exact_witness :
    i3g4250d_from_lsb_to_celsius 24 (-149) 32767 = ((32767 + 25 : Int) : ℚ) :=
  (C11_from_lsb_to_celsius_exact 24 (-149) (le_refl _) (by decide) 32767
    (by decide) (le_refl _)).1

/-- C12: for each axis, every value `v` and every register file, when the four transport
calls succeed, the threshold setter issues, in this order, a read of the high register, a
write of the high register, a read of the low register and a write of the low register, each
of one byte; afterwards the high register holds `(old_high AND 0x80) OR ((v >> 8) AND 0x7F)`,
the low register holds `v AND 0xFF` whatever it held before, and no other register has
changed.  The addresses are 0x32/0x33 (X), 0x34/0x35 (Y), 0x36/0x37 (Z). -/
theorem C12_threshold_set_sequence (a : Axis) (v h jh jl : Nat) (regs : Nat → Fin 256)
    (fault : Nat → Int) (trace : List Call)
    (hf0 : fault trace.length = 0) (hf1 : fault (trace.length + 1) = 0)
    (hf2 : fault (trace.length + 2) = 0) (hf3 : fault (trace.length + 3) = 0) :
    (a.threshold_set (some (Bus.ctx h)) v jh jl ⟨regs, fault, trace⟩).1 = 0 ∧
    (a.threshold_set (some (Bus.ctx h)) v jh jl ⟨regs, fault, trace⟩).2.trace
      = trace ++ [Call.read h a.regH [jh] 1,
                  Call.write h a.regH
                    [((regs a.regH).val &&& 0x80) ||| ((v >>> 8) &&& 0x7F)] 1,
                  Call.read h a.regL [jl] 1,
                  Call.write h a.regL [v &&& 0xFF] 1] ∧
    ((a.threshold_set (some (Bus.ctx h)) v jh jl ⟨regs, fault, trace⟩).2.regs a.regH).val
      = ((regs a.regH).val &&& 0x80) ||| ((v >>> 8) &&& 0x7F) ∧
    ((a.threshold_set (some (Bus.ctx h)) v jh jl ⟨regs, fault, trace⟩).2.regs a.regL).val
      = v &&& 0xFF ∧
    (∀ x, x ≠ a.regH → x ≠ a.regL →
      (a.threshold_set (some (Bus.ctx h)) v jh jl ⟨regs, fault, trace⟩).2.regs x = regs x) ∧
    (a.regH, a.regL) = (match a with
      | .x => (0x32, 0x33)
      | .y => (0x34, 0x35)
      | .z => (0x36, 0x37)) := by
  have hb := threshold_high_byte v (regs a.regH).val (regs a.regH).isLt
  have hlt := threshold_high_byte_lt v (regs a.regH).val
  rw [Axis.threshold_set_eq]
  simp only [hf0, hf1, hf2, hf3, if_true]
  refine ⟨trivial, ?_, ?_, ?_, ?_, ?_⟩
  · rw [hb, threshold_low_byte]
  · rw [Function.update_noteq (threshold_regs_ne a), Function.update_same, fin_ofNat_val,
      Nat.mod_eq_of_lt hlt, hb]
  · rw [Function.update_same, fin_ofNat_val, ← threshold_low_byte]
    omega
  · intro x hxh hxl
    rw [Function.update_noteq hxl, Function.update_noteq hxh]
  · cases a <;> rfl

theorem C12_threshold_set_sequence_witness :
    ((Axis.threshold_set .y (some (Bus.ctx 0)) 0xFFFF 0 0
        ⟨fun _ => 0x80, Bus.noFault, []⟩).2.regs Axis.y.regH).val
      = ((0x80 : Nat) &&& 0x80) ||| (((0xFFFF : Nat) >>> 8) &&& 0x7F) ∧
    ((Axis.threshold_set .y (some (Bus.ctx 0)) 0xFFFF 0 0
        ⟨fun _ => 0x80, Bus.noFault, []⟩).2.regs Axis.y.regL).val = (0xFFFF : Nat) &&& 0xFF :=
  ⟨(C12_threshold_set_sequence .y 0xFFFF 0 0 0 (fun _ => 0x80) Bus.noFault [] rfl rfl rfl
      rfl).2.2.1,
   (C12_threshold_set_sequence .y 0xFFFF 0 0 0 (fun _ => 0x80) Bus.noFault [] rfl rfl rfl
      rfl).2.2.2.1⟩

/-- C13: for each axis threshold setter and every value `v`: when the read and the write of
the high register succeed and then the read of the low register, or after a successful read
the write of the low register, returns a nonzero status, the setter returns that status, the
high register already holds the new seven-bit value `(v >> 8) AND 0x7F` below its old bit 7,
and the low register, like every other register, is unchanged: nothing is rolled back. -/
theorem C13_threshold_set_low_fails (a : Axis) (v h jh jl : Nat) (regs : Nat → Fin 256)
    (fault : Nat → Int) (trace : List Call)
    (hf0 : fault trace.length = 0) (hf1 : fault (trace.length + 1) = 0)
    (hlow : fault (trace.length + 2) ≠ 0 ∨
      (fault (trace.length + 2) = 0 ∧ fault (trace.length + 3) ≠ 0)) :
    (a.threshold_set (some (Bus.ctx h)) v jh jl ⟨regs, fault, trace⟩).1
      = (if fault (trace.length + 2) = 0 then fault (trace.length + 3)
         else fault (trace.length + 2)) ∧
    (a.threshold_set (some (Bus.ctx h)) v jh jl ⟨regs, fault, trace⟩).1 ≠ 0 ∧
    ((a.threshold_set (some (Bus.ctx h)) v jh jl ⟨regs, fault, trace⟩).2.regs a.regH).val
      = ((regs a.regH).val &&& 0x80) ||| ((v >>> 8) &&& 0x7F) ∧
    (a.threshold_set (some (Bus.ctx h)) v jh jl ⟨regs, fault, trace⟩).2.regs a.regL
      = regs a.regL ∧
    (∀ x, x ≠ a.regH →
      (a.threshold_set (some (Bus.ctx h)) v jh jl ⟨regs, fault, trace⟩).2.regs x = regs x) := by
  have hb := threshold_high_byte v (regs a.regH).val (regs a.regH).isLt
  have hlt := threshold_high_byte_lt v (regs a.regH).val
  have hne := threshold_regs_ne a
  rw [Axis.threshold_set_eq]
  rcases hlow with h2 | ⟨h2, h3⟩
  · simp only [hf0, hf1, h2, if_true, if_false]
    refine ⟨trivial, h2, ?_, ?_, ?_⟩
    · rw [Function.update_same, fin_ofNat_val, Nat.mod_eq_of_lt hlt, hb]
    · rw [Function.update_noteq hne.symm]
    · intro x hx; rw [Function.update_noteq hx]
  · simp only [hf0, hf1, h2, h3, if_true, if_false]
    refine ⟨trivial, h3, ?_, ?_, ?_⟩
    · rw [Function.update_same, fin_ofNat_val, Nat.mod_eq_of_lt hlt, hb]
    · rw [Function.update_noteq hne.symm]
    · intro x hx; rw [Function.update_noteq hx]

theorem C13_threshold_set_low_fails_witness :
    (Axis.threshold_set .x (some (Bus.ctx 0)) 0x1234 0 0
        ⟨fun _ => 0, fun n => if n = 3 then 9 else 0, []⟩).1 = 9 ∧
    ((Axis.threshold_set .x (some (Bus.ctx 0)) 0x1234 0 0
        ⟨fun _ => 0, fun n => if n = 3 then 9 else 0, []⟩).2.regs Axis.x.regH).val = 0x12 ∧
    ((Axis.threshold_set .x (some (Bus.ctx 0)) 0x1234 0 0
        ⟨fun _ => 0, fun n => if n = 3 then 9 else 0, []⟩).2.regs Axis.x.regL).val = 0 :=
  ⟨(C13_threshold_set_low_fails .x 0x1234 0 0 0 (fun _ => 0) (fun n => if n = 3 then 9 else 0)
      [] rfl rfl (Or.inr ⟨rfl, by decide⟩)).1,
   (C13_threshold_set_low_fails .x 0x1234 0 0 0 (fun _ => 0) (fun n => if n = 3 then 9 else 0)
      [] rfl rfl (Or.inr ⟨rfl, by decide⟩)).2.2.1,
   congrArg Fin.val
     (C13_threshold_set_low_fails .x 0x1234 0 0 0 (fun _ => 0)
       (fun n => if n = 3 then 9 else 0) [] rfl rfl (Or.inr ⟨rfl, by decide⟩)).2.2.2.1⟩

/-- C14 (as stated, refuted): `i3g4250d_int_on_threshold_conf_set` is a setter, and on a
transport that never fails its only call is a write to INT1_CFG (0x30): no read precedes the
write, and the register ends up holding the caller's byte whatever it held before. -/
theorem C14_counterexample :
    (Op.int_on_threshold_conf_set ⟨1, 0, 0, 0, 0, 0, 0, 0⟩).isSetter = true ∧
    (i3g4250d_int_on_threshold_conf_set (some (Bus.ctx 0)) ⟨1, 0, 0, 0, 0, 0, 0, 0⟩
        ⟨fun _ => 0xFF, Bus.noFault, []⟩).1 = 0 ∧
    (i3g4250d_int_on_threshold_conf_set (some (Bus.ctx 0)) ⟨1, 0, 0, 0, 0, 0, 0, 0⟩
        ⟨fun _ => 0xFF, Bus.noFault, []⟩).2.trace = [Call.write 0 0x30 [1] 1] ∧
    readFirst (fun k => Bus.noFault k)
      ((Op.int_on_threshold_conf_set ⟨1, 0, 0, 0, 0, 0, 0, 0⟩).run (some (Bus.ctx 0))
        ⟨fun _ => 0xFF, Bus.noFault, []⟩).2.trace = false ∧
    (i3g4250d_int_on_threshold_conf_set (some (Bus.ctx 0)) ⟨1, 0, 0, 0, 0, 0, 0, 0⟩
        ⟨fun _ => 0xFF, Bus.noFault, []⟩).2.regs 0x30 = 1 := by
  refine ⟨rfl, ?_, ?_, ?_, ?_⟩ <;> decide

/-- C14 (amended): every setter of the driver other than
`i3g4250d_int_on_threshold_conf_set`, for every argument, register file and fault plan of the
simulated device, issues a successful read of its target register before any write to that
register, and a single-register setter writes nothing but the byte it computes from the byte
read; `i3g4250d_int_on_threshold_conf_set` issues one write of the caller's byte to INT1_CFG
and no read. -/
theorem C14_setters_read_before_write (o : Op) (hs : o.isSetter = true) (h : Nat)
    (regs : Nat → Fin 256) (fault : Nat → Int) (trace : List Call) :
    ((∀ val, o ≠ .int_on_threshold_conf_set val) →
      readFirst (fun k => fault (trace.length + k))
        ((o.run (some (Bus.ctx h)) ⟨regs, fault, trace⟩).2.trace.drop trace.length) = true) ∧
    (∀ c j, o = .rmw c j →
      ∀ x ∈ (o.run (some (Bus.ctx h)) ⟨regs, fault, trace⟩).2.trace.drop trace.length,
        x = Call.read h c.reg [j] 1 ∨
        x = Call.write h c.reg [c.newByte (regs c.reg)] 1) ∧
    (∀ val, o = .int_on_threshold_conf_set val →
      (o.run (some (Bus.ctx h)) ⟨regs, fault, trace⟩).2.trace
        = trace ++ [Call.write h I3G4250D_INT1_CFG [val.toByte] 1]) := by
  refine ⟨fun hc => Op.setter_readFirst o hs hc h regs fault trace, ?_, ?_⟩
  · rintro c j rfl x hx
    simp only [Op.run, RmwCall.run_cases] at hx
    by_cases hf0 : fault trace.length = 0
    · simp only [hf0, if_true, drop_trace, List.mem_cons, List.mem_singleton,
        List.not_mem_nil, or_false] at hx
      exact hx
    · simp only [hf0, if_false, drop_trace, List.mem_singleton] at hx
      exact Or.inl hx
  · rintro val rfl
    simp only [Op.run, int_on_threshold_conf_set_eq]

theorem C14_setters_read_before_write_witness :
    readFirst (fun k => Bus.noFault (([] : List Call).length + k))
      (((Op.threshold_set .z 0x7FFF 0 0).run (some (Bus.ctx 0))
          ⟨fun _ => 0, Bus.noFault, []⟩).2.trace.drop ([] : List Call).length) = true :=
  (C14_setters_read_before_write (.threshold_set .z 0x7FFF 0 0) rfl 0 (fun _ => 0)
    Bus.noFault []).1 (fun val hv => by cases hv)

/-- C15: no operation retries a transport call.  For every fault plan of the simulated
device: a single-register read-modify-write setter issues one read and, exactly when that
read returned 0, one write, both of one byte at the address of its register; a
single-register getter issues one read and nothing else; a threshold setter issues the first
`n` of its four calls (read high, write high, read low, write low) with `1 ≤ n ≤ 4`, every
call before the last returned 0, and it stops short of four only after a nonzero status. -/
theorem C15_no_retry (h : Nat) (regs : Nat → Fin 256) (fault : Nat → Int)
    (trace : List Call) :
    (∀ (c : RmwCall) (j : Nat),
      (c.run (some (Bus.ctx h)) j ⟨regs, fault, trace⟩).2.trace
        = trace ++ (if fault trace.length = 0 then
                      [Call.read h c.reg [j] 1,
                       Call.write h c.reg [c.newByte (regs c.reg)] 1]
                    else [Call.read h c.reg [j] 1])) ∧
    (∀ (g : Getter) (j : Nat),
      (g.run (some (Bus.ctx h)) j ⟨regs, fault, trace⟩).2.trace
        = trace ++ [Call.read h g.reg [j] 1]) ∧
    (∀ (a : Axis) (v jh jl : Nat), ∃ n, 1 ≤ n ∧ n ≤ 4 ∧
      (a.threshold_set (some (Bus.ctx h)) v jh jl ⟨regs, fault, trace⟩).2.trace
        = trace ++ List.take n
            [Call.read h a.regH [jh] 1,
             Call.write h a.regH
               [v % 65536 / 256 % 128 + (regs a.regH).val / 128 % 2 * 128] 1,
             Call.read h a.regL [jl] 1,
             Call.write h a.regL [v % 256] 1] ∧
      (∀ k, k + 1 < n → fault (trace.length + k) = 0) ∧
      (n < 4 → fault (trace.length + (n - 1)) ≠ 0)) := by
  refine ⟨?_, ?_, ?_⟩
  · intro c j
    rw [RmwCall.run_cases]
    split <;> rfl
  · intro g j
    rw [Getter.run_one_read]
  · intro a v jh jl
    rw [Axis.threshold_set_eq]
    by_cases hf0 : fault trace.length = 0
    · by_cases hf1 : fault (trace.length + 1) = 0
      · by_cases hf2 : fault (trace.length + 2) = 0
        · refine ⟨4, by decide, by decide, by simp only [hf0, hf1, hf2, if_true]; rfl, ?_,
            fun hn => absurd hn (by decide)⟩
          intro k hk
          have hk0 : k = 0 ∨ k = 1 ∨ k = 2 := by omega
          rcases hk0 with rfl | rfl | rfl
          · exact hf0
          · exact hf1
          · exact hf2
        · refine ⟨3, by decide, by decide,
            by simp only [hf0, hf1, hf2, if_true, if_false]; rfl, ?_, fun _ => hf2⟩
          intro k hk
          have hk0 : k = 0 ∨ k = 1 := by omega
          rcases hk0 with rfl | rfl
          · exact hf0
          · exact hf1
      · refine ⟨2, by decide, by decide,
          by simp only [hf0, hf1, if_true, if_false]; rfl, ?_, fun _ => hf1⟩
        intro k hk
        have hk0 : k = 0 := by omega
        subst hk0; exact hf0
    · exact ⟨1, by decide, by decide, by simp only [hf0, if_false]; rfl,
        fun k hk => absurd hk (by omega), fun _ => hf0⟩

/-- C16: for every operation of the driver and every fault plan of the simulated device, the
operation issues `n ≥ 1` transport calls (numbered from the length of the log on); its
status is 0 exactly when each of them returned 0, and otherwise it is the status of the
first of them that returned nonzero; in particular a single-register setter whose read
succeeds returns the status of its write. -/
theorem C16_status_is_first_failure (o : Op) (h : Nat) (regs : Nat → Fin 256)
    (fault : Nat → Int) (trace : List Call) :
    (∃ n, 0 < n ∧
      (o.run (some (Bus.ctx h)) ⟨regs, fault, trace⟩).2.trace.length = trace.length + n ∧
      (o.run (some (Bus.ctx h)) ⟨regs, fault, trace⟩).2.trace.take trace.length = trace ∧
      ((o.run (some (Bus.ctx h)) ⟨regs, fault, trace⟩).1 = 0 ↔
        ∀ k < n, fault (trace.length + k) = 0) ∧
      (∀ k < n, fault (trace.length + k) ≠ 0 → (∀ i < k, fault (trace.length + i) = 0) →
        (o.run (some (Bus.ctx h)) ⟨regs, fault, trace⟩).1 = fault (trace.length + k))) ∧
    (∀ c j, o = .rmw c j → fault trace.length = 0 →
      (o.run (some (Bus.ctx h)) ⟨regs, fault, trace⟩).1 = fault (trace.length + 1)) := by
  constructor
  · obtain ⟨calls, hne, htr, hpre, hst⟩ := Op.run_calls o h regs fault trace
    have hpos : 0 < calls.length := List.length_pos.mpr hne
    refine ⟨calls.length, hpos, by rw [htr, List.length_append],
      by rw [htr, List.take_left], ?_, ?_⟩
    · rw [hst]
      constructor
      · intro h0 k hk
        by_cases hlast : k + 1 < calls.length
        · exact hpre k hlast
        · have hk1 : k = calls.length - 1 := by omega
          rw [hk1]; exact h0
      · intro hall
        exact hall (calls.length - 1) (by omega)
    · intro k hk hkne _
      rw [hst]
      by_cases hlast : k + 1 < calls.length
      · exact absurd (hpre k hlast) hkne
      · have hk1 : k = calls.length - 1 := by omega
        rw [hk1]
  · rintro c j rfl hf0
    simp only [Op.run, RmwCall.run_cases, hf0, if_true]

/-- C17: `i3g4250d_device_id_get` issues exactly one read of one byte at address 0x0F
(`I3G4250D_WHO_AM_I`), whatever the fault plan, and writes nothing; when the read succeeds
it returns the byte stored there; for a register file holding 0xD3 at 0x0F the result is
`I3G4250D_ID`. -/
theorem C17_device_id_get :
    (∀ (h buff : Nat) (regs : Nat → Fin 256) (fault : Nat → Int) (trace : List Call),
      (i3g4250d_device_id_get (some (Bus.ctx h)) buff ⟨regs, fault, trace⟩).2.2
        = ⟨regs, fault, trace ++ [Call.read h 0x0F [buff] 1]⟩) ∧
    (∀ (h buff : Nat) (regs : Nat → Fin 256) (fault : Nat → Int) (trace : List Call),
      fault trace.length = 0 →
      (i3g4250d_device_id_get (some (Bus.ctx h)) buff ⟨regs, fault, trace⟩).1 = 0 ∧
      (i3g4250d_device_id_get (some (Bus.ctx h)) buff ⟨regs, fault, trace⟩).2.1
        = (regs 0x0F).val) ∧
    (∀ (h buff : Nat) (regs : Nat → Fin 256) (fault : Nat → Int) (trace : List Call),
      fault trace.length = 0 → regs 0x0F = 0xD3 →
      (i3g4250d_device_id_get (some (Bus.ctx h)) buff ⟨regs, fault, trace⟩).2.1
        = I3G4250D_ID) ∧
    (∀ {σ : Type} (c : stmdev_ctx_t σ) (buff b : Nat) (w w1 : σ), b < 256 →
      c.read_reg c.handle I3G4250D_WHO_AM_I [buff] 1 w = (0, [b], w1) →
      i3g4250d_device_id_get (some c) buff w = (0, b, w1)) ∧
    I3G4250D_WHO_AM_I = 0x0F := by
  refine ⟨?_, ?_, ?_, ?_, rfl⟩
  · intro h buff regs fault trace
    simp only [i3g4250d_device_id_get, read1_eq, I3G4250D_WHO_AM_I]
  · intro h buff regs fault trace hf
    simp only [i3g4250d_device_id_get, read1_eq, hf, if_true, byteOf, List.getD_cons_zero,
      I3G4250D_WHO_AM_I]
    exact ⟨trivial, Nat.mod_eq_of_lt (regs 15).isLt⟩
  · intro h buff regs fault trace hf hreg
    simp only [i3g4250d_device_id_get, read1_eq, hf, if_true, byteOf, List.getD_cons_zero,
      I3G4250D_WHO_AM_I, hreg]
    rfl
  · intro σ c buff b w w1 hb hr
    have hr1 : i3g4250d_read_reg (some c) I3G4250D_WHO_AM_I [buff] 1 w = (0, [b], w1) := hr
    simp only [i3g4250d_device_id_get, hr1, byteOf, List.getD_cons_zero,
      Nat.mod_eq_of_lt hb]

theorem C17_device_id_get_witness :
    i3g4250d_device_id_get (some (Bus.ctx 0)) 0
        ⟨fun a => if a = 0x0F then 0xD3 else 0, Bus.noFault, []⟩
      = (0, I3G4250D_ID,
          ⟨fun a => if a = 0x0F then 0xD3 else 0, Bus.noFault, [Call.read 0 0x0F [0] 1]⟩) :=
  C17_device_id_get.2.2.2.1 (Bus.ctx 0) 0 0xD3
    ⟨fun a => if a = 0x0F then 0xD3 else 0, Bus.noFault, []⟩
    ⟨fun a => if a = 0x0F then 0xD3 else 0, Bus.noFault, [Call.read 0 0x0F [0] 1]⟩
    (by decide) rfl

/-- C18: every getter of the driver (the single-register getters, among them the status and
flag getters and `temperature_raw_get`, the three threshold getters and
`angular_rate_raw_get`), for every argument, register file and fault plan of the simulated
device, issues only reads: no call it adds to the log is a write, and the register file
after the call is the register file before it. -/
theorem C18_getters_issue_no_write (o : Op) (hg : o.isGetter = true) (h : Nat)
    (regs : Nat → Fin 256) (fault : Nat → Int) (trace : List Call) :
    (o.run (some (Bus.ctx h)) ⟨regs, fault, trace⟩).2.regs = regs ∧
    (o.run (some (Bus.ctx h)) ⟨regs, fault, trace⟩).2.trace.take trace.length = trace ∧
    (∀ c ∈ (o.run (some (Bus.ctx h)) ⟨regs, fault, trace⟩).2.trace.drop trace.length,
      c.writeAddr = none) := by
  obtain ⟨hregs, calls, htr, hrd⟩ := Op.getter_reads o hg h regs fault trace
  refine ⟨hregs, by rw [htr, List.take_left], ?_⟩
  rw [htr, drop_trace]
  exact hrd

theorem C18_getters_issue_no_write_witness :
    ((Op.angular_rate_raw_get []).run (some (Bus.ctx 0))
        ⟨fun _ => 7, fun _ => 5, [Call.write 0 0 [] 0]⟩).2.regs = fun _ => 7 :=
  (C18_getters_issue_no_write (.angular_rate_raw_get []) rfl 0 (fun _ => 7) (fun _ => 5)
    [Call.write 0 0 [] 0]).1

/-- C19: for every data-rate argument `v` and every byte `r` held by CTRL_REG1, a successful
`i3g4250d_data_rate_set(v)` reads address 0x20 and writes there the byte
`((v AND 0x30) << 2) OR (r AND 0x30) OR (v AND 0x0F)`: DR (bits 5..4 of `v`) lands in bits
7..6, the bandwidth bits 5..4 are those of `r`, and the low nibble is that of `v`;
`ODR_800Hz` gives `0xCF OR (r AND 0x30)` and `ODR_SLEEP` gives `0x08 OR (r AND 0x30)`. -/
theorem C19_data_rate_set_byte (v h j : Nat) (regs : Nat → Fin 256) (fault : Nat → Int)
    (trace : List Call)
    (hf1 : fault trace.length = 0) (hf2 : fault (trace.length + 1) = 0) :
    i3g4250d_data_rate_set (some (Bus.ctx h)) v j ⟨regs, fault, trace⟩
      = (0, ⟨Function.update regs 0x20
               (Fin.ofNat (((v &&& 0x30) <<< 2) ||| ((regs 0x20).val &&& 0x30)
                            ||| (v &&& 0x0F))),
             fault,
             trace ++ [Call.read h 0x20 [j] 1,
                       Call.write h 0x20
                         [((v &&& 0x30) <<< 2) ||| ((regs 0x20).val &&& 0x30)
                            ||| (v &&& 0x0F)] 1]⟩) ∧
    ((i3g4250d_data_rate_set (some (Bus.ctx h)) v j ⟨regs, fault, trace⟩).2.regs 0x20).val
      = ((v &&& 0x30) <<< 2) ||| ((regs 0x20).val &&& 0x30) ||| (v &&& 0x0F) ∧
    (((v &&& 0x30) <<< 2) ||| ((regs 0x20).val &&& 0x30) ||| (v &&& 0x0F)) / 64
      = v / 16 % 4 ∧
    (((v &&& 0x30) <<< 2) ||| ((regs 0x20).val &&& 0x30) ||| (v &&& 0x0F)) / 16 % 4
      = (regs 0x20).val / 16 % 4 ∧
    (((v &&& 0x30) <<< 2) ||| ((regs 0x20).val &&& 0x30) ||| (v &&& 0x0F)) % 16 = v % 16 ∧
    (v = I3G4250D_ODR_800Hz →
      ((i3g4250d_data_rate_set (some (Bus.ctx h)) v j ⟨regs, fault, trace⟩).2.regs 0x20).val
        = 0xCF ||| ((regs 0x20).val &&& 0x30)) ∧
    (v = I3G4250D_ODR_SLEEP →
      ((i3g4250d_data_rate_set (some (Bus.ctx h)) v j ⟨regs, fault, trace⟩).2.regs 0x20).val
        = 0x08 ||| ((regs 0x20).val &&& 0x30)) := by
  have hlt := (regs 0x20).isLt
  have hrun := RmwCall.run_ok (.enum .data_rate v) h j regs fault trace hf1 hf2
  simp only [RmwCall.run, Setting.set, RmwCall.reg, Setting.reg, I3G4250D_CTRL_REG1] at hrun
  have hb := data_rate_newByte v (regs 0x20).val hlt
  have hfld := data_rate_newByte_fields v (regs 0x20).val hlt
  rw [hb] at hrun hfld
  have hval : ((i3g4250d_data_rate_set (some (Bus.ctx h)) v j
      ⟨regs, fault, trace⟩).2.regs 0x20).val
      = ((v &&& 0x30) <<< 2) ||| ((regs 0x20).val &&& 0x30) ||| (v &&& 0x0F) := by
    rw [hrun]
    simp only [Function.update_same, fin_ofNat_val]
    rw [hfld]; omega
  refine ⟨hrun, hval, ?_, ?_, ?_, ?_, ?_⟩
  · rw [hfld]; omega
  · rw [hfld]; omega
  · rw [hfld]; omega
  · rintro rfl
    rw [hval]
    exact odr_800_byte _ hlt
  · rintro rfl
    rw [hval]
    exact odr_sleep_byte _ hlt

theorem C19_data_rate_set_byte_witness :
    ((i3g4250d_data_rate_set (some (Bus.ctx 0)) I3G4250D_ODR_800Hz 0
        ⟨fun _ => 0x5A, Bus.noFault, []⟩).2.regs 0x20).val
      = 0xCF ||| ((0x5A : Nat) &&& 0x30) :=
  (C19_data_rate_set_byte I3G4250D_ODR_800Hz 0 0 (fun _ => 0x5A) Bus.noFault [] rfl
    rfl).2.2.2.2.2.1 rfl

/-- C20: for the settings of CTRL_REG3 (pin_int1_route, pin_int2_route, pin_mode,
pin_polarity) and of CTRL_REG4 (spi_mode, self_test, full_scale, data_format), every register
file and every two distinct settings A, B of the same register: a successful call of the
setter of A, with any argument, leaves the value returned by the getter of B as it was.  The
getter of B is an enum getter of one of the two registers, `i3g4250d_pin_int1_route_get` or
`i3g4250d_pin_int2_route_get`. -/
theorem C20_ctrl_reg3_reg4_frame (A : RmwCall) (h j1 j2 j3 : Nat) (regs : Nat → Fin 256)
    (trace : List Call) :
    (A.run (some (Bus.ctx h)) j1 ⟨regs, Bus.noFault, trace⟩).1 = 0 ∧
    (∀ B : Setting, B.reg = I3G4250D_CTRL_REG3 ∨ B.reg = I3G4250D_CTRL_REG4 →
      A.reg = B.reg → (∀ v, A ≠ .enum B v) →
      (B.get (some (Bus.ctx h)) j3
          (A.run (some (Bus.ctx h)) j1 ⟨regs, Bus.noFault, trace⟩).2).1 = 0 ∧
      (B.get (some (Bus.ctx h)) j3
          (A.run (some (Bus.ctx h)) j1 ⟨regs, Bus.noFault, trace⟩).2).2.1
        = (B.get (some (Bus.ctx h)) j2 ⟨regs, Bus.noFault, trace⟩).2.1) ∧
    (A.reg = I3G4250D_CTRL_REG3 → (∀ v, A ≠ .pin_int1_route v) →
      (i3g4250d_pin_int1_route_get (some (Bus.ctx h)) j3
          (A.run (some (Bus.ctx h)) j1 ⟨regs, Bus.noFault, trace⟩).2).1 = 0 ∧
      (i3g4250d_pin_int1_route_get (some (Bus.ctx h)) j3
          (A.run (some (Bus.ctx h)) j1 ⟨regs, Bus.noFault, trace⟩).2).2.1
        = (i3g4250d_pin_int1_route_get (some (Bus.ctx h)) j2
            ⟨regs, Bus.noFault, trace⟩).2.1) ∧
    (A.reg = I3G4250D_CTRL_REG3 → (∀ v, A ≠ .pin_int2_route v) →
      (i3g4250d_pin_int2_route_get (some (Bus.ctx h)) j3
          (A.run (some (Bus.ctx h)) j1 ⟨regs, Bus.noFault, trace⟩).2).1 = 0 ∧
      (i3g4250d_pin_int2_route_get (some (Bus.ctx h)) j3
          (A.run (some (Bus.ctx h)) j1 ⟨regs, Bus.noFault, trace⟩).2).2.1
        = (i3g4250d_pin_int2_route_get (some (Bus.ctx h)) j2
            ⟨regs, Bus.noFault, trace⟩).2.1) := by
  rw [RmwCall.run_nf]
  refine ⟨rfl, ?_, ?_, ?_⟩
  · intro B hB hreg hne
    rw [Setting.get_nf, Setting.get_nf]
    refine ⟨rfl, ?_⟩
    have hnf : ∀ v, A ≠ .enum .filter_path v ∧ A ≠ .enum .filter_path_internal v := by
      intro v
      constructor <;> rintro rfl <;> simp only [RmwCall.reg] at hreg <;>
        rw [← hreg] at hB <;> revert hB <;> decide
    show B.decode _ = B.decode _
    rw [hreg]
    simp only [Function.update_same, fin_ofNat_val]
    rw [Setting.decode_mod, Setting.decode_eq, Setting.decode_eq,
      Setting.pattern_call_other A B hreg hne hnf]
  · intro hreg hne
    rw [pin_int1_route_get_nf, pin_int1_route_get_nf]
    refine ⟨rfl, ?_⟩
    have hk := (ctrl_reg3_route_call_other A hreg (regs I3G4250D_CTRL_REG3).val).1 hne
    show i3g4250d_int1_route_t.mk _ _ = i3g4250d_int1_route_t.mk _ _
    rw [hreg]
    simp only [Function.update_same, fin_ofNat_val, ctrl_reg3_ofByte_mod]
    rw [hk.1, hk.2]
  · intro hreg hne
    rw [pin_int2_route_get_nf, pin_int2_route_get_nf]
    refine ⟨rfl, ?_⟩
    have hk := (ctrl_reg3_route_call_other A hreg (regs I3G4250D_CTRL_REG3).val).2 hne
    show i3g4250d_int2_route_t.mk _ _ _ _ = i3g4250d_int2_route_t.mk _ _ _ _
    rw [hreg]
    simp only [Function.update_same, fin_ofNat_val, ctrl_reg3_ofByte_mod]
    rw [hk.1, hk.2.1, hk.2.2.1, hk.2.2.2]

theorem C20_ctrl_reg3_reg4_frame_witness :
    (Setting.self_test.get (some (Bus.ctx 0)) 0
        (RmwCall.run (.enum .full_scale I3G4250D_2000dps) (some (Bus.ctx 0)) 0
          ⟨fun _ => 0xFF, Bus.noFault, []⟩).2).2.1
      = (Setting.self_test.get (some (Bus.ctx 0)) 0 ⟨fun _ => 0xFF, Bus.noFault, []⟩).2.1 ∧
    (i3g4250d_pin_int1_route_get (some (Bus.ctx 0)) 0
        (RmwCall.run (.pin_int2_route ⟨0, 1, 0, 1⟩) (some (Bus.ctx 0)) 0
          ⟨fun _ => 0xFF, Bus.noFault, []⟩).2).2.1
      = (i3g4250d_pin_int1_route_get (some (Bus.ctx 0)) 0
          ⟨fun _ => 0xFF, Bus.noFault, []⟩).2.1 :=
  ⟨((C20_ctrl_reg3_reg4_frame (.enum .full_scale I3G4250D_2000dps) 0 0 0 0 (fun _ => 0xFF)
      []).2.1 .self_test (Or.inr rfl) rfl (fun v hv => by cases hv)).2,
   ((C20_ctrl_reg3_reg4_frame (.pin_int2_route ⟨0, 1, 0, 1⟩) 0 0 0 0 (fun _ => 0xFF)
      []).2.2.1 rfl (fun v hv => by cases hv)).2⟩

/-- C21: for the pairs (data_rate, lp_bandwidth) in CTRL_REG1, (hp_bandwidth, hp_mode) in
CTRL_REG2, (fifo_watermark, fifo_mode) in FIFO_CTRL_REG, (int_notification,
int_on_threshold_mode) in INT1_CFG, and for boot and fifo_enable against each other and
against filter_path and filter_path_internal in CTRL_REG5: for every register file, a
successful call of the setter of one setting, with any argument, leaves the value returned by
the getter of the other setting as it was.  The getter of the other setting is an enum getter
(filter_path against filter_path_internal and back is not among the pairs),
`i3g4250d_boot_get`, `i3g4250d_fifo_enable_get` or `i3g4250d_fifo_watermark_get`. -/
theorem C21_other_registers_frame (A : RmwCall) (h j1 j2 j3 : Nat) (regs : Nat → Fin 256)
    (trace : List Call) :
    (A.run (some (Bus.ctx h)) j1 ⟨regs, Bus.noFault, trace⟩).1 = 0 ∧
    (∀ B : Setting, A.reg = B.reg → (∀ v, A ≠ .enum B v) →
      (∀ v, A ≠ .enum .filter_path v ∧ A ≠ .enum .filter_path_internal v) →
      (B.get (some (Bus.ctx h)) j3
          (A.run (some (Bus.ctx h)) j1 ⟨regs, Bus.noFault, trace⟩).2).1 = 0 ∧
      (B.get (some (Bus.ctx h)) j3
          (A.run (some (Bus.ctx h)) j1 ⟨regs, Bus.noFault, trace⟩).2).2.1
        = (B.get (some (Bus.ctx h)) j2 ⟨regs, Bus.noFault, trace⟩).2.1) ∧
    (A.reg = I3G4250D_CTRL_REG5 → (∀ v, A ≠ .boot v) →
      (i3g4250d_boot_get (some (Bus.ctx h)) j3
          (A.run (some (Bus.ctx h)) j1 ⟨regs, Bus.noFault, trace⟩).2).1 = 0 ∧
      (i3g4250d_boot_get (some (Bus.ctx h)) j3
          (A.run (some (Bus.ctx h)) j1 ⟨regs, Bus.noFault, trace⟩).2).2.1
        = (i3g4250d_boot_get (some (Bus.ctx h)) j2 ⟨regs, Bus.noFault, trace⟩).2.1) ∧
    (A.reg = I3G4250D_CTRL_REG5 → (∀ v, A ≠ .fifo_enable v) →
      (i3g4250d_fifo_enable_get (some (Bus.ctx h)) j3
          (A.run (some (Bus.ctx h)) j1 ⟨regs, Bus.noFault, trace⟩).2).1 = 0 ∧
      (i3g4250d_fifo_enable_get (some (Bus.ctx h)) j3
          (A.run (some (Bus.ctx h)) j1 ⟨regs, Bus.noFault, trace⟩).2).2.1
        = (i3g4250d_fifo_enable_get (some (Bus.ctx h)) j2
            ⟨regs, Bus.noFault, trace⟩).2.1) ∧
    (A.reg = I3G4250D_FIFO_CTRL_REG → (∀ v, A ≠ .fifo_watermark v) →
      (i3g4250d_fifo_watermark_get (some (Bus.ctx h)) j3
          (A.run (some (Bus.ctx h)) j1 ⟨regs, Bus.noFault, trace⟩).2).1 = 0 ∧
      (i3g4250d_fifo_watermark_get (some (Bus.ctx h)) j3
          (A.run (some (Bus.ctx h)) j1 ⟨regs, Bus.noFault, trace⟩).2).2.1
        = (i3g4250d_fifo_watermark_get (some (Bus.ctx h)) j2
            ⟨regs, Bus.noFault, trace⟩).2.1) := by
  rw [RmwCall.run_nf]
  refine ⟨rfl, ?_, ?_, ?_, ?_⟩
  · intro B hreg hne hnf
    rw [Setting.get_nf, Setting.get_nf]
    refine ⟨rfl, ?_⟩
    show B.decode _ = B.decode _
    rw [hreg]
    simp only [Function.update_same, fin_ofNat_val]
    rw [Setting.decode_mod, Setting.decode_eq, Setting.decode_eq,
      Setting.pattern_call_other A B hreg hne hnf]
  · intro hreg hne
    rw [boot_get_nf, boot_get_nf]
    refine ⟨rfl, ?_⟩
    have hk := (ctrl_reg5_flags_call_other A hreg (regs I3G4250D_CTRL_REG5).val).1 hne
    show (i3g4250d_ctrl_reg5_t.ofByte _).boot = (i3g4250d_ctrl_reg5_t.ofByte _).boot
    rw [hreg]
    simp only [Function.update_same, fin_ofNat_val, ctrl_reg5_ofByte_mod]
    exact hk
  · intro hreg hne
    rw [fifo_enable_get_nf, fifo_enable_get_nf]
    refine ⟨rfl, ?_⟩
    have hk := (ctrl_reg5_flags_call_other A hreg (regs I3G4250D_CTRL_REG5).val).2 hne
    show (i3g4250d_ctrl_reg5_t.ofByte _).fifo_en = (i3g4250d_ctrl_reg5_t.ofByte _).fifo_en
    rw [hreg]
    simp only [Function.update_same, fin_ofNat_val, ctrl_reg5_ofByte_mod]
    exact hk
  · intro hreg hne
    rw [fifo_watermark_get_nf, fifo_watermark_get_nf]
    refine ⟨rfl, ?_⟩
    have hk := fifo_ctrl_wtm_call_other A hreg hne (regs I3G4250D_FIFO_CTRL_REG).val
    show (i3g4250d_fifo_ctrl_reg_t.ofByte _).wtm = (i3g4250d_fifo_ctrl_reg_t.ofByte _).wtm
    rw [hreg]
    simp only [Function.update_same, fin_ofNat_val, fifo_ctrl_reg_ofByte_mod]
    exact hk

theorem C21_other_registers_frame_witness :
    (Setting.lp_bandwidth.get (some (Bus.ctx 0)) 0
        (RmwCall.run (.enum .data_rate I3G4250D_ODR_800Hz) (some (Bus.ctx 0)) 0
          ⟨fun _ => 0x10, Bus.noFault, []⟩).2).2.1
      = (Setting.lp_bandwidth.get (some (Bus.ctx 0)) 0
          ⟨fun _ => 0x10, Bus.noFault, []⟩).2.1 ∧
    (i3g4250d_boot_get (some (Bus.ctx 0)) 0
        (RmwCall.run (.enum .filter_path I3G4250D_LPF1_HP_LPF2_ON_OUT) (some (Bus.ctx 0)) 0
          ⟨fun _ => 0x80, Bus.noFault, []⟩).2).2.1
      = (i3g4250d_boot_get (some (Bus.ctx 0)) 0 ⟨fun _ => 0x80, Bus.noFault, []⟩).2.1 :=
  ⟨((C21_other_registers_frame (.enum .data_rate I3G4250D_ODR_800Hz) 0 0 0 0 (fun _ => 0x10)
      []).2.1 .lp_bandwidth rfl (fun v hv => by cases hv)
      (fun v => ⟨fun hv => (by cases hv), fun hv => (by cases hv)⟩)).2,
   ((C21_other_registers_frame (.enum .filter_path I3G4250D_LPF1_HP_LPF2_ON_OUT) 0 0 0 0
      (fun _ => 0x80) []).2.2.1 rfl (fun v hv => by cases hv)).2⟩

/-- C22: for every register file, each threshold getter with two successful reads returns
status 0 and `(high AND 0x7F) * 256 + low`; the result is at most 32767, it does not depend
on bit 7 of the high register (nor on the previous content of the output), and the 16-bit
arithmetic of the getter never wraps: its result is this unreduced sum. -/
theorem C22_threshold_get_value (a : Axis) (val h jh jl : Nat) (regs : Nat → Fin 256)
    (fault : Nat → Int) (trace : List Call)
    (hf0 : fault trace.length = 0) (hf1 : fault (trace.length + 1) = 0) :
    (a.threshold_get (some (Bus.ctx h)) val jh jl ⟨regs, fault, trace⟩).1 = 0 ∧
    (a.threshold_get (some (Bus.ctx h)) val jh jl ⟨regs, fault, trace⟩).2.1
      = ((regs a.regH).val &&& 0x7F) * 256 + (regs a.regL).val ∧
    (a.threshold_get (some (Bus.ctx h)) val jh jl ⟨regs, fault, trace⟩).2.1 ≤ 32767 ∧
    ((regs a.regH).val &&& 0x7F) * 256 + (regs a.regL).val < 65536 ∧
    (∀ (regs2 : Nat → Fin 256) (val2 : Nat),
      (regs2 a.regH).val % 128 = (regs a.regH).val % 128 → regs2 a.regL = regs a.regL →
      (a.threshold_get (some (Bus.ctx h)) val2 jh jl ⟨regs2, fault, trace⟩).2.1
        = (a.threshold_get (some (Bus.ctx h)) val jh jl ⟨regs, fault, trace⟩).2.1) := by
  have hl := (regs a.regL).isLt
  rw [Axis.threshold_get_ok a val h jh jl regs fault trace hf0 hf1, and_7F]
  refine ⟨rfl, rfl, ?_, ?_, ?_⟩
  · show (regs a.regH).val % 128 * 256 + (regs a.regL).val ≤ 32767
    omega
  · omega
  · intro regs2 val2 hh hlo
    rw [Axis.threshold_get_ok a val2 h jh jl regs2 fault trace hf0 hf1]
    show (regs2 a.regH).val % 128 * 256 + (regs2 a.regL).val
      = (regs a.regH).val % 128 * 256 + (regs a.regL).val
    rw [hh, hlo]

theorem C22_threshold_get_value_witness :
    (Axis.threshold_get .x (some (Bus.ctx 0)) 0 0 0 ⟨fun _ => 0xFF, Bus.noFault, []⟩).2.1
      = ((0xFF : Nat) &&& 0x7F) * 256 + 0xFF :=
  (C22_threshold_get_value .x 0 0 0 0 (fun _ => 0xFF) Bus.noFault [] rfl rfl).2.1

/-- C23: the status and FIFO flag getters extract fixed bit positions.  For every byte `s`
delivered by a successful read of STATUS_REG (0x27), `i3g4250d_flag_data_ready_get` returns
bit 3 of `s`; for every byte `f` delivered by a successful read of FIFO_SRC_REG (0x2F),
`i3g4250d_fifo_data_level_get` returns `f AND 0x1F`, `i3g4250d_fifo_empty_flag_get` bit 5,
`i3g4250d_fifo_ovr_flag_get` bit 6 and `i3g4250d_fifo_wtm_flag_get` bit 7 of `f`; a flag is
0 or 1 and the level is at most 31. -/
theorem C23_flag_getters_bit_positions {σ : Type} (c : stmdev_ctx_t σ) (j b : Nat)
    (w w1 : σ) :
    (c.read_reg c.handle 0x27 [j] 1 w = (0, [b], w1) →
      i3g4250d_flag_data_ready_get (some c) j w = (0, bitAt b 3, w1)) ∧
    (c.read_reg c.handle 0x2F [j] 1 w = (0, [b], w1) →
      i3g4250d_fifo_data_level_get (some c) j w = (0, b &&& 0x1F, w1) ∧
      i3g4250d_fifo_empty_flag_get (some c) j w = (0, bitAt b 5, w1) ∧
      i3g4250d_fifo_ovr_flag_get (some c) j w = (0, bitAt b 6, w1) ∧
      i3g4250d_fifo_wtm_flag_get (some c) j w = (0, bitAt b 7, w1)) ∧
    (∀ i, bitAt b i ≤ 1) ∧ b &&& 0x1F ≤ 31 ∧
    I3G4250D_STATUS_REG = 0x27 ∧ I3G4250D_FIFO_SRC_REG = 0x2F := by
  have h1F : b &&& 0x1F = b % 32 := Nat.and_pow_two_sub_one_eq_mod b 5
  refine ⟨?_, ?_, ?_, ?_, rfl, rfl⟩
  · intro hr
    have hr1 : i3g4250d_read_reg (some c) I3G4250D_STATUS_REG [j] 1 w = (0, [b], w1) := hr
    simp only [i3g4250d_flag_data_ready_get, hr1, byteOf, List.getD_cons_zero,
      i3g4250d_status_reg_t.ofByte, bitAt, Prod.mk.injEq, true_and, and_true]
    omega
  · intro hr
    have hr1 : i3g4250d_read_reg (some c) I3G4250D_FIFO_SRC_REG [j] 1 w = (0, [b], w1) := hr
    simp only [i3g4250d_fifo_data_level_get, i3g4250d_fifo_empty_flag_get,
      i3g4250d_fifo_ovr_flag_get, i3g4250d_fifo_wtm_flag_get, hr1, byteOf,
      List.getD_cons_zero, i3g4250d_fifo_src_reg_t.ofByte, bitAt, h1F, Prod.mk.injEq,
      true_and, and_true]
    refine ⟨?_, ?_, ?_, ?_⟩ <;> omega
  · intro i
    unfold bitAt
    omega
  · rw [h1F]; omega

theorem C23_flag_getters_bit_positions_witness :
    i3g4250d_fifo_ovr_flag_get (some (Bus.ctx 0)) 0 ⟨fun _ => 0x40, Bus.noFault, []⟩
      = (0, bitAt 0x40 6, ⟨fun _ => 0x40, Bus.noFault, [Call.read 0 0x2F [0] 1]⟩) ∧
    bitAt 0x40 6 = 1 :=
  ⟨((C23_flag_getters_bit_positions (Bus.ctx 0) 0 0x40 ⟨fun _ => 0x40, Bus.noFault, []⟩
      ⟨fun _ => 0x40, Bus.noFault, [Call.read 0 0x2F [0] 1]⟩).2.1 rfl).2.2.1,
   by decide⟩

/-- C27: for every byte `v` and every old content of INT1_DURATION, a successful
`i3g4250d_int_on_threshold_dur_set(v)` reads address 0x38 and writes there a byte that does
not depend on the old content: its bits 6..0 are `v AND 0x7F` and its bit 7 (WAIT) is 1
exactly when `v` is nonzero, so `v = 0x80` stores 0x80 (WAIT = 1, duration 0);
`i3g4250d_int_on_threshold_dur_get` called next returns `v mod 128`, which is `v` exactly
when `v <= 127`. -/
theorem C27_dur_set_byte (v h j j2 : Nat) (hv : v < 256) (regs : Nat → Fin 256)
    (fault : Nat → Int) (trace : List Call)
    (hf1 : fault trace.length = 0) (hf2 : fault (trace.length + 1) = 0)
    (hf3 : fault (trace.length + 2) = 0) :
    i3g4250d_int_on_threshold_dur_set (some (Bus.ctx h)) v j ⟨regs, fault, trace⟩
      = (0, ⟨Function.update regs 0x38
               (Fin.ofNat ((v &&& 0x7F) + (if v = 0 then 0 else 0x80))),
             fault,
             trace ++ [Call.read h 0x38 [j] 1,
                       Call.write h 0x38 [(v &&& 0x7F) + (if v = 0 then 0 else 0x80)] 1]⟩) ∧
    ((v &&& 0x7F) + (if v = 0 then 0 else 0x80)) % 128 = v &&& 0x7F ∧
    ((v &&& 0x7F) + (if v = 0 then 0 else 0x80)) / 128 = (if v = 0 then 0 else 1) ∧
    (v = 0x80 → (v &&& 0x7F) + (if v = 0 then 0 else 0x80) = 0x80) ∧
    (i3g4250d_int_on_threshold_dur_get (some (Bus.ctx h)) j2
        (i3g4250d_int_on_threshold_dur_set (some (Bus.ctx h)) v j ⟨regs, fault, trace⟩).2).1
      = 0 ∧
    (i3g4250d_int_on_threshold_dur_get (some (Bus.ctx h)) j2
        (i3g4250d_int_on_threshold_dur_set (some (Bus.ctx h)) v j ⟨regs, fault, trace⟩).2).2.1
      = v % 128 ∧
    (v % 128 = v ↔ v ≤ 127) := by
  have hrun := RmwCall.run_ok (.int_on_threshold_dur v) h j regs fault trace hf1 hf2
  simp only [RmwCall.run, RmwCall.reg, I3G4250D_INT1_DURATION, dur_newByte,
    Nat.mod_eq_of_lt hv] at hrun
  have hB : v % 128 + (if v = 0 then 0 else 1) * 128
      = (v &&& 0x7F) + (if v = 0 then 0 else 0x80) := by
    rw [and_7F]; split <;> rfl
  rw [hB] at hrun
  have hf3b : fault (trace ++ [Call.read h 0x38 [j] 1,
      Call.write h 0x38 [(v &&& 0x7F) + (if v = 0 then 0 else 0x80)] 1]).length = 0 := by
    simpa using hf3
  refine ⟨hrun, ?_, ?_, ?_, ?_, ?_, ?_⟩
  · rw [and_7F]; split <;> omega
  · rw [and_7F]; split <;> omega
  · rintro rfl; decide
  · rw [hrun, dur_get_ok _ _ _ _ _ hf3b]
  · rw [hrun, dur_get_ok _ _ _ _ _ hf3b]
    simp only [I3G4250D_INT1_DURATION, Function.update_same, fin_ofNat_val, and_7F]
    split <;> omega
  · omega

theorem C27_dur_set_byte_witness :
    (i3g4250d_int_on_threshold_dur_get (some (Bus.ctx 0)) 0
        (i3g4250d_int_on_threshold_dur_set (some (Bus.ctx 0)) 0x80 0
          ⟨fun _ => 0x7F, Bus.noFault, []⟩).2).2.1 = 0x80 % 128 ∧
    i3g4250d_int_on_threshold_dur_set (some (Bus.ctx 0)) 0x80 0
        ⟨fun _ => 0x7F, Bus.noFault, []⟩
      = (0, ⟨Function.update (fun _ => 0x7F) 0x38
               (Fin.ofNat (((0x80 : Nat) &&& 0x7F) + (if (0x80 : Nat) = 0 then 0 else 0x80))),
             Bus.noFault,
             [] ++ [Call.read 0 0x38 [0] 1,
                    Call.write 0 0x38
                      [((0x80 : Nat) &&& 0x7F) + (if (0x80 : Nat) = 0 then 0 else 0x80)] 1]⟩) :=
  ⟨(C27_dur_set_byte 0x80 0 0 0 (by decide) (fun _ => 0x7F) Bus.noFault [] rfl rfl
      rfl).2.2.2.2.2.1,
   (C27_dur_set_byte 0x80 0 0 0 (by decide) (fun _ => 0x7F) Bus.noFault [] rfl rfl rfl).1⟩

/-- C28: the raw numeric setters truncate their byte argument to the width of the field.  For
every byte `v` and every register file, on the simulated device with a transport that never
fails, the getter called after the setter with `v` returns status 0 and `v mod 32` for
fifo_watermark, `v mod 2` for boot and for fifo_enable (0 for every even `v`), and `v`
itself for hp_reference_value. -/
theorem C28_raw_set_then_get (v h j1 j2 : Nat) (hv : v < 256) (regs : Nat → Fin 256)
    (trace : List Call) :
    ((i3g4250d_fifo_watermark_get (some (Bus.ctx h)) j2
        (i3g4250d_fifo_watermark_set (some (Bus.ctx h)) v j1
          ⟨regs, Bus.noFault, trace⟩).2).1 = 0 ∧
     (i3g4250d_fifo_watermark_get (some (Bus.ctx h)) j2
        (i3g4250d_fifo_watermark_set (some (Bus.ctx h)) v j1
          ⟨regs, Bus.noFault, trace⟩).2).2.1 = v % 32) ∧
    ((i3g4250d_boot_get (some (Bus.ctx h)) j2
        (i3g4250d_boot_set (some (Bus.ctx h)) v j1 ⟨regs, Bus.noFault, trace⟩).2).1 = 0 ∧
     (i3g4250d_boot_get (some (Bus.ctx h)) j2
        (i3g4250d_boot_set (some (Bus.ctx h)) v j1 ⟨regs, Bus.noFault, trace⟩).2).2.1
       = v % 2) ∧
    ((i3g4250d_fifo_enable_get (some (Bus.ctx h)) j2
        (i3g4250d_fifo_enable_set (some (Bus.ctx h)) v j1
          ⟨regs, Bus.noFault, trace⟩).2).1 = 0 ∧
     (i3g4250d_fifo_enable_get (some (Bus.ctx h)) j2
        (i3g4250d_fifo_enable_set (some (Bus.ctx h)) v j1
          ⟨regs, Bus.noFault, trace⟩).2).2.1 = v % 2) ∧
    ((i3g4250d_hp_reference_value_get (some (Bus.ctx h)) j2
        (i3g4250d_hp_reference_value_set (some (Bus.ctx h)) v j1
          ⟨regs, Bus.noFault, trace⟩).2).1 = 0 ∧
     (i3g4250d_hp_reference_value_get (some (Bus.ctx h)) j2
        (i3g4250d_hp_reference_value_set (some (Bus.ctx h)) v j1
          ⟨regs, Bus.noFault, trace⟩).2).2.1 = v) ∧
    (v % 2 = 0 →
      (i3g4250d_boot_get (some (Bus.ctx h)) j2
        (i3g4250d_boot_set (some (Bus.ctx h)) v j1 ⟨regs, Bus.noFault, trace⟩).2).2.1
        = 0) := by
  have hw := RmwCall.run_nf (.fifo_watermark v) h j1 regs trace
  have hb := RmwCall.run_nf (.boot v) h j1 regs trace
  have he := RmwCall.run_nf (.fifo_enable v) h j1 regs trace
  have hr := RmwCall.run_nf (.hp_reference_value v) h j1 regs trace
  simp only [RmwCall.run, RmwCall.reg] at hw hb he hr
  have hfld := fun x => raw_field_after_set v x
  have hboot : (i3g4250d_boot_get (some (Bus.ctx h)) j2
        (i3g4250d_boot_set (some (Bus.ctx h)) v j1 ⟨regs, Bus.noFault, trace⟩).2).2.1
       = v % 2 := by
    rw [hb, boot_get_nf]
    simp only [Function.update_same, fin_ofNat_val, ctrl_reg5_ofByte_mod]
    exact (hfld _).2.1
  refine ⟨⟨?_, ?_⟩, ⟨?_, hboot⟩, ⟨?_, ?_⟩, ⟨?_, ?_⟩, ?_⟩
  · rw [hw, fifo_watermark_get_nf]
  · rw [hw, fifo_watermark_get_nf]
    simp only [Function.update_same, fin_ofNat_val, fifo_ctrl_reg_ofByte_mod]
    exact (hfld _).1
  · rw [hb, boot_get_nf]
  · rw [he, fifo_enable_get_nf]
  · rw [he, fifo_enable_get_nf]
    simp only [Function.update_same, fin_ofNat_val, ctrl_reg5_ofByte_mod]
    exact (hfld _).2.2.1
  · rw [hr, hp_reference_value_get_nf]
  · rw [hr, hp_reference_value_get_nf]
    simp only [Function.update_same, fin_ofNat_val, (hfld _).2.2.2, Nat.mod_mod]
    exact Nat.mod_eq_of_lt hv
  · intro h0
    rw [hboot, h0]

theorem C28_raw_set_then_get_witness :
    (i3g4250d_fifo_watermark_get (some (Bus.ctx 0)) 0
        (i3g4250d_fifo_watermark_set (some (Bus.ctx 0)) 0xFF 0
          ⟨fun _ => 0, Bus.noFault, []⟩).2).2.1 = 0xFF % 32 ∧
    (i3g4250d_fifo_enable_get (some (Bus.ctx 0)) 0
        (i3g4250d_fifo_enable_set (some (Bus.ctx 0)) 0xFF 0
          ⟨fun _ => 0, Bus.noFault, []⟩).2).2.1 = 0xFF % 2 :=
  ⟨(C28_raw_set_then_get 0xFF 0 0 0 (by decide) (fun _ => 0) []).1.2,
   (C28_raw_set_then_get 0xFF 0 0 0 (by decide) (fun _ => 0) []).2.2.1.2⟩

/-- C29: for each axis and every 16-bit value `v` (also above 32767), on the simulated
device with a transport that never fails, the threshold getter called after the threshold
setter with `v` returns status 0 and `v mod 32768`: bit 15 of `v` is dropped, and the low
byte the setter writes is `v mod 256`, the low byte of `v mod 32768` as well. -/
theorem C29_threshold_drops_bit_15 (a : Axis) (v : Nat) (hv : v < 65536)
    (h jh jl v0 jh2 jl2 : Nat) (regs : Nat → Fin 256) (trace : List Call) :
    (a.threshold_set (some (Bus.ctx h)) v jh jl ⟨regs, Bus.noFault, trace⟩).1 = 0 ∧
    (a.threshold_get (some (Bus.ctx h)) v0 jh2 jl2
      (a.threshold_set (some (Bus.ctx h)) v jh jl ⟨regs, Bus.noFault, trace⟩).2).1 = 0 ∧
    (a.threshold_get (some (Bus.ctx h)) v0 jh2 jl2
      (a.threshold_set (some (Bus.ctx h)) v jh jl ⟨regs, Bus.noFault, trace⟩).2).2.1
      = v % 32768 ∧
    ((a.threshold_set (some (Bus.ctx h)) v jh jl ⟨regs, Bus.noFault, trace⟩).2.regs
      a.regL).val = v % 256 ∧
    v % 32768 % 256 = v % 256 ∧
    (32768 ≤ v → v % 32768 = v - 32768) := by
  rw [Axis.threshold_set_nf, Axis.threshold_get_nf]
  refine ⟨rfl, rfl, ?_, ?_, ?_, ?_⟩
  · simp only [Function.update_same, Function.update_noteq (threshold_regs_ne a),
      fin_ofNat_val]
    omega
  · simp only [Function.update_same, fin_ofNat_val]
    omega
  · omega
  · omega

theorem C29_threshold_drops_bit_15_witness :
    (Axis.threshold_get .y (some (Bus.ctx 0)) 0 0 0
      (Axis.threshold_set .y (some (Bus.ctx 0)) 0xFFFF 0 0
        ⟨fun _ => 0, Bus.noFault, []⟩).2).2.1 = 0xFFFF % 32768 :=
  (C29_threshold_drops_bit_15 .y 0xFFFF (by decide) 0 0 0 0 0 0 (fun _ => 0) []).2.2.1

/-- C30: the three threshold setters are one function up to register addresses.  For every
axis, every value `v`, every register file and every fault plan of the simulated device, the
setter of the axis (for Y and Z the high and low fields are assigned before the status is
tested) returns the same status as `i3g4250d_int_x_threshold_set` (which assigns inside the
test) run on the register file seen through the renaming of 0x32/0x33 into the addresses of
the axis; the calls it issues are those of the X setter with the addresses renamed, written
bytes included, and the threshold registers end up with the same content. -/
theorem C30_threshold_setters_agree (a : Axis) (v h jh jl : Nat) (regs : Nat → Fin 256)
    (fault : Nat → Int) (trace : List Call) :
    (a.threshold_set (some (Bus.ctx h)) v jh jl ⟨regs, fault, trace⟩).1
      = (i3g4250d_int_x_threshold_set (some (Bus.ctx h)) v jh jl
          ⟨fun addr => regs (a.rename addr), fault, trace⟩).1 ∧
    (a.threshold_set (some (Bus.ctx h)) v jh jl ⟨regs, fault, trace⟩).2.trace.drop trace.length
      = ((i3g4250d_int_x_threshold_set (some (Bus.ctx h)) v jh jl
          ⟨fun addr => regs (a.rename addr), fault, trace⟩).2.trace.drop trace.length).map
          (Call.rename a.rename) ∧
    (a.threshold_set (some (Bus.ctx h)) v jh jl ⟨regs, fault, trace⟩).2.regs a.regH
      = (i3g4250d_int_x_threshold_set (some (Bus.ctx h)) v jh jl
          ⟨fun addr => regs (a.rename addr), fault, trace⟩).2.regs 0x32 ∧
    (a.threshold_set (some (Bus.ctx h)) v jh jl ⟨regs, fault, trace⟩).2.regs a.regL
      = (i3g4250d_int_x_threshold_set (some (Bus.ctx h)) v jh jl
          ⟨fun addr => regs (a.rename addr), fault, trace⟩).2.regs 0x33 ∧
    (a.rename 0x32, a.rename 0x33) = (match a with
      | .x => (0x32, 0x33)
      | .y => (0x34, 0x35)
      | .z => (0x36, 0x37)) := by
  have hx := Axis.threshold_set_eq .x v h jh jl (fun addr => regs (a.rename addr)) fault trace
  simp only [Axis.threshold_set, Axis.regH, Axis.regL] at hx
  have hrH : a.rename I3G4250D_INT1_TSH_XH = a.regH := by simp [Axis.rename]
  have hrL : a.rename I3G4250D_INT1_TSH_XL = a.regL := by
    simp [Axis.rename, I3G4250D_INT1_TSH_XH, I3G4250D_INT1_TSH_XL]
  have hne := threshold_regs_ne a
  have h32 : (0x32 : Nat) = I3G4250D_INT1_TSH_XH := rfl
  have h33 : (0x33 : Nat) = I3G4250D_INT1_TSH_XL := rfl
  have hxne : I3G4250D_INT1_TSH_XH ≠ I3G4250D_INT1_TSH_XL := by decide
  rw [hx, Axis.threshold_set_eq, h32, h33]
  refine ⟨?_, ?_, ?_, ?_, ?_⟩
  · by_cases hf0 : fault trace.length = 0 <;> by_cases hf1 : fault (trace.length + 1) = 0 <;>
      by_cases hf2 : fault (trace.length + 2) = 0 <;>
      simp only [hf0, hf1, hf2, if_true, if_false]
  · by_cases hf0 : fault trace.length = 0 <;> by_cases hf1 : fault (trace.length + 1) = 0 <;>
      by_cases hf2 : fault (trace.length + 2) = 0 <;>
      simp only [hf0, hf1, hf2, if_true, if_false, drop_trace, List.map_cons, List.map_nil,
        Call.rename, hrH, hrL]
  · by_cases hf0 : fault trace.length = 0 <;> by_cases hf1 : fault (trace.length + 1) = 0 <;>
      by_cases hf2 : fault (trace.length + 2) = 0 <;>
      by_cases hf3 : fault (trace.length + 3) = 0 <;>
      simp only [hf0, hf1, hf2, hf3, if_true, if_false, Function.update_same,
        Function.update_noteq hne, Function.update_noteq hxne, hrH, hrL]
  · by_cases hf0 : fault trace.length = 0 <;> by_cases hf1 : fault (trace.length + 1) = 0 <;>
      by_cases hf2 : fault (trace.length + 2) = 0 <;>
      by_cases hf3 : fault (trace.length + 3) = 0 <;>
      simp only [hf0, hf1, hf2, hf3, if_true, if_false, Function.update_same,
        Function.update_noteq hne.symm, Function.update_noteq hxne.symm, hrH, hrL]
  · cases a <;> rfl

/-- C26: `i3g4250d_filter_path_set` and `i3g4250d_filter_path_internal_set` both overwrite the
one HPen bit (bit 4 of CTRL_REG5) with bit 2 of their argument.  After any sequence of calls
of the two setters on the simulated device with a transport that never fails (every call
returns 0): HPen is bit 2 of the argument of the call that ran last, `out_sel` (bits 1..0)
holds the low two bits of the argument of the last call of `filter_path_set`, and `int1_sel`
(bits 3..2) those of the last call of `filter_path_internal_set`. -/
theorem C26_shared_hpen (cs : List RmwCall) (hall : ∀ c ∈ cs, c.isFilterPath = true)
    (h j : Nat) (regs : Nat → Fin 256) (trace : List Call) :
    (∀ s ∈ (RmwCall.runAll cs (some (Bus.ctx h)) j ⟨regs, Bus.noFault, trace⟩).1, s = 0) ∧
    (RmwCall.runAll cs (some (Bus.ctx h)) j ⟨regs, Bus.noFault, trace⟩).1.length
      = cs.length ∧
    (∀ pre v, cs = pre ++ [.enum .filter_path v] ∨ cs = pre ++ [.enum .filter_path_internal v] →
      bitAt ((RmwCall.runAll cs (some (Bus.ctx h)) j ⟨regs, Bus.noFault, trace⟩).2.regs
        I3G4250D_CTRL_REG5).val 4 = bitAt v 2) ∧
    (∀ pre v post, cs = pre ++ [.enum .filter_path v] ++ post →
      (∀ c ∈ post, ∀ v2, c ≠ .enum .filter_path v2) →
      ((RmwCall.runAll cs (some (Bus.ctx h)) j ⟨regs, Bus.noFault, trace⟩).2.regs
        I3G4250D_CTRL_REG5).val % 4 = v % 4) ∧
    (∀ pre v post, cs = pre ++ [.enum .filter_path_internal v] ++ post →
      (∀ c ∈ post, ∀ v2, c ≠ .enum .filter_path_internal v2) →
      ((RmwCall.runAll cs (some (Bus.ctx h)) j ⟨regs, Bus.noFault, trace⟩).2.regs
        I3G4250D_CTRL_REG5).val / 4 % 4 = v % 4) ∧
    I3G4250D_CTRL_REG5 = 0x24 := by
  refine ⟨(RmwCall.runAll_nf cs h j regs trace).1, (RmwCall.runAll_nf cs h j regs trace).2.1,
    ?_, ?_, ?_, rfl⟩
  · rintro pre v (rfl | rfl)
    · rw [RmwCall.runAll_filter_step _ (.enum .filter_path v) rfl]
      exact (filter_path_newByte_fields v _).1.2.2
    · rw [RmwCall.runAll_filter_step _ (.enum .filter_path_internal v) rfl]
      exact (filter_path_newByte_fields v _).2.2.2
  · rintro pre v post rfl hpost
    exact out_sel_after_calls pre post v h j regs trace
      (fun c hc => ⟨hall c (by simp [hc]), hpost c hc⟩)
  · rintro pre v post rfl hpost
    exact int1_sel_after_calls pre post v h j regs trace
      (fun c hc => ⟨hall c (by simp [hc]), hpost c hc⟩)

theorem C26_shared_hpen_witness :
    bitAt ((RmwCall.runAll [.enum .filter_path I3G4250D_LPF1_HP_LPF2_ON_OUT,
          .enum .filter_path_internal I3G4250D_LPF1_LPF2_ON_INT] (some (Bus.ctx 0)) 0
        ⟨fun _ => 0, Bus.noFault, []⟩).2.regs I3G4250D_CTRL_REG5).val 4
      = bitAt I3G4250D_LPF1_LPF2_ON_INT 2 ∧
    ((RmwCall.runAll [.enum .filter_path I3G4250D_LPF1_HP_LPF2_ON_OUT,
          .enum .filter_path_internal I3G4250D_LPF1_LPF2_ON_INT] (some (Bus.ctx 0)) 0
        ⟨fun _ => 0, Bus.noFault, []⟩).2.regs I3G4250D_CTRL_REG5).val % 4
      = I3G4250D_LPF1_HP_LPF2_ON_OUT % 4 :=
  ⟨(C26_shared_hpen [.enum .filter_path I3G4250D_LPF1_HP_LPF2_ON_OUT,
        .enum .filter_path_internal I3G4250D_LPF1_LPF2_ON_INT]
      (by decide) 0 0 (fun _ => 0) []).2.2.1
      [.enum .filter_path I3G4250D_LPF1_HP_LPF2_ON_OUT] I3G4250D_LPF1_LPF2_ON_INT
      (Or.inr rfl),
   (C26_shared_hpen [.enum .filter_path I3G4250D_LPF1_HP_LPF2_ON_OUT,
        .enum .filter_path_internal I3G4250D_LPF1_LPF2_ON_INT]
      (by decide) 0 0 (fun _ => 0) []).2.2.2.1
      [] I3G4250D_LPF1_HP_LPF2_ON_OUT [.enum .filter_path_internal I3G4250D_LPF1_LPF2_ON_INT]
      rfl (fun c hc v2 hv => by
        rw [List.mem_singleton.mp hc] at hv
        cases hv)⟩

/-- C24: every transport call issued by a setter or getter of the driver, for every argument,
register file and fault plan of the simulated device, starts at an address in 0x0F..0x38 and
transfers one byte, except `i3g4250d_angular_rate_raw_get`, whose one call reads 6 bytes at
0x28 (covering 0x28..0x2D); and no operation applies the millisecond-delay function of the
context: its result does not depend on that function. -/
theorem C24_addresses_and_no_delay (o : Op) (h : Nat) (regs : Nat → Fin 256)
    (fault : Nat → Int) (trace : List Call) :
    (o.isSetter = true ∨ o.isGetter = true → (∀ buff, o ≠ .angular_rate_raw_get buff) →
      ∀ c ∈ (o.run (some (Bus.ctx h)) ⟨regs, fault, trace⟩).2.trace.drop trace.length,
        0x0F ≤ c.addr ∧ c.addr ≤ 0x38 ∧ c.len = 1) ∧
    (∀ buff, o = .angular_rate_raw_get buff →
      (o.run (some (Bus.ctx h)) ⟨regs, fault, trace⟩).2.trace.drop trace.length
        = [Call.read h 0x28 buff 6]) ∧
    0x28 + 6 - 1 = 0x2D ∧
    (∀ {σ : Type} (c : stmdev_ctx_t σ) (m : Option (Nat → σ → σ)) (w : σ),
      o.run (some { c with mdelay := m }) w = o.run (some c) w) := by
  refine ⟨fun hop hraw => Op.calls_in_map o hop hraw h regs fault trace, ?_, rfl,
    fun c m w => Op.run_mdelay o c m w⟩
  rintro buff rfl
  simp only [Op.run, angular_rate_raw_get_eq, drop_trace, I3G4250D_OUT_X_L]

theorem C24_addresses_and_no_delay_witness :
    ∀ c ∈ ((Op.threshold_set .z 0x1234 0 0).run (some (Bus.ctx 0))
        ⟨fun _ => 0, Bus.noFault, []⟩).2.trace.drop ([] : List Call).length,
      0x0F ≤ c.addr ∧ c.addr ≤ 0x38 ∧ c.len = 1 :=
  (C24_addresses_and_no_delay (.threshold_set .z 0x1234 0 0) 0 (fun _ => 0) Bus.noFault
    []).1 (Or.inl rfl) (fun buff hb => by cases hb)

/-- C25: each of the fifteen structs of the header that has both build-time layouts
(ctrl_reg1..5, status_reg, fifo_ctrl_reg, fifo_src_reg, int1_cfg, int1_src,
int1_tsh_xh/yh/zh, int1_duration, bitwise_t) lists in its big-endian branch the members of its
little-endian branch, with the same widths, in the reverse order, and the widths sum to 8.
Hence allocating the little-endian branch from bit 0 upwards and the big-endian branch from
bit 7 downwards puts every member at the same bits; the overlay the driver uses to read a
register byte into a struct and to store a struct as a byte is both of these, so every setter
writes the same byte in the two builds. -/
theorem C25_layouts_agree :
    headerLayouts.map BitLayout.name
      = ["bitwise_t", "i3g4250d_ctrl_reg1_t", "i3g4250d_ctrl_reg2_t",
       "i3g4250d_ctrl_reg3_t", "i3g4250d_ctrl_reg4_t", "i3g4250d_ctrl_reg5_t",
       "i3g4250d_status_reg_t", "i3g4250d_fifo_ctrl_reg_t", "i3g4250d_fifo_src_reg_t",
       "i3g4250d_int1_cfg_t", "i3g4250d_int1_src_t", "i3g4250d_int1_tsh_xh_t",
       "i3g4250d_int1_tsh_yh_t", "i3g4250d_int1_tsh_zh_t", "i3g4250d_int1_duration_t"] ∧
    (∀ L ∈ headerLayouts, L.big = L.little.reverse ∧ (L.little.map Prod.snd).sum = 8 ∧
      (L.big.map Prod.snd).sum = 8 ∧ (placeDown L.big 8).reverse = placeUp L.little 0) ∧
    (∀ r : RegStruct, r.layout ∈ headerLayouts) ∧
    (∀ (r : RegStruct) (b : Nat),
      (r.ofByte b).kind = r ∧
      (r.ofByte b).members
        = (placeUp r.layout.little 0).map (fun p => (p.1, fieldAt b p)) ∧
      (r.ofByte b).members
        = ((placeDown r.layout.big 8).map (fun p => (p.1, fieldAt b p))).reverse) ∧
    (∀ x : RegValue,
      x.toByte = (List.zipWith putAt (placeUp x.kind.layout.little 0) x.members).sum ∧
      x.toByte
        = (List.zipWith putAt (placeDown x.kind.layout.big 8) x.members.reverse).sum) :=
  ⟨by decide, headerLayouts_reversed, RegStruct.layout_mem, RegStruct.ofByte_members,
    RegValue.toByte_members⟩

/-! ## INT1_CFG as a whole, interrupt routing, setters repeated and reordered -/

/-- C31: `i3g4250d_int_on_threshold_conf_set` replaces the whole of INT1_CFG.  For every byte
`B`, given as the caller's struct, and every fault plan of the simulated device the setter
issues one call, a write of `B` to address 0x30, and no read, and returns the status of that
write.  On a transport that never fails the register then holds `B` whatever it held before,
`i3g4250d_int_on_threshold_conf_get` returns status 0 and the struct of byte `B`,
`i3g4250d_int_notification_get` returns bit 6 of `B` (lir) and
`i3g4250d_int_on_threshold_mode_get` returns bit 7 of `B` (and_or). -/
theorem C31_conf_set_whole_byte (B h jc jn jm : Nat) (hB : B < 256) (regs : Nat → Fin 256)
    (fault : Nat → Int) (trace : List Call) :
    ((i3g4250d_int_on_threshold_conf_set (some (Bus.ctx h)) (i3g4250d_int1_cfg_t.ofByte B)
        ⟨regs, fault, trace⟩).2.trace = trace ++ [Call.write h 0x30 [B] 1] ∧
     (i3g4250d_int_on_threshold_conf_set (some (Bus.ctx h)) (i3g4250d_int1_cfg_t.ofByte B)
        ⟨regs, fault, trace⟩).1 = fault trace.length) ∧
    ((i3g4250d_int_on_threshold_conf_set (some (Bus.ctx h)) (i3g4250d_int1_cfg_t.ofByte B)
        ⟨regs, Bus.noFault, trace⟩).1 = 0 ∧
     ((i3g4250d_int_on_threshold_conf_set (some (Bus.ctx h)) (i3g4250d_int1_cfg_t.ofByte B)
        ⟨regs, Bus.noFault, trace⟩).2.regs 0x30).val = B) ∧
    ((i3g4250d_int_on_threshold_conf_get (some (Bus.ctx h)) jc
        (i3g4250d_int_on_threshold_conf_set (some (Bus.ctx h)) (i3g4250d_int1_cfg_t.ofByte B)
          ⟨regs, Bus.noFault, trace⟩).2).1 = 0 ∧
     (i3g4250d_int_on_threshold_conf_get (some (Bus.ctx h)) jc
        (i3g4250d_int_on_threshold_conf_set (some (Bus.ctx h)) (i3g4250d_int1_cfg_t.ofByte B)
          ⟨regs, Bus.noFault, trace⟩).2).2.1 = i3g4250d_int1_cfg_t.ofByte B ∧
     (i3g4250d_int_on_threshold_conf_get (some (Bus.ctx h)) jc
        (i3g4250d_int_on_threshold_conf_set (some (Bus.ctx h)) (i3g4250d_int1_cfg_t.ofByte B)
          ⟨regs, Bus.noFault, trace⟩).2).2.1.toByte = B) ∧
    ((i3g4250d_int_notification_get (some (Bus.ctx h)) jn
        (i3g4250d_int_on_threshold_conf_set (some (Bus.ctx h)) (i3g4250d_int1_cfg_t.ofByte B)
          ⟨regs, Bus.noFault, trace⟩).2).1 = 0 ∧
     (i3g4250d_int_notification_get (some (Bus.ctx h)) jn
        (i3g4250d_int_on_threshold_conf_set (some (Bus.ctx h)) (i3g4250d_int1_cfg_t.ofByte B)
          ⟨regs, Bus.noFault, trace⟩).2).2.1 = bitAt B 6) ∧
    ((i3g4250d_int_on_threshold_mode_get (some (Bus.ctx h)) jm
        (i3g4250d_int_on_threshold_conf_set (some (Bus.ctx h)) (i3g4250d_int1_cfg_t.ofByte B)
          ⟨regs, Bus.noFault, trace⟩).2).1 = 0 ∧
     (i3g4250d_int_on_threshold_mode_get (some (Bus.ctx h)) jm
        (i3g4250d_int_on_threshold_conf_set (some (Bus.ctx h)) (i3g4250d_int1_cfg_t.ofByte B)
          ⟨regs, Bus.noFault, trace⟩).2).2.1 = bitAt B 7) := by
  have hT := int1_cfg_toByte_ofByte B hB
  have hn := fun r t => Setting.get_nf .int_notification h jn r t
  have hm := fun r t => Setting.get_nf .int_on_threshold_mode h jm r t
  simp only [Setting.get, Setting.reg] at hn hm
  have hmod : B % 256 = B := Nat.mod_eq_of_lt hB
  rw [int_on_threshold_conf_set_eq, int_on_threshold_conf_set_eq, int_on_threshold_conf_get_nf,
    hn, hm, hT]
  simp only [Bus.noFault, if_true, I3G4250D_INT1_CFG, Function.update_same, fin_ofNat_val,
    hmod, hT, (int1_cfg_decode B).1, (int1_cfg_decode B).2, bitAt]
  norm_num

theorem C31_conf_set_whole_byte_witness :
    (i3g4250d_int_notification_get (some (Bus.ctx 0)) 0
        (i3g4250d_int_on_threshold_conf_set (some (Bus.ctx 0))
          (i3g4250d_int1_cfg_t.ofByte 0x40) ⟨fun _ => 0xBF, Bus.noFault, []⟩).2).2.1
      = bitAt 0x40 6 ∧
    (i3g4250d_int_on_threshold_mode_get (some (Bus.ctx 0)) 0
        (i3g4250d_int_on_threshold_conf_set (some (Bus.ctx 0))
          (i3g4250d_int1_cfg_t.ofByte 0x40) ⟨fun _ => 0xBF, Bus.noFault, []⟩).2).2.1
      = bitAt 0x40 7 :=
  ⟨(C31_conf_set_whole_byte 0x40 0 0 0 0 (by decide) (fun _ => 0xBF) Bus.noFault
      []).2.2.2.1.2,
   (C31_conf_set_whole_byte 0x40 0 0 0 0 (by decide) (fun _ => 0xBF) Bus.noFault
      []).2.2.2.2.2⟩

/-- C32: interrupt routing round-trips.  For every `i3g4250d_int1_route_t` value `r1` (two
one-bit flags), every `i3g4250d_int2_route_t` value `r2` (four one-bit flags) and every
register file, so every old CTRL_REG3 byte, on the simulated device with a transport that never
fails: `i3g4250d_pin_int1_route_get` after `i3g4250d_pin_int1_route_set` with `r1` returns
status 0 and `r1`, and the register holds i1_int1 in bit 7 and i1_boot in bit 6;
`i3g4250d_pin_int2_route_get` after `i3g4250d_pin_int2_route_set` with `r2` returns status 0
and `r2`, and the register holds i2_empty, i2_orun, i2_wtm, i2_drdy in bits 0, 1, 2, 3. -/
theorem C32_route_round_trip (r1 : i3g4250d_int1_route_t) (r2 : i3g4250d_int2_route_t)
    (h1 : r1.i1_int1 < 2 ∧ r1.i1_boot < 2)
    (h2 : r2.i2_empty < 2 ∧ r2.i2_orun < 2 ∧ r2.i2_wtm < 2 ∧ r2.i2_drdy < 2)
    (h j1 j2 : Nat) (regs : Nat → Fin 256) (trace : List Call) :
    ((i3g4250d_pin_int1_route_get (some (Bus.ctx h)) j2
        (i3g4250d_pin_int1_route_set (some (Bus.ctx h)) r1 j1
          ⟨regs, Bus.noFault, trace⟩).2).1 = 0 ∧
     (i3g4250d_pin_int1_route_get (some (Bus.ctx h)) j2
        (i3g4250d_pin_int1_route_set (some (Bus.ctx h)) r1 j1
          ⟨regs, Bus.noFault, trace⟩).2).2.1 = r1 ∧
     bitAt ((i3g4250d_pin_int1_route_set (some (Bus.ctx h)) r1 j1
          ⟨regs, Bus.noFault, trace⟩).2.regs 0x22).val 7 = r1.i1_int1 ∧
     bitAt ((i3g4250d_pin_int1_route_set (some (Bus.ctx h)) r1 j1
          ⟨regs, Bus.noFault, trace⟩).2.regs 0x22).val 6 = r1.i1_boot) ∧
    ((i3g4250d_pin_int2_route_get (some (Bus.ctx h)) j2
        (i3g4250d_pin_int2_route_set (some (Bus.ctx h)) r2 j1
          ⟨regs, Bus.noFault, trace⟩).2).1 = 0 ∧
     (i3g4250d_pin_int2_route_get (some (Bus.ctx h)) j2
        (i3g4250d_pin_int2_route_set (some (Bus.ctx h)) r2 j1
          ⟨regs, Bus.noFault, trace⟩).2).2.1 = r2 ∧
     bitAt ((i3g4250d_pin_int2_route_set (some (Bus.ctx h)) r2 j1
          ⟨regs, Bus.noFault, trace⟩).2.regs 0x22).val 0 = r2.i2_empty ∧
     bitAt ((i3g4250d_pin_int2_route_set (some (Bus.ctx h)) r2 j1
          ⟨regs, Bus.noFault, trace⟩).2.regs 0x22).val 1 = r2.i2_orun ∧
     bitAt ((i3g4250d_pin_int2_route_set (some (Bus.ctx h)) r2 j1
          ⟨regs, Bus.noFault, trace⟩).2.regs 0x22).val 2 = r2.i2_wtm ∧
     bitAt ((i3g4250d_pin_int2_route_set (some (Bus.ctx h)) r2 j1
          ⟨regs, Bus.noFault, trace⟩).2.regs 0x22).val 3 = r2.i2_drdy) := by
  have hs1 := RmwCall.run_nf (.pin_int1_route r1) h j1 regs trace
  have hs2 := RmwCall.run_nf (.pin_int2_route r2) h j1 regs trace
  simp only [RmwCall.run, RmwCall.reg] at hs1 hs2
  have hf1 := (route_newByte_fields r1 r2 (regs I3G4250D_CTRL_REG3).val).1
  have hf2 := (route_newByte_fields r1 r2 (regs I3G4250D_CTRL_REG3).val).2
  have hb : ∀ b : Nat, bitAt b 7 = (i3g4250d_ctrl_reg3_t.ofByte b).i1_int1 ∧
      bitAt b 6 = (i3g4250d_ctrl_reg3_t.ofByte b).i1_boot ∧
      bitAt b 0 = (i3g4250d_ctrl_reg3_t.ofByte b).i2_empty ∧
      bitAt b 1 = (i3g4250d_ctrl_reg3_t.ofByte b).i2_orun ∧
      bitAt b 2 = (i3g4250d_ctrl_reg3_t.ofByte b).i2_wtm ∧
      bitAt b 3 = (i3g4250d_ctrl_reg3_t.ofByte b).i2_drdy := by
    intro b
    simp only [bitAt, i3g4250d_ctrl_reg3_t.ofByte]
    norm_num
  obtain ⟨ha, hb1⟩ := h1
  obtain ⟨hc, hd, he, hg⟩ := h2
  rw [hs1, hs2, pin_int1_route_get_nf, pin_int2_route_get_nf]
  simp only [I3G4250D_CTRL_REG3] at hf1 hf2 ⊢
  cases r1
  cases r2
  simp only [hb, Function.update_same, fin_ofNat_val, ctrl_reg3_ofByte_mod, hf1, hf2,
    Nat.mod_eq_of_lt ha, Nat.mod_eq_of_lt hb1, Nat.mod_eq_of_lt hc, Nat.mod_eq_of_lt hd,
    Nat.mod_eq_of_lt he, Nat.mod_eq_of_lt hg, and_self, true_and]

theorem C32_route_round_trip_witness :
    (i3g4250d_pin_int1_route_get (some (Bus.ctx 0)) 0
        (i3g4250d_pin_int1_route_set (some (Bus.ctx 0)) ⟨1, 0⟩ 0
          ⟨fun _ => 0x7F, Bus.noFault, []⟩).2).2.1 = ⟨1, 0⟩ ∧
    (i3g4250d_pin_int2_route_get (some (Bus.ctx 0)) 0
        (i3g4250d_pin_int2_route_set (some (Bus.ctx 0)) ⟨0, 1, 0, 1⟩ 0
          ⟨fun _ => 0x7F, Bus.noFault, []⟩).2).2.1 = ⟨0, 1, 0, 1⟩ :=
  ⟨(C32_route_round_trip ⟨1, 0⟩ ⟨0, 1, 0, 1⟩ (by decide) (by decide) 0 0 0 (fun _ => 0x7F)
      []).1.2.1,
   (C32_route_round_trip ⟨1, 0⟩ ⟨0, 1, 0, 1⟩ (by decide) (by decide) 0 0 0 (fun _ => 0x7F)
      []).2.2.1⟩

/-- C33: every setter is idempotent on a persisting non-failing transport.  For every call of
a setter (the 22 read-modify-write setters, `i3g4250d_int_on_threshold_dur_set` among them, the
three threshold setters and `i3g4250d_int_on_threshold_conf_set`), every argument and every
register file of the simulated device, the call and the same call repeated, whatever its
uninitialised locals hold the second time, both return 0, and the register file after the
second call is the register file after the first. -/
theorem C33_setters_idempotent (o : Op) (hs : o.isSetter = true) (j1 j2 h : Nat)
    (regs : Nat → Fin 256) (trace : List Call) :
    (o.run (some (Bus.ctx h)) ⟨regs, Bus.noFault, trace⟩).1 = 0 ∧
    ((o.withJunk j1 j2).run (some (Bus.ctx h))
        (o.run (some (Bus.ctx h)) ⟨regs, Bus.noFault, trace⟩).2).1 = 0 ∧
    ((o.withJunk j1 j2).run (some (Bus.ctx h))
        (o.run (some (Bus.ctx h)) ⟨regs, Bus.noFault, trace⟩).2).2.regs
      = (o.run (some (Bus.ctx h)) ⟨regs, Bus.noFault, trace⟩).2.regs := by
  have hs2 : (o.withJunk j1 j2).isSetter = true := by rw [Op.withJunk_isSetter]; exact hs
  have h1 := Op.run_setter_nf o hs h regs trace
  have e := Bus.eta_nf _ h1.2.2
  refine ⟨h1.1, ?_, ?_⟩
  · rw [e]
    exact (Op.run_setter_nf _ hs2 h _ _).1
  · rw [Op.run_run_regs o _ hs hs2, h1.2.1]
    exact Op.regsAfter_twice o hs j1 j2 regs

theorem C33_setters_idempotent_witness :
    ((Op.rmw (.int_on_threshold_dur 0x85) 0).run (some (Bus.ctx 0))
        ((Op.rmw (.int_on_threshold_dur 0x85) 0).run (some (Bus.ctx 0))
          ⟨fun _ => 0, Bus.noFault, []⟩).2).2.regs
      = ((Op.rmw (.int_on_threshold_dur 0x85) 0).run (some (Bus.ctx 0))
          ⟨fun _ => 0, Bus.noFault, []⟩).2.regs ∧
    ((Op.threshold_set .x 0x1234 0 0).run (some (Bus.ctx 0))
        ((Op.threshold_set .x 0x1234 0 0).run (some (Bus.ctx 0))
          ⟨fun _ => 0xFF, Bus.noFault, []⟩).2).2.regs
      = ((Op.threshold_set .x 0x1234 0 0).run (some (Bus.ctx 0))
          ⟨fun _ => 0xFF, Bus.noFault, []⟩).2.regs :=
  ⟨(C33_setters_idempotent (.rmw (.int_on_threshold_dur 0x85) 0) rfl 0 0 0 (fun _ => 0)
      []).2.2,
   (C33_setters_idempotent (.threshold_set .x 0x1234 0 0) rfl 0 0 0 (fun _ => 0xFF) []).2.2⟩

/-- C34: setters whose bit masks are disjoint commute, the two filter-path setters do not.  For
every two calls of setters that target different registers or disjoint bits of the same
register and every register file of the simulated device with a transport that never fails,
the register file after the two calls is the same in either order; `i3g4250d_full_scale_set`
with `i3g4250d_self_test_set` (CTRL_REG4) and `i3g4250d_data_rate_set` with
`i3g4250d_lp_bandwidth_set` (CTRL_REG1) are such pairs, for all arguments, while
`i3g4250d_filter_path_set` with `i3g4250d_filter_path_internal_set` is not.  For these two,
called with `a` and `b`, the CTRL_REG5 byte (address 0x24) is the same in either order exactly
when bit 2 of `a` equals bit 2 of `b`. -/
theorem C34_disjoint_setters_commute (o1 o2 : Op) (hs1 : o1.isSetter = true)
    (hs2 : o2.isSetter = true) (hd : o1.disjoint o2 = true) (a b h ja jb : Nat)
    (regs : Nat → Fin 256) (trace : List Call) :
    (o2.run (some (Bus.ctx h)) (o1.run (some (Bus.ctx h)) ⟨regs, Bus.noFault, trace⟩).2).2.regs
      = (o1.run (some (Bus.ctx h))
          (o2.run (some (Bus.ctx h)) ⟨regs, Bus.noFault, trace⟩).2).2.regs ∧
    (∀ v1 v2 k1 k2 : Nat,
      (Op.rmw (.enum .full_scale v1) k1).disjoint (.rmw (.enum .self_test v2) k2) = true ∧
      (Op.rmw (.enum .data_rate v1) k1).disjoint (.rmw (.enum .lp_bandwidth v2) k2) = true ∧
      (Op.rmw (.enum .filter_path v1) k1).disjoint (.rmw (.enum .filter_path_internal v2) k2)
        = false) ∧
    (((i3g4250d_filter_path_internal_set (some (Bus.ctx h)) b jb
          (i3g4250d_filter_path_set (some (Bus.ctx h)) a ja
            ⟨regs, Bus.noFault, trace⟩).2).2.regs 0x24
        = (i3g4250d_filter_path_set (some (Bus.ctx h)) a ja
          (i3g4250d_filter_path_internal_set (some (Bus.ctx h)) b jb
            ⟨regs, Bus.noFault, trace⟩).2).2.regs 0x24)
      ↔ bitAt a 2 = bitAt b 2) := by
  refine ⟨?_, ?_, ?_⟩
  · rw [Op.run_run_regs o1 o2 hs1 hs2, Op.run_run_regs o2 o1 hs2 hs1]
    exact Op.regsAfter_comm o1 o2 hs1 hs2 hd regs
  · intro v1 v2 k1 k2
    simp only [Op.disjoint, Op.footprint, RmwCall.reg, RmwCall.mask, Setting.reg, Setting.mask]
    decide
  · have ha := fun r t => RmwCall.run_nf (.enum .filter_path a) h ja r t
    have hb := fun r t => RmwCall.run_nf (.enum .filter_path_internal b) h jb r t
    simp only [RmwCall.run, Setting.set, RmwCall.reg, Setting.reg] at ha hb
    simp only [ha, hb]
    simp only [I3G4250D_CTRL_REG5, Function.update_same, fin_ofNat_val, RmwCall.newByte_mod]
    rw [← filter_path_orders a b (regs 0x24).val]
    constructor
    · intro he
      have := congrArg Fin.val he
      simpa only [fin_ofNat_val] using this
    · intro he
      apply Fin.ext
      simpa only [fin_ofNat_val] using he

theorem C34_disjoint_setters_commute_witness :
    ((Op.rmw (.enum .self_test 1) 0).run (some (Bus.ctx 0))
        ((Op.rmw (.enum .full_scale 0x10) 0).run (some (Bus.ctx 0))
          ⟨fun _ => 0xFF, Bus.noFault, []⟩).2).2.regs
      = ((Op.rmw (.enum .full_scale 0x10) 0).run (some (Bus.ctx 0))
          ((Op.rmw (.enum .self_test 1) 0).run (some (Bus.ctx 0))
            ⟨fun _ => 0xFF, Bus.noFault, []⟩).2).2.regs :=
  (C34_disjoint_setters_commute (.rmw (.enum .full_scale 0x10) 0) (.rmw (.enum .self_test 1) 0)
    rfl rfl (by decide) 0 0 0 0 0 (fun _ => 0xFF) []).1

end I3G4250D
